import Mathlib

/-!
# Hyperion tape device: command validity, block-id translation, sense building

A shallow embedding of parts of `tapedev.c`.  Bytes (`BYTE`) and halfwords
(`U16`) are natural numbers; a C expression that can leave the byte range is
masked explicitly.  Arrays of bytes are lists, a device block is a record of
the fields the embedded functions read or write, and the callbacks of the
media handler are fields of a record of functions.
-/

namespace Tapedev

/-! ## Constants declared in headers outside the translated sources -/

/-- Modelled from the spec: unit-status flag `CUE` (control unit end), the
macro CSW_CUE of a header that is not among the sources; the architected
channel-status bit value is used. -/
def CSW_CUE : Nat := 0x20

/-- Modelled from the spec: unit-status flag `CE` (channel end), the macro
CSW_CE of a header that is not among the sources. -/
def CSW_CE : Nat := 0x08

/-- Modelled from the spec: unit-status flag `DE` (device end), the macro
CSW_DE of a header that is not among the sources. -/
def CSW_DE : Nat := 0x04

/-- Modelled from the spec: unit-status flag `UC` (unit check), the macro
CSW_UC of a header that is not among the sources. -/
def CSW_UC : Nat := 0x02

/-- Modelled from the spec: unit-status flag `UX` (unit exception), the macro
CSW_UX of a header that is not among the sources. -/
def CSW_UX : Nat := 0x01

/-- Modelled from the spec: the number of columns of one record of the
device-type list (device type, command table index, UC on rewind-unload, CUE
on rewind-unload, sense table index), the macro TAPEDEVTYPELIST_ENTRYSIZE of
the absent `tapedev.h`. -/
def TAPEDEVTYPELIST_ENTRYSIZE : Nat := 5

/-! ## Command validity tables -/

/-- Validity table TapeCommands3410: 256 entries indexed by the CCW opcode,
written as in the source in sixteen rows of sixteen, row `r` holding the
opcodes `16 r` to `16 r + 15`. -/
def TapeCommands3410 : List Nat :=
  [0,1,1,1,2,0,0,5,0,0,0,0,1,0,0,5] ++
  [0,0,0,4,0,0,0,1,0,0,0,1,0,0,0,1] ++
  [0,0,0,4,0,0,0,1,0,0,0,4,0,0,0,1] ++
  [0,0,0,4,0,0,0,1,0,0,0,4,0,0,0,1] ++
  [0,0,0,0,0,0,0,0,0,0,0,0,0,0,0,0] ++
  [0,0,0,4,0,0,0,0,0,0,0,0,0,0,0,0] ++
  [0,0,0,4,0,0,0,0,0,0,0,4,0,0,0,0] ++
  [0,0,0,4,0,0,0,0,0,0,0,4,0,0,0,0] ++
  [0,0,0,0,0,0,0,0,0,0,0,0,0,0,0,0] ++
  [0,0,0,4,0,0,0,1,0,0,0,0,0,0,0,0] ++
  [0,0,0,4,0,0,0,0,0,0,0,4,0,0,0,0] ++
  [0,0,0,4,0,0,0,0,0,0,0,4,0,0,0,0] ++
  [0,0,0,4,0,0,0,0,0,0,0,4,0,0,0,0] ++
  [0,0,0,0,0,0,0,0,0,0,0,0,0,0,0,0] ++
  [0,0,0,0,2,0,0,0,0,0,0,3,0,0,0,0] ++
  [0,0,0,0,0,0,0,0,0,0,0,0,0,0,0,0]

/-- Validity table TapeCommands3420: 256 entries indexed by the CCW opcode, sixteen per row. -/
def TapeCommands3420 : List Nat :=
  [0,1,1,1,2,0,0,5,0,0,0,2,1,0,0,5] ++
  [0,0,0,4,0,0,0,1,0,0,0,1,0,0,0,1] ++
  [0,0,0,4,0,0,0,1,0,0,0,4,0,0,0,1] ++
  [0,0,0,4,0,0,0,1,0,0,0,4,0,0,0,1] ++
  [0,0,0,0,0,0,0,0,0,0,0,0,0,0,0,0] ++
  [0,0,0,4,0,0,0,0,0,0,0,0,0,0,0,0] ++
  [0,0,0,4,0,0,0,0,0,0,0,4,0,0,0,0] ++
  [0,0,0,4,0,0,0,0,0,0,0,4,0,0,0,0] ++
  [0,0,0,0,0,0,0,0,0,0,0,2,0,0,0,0] ++
  [0,0,0,4,0,0,0,1,0,0,0,0,0,0,0,0] ++
  [0,0,0,4,0,0,0,0,0,0,0,4,0,0,0,0] ++
  [0,0,0,4,0,0,0,0,0,0,0,4,0,0,0,0] ++
  [0,0,0,4,0,0,0,0,0,0,0,4,0,0,0,0] ++
  [0,0,0,4,4,0,0,0,0,0,0,0,0,0,0,0] ++
  [0,0,0,0,2,0,0,0,0,0,0,3,0,0,0,0] ++
  [0,0,0,2,4,0,0,0,0,0,0,0,0,2,0,0]

/-- Validity table TapeCommands3422: 256 entries indexed by the CCW opcode, sixteen per row. -/
def TapeCommands3422 : List Nat :=
  [0,1,1,1,2,0,0,5,0,0,0,2,1,0,0,5] ++
  [0,0,0,0,0,0,0,1,0,0,0,0,0,0,0,1] ++
  [0,0,0,0,0,0,0,1,0,0,0,0,0,0,0,1] ++
  [0,0,0,0,0,0,0,1,0,0,0,0,0,0,0,1] ++
  [0,0,0,0,0,0,0,0,0,0,0,0,0,0,0,0] ++
  [0,0,0,0,0,0,0,0,0,0,0,0,0,0,0,0] ++
  [0,0,0,0,0,0,0,0,0,0,0,0,0,0,0,0] ++
  [0,0,0,0,0,0,0,0,0,0,0,0,0,0,0,0] ++
  [0,0,0,0,0,0,0,0,0,0,0,1,0,0,0,0] ++
  [0,0,0,0,0,0,0,1,0,0,0,0,0,0,0,0] ++
  [0,0,0,0,0,0,0,0,0,0,0,0,0,0,0,0] ++
  [0,0,0,0,0,0,0,0,0,0,0,0,0,0,0,0] ++
  [0,0,0,4,0,0,0,0,0,0,0,0,0,0,0,0] ++
  [0,0,0,4,4,0,0,0,0,0,0,0,0,0,0,0] ++
  [0,0,0,0,2,0,0,0,0,0,0,3,0,0,0,0] ++
  [0,0,0,2,4,0,0,0,0,0,0,0,0,2,0,0]

/-- Validity table TapeCommands3430: 256 entries indexed by the CCW opcode, sixteen per row. -/
def TapeCommands3430 : List Nat :=
  [0,1,1,1,2,0,0,5,0,0,0,2,1,0,0,5] ++
  [0,0,0,0,0,0,0,1,0,0,0,1,0,0,0,1] ++
  [0,0,0,0,0,0,0,1,0,0,0,0,0,0,0,1] ++
  [0,0,0,0,0,0,0,1,0,0,0,0,0,0,0,1] ++
  [0,0,0,0,0,0,0,0,0,0,0,2,0,0,0,0] ++
  [0,0,0,0,0,0,0,0,0,0,0,0,0,0,0,0] ++
  [0,0,0,0,0,0,0,0,0,0,0,0,0,0,0,0] ++
  [0,0,0,0,0,0,0,0,0,0,0,0,0,0,0,0] ++
  [0,0,0,0,0,0,0,0,0,0,0,0,0,0,0,0] ++
  [0,0,0,0,0,0,0,1,0,0,0,0,0,0,0,0] ++
  [0,0,0,0,0,0,0,0,0,0,0,0,0,0,0,0] ++
  [0,0,0,0,0,0,0,0,0,0,0,0,0,0,0,0] ++
  [0,0,0,4,0,0,0,0,0,0,0,0,0,0,0,0] ++
  [0,0,0,4,4,0,0,0,0,0,0,0,0,0,0,0] ++
  [0,0,0,0,2,0,0,0,0,0,0,3,0,0,0,0] ++
  [0,0,0,2,4,0,0,0,0,0,0,0,0,2,0,0]

/-- Validity table TapeCommands3480: 256 entries indexed by the CCW opcode, sixteen per row. -/
def TapeCommands3480 : List Nat :=
  [0,1,1,1,2,0,0,5,0,0,0,2,1,0,0,5] ++
  [0,0,1,3,2,0,0,1,0,0,0,1,0,0,0,1] ++
  [0,0,1,3,2,0,0,1,0,0,0,3,0,0,0,1] ++
  [0,0,0,3,2,0,0,1,0,0,0,3,0,0,0,1] ++
  [0,0,0,1,0,0,0,0,0,0,0,0,0,0,0,1] ++
  [0,0,0,3,0,0,0,0,0,0,0,3,0,0,0,0] ++
  [0,0,0,3,2,0,0,0,0,0,0,3,0,0,0,0] ++
  [0,0,0,3,0,0,0,2,0,0,0,3,0,0,0,0] ++
  [0,0,0,0,0,0,0,0,0,0,0,2,0,0,0,0] ++
  [0,0,0,3,0,0,0,1,0,0,0,0,0,0,0,2] ++
  [0,0,0,3,0,0,0,0,0,0,0,3,0,0,0,2] ++
  [0,0,0,3,0,0,0,2,0,0,0,3,0,0,0,0] ++
  [0,0,0,2,0,0,0,2,0,0,0,3,0,0,0,0] ++
  [0,0,0,3,0,0,0,0,0,0,0,2,0,0,0,0] ++
  [0,0,0,2,2,0,0,0,0,0,0,3,0,0,0,0] ++
  [0,0,0,2,4,0,0,0,0,0,0,0,0,2,0,0]

/-- Validity table TapeCommands3490: 256 entries indexed by the CCW opcode, sixteen per row. -/
def TapeCommands3490 : List Nat :=
  [0,1,1,1,2,0,0,5,0,0,0,2,1,0,0,5] ++
  [0,0,1,3,2,0,0,1,0,0,0,1,0,0,0,1] ++
  [0,0,1,3,2,0,0,1,0,0,0,3,0,0,0,1] ++
  [0,0,0,3,2,0,0,1,0,0,0,3,0,0,0,1] ++
  [0,0,0,1,0,0,0,0,0,0,0,0,0,0,0,1] ++
  [0,0,0,3,0,0,0,0,0,0,0,3,0,0,0,0] ++
  [0,0,0,3,2,0,0,0,0,0,0,3,0,0,0,0] ++
  [0,0,0,3,0,0,0,2,0,0,0,3,0,0,0,0] ++
  [0,0,0,0,0,0,0,0,0,0,0,2,0,0,0,0] ++
  [0,0,0,3,0,0,0,1,0,0,0,0,0,0,0,2] ++
  [0,0,0,3,0,0,0,0,0,0,0,3,0,0,0,2] ++
  [0,0,0,3,0,0,0,2,0,0,0,3,0,0,0,0] ++
  [0,0,0,2,0,0,0,2,0,0,0,3,0,0,0,0] ++
  [0,0,0,3,0,0,0,0,0,0,0,2,0,0,0,0] ++
  [0,0,0,2,2,0,0,0,0,0,0,3,0,0,0,0] ++
  [0,0,0,2,4,0,0,0,0,0,0,0,0,2,0,0]

/-- Validity table TapeCommands3590: 256 entries indexed by the CCW opcode, sixteen per row. -/
def TapeCommands3590 : List Nat :=
  [0,1,1,1,2,0,1,5,0,0,1,2,0,0,0,5] ++
  [0,0,1,3,2,0,0,1,0,0,0,1,0,0,0,1] ++
  [0,0,1,3,2,0,0,1,0,0,0,3,0,0,0,1] ++
  [0,0,0,3,2,0,0,1,0,0,0,3,0,0,2,1] ++
  [0,0,0,1,0,0,0,0,0,0,0,0,0,0,0,1] ++
  [0,0,0,3,0,0,0,0,0,0,0,3,0,0,0,0] ++
  [0,0,2,3,2,0,0,0,0,0,0,3,0,0,0,0] ++
  [0,0,0,3,0,0,0,2,0,0,0,3,0,0,0,0] ++
  [0,0,0,0,0,0,0,0,0,0,0,2,0,0,0,0] ++
  [0,0,0,3,0,0,0,1,0,0,0,0,0,0,0,2] ++
  [0,0,0,3,0,0,0,0,0,0,0,3,0,0,0,2] ++
  [0,0,0,3,0,0,0,2,0,0,0,3,0,0,0,0] ++
  [0,0,2,2,0,0,0,2,0,0,0,3,0,0,0,2] ++
  [0,0,0,3,0,0,0,0,0,0,0,2,0,0,0,0] ++
  [0,0,0,2,2,0,0,0,0,0,0,3,0,0,0,0] ++
  [0,0,0,2,4,0,0,0,0,0,0,0,0,2,0,0]

/-- Validity table TapeCommands9347: 256 entries indexed by the CCW opcode, sixteen per row. -/
def TapeCommands9347 : List Nat :=
  [0,1,1,1,2,0,0,5,0,0,0,2,1,0,0,5] ++
  [0,0,0,4,0,0,0,1,0,0,0,1,0,0,0,1] ++
  [0,0,0,4,0,0,0,1,0,0,0,4,0,0,0,1] ++
  [0,0,0,4,0,0,0,1,0,0,0,4,0,0,0,1] ++
  [0,0,0,0,0,0,0,0,0,0,0,0,0,0,0,0] ++
  [0,0,0,4,0,0,0,0,0,0,0,0,0,0,0,0] ++
  [0,0,0,4,0,0,0,0,0,0,0,4,0,0,0,0] ++
  [0,0,0,4,0,0,0,0,0,0,0,4,0,0,0,0] ++
  [0,0,0,0,0,0,0,0,0,0,0,2,0,0,0,0] ++
  [0,0,0,4,0,0,0,1,0,0,0,0,0,0,0,0] ++
  [0,0,0,4,2,0,0,0,0,0,0,4,0,0,0,0] ++
  [0,0,0,4,0,0,0,0,0,0,0,4,0,0,0,0] ++
  [0,0,0,4,0,0,0,0,0,0,0,4,0,0,0,0] ++
  [0,0,0,4,4,0,0,0,0,0,0,0,0,0,0,0] ++
  [0,0,0,0,2,0,0,0,0,0,0,3,0,0,0,0] ++
  [0,0,0,2,4,0,0,0,0,0,0,0,0,2,0,0]

/-- The table of validity tables, indexed by column B of the device-type
list.  The closing NULL of the C array is the end of the list. -/
def TapeCommandTable : List (List Nat) :=
  [ TapeCommands3410, TapeCommands3420, TapeCommands3422, TapeCommands3430,
    TapeCommands3480, TapeCommands3490, TapeCommands3590, TapeCommands9347 ]

/-- The flat device-type list: five integers per supported device type (A the
device type, B the command table index, C and D whether rewind-unload yields
UC and CUE, E the sense table index), closed by an all-zero record. -/
def TapeDevtypeList : List Nat :=
  [ 0x3410, 0, 1, 0, 0,
    0x3411, 0, 1, 0, 0,
    0x3420, 1, 1, 1, 1,
    0x3422, 2, 0, 0, 2,
    0x3430, 3, 0, 0, 3,
    0x3480, 4, 0, 0, 4,
    0x3490, 5, 0, 0, 5,
    0x3590, 6, 0, 0, 6,
    0x9347, 7, 0, 0, 7,
    0x9348, 7, 0, 0, 7,
    0x8809, 7, 0, 0, 7,
    0x0000, 0, 0, 0, 0 ]

/-- The search loop shared by `TapeCommandIsValid` and `build_senseX`:
`for (i = 0; TapeDevtypeList[i] != 0; i += TAPEDEVTYPELIST_ENTRYSIZE)` leaving
at the first record whose column A equals `devtype`.  The result is the index
`i` of that record, or `none` when the end marker is reached first.  `fuel`
bounds the number of records visited; the list holds twelve. -/
def findDevtype (devtype : Nat) : Nat → Nat → Option Nat
  | 0, _ => none
  | fuel + 1, i =>
    if TapeDevtypeList.getD i 0 = 0 then none
    else if TapeDevtypeList.getD i 0 = devtype then some i
    else findDevtype devtype fuel (i + TAPEDEVTYPELIST_ENTRYSIZE)

/-- The number of records of the device-type list, the end marker included:
the search loop visits at most this many. -/
def devtypeRecords : Nat := TapeDevtypeList.length / TAPEDEVTYPELIST_ENTRYSIZE

/-- Embedding of `TapeCommandIsValid (code, devtype, rustat)`: the pair of the
return code and of the byte stored through `rustat`. -/
def TapeCommandIsValid (code devtype : Nat) : Nat × Nat :=
  match findDevtype devtype devtypeRecords 0 with
  | some i =>
    let tix := TapeDevtypeList.getD (i + 1) 0
    let rustat0 := 0
    let rustat1 := if TapeDevtypeList.getD (i + 2) 0 ≠ 0 then rustat0 ||| CSW_UC else rustat0
    let rustat2 := if TapeDevtypeList.getD (i + 3) 0 ≠ 0 then rustat1 ||| CSW_CUE else rustat1
    ((TapeCommandTable.getD tix []).getD code 0, rustat2)
  | none => (0, 0)

/-- The device types of the records of `TapeDevtypeList`, in table order. -/
def supportedDevtypes : List Nat :=
  [0x3410, 0x3411, 0x3420, 0x3422, 0x3430, 0x3480, 0x3490, 0x3590, 0x9347, 0x9348, 0x8809]

/-- Table TapeImmedCommands: 256 entries indexed by the CCW opcode, 1 for a
command that the channel treats as immediate, written as in the source in
sixteen rows of sixteen. -/
def TapeImmedCommands : List Nat :=
  [0,0,0,1,0,0,0,1,0,0,0,0,0,0,0,1] ++
  [0,0,0,1,0,0,0,1,0,0,0,1,0,0,0,1] ++
  [0,0,0,1,0,0,0,1,0,0,0,1,0,0,0,1] ++
  [0,0,0,1,0,0,0,1,0,0,0,1,0,0,0,1] ++
  [0,0,0,1,0,0,0,1,0,0,0,0,0,0,0,0] ++
  [0,0,0,1,0,0,0,1,0,0,0,1,0,0,0,1] ++
  [0,0,0,1,0,0,0,1,0,0,0,1,0,0,0,1] ++
  [0,0,0,1,0,0,0,0,0,0,0,1,0,0,0,1] ++
  [0,0,0,1,0,0,0,1,0,0,0,1,0,0,0,1] ++
  [0,0,0,1,0,0,0,1,0,0,0,1,0,0,0,0] ++
  [0,0,0,1,0,0,0,1,0,0,0,1,0,0,0,0] ++
  [0,0,0,1,0,0,0,0,0,0,0,1,0,0,0,1] ++
  [0,0,0,1,0,0,0,0,0,0,0,1,0,0,0,1] ++
  [0,0,0,1,0,0,0,1,0,0,0,0,0,0,0,1] ++
  [0,0,0,0,0,0,0,1,0,0,0,1,0,0,0,1] ++
  [0,0,0,1,0,0,0,1,0,0,0,1,0,0,0,1]

/-! ## Block-id translation -/

/-- Embedding of `blockid_32_to_22 (in_32blkid, out_22blkid)`: the four bytes
stored through `out_22blkid`.  A byte absent from a short input reads 0. -/
def blockid_32_to_22 (in_32blkid : List Nat) : List Nat :=
  [ ((in_32blkid.getD 0 0 <<< 2) &&& 0xFC) ||| ((in_32blkid.getD 1 0 >>> 6) &&& 0x03),
    in_32blkid.getD 1 0 &&& 0x3F,
    in_32blkid.getD 2 0,
    in_32blkid.getD 3 0 ]

/-- Embedding of `blockid_22_to_32 (in_22blkid, out_32blkid)`: the four bytes
stored through `out_32blkid`. -/
def blockid_22_to_32 (in_22blkid : List Nat) : List Nat :=
  [ (in_22blkid.getD 0 0 >>> 2) &&& 0x3F,
    ((in_22blkid.getD 0 0 <<< 6) &&& 0xC0) ||| (in_22blkid.getD 1 0 &&& 0x3F),
    in_22blkid.getD 2 0,
    in_22blkid.getD 3 0 ]

/-- The value of a four-byte block-id read as a big-endian 32-bit integer. -/
def be32 (b : List Nat) : Nat :=
  ((b.getD 0 0 * 256 + b.getD 1 0) * 256 + b.getD 2 0) * 256 + b.getD 3 0

/-- The `memcpy (out, in, 4)` of the translators: the first four bytes. -/
def copy4 (b : List Nat) : List Nat :=
  [b.getD 0 0, b.getD 1 0, b.getD 2 0, b.getD 3 0]

/-- The media kind `dev->tapedevt`.  The numeric codes TAPEDEVT_AWSTAPE,
TAPEDEVT_OMATAPE, TAPEDEVT_SCSITAPE and TAPEDEVT_HET are macros of the absent
`tapedev.h`; `OTHER` stands for a byte equal to none of them. -/
inductive TAPEDEVT where
  | AWSTAPE | OMATAPE | SCSITAPE | HET | OTHER
  deriving DecidableEq, Repr

/-- Modelled from the spec: the sentinel file name "UNLOADED" of a drive with
no tape, the macro TAPE_UNLOADED of the absent `tapedev.h`. -/
def TAPE_UNLOADED : String := "UNLOADED"

/-- Modelled from the spec: the display states `tapedisptype` of the tape
state (IDLE, WAITACT, MOUNT, UNMOUNT, UMOUNTMOUNT, ERASING, REWINDING,
UNLOADING, CLEAN), the TAPEDISPTYP_ macros of the absent `tapedev.h`; `OTHER`
stands for a code equal to none of those the sources name. -/
inductive TAPEDISPTYP where
  | IDLE | WAITACT | MOUNT | UNMOUNT | UMOUNTMOUNT
  | ERASING | REWINDING | UNLOADING | CLEAN | OTHER
  deriving DecidableEq, Repr

/-- Modelled from the spec: one autoloader slot, a file name with its extra
arguments (`TAPEAUTOLOADENTRY` of the absent `tapedev.h`; `argc` is the length
of `argv`). -/
structure TAPEAUTOLOADENTRY where
  filename : String
  argv : List String
  deriving DecidableEq, Repr

/-- The fields of the device block `DEVBLK` that the embedded functions read
or write.  `sense` maps an index of the 32-byte array `dev->sense` to its
byte, `hetb_cblk` is `dev->hetb->cblk`, `deonirq` is `dev->tdparms.deonirq`,
and `sns_pending` and `stape_blkid_32` are one-bit fields.  The message slots
`tapemsg1` and `tapemsg2` are the nine-byte arrays (eight characters and the
terminator) with whatever follows the terminator; `tapesysmsg` is the C string
held in its buffer and `prev_tapemsg` the C string the pointer designates,
`none` for NULL.  `als` is the slot array, `none` for NULL.  `sstat_online`
and `sstat_wr_prot` are STS_ONLINE and STS_WR_PROT of `dev->sstat`.  `omadesc`
and `hetb` tell whether the pointer is not NULL.  `displayfeat`, `compress`,
`method`, `level`, `chksize`, `maxsize`, `eotmargin`, `strictsize` and
`logical_readonly` are the fields of `dev->tdparms`.  `al_argv` is the array
of global autoloader parameters, `none` for NULL, and like `als` it is held as
the list of its entries below the count (`al_argc`, `alss`); `alsix` is the
index of the current slot. -/
structure DEVBLK where
  devtype : Nat := 0
  tapedevt : TAPEDEVT := TAPEDEVT.AWSTAPE
  filename : String := TAPE_UNLOADED
  fd : Int := -1
  nxtblkpos : Nat := 0
  curfilen : Nat := 1
  hetb_cblk : Nat := 0
  readonly : Bool := false
  deonirq : Bool := false
  stape_blkid_32 : Bool := false
  sense : Nat → Nat := fun _ => 0
  numsense : Nat := 0
  sns_pending : Nat := 0
  devnum : Nat := 0
  ccwtrace : Bool := false
  ccwstep : Bool := false
  displayfeat : Bool := false
  tapedisptype : TAPEDISPTYP := TAPEDISPTYP.IDLE
  tapedispflags : Nat := 0
  tapemsg1 : List Nat := List.replicate 9 0
  tapemsg2 : List Nat := List.replicate 9 0
  tapesysmsg : List Nat := []
  prev_tapemsg : Option (List Nat) := none
  als : Option (List TAPEAUTOLOADENTRY) := none
  sstat_online : Bool := false
  sstat_wr_prot : Bool := false
  omadesc : Bool := false
  omafiles : Nat := 0
  prvblkpos : Int := -1
  curblkrem : Nat := 0
  curbufoff : Nat := 0
  hetb : Bool := false
  compress : Bool := false
  method : Nat := 0
  level : Nat := 0
  chksize : Nat := 0
  maxsize : Nat := 0
  eotmargin : Nat := 0
  strictsize : Nat := 0
  logical_readonly : Bool := false
  stape_no_erg : Bool := false
  al_argv : Option (List String) := none
  al_argc : Nat := 0
  alss : Nat := 0
  alsix : Nat := 0

/-- Embedding of `blockid_emulated_to_actual (dev, emu_blkid, act_blkid)`: the
bytes of the output buffer on return.  `scsi` tells whether the build defines
OPTION_SCSI_TAPE, and `act_blkid` is the previous content of the output
buffer, which a build without that option leaves in place for a SCSI media
kind. -/
def blockid_emulated_to_actual (scsi : Bool) (dev : DEVBLK)
    (emu_blkid act_blkid : List Nat) : List Nat :=
  if dev.tapedevt ≠ TAPEDEVT.SCSITAPE then copy4 emu_blkid
  else if !scsi then act_blkid
  else if dev.devtype = 0x3590 then
    if dev.stape_blkid_32 then copy4 emu_blkid
    else blockid_32_to_22 emu_blkid
  else
    if dev.stape_blkid_32 then blockid_22_to_32 emu_blkid
    else copy4 emu_blkid

/-- Embedding of `blockid_actual_to_emulated (dev, act_blkid, emu_blkid)`: the
bytes of the output buffer on return, with `scsi` and the previous content
`emu_blkid` of the output buffer as for `blockid_emulated_to_actual`. -/
def blockid_actual_to_emulated (scsi : Bool) (dev : DEVBLK)
    (act_blkid emu_blkid : List Nat) : List Nat :=
  if dev.tapedevt ≠ TAPEDEVT.SCSITAPE then copy4 act_blkid
  else if !scsi then emu_blkid
  else if dev.stape_blkid_32 then
    if dev.devtype = 0x3590 then copy4 act_blkid
    else blockid_32_to_22 act_blkid
  else
    if dev.devtype = 0x3590 then blockid_22_to_32 act_blkid
    else copy4 act_blkid

/-! ## Sense building -/

/-- Modelled from the spec: sense byte 0 flag "command reject", the macro
SENSE_CR of a header that is not among the sources. -/
def SENSE_CR : Nat := 0x80

/-- Modelled from the spec: sense byte 0 flag "intervention required", the
macro SENSE_IR of a header that is not among the sources. -/
def SENSE_IR : Nat := 0x40

/-- Modelled from the spec: sense byte 0 flag "equipment check", the macro
SENSE_EC of a header that is not among the sources. -/
def SENSE_EC : Nat := 0x10

/-- Modelled from the spec: sense byte 0 flag "data check", the macro
SENSE_DC of a header that is not among the sources. -/
def SENSE_DC : Nat := 0x08

/-- Modelled from the spec: sense byte 1 flag "tape unit available" (status
A), the macro SENSE1_TAPE_TUA of a header that is not among the sources. -/
def SENSE1_TAPE_TUA : Nat := 0x40

/-- Modelled from the spec: sense byte 1 flag "tape unit status B", the macro
SENSE1_TAPE_TUB of a header that is not among the sources. -/
def SENSE1_TAPE_TUB : Nat := 0x20

/-- Modelled from the spec: sense byte 1 flag "load point", the macro
SENSE1_TAPE_LOADPT of a header that is not among the sources. -/
def SENSE1_TAPE_LOADPT : Nat := 0x08

/-- Modelled from the spec: sense byte 1 flag "file protected", the macro
SENSE1_TAPE_FP of a header that is not among the sources. -/
def SENSE1_TAPE_FP : Nat := 0x02

/-- The internal error kinds: the TAPE_BSENSE_ macros of the absent
`tapedev.h`, which the sense builders receive as `int ERCode`.  `OTHER` stands
for an integer equal to none of the twenty macros. -/
inductive ERCode where
  | TAPEUNLOADED | RUN_SUCCESS | TAPELOADFAIL | READFAIL | WRITEFAIL
  | BADCOMMAND | INCOMPAT | WRITEPROTECT | EMPTYTAPE | ENDOFTAPE
  | LOADPTERR | FENCED | BADALGORITHM | LOCATEERR | BLOCKSHORT
  | ITFERROR | REWINDFAILED | READTM | UNSOLICITED | STATUSONLY
  | OTHER
  deriving DecidableEq, Repr

/-- What the sense builders take from outside the translated sources, as
functions of the device block at the time of the call: `tapeloaded dev` is
`dev->tmh->tapeloaded (dev, NULL, 0)` being non-zero, `passedeot dev` is
`dev->tmh->passedeot (dev)` being non-zero, `sts_bot dev` is `STS_BOT (dev)`
after `int_scsi_status_update (dev, 0)`, and `scsi` tells whether the build
defines OPTION_SCSI_TAPE.  `tmh_open dev` is the device block that
`dev->tmh->open (dev, &unitstat, code)` leaves. -/
structure Host where
  tapeloaded : DEVBLK → Bool
  passedeot : DEVBLK → Bool
  sts_bot : DEVBLK → Bool
  scsi : Bool := true
  tmh_open : DEVBLK → DEVBLK := fun d => d

/-- The complement `~m` of a byte mask, as applied to a byte. -/
def notb (m : Nat) : Nat := 0xFF ^^^ m

/-- Embedding of `IsAtLoadPoint (dev)`: whether it returns 1. -/
def IsAtLoadPoint (h : Host) (dev : DEVBLK) : Bool :=
  if dev.fd ≥ 0 then
    match dev.tapedevt with
    | TAPEDEVT.HET => dev.hetb_cblk == 0
    | TAPEDEVT.SCSITAPE => if h.scsi then h.sts_bot dev else dev.nxtblkpos == 0
    | TAPEDEVT.OMATAPE => dev.nxtblkpos == 0 && dev.curfilen == 1
    | _ => dev.nxtblkpos == 0
  else
    if dev.tapedevt = TAPEDEVT.SCSITAPE then false
    else if dev.filename ≠ TAPE_UNLOADED then true
    else false

/-- The unit status of the inner `switch (ccwcode)` of the TAPEUNLOADED case
of `build_sense_3480_etal`. -/
def unloaded_unitstat_3480 (ccwcode : Nat) : Nat :=
  if ccwcode = 0x01 ∨ ccwcode = 0x02 ∨ ccwcode = 0x0C then CSW_CE ||| CSW_UC
  else if ccwcode = 0x03 then CSW_UC
  else if ccwcode = 0x0F then CSW_CE ||| CSW_UC ||| CSW_DE ||| CSW_CUE
  else CSW_CE ||| CSW_UC ||| CSW_DE

/-- The unit status of the inner `switch (ccwcode)` of the TAPEUNLOADED case
of `build_sense_Streaming` and of `build_sense_3410_3420`, which are the same
text. -/
def unloaded_unitstat_3420 (dev : DEVBLK) (ccwcode : Nat) : Nat :=
  if ccwcode = 0x01 ∨ ccwcode = 0x02 ∨ ccwcode = 0x0C then
    CSW_CE ||| CSW_UC ||| (if dev.deonirq then CSW_DE else 0)
  else if ccwcode = 0x03 then CSW_UC
  else if ccwcode = 0x0F then CSW_UC ||| CSW_DE ||| CSW_CUE
  else CSW_CE ||| CSW_UC ||| CSW_DE

/-- The signature `TapeSenseFunc` of the device-specific sense builders,
`(ERCode, dev, unitstat, ccwcode)`: the third argument is the byte that
`unitstat` points to on entry and the result is the device block and that byte
on return. -/
abbrev TapeSenseFunc := Host → ERCode → DEVBLK → Nat → Nat → DEVBLK × Nat

/-- Embedding of `build_sense_3480_etal`.  The first `match` is the
`switch (ERCode)`, giving the sense array, the unit status and `sns4mat`; the
statements after the switch follow it in source order. -/
def build_sense_3480_etal : TapeSenseFunc := fun h ercode dev _unitstat ccwcode =>
  let sns := dev.sense
  let sw : (Nat → Nat) × Nat × Nat :=
    match ercode with
    | ERCode.TAPEUNLOADED =>
      (Function.update (Function.update sns 0 SENSE_IR) 3 0x43,
        unloaded_unitstat_3480 ccwcode, 0x20)
    | ERCode.RUN_SUCCESS =>
      (Function.update (Function.update sns 0 SENSE_IR) 3 0x2B, CSW_CE ||| CSW_DE, 0x21)
    | ERCode.TAPELOADFAIL =>
      (Function.update (Function.update sns 0 (SENSE_IR ||| 0x02)) 3 0x33,
        CSW_CE ||| CSW_DE ||| CSW_UC, 0x20)
    | ERCode.READFAIL =>
      (Function.update (Function.update sns 0 SENSE_DC) 3 0x23, CSW_CE ||| CSW_DE ||| CSW_UC, 0x20)
    | ERCode.WRITEFAIL =>
      (Function.update (Function.update sns 0 SENSE_DC) 3 0x25, CSW_CE ||| CSW_DE ||| CSW_UC, 0x20)
    | ERCode.BADCOMMAND =>
      (Function.update (Function.update sns 0 SENSE_CR) 3 0x27, CSW_CE ||| CSW_DE ||| CSW_UC, 0x20)
    | ERCode.INCOMPAT =>
      (Function.update (Function.update sns 0 SENSE_CR) 3 0x29, CSW_CE ||| CSW_DE ||| CSW_UC, 0x20)
    | ERCode.WRITEPROTECT =>
      (Function.update (Function.update sns 0 SENSE_CR) 3 0x30, CSW_CE ||| CSW_DE ||| CSW_UC, 0x20)
    | ERCode.EMPTYTAPE =>
      (Function.update (Function.update sns 0 SENSE_DC) 3 0x31, CSW_CE ||| CSW_DE ||| CSW_UC, 0x20)
    | ERCode.ENDOFTAPE =>
      (Function.update (Function.update sns 0 SENSE_EC) 3 0x38, CSW_CE ||| CSW_DE ||| CSW_UC, 0x20)
    | ERCode.LOADPTERR =>
      (Function.update (Function.update sns 0 0) 3 0x39, CSW_CE ||| CSW_DE ||| CSW_UC, 0x20)
    | ERCode.FENCED =>
      (Function.update (Function.update sns 0 (SENSE_EC ||| 0x02)) 3 0x47,
        CSW_CE ||| CSW_DE ||| CSW_UC, 0x20)
    | ERCode.BADALGORITHM =>
      (Function.update (Function.update sns 0 SENSE_EC) 3 (if dev.devtype = 0x3480 then 0x47 else 0x5E),
        CSW_CE ||| CSW_DE ||| CSW_UC, 0x20)
    | ERCode.LOCATEERR =>
      (Function.update (Function.update sns 0 SENSE_EC) 3 0x44, CSW_CE ||| CSW_DE ||| CSW_UC, 0x20)
    | ERCode.BLOCKSHORT =>
      (Function.update (Function.update sns 0 SENSE_EC) 3 0x36, CSW_CE ||| CSW_DE ||| CSW_UC, 0x20)
    | ERCode.ITFERROR =>
      (Function.update (Function.update sns 0 SENSE_EC) 3 0x22, CSW_CE ||| CSW_DE ||| CSW_UC, 0x20)
    | ERCode.REWINDFAILED =>
      (Function.update (Function.update sns 0 SENSE_EC) 3 0x2C, CSW_CE ||| CSW_DE ||| CSW_UC, 0x20)
    | ERCode.READTM => (sns, CSW_CE ||| CSW_DE ||| CSW_UX, 0x20)
    | ERCode.UNSOLICITED => (Function.update sns 3 0x00, CSW_CE ||| CSW_DE, 0x20)
    | ERCode.STATUSONLY => (sns, CSW_CE ||| CSW_DE, 0x20)
    | ERCode.OTHER => (sns, CSW_CE ||| CSW_DE, 0x20)
  -- dev->sense[7] = sns4mat; memset (&dev->sense[8], 0, 31-8);
  let s7 := Function.update sw.1 7 sw.2.2
  let s8 : Nat → Nat := fun i => if 8 ≤ i ∧ i < 31 then 0 else s7 i
  let s9 : Nat → Nat :=
    if dev.filename = TAPE_UNLOADED ∨ h.tapeloaded { dev with sense := s8 } = false then
      let a := Function.update s8 0 (s8 0 ||| SENSE_IR)
      Function.update a 1 (a 1 ||| SENSE1_TAPE_FP)
    else
      let a := Function.update s8 0 (s8 0 &&& notb SENSE_IR)
      let b := Function.update a 1 (a 1 &&& notb (SENSE1_TAPE_LOADPT ||| SENSE1_TAPE_FP))
      let c := Function.update b 1
        (b 1 ||| (if IsAtLoadPoint h { dev with sense := b } then SENSE1_TAPE_LOADPT else 0))
      Function.update c 1 (c 1 ||| (if dev.readonly then SENSE1_TAPE_FP else 0))
  ({ dev with sense := Function.update s9 1 (s9 1 ||| SENSE1_TAPE_TUA) }, sw.2.1)

/-- Embedding of `build_sense_Streaming` (8809, 9347, 9348).  The switch has
no default case: for an error kind outside the macros the sense array and the
unit status are left as they were. -/
def build_sense_Streaming : TapeSenseFunc := fun h ercode dev unitstat ccwcode =>
  let sns := dev.sense
  let sw : (Nat → Nat) × Nat :=
    match ercode with
    | ERCode.TAPEUNLOADED =>
      (Function.update (Function.update sns 0 SENSE_IR) 3 6, unloaded_unitstat_3420 dev ccwcode)
    | ERCode.RUN_SUCCESS =>
      (Function.update (Function.update sns 0 SENSE_IR) 3 6, CSW_UC ||| CSW_DE ||| CSW_CUE)
    | ERCode.REWINDFAILED | ERCode.ITFERROR =>
      (Function.update (Function.update sns 0 SENSE_EC) 3 0x03, CSW_CE ||| CSW_DE ||| CSW_UC)
    | ERCode.TAPELOADFAIL | ERCode.LOCATEERR | ERCode.ENDOFTAPE | ERCode.EMPTYTAPE
    | ERCode.FENCED | ERCode.BLOCKSHORT | ERCode.INCOMPAT =>
      (Function.update (Function.update sns 0 SENSE_EC) 3 0x10, CSW_CE ||| CSW_DE ||| CSW_UC)
    | ERCode.BADALGORITHM | ERCode.READFAIL =>
      (Function.update (Function.update sns 0 SENSE_DC) 3 0x09, CSW_CE ||| CSW_DE ||| CSW_UC)
    | ERCode.WRITEFAIL =>
      (Function.update (Function.update sns 0 SENSE_DC) 3 0x07, CSW_CE ||| CSW_DE ||| CSW_UC)
    | ERCode.BADCOMMAND =>
      (Function.update (Function.update sns 0 SENSE_CR) 3 0x0C, CSW_CE ||| CSW_DE ||| CSW_UC)
    | ERCode.WRITEPROTECT =>
      (Function.update (Function.update sns 0 SENSE_CR) 3 0x0B, CSW_CE ||| CSW_DE ||| CSW_UC)
    | ERCode.LOADPTERR =>
      (Function.update (Function.update sns 0 SENSE_CR) 3 0x0D, CSW_CE ||| CSW_DE ||| CSW_UC)
    | ERCode.READTM => (sns, CSW_CE ||| CSW_DE ||| CSW_UX)
    | ERCode.UNSOLICITED => (sns, CSW_CE ||| CSW_DE)
    | ERCode.STATUSONLY => (sns, CSW_CE ||| CSW_DE)
    | ERCode.OTHER => (sns, unitstat)
  let s0 := sw.1
  let s1 : Nat → Nat :=
    if dev.filename = TAPE_UNLOADED ∨ h.tapeloaded { dev with sense := s0 } = false then
      let a := Function.update s0 0 (s0 0 ||| SENSE_IR)
      let b := Function.update a 1 (a 1 ||| SENSE1_TAPE_FP)
      let c := Function.update b 1 (b 1 &&& notb SENSE1_TAPE_TUA)
      Function.update c 1 (c 1 ||| SENSE1_TAPE_TUB)
    else
      let a := Function.update s0 0 (s0 0 &&& notb SENSE_IR)
      let b := Function.update a 1
        (a 1 ||| (if IsAtLoadPoint h { dev with sense := a } then SENSE1_TAPE_LOADPT else 0))
      let c := Function.update b 1 (b 1 ||| (if dev.readonly then SENSE1_TAPE_FP else 0))
      let d := Function.update c 1 (c 1 ||| SENSE1_TAPE_TUA)
      Function.update d 1 (d 1 &&& notb SENSE1_TAPE_TUB)
  let s2 : Nat → Nat :=
    if h.passedeot { dev with sense := s1 } then Function.update s1 4 (s1 4 ||| 0x40) else s1
  ({ dev with sense := s2 }, sw.2)

/-- Embedding of `build_sense_3410_3420`.  As in `build_sense_Streaming` the
switch has no default case. -/
def build_sense_3410_3420 : TapeSenseFunc := fun h ercode dev unitstat ccwcode =>
  let sns := dev.sense
  let sw : (Nat → Nat) × Nat :=
    match ercode with
    | ERCode.TAPEUNLOADED =>
      (Function.update (Function.update sns 0 SENSE_IR) 1 SENSE1_TAPE_TUB,
        unloaded_unitstat_3420 dev ccwcode)
    | ERCode.RUN_SUCCESS =>
      (Function.update (Function.update sns 0 SENSE_IR) 1 SENSE1_TAPE_TUB,
        CSW_UC ||| CSW_DE ||| CSW_CUE)
    | ERCode.REWINDFAILED | ERCode.FENCED | ERCode.EMPTYTAPE | ERCode.ENDOFTAPE
    | ERCode.BLOCKSHORT | ERCode.LOCATEERR | ERCode.TAPELOADFAIL =>
      (Function.update (Function.update (Function.update sns 0 SENSE_EC) 1 SENSE1_TAPE_TUB) 7 0x60,
        CSW_CE ||| CSW_DE ||| CSW_UC)
    | ERCode.ITFERROR =>
      (Function.update (Function.update (Function.update sns 0 SENSE_EC) 1 SENSE1_TAPE_TUB) 4 0x80,
        CSW_CE ||| CSW_DE ||| CSW_UC)
    | ERCode.READFAIL | ERCode.BADALGORITHM =>
      (Function.update (Function.update sns 0 SENSE_DC) 3 0xC0, CSW_CE ||| CSW_DE ||| CSW_UC)
    | ERCode.WRITEFAIL =>
      (Function.update (Function.update sns 0 SENSE_DC) 3 0x60, CSW_CE ||| CSW_DE ||| CSW_UC)
    | ERCode.BADCOMMAND | ERCode.INCOMPAT =>
      (Function.update (Function.update sns 0 SENSE_CR) 4 0x01, CSW_CE ||| CSW_DE ||| CSW_UC)
    | ERCode.WRITEPROTECT => (Function.update sns 0 SENSE_CR, CSW_CE ||| CSW_DE ||| CSW_UC)
    | ERCode.LOADPTERR => (Function.update sns 0 0, CSW_CE ||| CSW_DE ||| CSW_UC)
    | ERCode.READTM => (sns, CSW_CE ||| CSW_DE ||| CSW_UX)
    | ERCode.UNSOLICITED => (sns, CSW_CE ||| CSW_DE)
    | ERCode.STATUSONLY => (sns, CSW_CE ||| CSW_DE)
    | ERCode.OTHER => (sns, unitstat)
  let s0 := sw.1
  let s1 : Nat → Nat :=
    if dev.filename = TAPE_UNLOADED ∨ h.tapeloaded { dev with sense := s0 } = false then
      let a := Function.update s0 0 (s0 0 ||| SENSE_IR)
      Function.update a 1 (a 1 ||| SENSE1_TAPE_FP)
    else
      let a := Function.update s0 0 (s0 0 &&& notb SENSE_IR)
      let b := Function.update a 1
        (a 1 ||| (if IsAtLoadPoint h { dev with sense := a } then SENSE1_TAPE_LOADPT else 0))
      Function.update b 1 (b 1 ||| (if dev.readonly then SENSE1_TAPE_FP else 0))
  let s2 : Nat → Nat :=
    if h.passedeot { dev with sense := s1 } then Function.update s1 4 (s1 4 ||| 0x40) else s1
  ({ dev with sense := s2 }, sw.2)

/-- Embedding of `build_sense_3410`. -/
def build_sense_3410 : TapeSenseFunc := fun h ercode dev unitstat ccwcode =>
  let r := build_sense_3410_3420 h ercode dev unitstat ccwcode
  let s := r.1.sense
  let s5 := Function.update s 5 (s 5 &&& 0x80)
  let s5 := Function.update s5 5 (s5 5 ||| 0x40)
  let s6 := Function.update s5 6 0x22
  ({ r.1 with sense := s6, numsense := 9 }, r.2)

/-- Embedding of `build_sense_3420`, which the macros build_sense_3422 and
build_sense_3430 also name. -/
def build_sense_3420 : TapeSenseFunc := fun h ercode dev unitstat ccwcode =>
  let r := build_sense_3410_3420 h ercode dev unitstat ccwcode
  let s := r.1.sense
  let s := Function.update s 5 (s 5 ||| 0xC0)
  let s := Function.update s 6 (s 6 ||| 0x03)
  let s := Function.update s 13 0x80
  let s := Function.update s 14 0x01
  let s := Function.update s 15 0x00
  let s := Function.update s 16 0x01
  let s := Function.update s 19 0xFF
  let s := Function.update s 20 0xFF
  ({ r.1 with sense := s, numsense := 24 }, r.2)

/-- Embedding of `build_sense_3490`. -/
def build_sense_3490 : TapeSenseFunc := fun h ercode dev unitstat ccwcode =>
  build_sense_3480_etal h ercode dev unitstat ccwcode

/-- Embedding of `build_sense_3590`. -/
def build_sense_3590 : TapeSenseFunc := fun h ercode dev unitstat ccwcode =>
  build_sense_3480_etal h ercode dev unitstat ccwcode

/-- The routing table `TapeSenseTable`, indexed by column E of the device-type
list; the entries for 3422 and 3430 are `build_sense_3420` through the macros.
The closing NULL of the C array is the end of the list. -/
def TapeSenseTable : List TapeSenseFunc :=
  [ build_sense_3410, build_sense_3420, build_sense_3420, build_sense_3420,
    build_sense_3480_etal, build_sense_3490, build_sense_3590, build_sense_Streaming ]

/-- Embedding of `build_senseX (ERCode, dev, unitstat, ccwcode)`: the device
block and the unit-status byte on return.  The argument `unitstat` is the byte
the pointer designates on entry; for a NULL pointer the function works on its
uninitialised local `usr`, whose content is likewise arbitrary.  An index of
column E outside the routing table, which the device-type list does not hold,
calls nothing. -/
def build_senseX (h : Host) (ercode : ERCode) (dev : DEVBLK) (unitstat ccwcode : Nat) :
    DEVBLK × Nat :=
  let r : DEVBLK × Nat :=
    match findDevtype dev.devtype devtypeRecords 0 with
    | some i =>
      let b : DEVBLK × Nat :=
        match TapeSenseTable.get? (TapeDevtypeList.getD (i + 4) 0) with
        | some f => f h ercode dev unitstat ccwcode
        | none => (dev, unitstat)
      if h.passedeot b.1 then
        if ercode = ERCode.STATUSONLY ∧ (ccwcode = 0x01 ∨ ccwcode = 0x17 ∨ ccwcode = 0x1F) then
          (b.1, b.2 ||| CSW_UX)
        else b
      else b
    | none =>
      ({ dev with sense := Function.update dev.sense 0 SENSE_EC }, CSW_CE ||| CSW_DE ||| CSW_UC)
  if r.2 &&& CSW_UC ≠ 0 then ({ r.1 with sns_pending := 1 }, r.2) else r

/-! ## OMA write entries -/

/-- Embedding of `is_tapeloaded_filename (dev, unitstat, code)`: whether it
returns 1. -/
def is_tapeloaded_filename (dev : DEVBLK) : Bool := dev.filename ≠ TAPE_UNLOADED

/-- Embedding of `return_false1 (dev)`: whether it returns non-zero. -/
def return_false1 (_dev : DEVBLK) : Bool := false

/-- Embedding of `write_READONLY (dev, unitstat, code)`: the device block, the
unit-status byte and the return code.  `h` holds the callbacks of the handler
`dev->tmh` that `build_senseX` calls. -/
def write_READONLY (h : Host) (dev : DEVBLK) (unitstat code : Nat) : DEVBLK × Nat × Int :=
  let r := build_senseX h ERCode.WRITEPROTECT dev unitstat code
  (r.1, r.2, -1)

/-- Embedding of `write_READONLY5 (dev, bfr, blklen, unitstat, code)`. -/
def write_READONLY5 (h : Host) (dev : DEVBLK) (_bfr : List Nat) (_blklen : Nat)
    (unitstat code : Nat) : DEVBLK × Nat × Int :=
  let r := build_senseX h ERCode.WRITEPROTECT dev unitstat code
  (r.1, r.2, -1)

/-- The entries of a media handler vector `TAPEMEDIA_HANDLER` that the
translated sources define for the OMA handler: write, write tapemark, sync,
data security erase, erase gap, is-loaded and passed-EOT.  The other entries
(open, close, read, rewind, spacing) name functions of other source files. -/
structure TAPEMEDIA_HANDLER where
  write : Host → DEVBLK → List Nat → Nat → Nat → Nat → DEVBLK × Nat × Int
  wtm : Host → DEVBLK → Nat → Nat → DEVBLK × Nat × Int
  sync : Host → DEVBLK → Nat → Nat → DEVBLK × Nat × Int
  dse : Host → DEVBLK → Nat → Nat → DEVBLK × Nat × Int
  erg : Host → DEVBLK → Nat → Nat → DEVBLK × Nat × Int
  tapeloaded : DEVBLK → Bool
  passedeot : DEVBLK → Bool

/-- The handler vector `tmh_oma`. -/
def tmh_oma : TAPEMEDIA_HANDLER :=
  { write := write_READONLY5, wtm := write_READONLY, sync := write_READONLY,
    dse := write_READONLY, erg := write_READONLY,
    tapeloaded := is_tapeloaded_filename, passedeot := return_false1 }

/-! ## Display and mount requests -/

/-- Modelled from the spec: display flag ALTERNATE, the macro
TAPEDISPFLG_ALTERNATE of the absent `tapedev.h`. -/
def TAPEDISPFLG_ALTERNATE : Nat := 0x80

/-- Modelled from the spec: display flag BLINKING, the macro
TAPEDISPFLG_BLINKING of the absent `tapedev.h`. -/
def TAPEDISPFLG_BLINKING : Nat := 0x40

/-- Modelled from the spec: display flag MESSAGE2, the macro
TAPEDISPFLG_MESSAGE2 of the absent `tapedev.h`. -/
def TAPEDISPFLG_MESSAGE2 : Nat := 0x20

/-- Modelled from the spec: display flag AUTOLOADER, the macro
TAPEDISPFLG_AUTOLOADER of the absent `tapedev.h`. -/
def TAPEDISPFLG_AUTOLOADER : Nat := 0x10

/-- Modelled from the spec: display flag REQAUTOMNT, the macro
TAPEDISPFLG_REQAUTOMNT of the absent `tapedev.h`. -/
def TAPEDISPFLG_REQAUTOMNT : Nat := 0x08

/-- Modelled from the spec: the mask of the three high bits of the format
control byte, which select the function; the macro FCB_FS of the absent
`tapedev.h`. -/
def FCB_FS : Nat := 0xE0

/-- Modelled from the spec: function READY_GO (0b000); the value is the one
written beside the case label in `load_display`. -/
def FCB_FS_READYGO : Nat := 0x00

/-- Modelled from the spec: function UNMOUNT (0b001). -/
def FCB_FS_UNMOUNT : Nat := 0x20

/-- Modelled from the spec: function MOUNT (0b010). -/
def FCB_FS_MOUNT : Nat := 0x40

/-- Modelled from the spec: function NOP (0b011). -/
def FCB_FS_NOP : Nat := 0x60

/-- Modelled from the spec: function RESET_DISPLAY (0b100). -/
def FCB_FS_RESET_DISPLAY : Nat := 0x80

/-- Modelled from the spec: function UMOUNTMOUNT (0b111). -/
def FCB_FS_UMOUNTMOUNT : Nat := 0xE0

/-- Modelled from the spec: FCB bit AM (alternate), bit 3 of the byte counted
from the high-order end as the comments of `load_display` count it. -/
def FCB_AM : Nat := 0x10

/-- Modelled from the spec: FCB bit BM (blinking), bit 4. -/
def FCB_BM : Nat := 0x08

/-- Modelled from the spec: FCB bit M2 (use the message-2 slot), bit 5. -/
def FCB_M2 : Nat := 0x04

/-- Modelled from the spec: FCB bit AL (autoloader active), bit 7. -/
def FCB_AL : Nat := 0x01

/-- What the display and mount functions take from outside the translated
sources besides the media handler: `guest_to_host` is the code page
translation of a byte, `is_sysmsg` is the macro IS_TAPEDISPTYP_SYSMSG as a
function of `dev->tapedisptype`, `sizeof_tapesysmsg` and `sizeof_filename` are
the sizes of the buffers `dev->tapesysmsg` and `dev->filename`,
`parser arg` is the value that `parser (&ptab[0], arg, &res)` returns with the
number it leaves in `res.num`, `regcomp`, `regexec` and `regerror` are the
return codes and the error text of the regular expression library for a
pattern (and a subject), REG_NOMATCH is its macro, and the HET constants are
the macros of the absent `hetlib.h`.  `autoload_file name` holds the records
that successive `fgets (bfr, 4096, aldf)` calls return from the file that
`fopen (hostpath (name), "r")` opens, `none` where it cannot be opened.
`sizeof_config_reply` is `sizeof (struct config_reply)` of him.c: its members
take 22 bytes, which a build that aligns the bit-fields of the header as
`unsigned int` rounds up to 24. -/
structure Env where
  guest_to_host : Nat → Nat := fun b => b
  is_sysmsg : TAPEDISPTYP → Bool := fun t =>
    t = TAPEDISPTYP.IDLE ∨ t = TAPEDISPTYP.ERASING ∨ t = TAPEDISPTYP.REWINDING ∨
      t = TAPEDISPTYP.UNLOADING ∨ t = TAPEDISPTYP.CLEAN ∨ t = TAPEDISPTYP.OTHER
  sizeof_tapesysmsg : Nat := 32
  sizeof_filename : Nat := 4097
  parser : String → Int × Nat := fun _ => (0, 0)
  regcomp : String → Int := fun _ => 0
  regexec : String → String → Int := fun _ _ => 1
  regerror : Int → String := fun _ => ""
  autoload_file : String → Option (List String) := fun _ => none
  sizeof_config_reply : Nat := 24
  REG_NOMATCH : Int := 1
  HETDFLT_COMPRESS : Bool := true
  HETDFLT_METHOD : Nat := 1
  HETDFLT_LEVEL : Nat := 4
  HETDFLT_CHKSIZE : Nat := 65535
  HETMIN_METHOD : Nat := 1
  HETMAX_METHOD : Nat := 2
  HETMIN_LEVEL : Nat := 1
  HETMAX_LEVEL : Nat := 9
  HETMIN_CHUNKSIZE : Nat := 4096
  HETMAX_CHUNKSIZE : Nat := 65535

/-- An argument of a `logmsg` call: a C string given by its bytes (`%s` of a
message slot), a string of the model (`%s` of a literal or of the file name),
a number printed as four hexadecimal digits (`%4.4X`), or a number printed
in decimal (`%d`, `%u`). -/
inductive LogArg where
  | bytes (s : List Nat)
  | text (s : String)
  | hex4 (n : Nat)
  | num (n : Int)
  deriving DecidableEq, Repr

/-- One `logmsg` call: the format string and its arguments in order. -/
structure LogRec where
  fmt : String
  args : List LogArg
  deriving DecidableEq, Repr

/-- The bytes of a C string literal. -/
def lit (s : String) : List Nat := s.toList.map Char.toNat

/-- The C string held in a character array: the bytes before the first NUL. -/
def cstr (a : List Nat) : List Nat := a.takeWhile (fun b => b ≠ 0)

/-- The library function `strlcpy (dst, src, size)` on a destination array:
at most `size - 1` bytes of the C string `src` and a NUL are stored, the rest
of the array is left as it was. -/
def strlcpy (dst src : List Nat) (size : Nat) : List Nat :=
  if size = 0 then dst
  else (src.take (size - 1)) ++ 0 :: dst.drop ((src.take (size - 1)).length + 1)

/-- The library function `strlcat (dst, src, size)` on the C string held in
the destination: `src` is appended as far as `size - 1` bytes allow. -/
def strlcat (dst src : List Nat) (size : Nat) : List Nat :=
  dst ++ src.take (size - 1 - dst.length)

/-- Embedding of `GetDisplayMsg (dev, msgbfr, lenbfr)`: the C string left in
`dev->tapesysmsg`, the only field of the device block that the function
writes, and the C string left in `msgbfr`.  The refresh
`int_scsi_status_update (dev, 1)` of a SCSI drive without a display touches
no field of the model. -/
def GetDisplayMsg (env : Env) (h : Host) (dev : DEVBLK) (lenbfr : Nat) :
    List Nat × List Nat :=
  if !dev.displayfeat then (dev.tapesysmsg, [])
  else if !env.is_sysmsg dev.tapedisptype then
    -- Display Host message
    let b0 := strlcat [] (lit "\"") lenbfr
    let b1 :=
      if dev.tapedispflags &&& TAPEDISPFLG_ALTERNATE ≠ 0 then
        let msg1 := strlcat (strlcat [] (cstr dev.tapemsg1) 9) (lit "        ") 9
        let msg2 := strlcat (strlcat [] (cstr dev.tapemsg2) 9) (lit "        ") 9
        let b := strlcat b0 msg1 lenbfr
        let b := strlcat b (lit "\" / \"") lenbfr
        let b := strlcat b msg2 lenbfr
        let b := strlcat b (lit "\"") lenbfr
        strlcat b (lit " (alternating)") lenbfr
      else
        let b :=
          if dev.tapedispflags &&& TAPEDISPFLG_MESSAGE2 ≠ 0 then
            strlcat b0 (cstr dev.tapemsg2) lenbfr
          else strlcat b0 (cstr dev.tapemsg1) lenbfr
        let b := strlcat b (lit "\"") lenbfr
        if dev.tapedispflags &&& TAPEDISPFLG_BLINKING ≠ 0 then
          strlcat b (lit " (blinking)") lenbfr
        else b
    let b2 :=
      if dev.tapedispflags &&& TAPEDISPFLG_AUTOLOADER ≠ 0 then
        strlcat b1 (lit " (AUTOLOADER)") lenbfr
      else b1
    (dev.tapesysmsg, b2)
  else
    -- Display SYS message (Unit/Device message)
    let sz := env.sizeof_tapesysmsg
    let s0 := strlcat [] (lit "\"") sz
    let close (s : List Nat) : List Nat × List Nat :=
      (strlcat s (lit "\"") sz, strlcat [] (strlcat s (lit "\"") sz) lenbfr)
    match dev.tapedisptype with
    | TAPEDISPTYP.ERASING => close (strlcat s0 (lit " ERASING") sz)
    | TAPEDISPTYP.REWINDING => close (strlcat s0 (lit "REWINDNG") sz)
    | TAPEDISPTYP.UNLOADING => close (strlcat s0 (lit "UNLOADNG") sz)
    | TAPEDISPTYP.CLEAN => close (strlcat s0 (lit "*CLEAN  ") sz)
    | _ =>
      if !h.tapeloaded { dev with tapesysmsg := s0 } then
        close (strlcat s0 (lit "        ") sz)
      else if decide (dev.fd < 0)
          || (h.scsi && decide (dev.tapedevt = TAPEDEVT.SCSITAPE) && !dev.sstat_online) then
        close (strlcat s0 (lit " NT RDY ") sz)
      else
        let s := strlcat s0 (lit " READY  ") sz
        let s := strlcat s (lit "\"") sz
        let s :=
          if dev.readonly
              || (h.scsi && decide (dev.tapedevt = TAPEDEVT.SCSITAPE) && dev.sstat_wr_prot) then
            strlcat s (lit " *FP*") sz
          else s
        (s, strlcat [] s lenbfr)

/-- Embedding of `UpdateDisplay (dev)`: the device block and the messages
logged.  For a drive without a display only the SCSI status is refreshed,
which touches no field of the model. -/
def UpdateDisplay (env : Env) (h : Host) (dev : DEVBLK) : DEVBLK × List LogRec :=
  if dev.displayfeat then
    let r := GetDisplayMsg env h dev 256
    let msgbfr := r.2
    let notify : DEVBLK × List LogRec :=
      ({ dev with tapesysmsg := r.1, prev_tapemsg := some msgbfr },
        [⟨"HHCTA100I %4.4X: Now Displays: %s\n", [LogArg.hex4 dev.devnum, LogArg.bytes msgbfr]⟩])
    match dev.prev_tapemsg with
    | some prev => if msgbfr = prev then ({ dev with tapesysmsg := r.1 }, []) else notify
    | none => notify
  else (dev, [])

/-- The character codes that `ReqAutoMount` compares message bytes with. -/
def CH_SPACE : Nat := 0x20

/-- The character code of 'A'. -/
def CH_A : Nat := 0x41

/-- The character code of 'K'. -/
def CH_K : Nat := 0x4B

/-- The character code of 'R'. -/
def CH_R : Nat := 0x52

/-- The character code of 'S'. -/
def CH_S : Nat := 0x53

/-- The line of asterisks `eyecatcher` of `ReqAutoMount`. -/
def eyecatcher : String :=
  "*******************************************************************************"

/-- The part of `ReqAutoMount` that determines whether a mount or an unmount
is requested and which message slot applies: the array `tapemsg` designates
(the empty string literal being the array of its terminator), `unmountreq`
and `mountreq`. -/
def ReqAutoMount_select (h : Host) (dev : DEVBLK) : List Nat × Bool × Bool :=
  if h.tapeloaded dev then
    -- A tape IS already loaded
    (dev.tapemsg1,
      decide (dev.tapemsg1.getD 0 0 ≠ CH_SPACE) &&
        (decide (dev.tapedisptype = TAPEDISPTYP.UNMOUNT) ||
          (decide (dev.tapedisptype = TAPEDISPTYP.UMOUNTMOUNT) &&
            decide (dev.tapedispflags &&& TAPEDISPFLG_MESSAGE2 = 0))),
      false)
  -- NO TAPE IS LOADED
  else if dev.tapedisptype = TAPEDISPTYP.MOUNT then
    (dev.tapemsg1, false, decide (dev.tapemsg1.getD 0 0 ≠ CH_SPACE))
  else if dev.tapedisptype = TAPEDISPTYP.UMOUNTMOUNT then
    (dev.tapemsg2, false, decide (dev.tapemsg2.getD 0 0 ≠ CH_SPACE))
  else ([0], false, false)

/-- The part of `ReqAutoMount` from "Extract volser from message" to the end:
the messages logged for the array `tapemsg` and the two request flags.
`volser` is the C string that `strncpy` and the stored terminator leave. -/
def ReqAutoMount_messages (h : Host) (dev : DEVBLK) (tapemsg : List Nat)
    (unmountreq mountreq : Bool) : List LogRec :=
  -- Extract volser from message
  let volser := cstr ((tapemsg.drop 1).take 6)
  -- Set some boolean flags
  let autoload0 := decide (dev.tapedispflags &&& TAPEDISPFLG_AUTOLOADER ≠ 0)
  let stdlbled := decide (tapemsg.getD 7 0 = CH_S)
  let ascii := decide (tapemsg.getD 7 0 = CH_A)
  let scratch := decide (tapemsg.getD 0 0 = CH_S)
  let lbltype := if stdlbled then "SL" else "UL"
  let autoload := if h.scsi then false else autoload0
  let asc := if ascii then "ASCII " else ""
  if autoload then
    (if unmountreq then
      (if scratch then
        [⟨"AutoMount: %s%s scratch tape being auto-unloaded on %4.4X = %s\n",
          [LogArg.text asc, LogArg.text lbltype, LogArg.hex4 dev.devnum,
            LogArg.text dev.filename]⟩]
      else
        [⟨"AutoMount: %s%s tape volume \"%s\" being auto-unloaded on %4.4X = %s\n",
          [LogArg.text asc, LogArg.text lbltype, LogArg.bytes volser,
            LogArg.hex4 dev.devnum, LogArg.text dev.filename]⟩])
    else []) ++
    (if mountreq then
      (if scratch then
        [⟨"AutoMount: %s%s scratch tape being auto-loaded on %4.4X = %s\n",
          [LogArg.text asc, LogArg.text lbltype, LogArg.hex4 dev.devnum,
            LogArg.text dev.filename]⟩]
      else
        [⟨"AutoMount: %s%s tape volume \"%s\" being auto-loaded on %4.4X = %s\n",
          [LogArg.text asc, LogArg.text lbltype, LogArg.bytes volser,
            LogArg.hex4 dev.devnum, LogArg.text dev.filename]⟩])
    else [])
  else
    (if unmountreq then
      let keep0 := if tapemsg.getD 0 0 = CH_K then "and keep " else ""
      let keep_or_retain := if tapemsg.getD 0 0 = CH_R then "and retain " else keep0
      (if scratch then
        [⟨"\n%s\nAUTOMOUNT: Unmount %sof %s%s scratch tape requested on %4.4X = %s\n%s\n\n",
          [LogArg.text eyecatcher, LogArg.text keep_or_retain, LogArg.text asc,
            LogArg.text lbltype, LogArg.hex4 dev.devnum, LogArg.text dev.filename,
            LogArg.text eyecatcher]⟩]
      else
        [⟨"\n%s\nAUTOMOUNT: Unmount %sof %s%s tape volume \"%s\" requested on %4.4X = %s\n%s\n\n",
          [LogArg.text eyecatcher, LogArg.text keep_or_retain, LogArg.text asc,
            LogArg.text lbltype, LogArg.bytes volser, LogArg.hex4 dev.devnum,
            LogArg.text dev.filename, LogArg.text eyecatcher]⟩])
    else []) ++
    (if mountreq then
      (if scratch then
        [⟨"\n%s\nAUTOMOUNT: Mount for %s%s scratch tape requested on %4.4X = %s\n%s\n\n",
          [LogArg.text eyecatcher, LogArg.text asc, LogArg.text lbltype,
            LogArg.hex4 dev.devnum, LogArg.text dev.filename, LogArg.text eyecatcher]⟩]
      else
        [⟨"\n%s\nAUTOMOUNT: Mount for %s%s tape volume \"%s\" requested on %4.4X = %s\n%s\n\n",
          [LogArg.text eyecatcher, LogArg.text asc, LogArg.text lbltype,
            LogArg.bytes volser, LogArg.hex4 dev.devnum, LogArg.text dev.filename,
            LogArg.text eyecatcher]⟩])
    else [])

/-- Embedding of `ReqAutoMount (dev)`: the device block and the messages
logged.  The two `passedeot` calls that follow the `open` call refresh the
status of a SCSI drive and touch no field of the model. -/
def ReqAutoMount (h : Host) (dev : DEVBLK) : DEVBLK × List LogRec :=
  -- Open the file/drive if needed
  let dev := if dev.fd < 0 then h.tmh_open dev else dev
  -- Disabled when [non-SCSI] ACL in use
  if dev.als.isSome then (dev, [])
  -- Do we actually have any work to do?
  else if dev.tapedispflags &&& TAPEDISPFLG_REQAUTOMNT = 0 then (dev, [])
  else
    -- Reset work flag
    let dev := { dev with tapedispflags := dev.tapedispflags &&& notb TAPEDISPFLG_REQAUTOMNT }
    if !dev.displayfeat then (dev, [])
    else
      let sel := ReqAutoMount_select h dev
      (dev, ReqAutoMount_messages h dev sel.1 sel.2.1 sel.2.2)

/-- Modelled from the spec: the size of a message slot of the device block,
eight characters and the terminator (`sizeof (dev->tapemsg1)`, a declaration
of an absent header). -/
def sizeof_tapemsg : Nat := 9

/-- One of the two copy loops of `load_display`,
`for (i = 0; *msg && i < 8 && ((i+1)+off) < count; i++) msg[i] = guest_to_host (*msg++)`
with `msg = buf + 1 + off`: the bytes stored, in order.  `fuel` bounds the
iterations, of which there are at most eight. -/
def load_display_copy (env : Env) (buf : List Nat) (count off : Nat) : Nat → Nat → List Nat
  | 0, _ => []
  | fuel + 1, i =>
    if buf.getD (1 + off + i) 0 ≠ 0 ∧ i < 8 ∧ (i + 1) + off < count then
      env.guest_to_host (buf.getD (1 + off + i) 0)
        :: load_display_copy env buf count off fuel (i + 1)
    else []

/-- The statements of `load_display` between the switch and the call of
`UpdateDisplay`, which set the display flags from the format control byte:
the value of `dev->tapedispflags` after them, given the byte `fcb` and the
value before them. -/
def load_display_flags (fcb flags : Nat) : Nat :=
  let r1 : Nat × Nat :=
    if fcb &&& FCB_AL ≠ 0 ∧ fcb &&& FCB_FS = FCB_FS_MOUNT then
      (fcb &&& notb (FCB_AM ||| FCB_BM ||| FCB_M2), flags &&& notb TAPEDISPFLG_MESSAGE2)
    else (fcb, flags)
  let r2 : Nat × Nat :=
    if r1.1 &&& FCB_AL ≠ 0 ∧ r1.1 &&& FCB_FS = FCB_FS_UMOUNTMOUNT then
      (r1.1 &&& notb (FCB_AM ||| FCB_BM ||| FCB_M2), r1.2 ||| TAPEDISPFLG_MESSAGE2)
    else r1
  let fcb3 : Nat := if r2.1 &&& FCB_AM ≠ 0 then r2.1 &&& notb (FCB_BM ||| FCB_M2) else r2.1
  r2.2 ||| ((if fcb3 &&& FCB_AM ≠ 0 then TAPEDISPFLG_ALTERNATE else 0)
    ||| (if fcb3 &&& FCB_BM ≠ 0 then TAPEDISPFLG_BLINKING else 0)
    ||| (if fcb3 &&& FCB_M2 ≠ 0 then TAPEDISPFLG_MESSAGE2 else 0)
    ||| (if fcb3 &&& FCB_AL ≠ 0 then TAPEDISPFLG_AUTOLOADER else 0))

/-- The switch on `fcb & FCB_FS` of `load_display`: the device block and the
trace messages it leaves, or `none` where it returns from the function (NOP
and the values that are no function).  `msg1` and `msg2` are the C strings of
the two local message areas. -/
def load_display_switch (h : Host) (dev : DEVBLK) (fcb : Nat) (msg1 msg2 : List Nat) :
    Option (DEVBLK × List LogRec) :=
  let tapeloaded := h.tapeloaded dev
  let trace := dev.ccwtrace || dev.ccwstep
  if fcb &&& FCB_FS = FCB_FS_READYGO then
    some ({ dev with
        tapedispflags := 0
        tapemsg1 := strlcpy dev.tapemsg1 msg1 sizeof_tapemsg
        tapemsg2 := strlcpy dev.tapemsg2 msg2 sizeof_tapemsg
        tapedisptype := TAPEDISPTYP.WAITACT }, [])
  else if fcb &&& FCB_FS = FCB_FS_UNMOUNT then
    if tapeloaded then
      let m1 := strlcpy dev.tapemsg1 msg1 sizeof_tapemsg
      some ({ dev with
          tapedisptype := TAPEDISPTYP.UNMOUNT
          tapedispflags := TAPEDISPFLG_REQAUTOMNT
          tapemsg1 := m1 },
        if trace then
          [⟨"HHCTA099I %4.4X: Tape Display \"%s\" Until Unmounted\n",
            [LogArg.hex4 dev.devnum, LogArg.bytes (cstr m1)]⟩]
        else [])
    else some ({ dev with tapedispflags := 0 }, [])
  else if fcb &&& FCB_FS = FCB_FS_MOUNT then
    if !tapeloaded then
      let m1 := strlcpy dev.tapemsg1 msg1 sizeof_tapemsg
      some ({ dev with
          tapedisptype := TAPEDISPTYP.MOUNT
          tapedispflags := TAPEDISPFLG_REQAUTOMNT
          tapemsg1 := m1 },
        if trace then
          [⟨"HHCTA099I %4.4X: Tape Display \"%s\" Until Mounted\n",
            [LogArg.hex4 dev.devnum, LogArg.bytes (cstr m1)]⟩]
        else [])
    else some ({ dev with tapedispflags := 0 }, [])
  else if fcb &&& FCB_FS = FCB_FS_RESET_DISPLAY then
    some ({ dev with tapedispflags := 0, tapedisptype := TAPEDISPTYP.IDLE }, [])
  else if fcb &&& FCB_FS = FCB_FS_UMOUNTMOUNT then
    let m1 := strlcpy dev.tapemsg1 msg1 sizeof_tapemsg
    let m2 := strlcpy dev.tapemsg2 msg2 sizeof_tapemsg
    if tapeloaded then
      some ({ dev with
          tapemsg1 := m1
          tapemsg2 := m2
          tapedisptype := TAPEDISPTYP.UMOUNTMOUNT
          tapedispflags := TAPEDISPFLG_REQAUTOMNT },
        if trace then
          [⟨"HHCTA099I %4.4X: Tape Display \"%s\" Until Unmounted, then \"%s\" Until Mounted\n",
            [LogArg.hex4 dev.devnum, LogArg.bytes (cstr m1), LogArg.bytes (cstr m2)]⟩]
        else [])
    else
      some ({ dev with
          tapemsg1 := m1
          tapemsg2 := m2
          tapedisptype := TAPEDISPTYP.MOUNT
          tapedispflags := TAPEDISPFLG_MESSAGE2 ||| TAPEDISPFLG_REQAUTOMNT },
        if trace then
          [⟨"HHCTA099I %4.4X: Tape \"%s\" Until Mounted\n",
            [LogArg.hex4 dev.devnum, LogArg.bytes (cstr m2)]⟩]
        else [])
  else none

/-- Embedding of `load_display (dev, buf, count)`: the device block and the
messages logged, in order.  `buf` holds the bytes of the channel buffer, a
byte past its end reading 0. -/
def load_display (env : Env) (h : Host) (dev : DEVBLK) (buf : List Nat) (count : Nat) :
    DEVBLK × List LogRec :=
  if count = 0 then (dev, [])
  else
    let fcb := buf.getD 0 0 % 256
    let msg1 := cstr (load_display_copy env buf count 0 8 0)
    let msg2 := cstr (load_display_copy env buf count 8 8 0)
    match load_display_switch h dev fcb msg1 msg2 with
    | none => (dev, [])
    | some sw =>
      let dev2 : DEVBLK :=
        { sw.1 with tapedispflags := load_display_flags fcb sw.1.tapedispflags }
      let r3 := UpdateDisplay env h dev2
      let r4 := ReqAutoMount h r3.1
      (r4.1, sw.2 ++ r3.2 ++ r4.2)

/-! ## Mounting a tape -/

/-- One entry of the format table `fmttab`: the regular expression (`none`
for NULL), the media kind, and the two descriptions.  The handler pointer
`tmh` of an entry is the handler of its media kind. -/
structure tape_format_entry where
  fmtreg : Option String
  fmtcode : TAPEDEVT
  descr : String
  short_descr : String

/-- The table `fmttab`, in a build for a host that is not Windows; `scsi`
tells whether the build defines OPTION_SCSI_TAPE. -/
def fmttab (scsi : Bool) : List tape_format_entry :=
  [ ⟨some "\\.tdf$", TAPEDEVT.OMATAPE, "Optical Media Attachment (OMA) tape", "OMA tape"⟩ ] ++
  (if scsi then
    [ ⟨some "^/dev/", TAPEDEVT.SCSITAPE, "SCSI attached tape drive", "SCSI tape"⟩ ]
   else []) ++
  [ ⟨some "\\.het$", TAPEDEVT.HET, "Hercules Emulated Tape file", "HET tape"⟩,
    ⟨none, TAPEDEVT.AWSTAPE, "AWS Format tape file", "AWS tape"⟩ ]

/-- The values of the anonymous `enum` that names the entries of `ptab`. -/
def TDPARM_NONE : Int := 0
/-- Entry `awstape` of `ptab`. -/
def TDPARM_AWSTAPE : Int := 1
/-- Entry `idrc` of `ptab`. -/
def TDPARM_IDRC : Int := 2
/-- Entry `compress` of `ptab`. -/
def TDPARM_COMPRESS : Int := 3
/-- Entry `method` of `ptab`. -/
def TDPARM_METHOD : Int := 4
/-- Entry `level` of `ptab`. -/
def TDPARM_LEVEL : Int := 5
/-- Entry `chunksize` of `ptab`. -/
def TDPARM_CHKSIZE : Int := 6
/-- Entry `maxsize` of `ptab`. -/
def TDPARM_MAXSIZE : Int := 7
/-- Entry `maxsizeK` of `ptab`. -/
def TDPARM_MAXSIZEK : Int := 8
/-- Entry `maxsizeM` of `ptab`. -/
def TDPARM_MAXSIZEM : Int := 9
/-- Entry `eotmargin` of `ptab`. -/
def TDPARM_EOTMARGIN : Int := 10
/-- Entry `strictsize` of `ptab`. -/
def TDPARM_STRICTSIZE : Int := 11
/-- Entry `readonly` of `ptab`. -/
def TDPARM_READONLY : Int := 12
/-- Entry `ro` of `ptab`. -/
def TDPARM_RO : Int := 13
/-- Entry `noring` of `ptab`. -/
def TDPARM_NORING : Int := 14
/-- Entry `rw` of `ptab`. -/
def TDPARM_RW : Int := 15
/-- Entry `ring` of `ptab`. -/
def TDPARM_RING : Int := 16
/-- Entry `deonirq` of `ptab`. -/
def TDPARM_DEONIRQ : Int := 17
/-- Entry `--blkid-32` of `ptab`. -/
def TDPARM_BLKID32 : Int := 18
/-- Entry `--no-erg` of `ptab`. -/
def TDPARM_NOERG : Int := 19

/-- The loop of `mountnewtape` that determines the media kind from the file
name, in a build with a regular expression library: the entry at which the
loop stops, its index, and the message of an internal error, after which the
function returns -1.  Running off the table, which its last entry without a
pattern excludes, counts as stopping at that last entry. -/
def mount_format (env : Env) (dev : DEVBLK) :
    List tape_format_entry → Nat → Option (tape_format_entry × Option LogRec)
  | [], _ => none
  | e :: rest, i =>
    match e.fmtreg with
    | none => some (e, none)
    | some re =>
      if env.regcomp re < 0 then
        some (e, some ⟨"HHCTA999E Device %4.4X: Unable to determine tape format type for %s: Internal error: Regcomp error %s on index %d\n",
          [LogArg.hex4 dev.devnum, LogArg.text dev.filename,
            LogArg.text (env.regerror (env.regcomp re)), LogArg.num i]⟩)
      else if env.regexec re dev.filename = env.REG_NOMATCH then
        mount_format env dev rest (i + 1)
      else if env.regexec re dev.filename = 0 then some (e, none)
      else
        some (e, some ⟨"HHCTA999E Device %4.4X: Unable to determine tape format type for %s: Internal error: Regexec error %s on index %d\n",
          [LogArg.hex4 dev.devnum, LogArg.text dev.filename,
            LogArg.text (env.regerror (env.regexec re dev.filename)), LogArg.num i]⟩)

/-- One turn of the loop of `mountnewtape` over the parameters `argv[1..]`:
the device block, the messages logged so far and `rc` after the parameter
`arg`.  `scsi` tells whether the build defines OPTION_SCSI_TAPE and
`short_descr` is the short description of the format entry. -/
def mount_parm (env : Env) (scsi : Bool) (short_descr : String)
    (st : DEVBLK × List LogRec × Int) (arg : String) : DEVBLK × List LogRec × Int :=
  let dev := st.1
  let log := st.2.1 ++
    [⟨"HHCTA066I %s device %4.4X parameter: '%s'\n",
      [LogArg.text short_descr, LogArg.hex4 dev.devnum, LogArg.text arg]⟩]
  let rc := st.2.2
  let code := (env.parser arg).1
  let num := (env.parser arg).2
  let bad (l : LogRec) : DEVBLK × List LogRec × Int := (dev, log ++ [l], -1)
  -- the cases that are refused for a SCSI tape and otherwise set fields
  let notscsi (d : DEVBLK) : DEVBLK × List LogRec × Int :=
    if dev.tapedevt = TAPEDEVT.SCSITAPE then
      bad ⟨"HHCTA078E Option '%s' not valid for SCSI tape\n", [LogArg.text arg]⟩
    else (d, log, rc)
  -- the cases that are accepted for a SCSI tape only
  let onlyscsi (d : DEVBLK) : DEVBLK × List LogRec × Int :=
    if dev.tapedevt ≠ TAPEDEVT.SCSITAPE then
      bad ⟨"HHCTA078E Option '%s' not valid for %s\n",
        [LogArg.text arg, LogArg.text short_descr]⟩
    else (d, log, rc)
  if code = TDPARM_NONE then
    bad ⟨"HHCTA067E Device %4.4X: %s - Unrecognized parameter: '%s'\n",
      [LogArg.hex4 dev.devnum, LogArg.text dev.filename, LogArg.text arg]⟩
  else if code = TDPARM_AWSTAPE then
    notscsi { dev with compress := false, chksize := 4096 }
  else if code = TDPARM_IDRC ∨ code = TDPARM_COMPRESS then
    notscsi { dev with compress := decide (num ≠ 0) }
  else if code = TDPARM_METHOD then
    if dev.tapedevt ≠ TAPEDEVT.SCSITAPE ∧ (num < env.HETMIN_METHOD ∨ num > env.HETMAX_METHOD) then
      bad ⟨"HHCTA068E Method must be within %u-%u\n",
        [LogArg.num env.HETMIN_METHOD, LogArg.num env.HETMAX_METHOD]⟩
    else notscsi { dev with method := num }
  else if code = TDPARM_LEVEL then
    if dev.tapedevt ≠ TAPEDEVT.SCSITAPE ∧ (num < env.HETMIN_LEVEL ∨ num > env.HETMAX_LEVEL) then
      bad ⟨"HHCTA069E Level must be within %u-%u\n",
        [LogArg.num env.HETMIN_LEVEL, LogArg.num env.HETMAX_LEVEL]⟩
    else notscsi { dev with level := num }
  else if code = TDPARM_CHKSIZE then
    if dev.tapedevt ≠ TAPEDEVT.SCSITAPE ∧
        (num < env.HETMIN_CHUNKSIZE ∨ num > env.HETMAX_CHUNKSIZE) then
      bad ⟨"HHCTA070E Chunksize must be within %u-%u\n",
        [LogArg.num env.HETMIN_CHUNKSIZE, LogArg.num env.HETMAX_CHUNKSIZE]⟩
    else notscsi { dev with chksize := num }
  else if code = TDPARM_MAXSIZE then
    notscsi { dev with maxsize := num }
  else if code = TDPARM_MAXSIZEK then
    notscsi { dev with maxsize := (num * 1024) % 2 ^ 32 }
  else if code = TDPARM_MAXSIZEM then
    notscsi { dev with maxsize := (num * 1024 * 1024) % 2 ^ 32 }
  else if code = TDPARM_EOTMARGIN then
    notscsi { dev with eotmargin := num }
  else if code = TDPARM_STRICTSIZE then
    notscsi { dev with strictsize := num }
  else if code = TDPARM_READONLY then
    notscsi { dev with logical_readonly := decide (num ≠ 0) }
  else if code = TDPARM_RO ∨ code = TDPARM_NORING then
    notscsi { dev with logical_readonly := true }
  else if code = TDPARM_RW ∨ code = TDPARM_RING then
    notscsi { dev with logical_readonly := false }
  else if code = TDPARM_DEONIRQ then
    notscsi { dev with deonirq := decide (num ≠ 0) }
  else if scsi = true ∧ code = TDPARM_BLKID32 then
    onlyscsi { dev with stape_blkid_32 := true }
  else if scsi = true ∧ code = TDPARM_NOERG then
    onlyscsi { dev with stape_no_erg := true }
  else
    bad ⟨"HHCTA071E Error in '%s' parameter\n", [LogArg.text arg]⟩

/-- The statements of `mountnewtape` after the parameter loop has left `rc`
at 0 and before `UpdateDisplay` is called, which adjust the display. -/
def mount_display (dev : DEVBLK) : DEVBLK :=
  if dev.displayfeat then
    if dev.filename = TAPE_UNLOADED then
      -- NO tape is loaded
      if dev.tapedisptype = TAPEDISPTYP.UMOUNTMOUNT then
        -- A new tape SHOULD be mounted
        { dev with
          tapedisptype := TAPEDISPTYP.MOUNT
          tapedispflags := dev.tapedispflags ||| TAPEDISPFLG_REQAUTOMNT
          tapemsg1 := strlcpy dev.tapemsg1 (cstr dev.tapemsg2) sizeof_tapemsg }
      else if dev.tapedisptype = TAPEDISPTYP.UNMOUNT then
        { dev with tapedisptype := TAPEDISPTYP.IDLE }
      else dev
    else
      -- A tape IS already loaded
      { dev with tapedisptype := TAPEDISPTYP.IDLE }
  else dev

/-- The statements of `mountnewtape` that take the file name from the first
argument: the name is UNLOADED where there is no argument or where the
argument does not fit the buffer `dev->filename`. -/
def mount_filename (env : Env) (dev : DEVBLK) (argv : List String) : DEVBLK :=
  match argv with
  | [] => { dev with filename := TAPE_UNLOADED }
  | a :: _ =>
    if a.utf8ByteSize > env.sizeof_filename - 1 then { dev with filename := TAPE_UNLOADED }
    else { dev with filename := a }

/-- The statements of `mountnewtape` under "Initialize device dependent
fields", with the adjustment for a real 3590 that follows them.  The status
words `dev->sstat` and `dev->stape_getstat_sstat` are set to "door open", of
which the model keeps that the drive is neither online nor write
protected. -/
def mount_init (env : Env) (scsi : Bool) (dev : DEVBLK) : DEVBLK :=
  let dev : DEVBLK :=
    { dev with
      fd := -1
      sstat_online := if scsi then false else dev.sstat_online
      sstat_wr_prot := if scsi then false else dev.sstat_wr_prot
      omadesc := false
      omafiles := 0
      curfilen := 1
      nxtblkpos := 0
      prvblkpos := -1
      curblkrem := 0
      curbufoff := 0
      readonly := false
      hetb := false
      compress := env.HETDFLT_COMPRESS
      method := env.HETDFLT_METHOD
      level := env.HETDFLT_LEVEL
      chksize := env.HETDFLT_CHKSIZE
      maxsize := 0
      eotmargin := 128 * 1024
      logical_readonly := false }
  -- Real 3590's use 32-bit blockids, and don't support Erase Gap.
  if scsi = true ∧ dev.tapedevt = TAPEDEVT.SCSITAPE ∧ dev.devtype = 0x3590 then
    { dev with stape_no_erg := true, stape_blkid_32 := true }
  else dev

/-- The end of `mountnewtape`, from "if (0 != rc) return -1" on: `st` holds
the device block, the messages logged and `rc` as the parameter loop leaves
them.  With `rc` at 0 the display is adjusted, `UpdateDisplay` and
`ReqAutoMount` are called and 0 is returned. -/
def mount_finish (env : Env) (tmh : TAPEDEVT → Host) (st : DEVBLK × List LogRec × Int) :
    DEVBLK × List LogRec × Int :=
  if st.2.2 ≠ 0 then (st.1, st.2.1, -1)
  else
    -- Adjust the display if necessary
    let dev := mount_display st.1
    let r1 := UpdateDisplay env (tmh dev.tapedevt) dev
    let r2 := ReqAutoMount (tmh dev.tapedevt) r1.1
    (r2.1, st.2.1 ++ r1.2 ++ r2.2, 0)

/-- Embedding of `mountnewtape (dev, argc, argv)`, in a build with a regular
expression library: the device block, the messages logged and the return
code.  `argv` is the argument vector, `argc` its length; `tmh k` holds the
callbacks of the media handler of kind `k`, which the function stores in
`dev->tmh`; `scsi` tells whether the build defines OPTION_SCSI_TAPE. -/
def mountnewtape (env : Env) (tmh : TAPEDEVT → Host) (scsi : Bool) (dev : DEVBLK)
    (argv : List String) : DEVBLK × List LogRec × Int :=
  -- Release the previous OMA descriptor array if allocated,
  -- then take the file name from the first argument
  let dev := mount_filename env { dev with omadesc := false } argv
  -- Use the file name to determine the device type
  match mount_format env dev (fmttab scsi) 0 with
  | none => (dev, [], -1)
  | some (e, some err) => ({ dev with tapedevt := e.fmtcode }, [err], -1)
  | some (e, none) =>
    let dev := { dev with tapedevt := e.fmtcode }
    let log : List LogRec :=
      if dev.filename ≠ TAPE_UNLOADED then
        [⟨"HHCTA998I Device %4.4X: %s is a %s\n",
          [LogArg.hex4 dev.devnum, LogArg.text dev.filename, LogArg.text e.descr]⟩]
      else []
    -- Initialize device dependent fields
    let dev := mount_init env scsi dev
    -- Process remaining parameters
    mount_finish env tmh ((argv.drop 1).foldl (mount_parm env scsi e.short_descr) (dev, log, 0))

/-! ## Autoloader -/

/-- The library function `isspace` in the C locale: blank, tab, line feed,
vertical tab, form feed and carriage return. -/
def isspace (c : Char) : Bool :=
  c = ' ' || c = '\t' || c = '\n' || c = Char.ofNat 11 || c = Char.ofNat 12 || c = '\r'

/-- Whether a character is one of the delimiters `" \t"` that `autoload_init`
and `autoload_tape_entry` pass to `strtok_r`. -/
def isdelim (c : Char) : Bool := c = ' ' || c = '\t'

/-- The library function `strtok_r (s, " \t", &save)` on the rest `s` of the
record that the save pointer designates (the whole record on the first call):
the token and the new rest, or `none` for NULL.  Leading delimiters are
skipped, the token ends at the next delimiter, which is overwritten, and the
rest begins behind it. -/
def strtok_r (s : List Char) : Option (List Char × List Char) :=
  let s1 := s.dropWhile isdelim
  if s1 = [] then none
  else some (s1.takeWhile (fun c => !isdelim c), (s1.dropWhile (fun c => !isdelim c)).drop 1)

/-- Embedding of `autoload_global_parms (dev, par)`: the device block and
the message logged. -/
def autoload_global_parms (dev : DEVBLK) (par : String) : DEVBLK × List LogRec :=
  let dev : DEVBLK :=
    if dev.al_argv.isNone then { dev with al_argv := some [], al_argc := 0 } else dev
  ({ dev with
      al_argv := some ((dev.al_argv.getD []).take dev.al_argc ++ [par])
      al_argc := dev.al_argc + 1 },
    [⟨"TAPE Autoloader - Adding global parm %s\n", [LogArg.text par]⟩])

/-- Embedding of `autoload_close (dev)`.  The storage that it and
`autoload_clean_entry` release is not part of the model. -/
def autoload_close (dev : DEVBLK) : DEVBLK :=
  let dev : DEVBLK :=
    if dev.al_argv.isSome then { dev with al_argv := none, al_argc := 0 } else dev
  let dev : DEVBLK := { dev with al_argc := 0 }
  if dev.als.isSome then { dev with als := none, alss := 0 } else dev

/-- The loop `while ((p = strtok_r (NULL, " \t", strtokw)))` of
`autoload_tape_entry`: the arguments it stores in `tae.argv`, in order.
`fuel` bounds the iterations; a rest of n characters yields at most n
tokens. -/
def autoload_entry_args : Nat → List Char → List String
  | 0, _ => []
  | fuel + 1, s =>
    match strtok_r s with
    | none => []
    | some (p, rest) => String.mk p :: autoload_entry_args fuel rest

/-- Embedding of `autoload_tape_entry (dev, fn, strtokw)`: the device block
and the message logged.  `rest` is the rest of the record that the save
pointer designates. -/
def autoload_tape_entry (dev : DEVBLK) (fn : String) (rest : List Char) :
    DEVBLK × List LogRec :=
  let tae : TAPEAUTOLOADENTRY :=
    { filename := fn, argv := autoload_entry_args (rest.length + 1) rest }
  let dev : DEVBLK := if dev.als.isNone then { dev with als := some [], alss := 0 } else dev
  ({ dev with
      als := some ((dev.als.getD []).take dev.alss ++ [tae])
      alss := dev.alss + 1 },
    [⟨"TAPE Autoloader: Adding tape entry %s\n", [LogArg.text fn]⟩])

/-- The loop `while ((verb = strtok_r (NULL, " \t", &strtokw)))` of
`autoload_init` that follows a record whose first token is `*`: each further
token is added to the global parameters.  `fuel` bounds the iterations. -/
def autoload_init_globals : Nat → DEVBLK × List LogRec → List Char → DEVBLK × List LogRec
  | 0, st, _ => st
  | fuel + 1, st, s =>
    match strtok_r s with
    | none => st
    | some (verb, rest) =>
      let r := autoload_global_parms st.1 (String.mk verb)
      autoload_init_globals fuel (r.1, st.2 ++ r.2) rest

/-- One turn of the loop `while ((rec = fgets (bfr, 4096, aldf)))` of
`autoload_init`: the device block and the messages logged so far after the
record `rec`.  The first loop removes the white space that ends the record.
A first token that is NULL or empty does not occur behind it. -/
def autoload_init_record (st : DEVBLK × List LogRec) (rec : String) : DEVBLK × List LogRec :=
  let r : List Char := (rec.toList.reverse.dropWhile isspace).reverse
  if r.length = 0 then st
  else
    match strtok_r r with
    | none => st
    | some (verb, rest) =>
      if verb.head? = none then st
      else if verb.head? = some '#' then st
      else if String.mk verb = "*" then autoload_init_globals (rest.length + 1) st rest
      else
        let t := autoload_tape_entry st.1 (String.mk verb) rest
        (t.1, st.2 ++ t.2)

/-- Embedding of `autoload_init (dev, ac, av)`: the device block and the
messages logged.  `av` is the argument vector, `ac` its length. -/
def autoload_init (env : Env) (dev : DEVBLK) (av : List String) : DEVBLK × List LogRec :=
  let dev := autoload_close dev
  match av with
  | [] => (dev, [])
  | a :: parms =>
    if a.toList.head? ≠ some '@' then (dev, [])
    else
      let fn := String.mk (a.toList.drop 1)
      let log : List LogRec := [⟨"TAPE: Autoloader file request fn=%s\n", [LogArg.text fn]⟩]
      match env.autoload_file fn with
      | none => (dev, log)
      | some recs =>
        let st : DEVBLK × List LogRec :=
          parms.foldl (fun st p => ((autoload_global_parms st.1 p).1,
            st.2 ++ (autoload_global_parms st.1 p).2)) (dev, log)
        recs.foldl autoload_init_record st

/-- The two loops of `autoload_mount_tape` that copy parameters into `pars`:
`pars` holds the entries stored so far, `pcount` being its length.  With
`pcount` above 255 an entry is stored past the 256 pointers of the array and
the loop is left without counting it. -/
def autoload_mount_pars : List String → List String → List String
  | pars, [] => pars
  | pars, a :: rest =>
    if pars.length > 255 then pars else autoload_mount_pars (pars ++ [a]) rest

/-- Embedding of `autoload_mount_tape (dev, alix)`: the device block, the
messages logged and the return code.  `env`, `tmh` and `scsi` are what
`mountnewtape` takes from outside. -/
def autoload_mount_tape (env : Env) (tmh : TAPEDEVT → Host) (scsi : Bool) (dev : DEVBLK)
    (alix : Nat) : DEVBLK × List LogRec × Int :=
  if alix ≥ dev.alss then (dev, [], -1)
  else
    let e : TAPEAUTOLOADENTRY := (dev.als.getD []).getD alix { filename := "", argv := [] }
    let pars := autoload_mount_pars [e.filename] ((dev.al_argv.getD []).take dev.al_argc)
    let pars := autoload_mount_pars pars e.argv
    mountnewtape env tmh scsi dev pars

/-- Embedding of `autoload_mount_first (dev)`. -/
def autoload_mount_first (env : Env) (tmh : TAPEDEVT → Host) (scsi : Bool) (dev : DEVBLK) :
    DEVBLK × List LogRec × Int :=
  autoload_mount_tape env tmh scsi { dev with alsix := 0 } 0

/-- Embedding of `autoload_mount_next (dev)`. -/
def autoload_mount_next (env : Env) (tmh : TAPEDEVT → Host) (scsi : Bool) (dev : DEVBLK) :
    DEVBLK × List LogRec × Int :=
  if dev.alsix ≥ dev.alss then (autoload_close dev, [], -1)
  else autoload_mount_tape env tmh scsi { dev with alsix := dev.alsix + 1 } (dev.alsix + 1)

/-- The tokens of a record of the description file in the words of the
specification: the white space that ends the record is dropped and what
remains is cut at blanks and tabs, empty pieces left out. -/
def spec_autoload_tokens (rec : String) : List String :=
  ((((rec.toList.reverse.dropWhile isspace).reverse).splitOnP (fun c => isdelim c)).filter
    (fun t => t ≠ [])).map String.mk

/-- The slot that a line with the tokens `t` adds, in the words of the
specification: none for a blank line, for a line whose first token begins
with `#` and for a line whose first token is `*`; otherwise the slot with the
first token as file name and the remaining tokens as arguments. -/
def spec_autoload_slot (t : List String) : Option TAPEAUTOLOADENTRY :=
  match t with
  | [] => none
  | v :: args =>
    if v.toList.head? = some '#' then none
    else if v = "*" then none
    else some { filename := v, argv := args }

/-- The global arguments that a line with the tokens `t` adds, in the words
of the specification: the remaining tokens of a line whose first token is
`*`, nothing otherwise. -/
def spec_autoload_global (t : List String) : List String :=
  match t with
  | [] => []
  | v :: args => if v = "*" then args else []

/-- The autoloader of the device block holds the global arguments `G` and the
slots `S`: the arrays are NULL where the lists are empty and hold exactly the
lists otherwise, with the counts at their lengths. -/
def LoaderHolds (d : DEVBLK) (G : List String) (S : List TAPEAUTOLOADENTRY) : Prop :=
  d.al_argv = (if G = [] then none else some G) ∧ d.al_argc = G.length ∧
    d.als = (if S = [] then none else some S) ∧ (S ≠ [] → d.alss = S.length)

/-- The is-loaded entry of the media handler vector of a media kind:
`tmh_aws`, `tmh_het` and `tmh_oma` name `is_tapeloaded_filename`; the entry of
`tmh_scsi` names a function of another source file. -/
def tmh_tapeloaded (k : TAPEDEVT) : Option (DEVBLK → Bool) :=
  match k with
  | TAPEDEVT.AWSTAPE => some is_tapeloaded_filename
  | TAPEDEVT.HET => some is_tapeloaded_filename
  | TAPEDEVT.OMATAPE => some is_tapeloaded_filename
  | _ => none

/-! ## Host Interface Machine: constants and types -/

/-- Modelled from the spec: unit-status flag `ATTN` (attention), the macro
CSW_ATTN of a header that is not among the sources; the architected
channel-status bit value is used. -/
def CSW_ATTN : Nat := 0x80

/-- The macro QLEN of him.c. -/
def QLEN : Nat := 5

/-- The protocol number IPPROTO_TCP of the system header netinet/in.h. -/
def IPPROTO_TCP : Nat := 6

/-- The protocol number IPPROTO_UDP of the system header netinet/in.h. -/
def IPPROTO_UDP : Nat := 17

/-- The constant IPVERSION of the system header netinet/ip.h. -/
def IPVERSION : Nat := 4

/-- The constant MAXTTL of the system header netinet/ip.h. -/
def MAXTTL : Nat := 255

/-- The TCP flag TH_FIN of the system header netinet/tcp.h. -/
def TH_FIN : Nat := 0x01

/-- The TCP flag TH_SYN of the system header netinet/tcp.h. -/
def TH_SYN : Nat := 0x02

/-- The TCP flag TH_RST of the system header netinet/tcp.h. -/
def TH_RST : Nat := 0x04

/-- The TCP flag TH_PUSH of the system header netinet/tcp.h. -/
def TH_PUSH : Nat := 0x08

/-- The TCP flag TH_ACK of the system header netinet/tcp.h. -/
def TH_ACK : Nat := 0x10

/-- The TCP option kind TCPOPT_MAXSEG of the system header netinet/tcp.h. -/
def TCPOPT_MAXSEG : Nat := 2

/-- The address family AF_LOCAL of the system header sys/socket.h. -/
def AF_LOCAL : Nat := 1

/-- The address family AF_INET of the system header sys/socket.h. -/
def AF_INET : Nat := 2

/-- The address INADDR_ANY of the system header netinet/in.h. -/
def INADDR_ANY : Nat := 0

/-- The socket type SOCK_STREAM of the system header sys/socket.h. -/
def SOCK_STREAM : Nat := 1

/-- The socket type SOCK_DGRAM of the system header sys/socket.h. -/
def SOCK_DGRAM : Nat := 2

/-- The anonymous enumeration of the member `state` of `struct io_cb`. -/
inductive him_state where
  | SHUTDOWN | INITIALIZED | CONNECTED | CLOSING
  deriving DecidableEq, Repr

/-- The anonymous enumeration of the entries of `read_q` in `struct io_cb`. -/
inductive him_event where
  | EMPTY | CONFIG | MSS | ACK | FIN | FINISHED
  deriving DecidableEq, Repr

/-- The members of `struct sockaddr_in` that the handler uses.  `sin_port`
and `sin_addr` are kept in network byte order in C; here they are the numbers
that their bytes spell most significant byte first. -/
structure sockaddr_in where
  sin_family : Nat := 0
  sin_port : Nat := 0
  sin_addr : Nat := 0

/-- Embedding of `struct io_cb`.  `mts_header` is the stored packet header
as the 48 bytes of `struct packet_hdr`; `read_q` is the array of 16 queue
entries.  The defaults are the block after `memset (cb, 0, sizeof)`. -/
structure io_cb where
  sock : Int := 0
  protocol : Nat := 0
  state : him_state := him_state.SHUTDOWN
  passive : Bool := false
  server : Bool := false
  rnr : Bool := false
  watch_sock : Bool := false
  tn3270 : Bool := false
  unused_0 : Bool := false
  unused_1 : Bool := false
  unused_2 : Bool := false
  sin : sockaddr_in := {}
  mts_header : Nat → Nat := fun _ => 0
  read_q : List him_event := List.replicate 16 him_event.EMPTY
  max_q : Int := 0
  attn_rc : List Nat := List.replicate 4 0

/-- The members of the device block that the HIM handler uses.  The tape
handler has its own view of the same C structure, `DEVBLK` above. -/
structure HIM_DEVBLK where
  devnum : Nat := 0
  devtype : Nat := 0
  bufsize : Nat := 0
  buf : Nat → Nat := fun _ => 0
  numsense : Nat := 0
  sense : Nat → Nat := fun _ => 0
  devid : Nat → Nat := fun _ => 0
  numdevid : Nat := 0
  dev_data : io_cb := {}

/-- What the sockets library and the resolver answer during one call of the
handler.  `gethostbyname` is the first address of the host as the unsigned
number the handler reads from `h_addr`, or `none` when the lookup fails;
`socket` gives the descriptor for a socket type; `getsockname` the address
bound to a descriptor, or `none` for an error; `poll` tells whether the
socket has data; `recvfrom` and `read` are the lengths returned, with the
bytes received in `recvfrom_buf` and `read_buf` and the sender left in
`sin` by `recvfrom_sin`; `accept` is the new descriptor and `peername` the
address that `accept` and `getpeername` leave in `sin`. -/
structure HimNet where
  gethostbyname : Option Nat := none
  socket : Nat → Int := fun _ => 3
  getsockname : Int → sockaddr_in → Option sockaddr_in := fun _ a => some a
  poll : Bool := false
  recvfrom : Int := -1
  recvfrom_buf : Nat → Nat := fun _ => 0
  recvfrom_sin : sockaddr_in → sockaddr_in := fun a => a
  accept : Int := -1
  peername : sockaddr_in → sockaddr_in := fun a => a
  read : Int := -1
  read_buf : Nat → Nat := fun _ => 0

/-- The ways in which a call leaves the behaviour that C defines: a queue
scan or store behind the last entry of `read_q`, a NULL token handed to
`strcmp` or `strtol`, and a remainder by a zero window. -/
inductive him_fault where
  | QUEUE_BOUNDS | NULL_TOKEN | ZERO_WINDOW
  deriving DecidableEq, Repr

/-- The in-out parameters of `him_execute_ccw` after the call, with the
device block and the channel buffer. -/
structure him_ccw where
  dev : HIM_DEVBLK
  iobuf : Nat → Nat
  more : Nat
  unitstat : Nat
  residual : Nat

/-! ## Host Interface Machine: bytes of the packet header

`struct packet_hdr` is read and written through its bytes.  The offsets are
those of a little-endian build, which the source assumes: byte 0 holds the
flag bits of `struct buff_hdr`, byte 1 `buffer_number`, bytes 2-3
`buffer_length`; the IP header occupies bytes 4-23, the TCP or UDP header
begins at byte 24, and the option occupies bytes 44-47. -/

/-- The value `ntohs` gives for the 16-bit member stored at offset `i`. -/
def ntohs_at (b : Nat → Nat) (i : Nat) : Nat := b i * 256 + b (i + 1)

/-- Store `htons (v)` in the 16-bit member at offset `i`. -/
def htons_at (b : Nat → Nat) (i v : Nat) : Nat → Nat :=
  Function.update (Function.update b i (v / 256 % 256)) (i + 1) (v % 256)

/-- The value `ntohl` gives for the 32-bit member stored at offset `i`. -/
def ntohl_at (b : Nat → Nat) (i : Nat) : Nat :=
  ((b i * 256 + b (i + 1)) * 256 + b (i + 2)) * 256 + b (i + 3)

/-- Store `htonl (v)` in the 32-bit member at offset `i`. -/
def htonl_at (b : Nat → Nat) (i v : Nat) : Nat → Nat :=
  Function.update (Function.update (Function.update (Function.update b
    i (v / 16777216 % 256)) (i + 1) (v / 65536 % 256)) (i + 2) (v / 256 % 256)) (i + 3) (v % 256)

/-- Store the unsigned number `v` itself in the 32-bit member at offset `i`,
least significant byte first. -/
def host32_at (b : Nat → Nat) (i v : Nat) : Nat → Nat :=
  Function.update (Function.update (Function.update (Function.update b
    i (v % 256)) (i + 1) (v / 256 % 256)) (i + 2) (v / 65536 % 256)) (i + 3) (v / 16777216 % 256)

/-- The library function `memcpy (dst, src, n)` on byte arrays. -/
def memcpy (dst src : Nat → Nat) (n : Nat) : Nat → Nat :=
  fun i => if i < n then src i else dst i

/-- The bytes that `read` or `recvfrom` put at offset `off` when they return
`len`: nothing for a length that is not positive. -/
def recv_at (dst : Nat → Nat) (off : Nat) (data : Nat → Nat) (len : Int) : Nat → Nat :=
  fun i => if off ≤ i ∧ (i : Int) < off + len then data (i - off) else dst i

/-- Conversion of an `int` to `U16`. -/
def to_U16 (x : Int) : Nat := (x % 65536).toNat

/-- Conversion of an `int` or `long` to a 32-bit unsigned number. -/
def to_U32 (x : Int) : Nat := (x % 4294967296).toNat

/-- The member `him_hdr.tn3270_flag`. -/
def tn3270_flag (b : Nat → Nat) : Bool := b 0 &&& 0x08 ≠ 0

/-- The member `him_hdr.init_flag`. -/
def init_flag (b : Nat → Nat) : Bool := b 0 &&& 0x10 ≠ 0

/-- The member `him_hdr.finished_flag`. -/
def finished_flag (b : Nat → Nat) : Bool := b 0 &&& 0x20 ≠ 0

/-- The member `him_hdr.rnr_flag`. -/
def rnr_flag (b : Nat → Nat) : Bool := b 0 &&& 0x40 ≠ 0

/-- The member `him_hdr.urgent_flag`. -/
def urgent_flag (b : Nat → Nat) : Bool := b 0 &&& 0x80 ≠ 0

/-- The member `him_hdr.buffer_number`. -/
def buffer_number (b : Nat → Nat) : Nat := b 1

/-- The member `him_hdr.buffer_length`, after `ntohs`. -/
def buffer_length (b : Nat → Nat) : Nat := ntohs_at b 2

/-- The member `ip_header.ip_v`. -/
def ip_v (b : Nat → Nat) : Nat := b 4 / 16 % 16

/-- The member `ip_header.ip_hl`. -/
def ip_hl (b : Nat → Nat) : Nat := b 4 % 16

/-- The member `ip_header.ip_len`, after `ntohs`. -/
def ip_len (b : Nat → Nat) : Nat := ntohs_at b 6

/-- The member `ip_header.ip_id`, after `ntohs`. -/
def ip_id (b : Nat → Nat) : Nat := ntohs_at b 8

/-- The member `ip_header.ip_ttl`. -/
def ip_ttl (b : Nat → Nat) : Nat := b 12

/-- The member `ip_header.ip_p`. -/
def ip_p (b : Nat → Nat) : Nat := b 13

/-- The member `ip_header.ip_src`, most significant byte first. -/
def ip_src (b : Nat → Nat) : Nat := ntohl_at b 16

/-- The member `ip_header.ip_dst`, most significant byte first. -/
def ip_dst (b : Nat → Nat) : Nat := ntohl_at b 20

/-- The member `sh.tcp_header.th_sport`, which is also `uh_sport`. -/
def th_sport (b : Nat → Nat) : Nat := ntohs_at b 24

/-- The member `sh.tcp_header.th_dport`, which is also `uh_dport`. -/
def th_dport (b : Nat → Nat) : Nat := ntohs_at b 26

/-- The member `sh.tcp_header.th_seq`, after `ntohl`. -/
def th_seq (b : Nat → Nat) : Nat := ntohl_at b 28

/-- The member `sh.tcp_header.th_ack`, after `ntohl`. -/
def th_ack (b : Nat → Nat) : Nat := ntohl_at b 32

/-- The member `sh.tcp_header.th_off`. -/
def th_off (b : Nat → Nat) : Nat := b 36 / 16 % 16

/-- The member `sh.tcp_header.th_flags`. -/
def th_flags (b : Nat → Nat) : Nat := b 37

/-- The member `sh.tcp_header.th_win`, after `ntohs`. -/
def th_win (b : Nat → Nat) : Nat := ntohs_at b 38

/-- The member `tcp_optcode`. -/
def tcp_optcode (b : Nat → Nat) : Nat := b 44

/-- The member `tcp_optlen`. -/
def tcp_optlen (b : Nat → Nat) : Nat := b 45

/-- The member `tcp_optval`, after `ntohs`. -/
def tcp_optval (b : Nat → Nat) : Nat := ntohs_at b 46

/-- The assignment `sh.tcp_header.th_off = v`: the upper half of byte 36. -/
def set_th_off (b : Nat → Nat) (v : Nat) : Nat → Nat :=
  Function.update b 36 (b 36 % 16 + 16 * (v % 16))

/-- The two statements that begin every frame built from the stored
header: `buffer_number++` and `ip_id = htons (ntohs (ip_id) + 1)`. -/
def next_frame (h : Nat → Nat) : Nat → Nat :=
  htons_at (Function.update h 1 ((h 1 + 1) % 256)) 8 (ntohs_at h 8 + 1)

/-! ## Host Interface Machine: the event queue -/

/-- The loop `for (i = 0; cb_ptr->read_q[i] != EMPTY; i++) ;`: the index of
the first EMPTY entry.  When no entry of the array is EMPTY the scan leaves
the array. -/
def read_q_scan (q : List him_event) : Except him_fault Nat :=
  if q.indexOf him_event.EMPTY < q.length then .ok (q.indexOf him_event.EMPTY)
  else .error him_fault.QUEUE_BOUNDS

/-- The two statements `for (i = 0; cb_ptr->read_q[i] != EMPTY; i++) ;
cb_ptr->read_q[i] = e;` with which the WRITE command queues an event. -/
def read_q_put (cb : io_cb) (e : him_event) : Except him_fault io_cb := do
  let i ← read_q_scan cb.read_q
  .ok { cb with read_q := cb.read_q.set i e }

/-- The loop `for (i = 0; i < 15; i++) read_q[i] = read_q[i+1];` with which
the READ command removes the first entry. -/
def read_q_shift (q : List him_event) : List him_event :=
  (q.drop 1).take 15 ++ q.drop 15

/-- The events waiting in the queue: the entries before the first EMPTY. -/
def read_q_events (q : List him_event) : List him_event :=
  q.takeWhile (fun e => e ≠ him_event.EMPTY)

/-! ## Host Interface Machine: configuration -/

/-- Embedding of `him_init_handler (dev, argc, argv)`, which uses neither
argument: the device block and the return value. -/
def him_init_handler (dev : HIM_DEVBLK) : HIM_DEVBLK × Int :=
  let devid := Function.update (Function.update (Function.update (Function.update
    dev.devid 0 0xFF) 1 0x32) 2 0x74) 3 0x1d
  let devid := Function.update (Function.update (Function.update devid
    4 (dev.devtype >>> 8 % 256)) 5 (dev.devtype &&& 0xFF)) 6 0x01
  ({ dev with bufsize := 2048, numsense := 1, devid := devid, numdevid := 7, dev_data := {} }, 0)

/-- Embedding of `him_halt_device (dev)`. -/
def him_halt_device (dev : HIM_DEVBLK) : HIM_DEVBLK :=
  { dev with dev_data := { dev.dev_data with unused_0 := true } }

/-- Embedding of `start_sock_thread (dev)` on the control block.  What the
thread it creates does afterwards is not part of the model. -/
def start_sock_thread (cb : io_cb) : io_cb := { cb with watch_sock := true }

/-- Embedding of `get_socket (protocol, port, sin, qlen)`: the descriptor and
the address stored through `sin`.  `qlen` only goes to `listen`. -/
def get_socket (net : HimNet) (protocol port _qlen : Nat) : Int × sockaddr_in :=
  let our_sin : sockaddr_in := { sin_family := AF_INET, sin_port := port, sin_addr := INADDR_ANY }
  let socktype := if protocol = IPPROTO_UDP then SOCK_DGRAM else SOCK_STREAM
  let s := net.socket socktype
  (s, (net.getsockname s our_sin).getD our_sin)

/-- Embedding of `return_mss (cb_ptr, mss)`: the control block, the frame
stored through `mss` and the return value `sizeof (struct packet_hdr)`. -/
def return_mss (cb : io_cb) (mss : Nat → Nat) : io_cb × (Nat → Nat) × Nat :=
  let cb := { cb with mts_header := next_frame cb.mts_header }
  let mss := memcpy mss cb.mts_header 48
  let mss := htons_at (htons_at mss 6 (48 - 4)) 2 (48 - 4)
  let mss := Function.update mss 12 MAXTTL
  let mss := set_th_off mss 6
  let mss := Function.update mss 37 (mss 37 ||| TH_SYN)
  let mss := Function.update mss 44 TCPOPT_MAXSEG
  let mss := Function.update mss 45 4
  let mss := htons_at mss 46 1460
  (cb, mss, 48)

/-- The library function `tolower` in the C locale, on a byte. -/
def tolower (b : Nat) : Nat := if 65 ≤ b ∧ b ≤ 90 then b + 32 else b

/-- Whether a byte is one of the delimiters `" ="` that `parse_config_data`
passes to `strtok`. -/
def config_delim (b : Nat) : Bool := b = 0x20 || b = 0x3D

/-- The first index from `i` on whose byte is not a delimiter. -/
def strtok_skip (s : Nat → Nat) : Nat → Nat → Nat
  | 0, i => i
  | fuel + 1, i => if config_delim (s i) then strtok_skip s fuel (i + 1) else i

/-- The first index from `i` on whose byte is a delimiter or the terminator. -/
def strtok_end (s : Nat → Nat) : Nat → Nat → Nat
  | 0, i => i
  | fuel + 1, i => if s i = 0 ∨ config_delim (s i) then i else strtok_end s fuel (i + 1)

/-- The library function `strtok (..., " =")` on the string memory `s`, with
the position `save` it keeps between calls: the index of the token (or
`none` for NULL), the memory with the terminator written behind the token,
and the new position.  `fuel` bounds the two scans. -/
def strtok (fuel : Nat) (s : Nat → Nat) (save : Nat) : Option Nat × (Nat → Nat) × Nat :=
  let b := strtok_skip s fuel save
  if s b = 0 then (none, s, b)
  else
    let e := strtok_end s fuel b
    if s e = 0 then (some b, s, e) else (some b, Function.update s e 0, e + 1)

/-- Whether `strcmp` finds the string at index `i` of `s` equal to `l`. -/
def strcmp_eq (s : Nat → Nat) (i : Nat) (l : List Nat) : Bool :=
  (List.range l.length).all (fun k => s (i + k) = l.getD k 0) && s (i + l.length) = 0

/-- The first index from `i` on whose byte is not white space. -/
def strtol_skip (s : Nat → Nat) : Nat → Nat → Nat
  | 0, i => i
  | fuel + 1, i => if isspace (Char.ofNat (s i)) then strtol_skip s fuel (i + 1) else i

/-- The decimal digits from index `i` on: their value added to `acc` and the
index behind them. -/
def strtol_digits (s : Nat → Nat) : Nat → Nat → Nat → Nat × Nat
  | 0, i, acc => (acc, i)
  | fuel + 1, i, acc =>
    if 48 ≤ s i ∧ s i ≤ 57 then strtol_digits s fuel (i + 1) (acc * 10 + (s i - 48))
    else (acc, i)

/-- The library function `strtol (p, &p, 10)` on the string memory `s`: the
value, limited to the range of `long`, and the end pointer, which is `p`
itself when no digits are found. -/
def strtol (fuel : Nat) (s : Nat → Nat) (p : Nat) : Int × Nat :=
  let j := strtol_skip s fuel p
  let k := if s j = 45 ∨ s j = 43 then j + 1 else j
  if 48 ≤ s k ∧ s k ≤ 57 then
    let r := strtol_digits s fuel k 0
    if s j = 45 then (max (-(r.1 : Int)) (-9223372036854775808), r.2)
    else (min (r.1 : Int) 9223372036854775807, r.2)
  else (0, p)

/-- The table `lhs_tbl` of `parse_config_data`. -/
def lhs_tbl : List String :=
  ["type", "protocol", "active", "passive", "local_socket", "foreign_socket", "server"]

/-- The loop `for (i = 0; strcmp (lhs_token, lhs_tbl[i]) != 0 && i < LHS_SERVER; i++);`
of `parse_config_data`: the index of the table entry equal to the token, and
LHS_SERVER for a token that is not in the table. -/
def lhs_code (s : Nat → Nat) (tok : Nat) : Nat :=
  min ((lhs_tbl.map (fun l => strcmp_eq s tok (lit l))).indexOf true) 6

/-- The locals and the memory that the token loop of `parse_config_data`
carries from one token to the next. -/
structure parse_vars where
  cb : io_cb
  s : Nat → Nat
  save : Nat
  ip_addr : Nat

/-- The loop `for (j = 0; j < 4; j++) { rhs_token++; ip_addr = (ip_addr << 8)
| strtol (rhs_token, &rhs_token, 10); }`: the address and the pointer after
`n` rounds. -/
def parse_ip_addr (fuel : Nat) (s : Nat → Nat) : Nat → Nat → Nat → Nat × Nat
  | 0, ip_addr, p => (ip_addr, p)
  | n + 1, ip_addr, p =>
    let r := strtol fuel s (p + 1)
    parse_ip_addr fuel s n ((ip_addr <<< 8) % 4294967296 ||| to_U32 r.1) r.2

/-- The body of the `do` loop of `parse_config_data` for the token at index
`tok`. -/
def parse_config_token (fuel : Nat) (our_ipaddr : Nat) (v : parse_vars) (tok : Nat) :
    Except him_fault parse_vars :=
  match lhs_code v.s tok with
  | 0 =>
    let r := strtok fuel v.s v.save
    .ok { v with s := r.2.1, save := r.2.2 }
  | 1 =>
    match strtok fuel v.s v.save with
    | (none, _, _) => .error him_fault.NULL_TOKEN
    | (some rhs, s, save) =>
      let p := if strcmp_eq s rhs (lit "udp") then IPPROTO_UDP else IPPROTO_TCP
      .ok { v with
            cb := { v.cb with protocol := p, mts_header := Function.update v.cb.mts_header 13 p }
            s := s
            save := save }
  | 2 => .ok { v with cb := { v.cb with passive := false } }
  | 3 => .ok { v with cb := { v.cb with passive := true } }
  | 4 =>
    match strtok fuel v.s v.save with
    | (none, _, _) => .error him_fault.NULL_TOKEN
    | (some rhs, s, save) =>
      let port := strtol fuel s (rhs + 1)
      let a := parse_ip_addr fuel s 4 v.ip_addr port.2
      let dst := if a.1 ≠ INADDR_ANY then a.1 else our_ipaddr
      .ok { v with
            cb := { v.cb with
                    mts_header := htons_at (host32_at v.cb.mts_header 20 dst) 26 (to_U16 port.1) }
            s := s
            save := save
            ip_addr := a.1 }
  | 5 =>
    match strtok fuel v.s v.save with
    | (none, _, _) => .error him_fault.NULL_TOKEN
    | (some rhs, s, save) =>
      let port := strtol fuel s (rhs + 1)
      let a := parse_ip_addr fuel s 4 v.ip_addr port.2
      .ok { v with
            cb := { v.cb with
                    mts_header := htons_at (host32_at v.cb.mts_header 16 a.1) 24 (to_U16 port.1) }
            s := s
            save := save
            ip_addr := a.1 }
  | _ => .ok { v with cb := { v.cb with server := true } }

/-- The loop `do { ... } while ((lhs_token = strtok (NULL, " =")));` of
`parse_config_data`, entered with the token at index `tok`.  Every round
consumes at least one byte of the string, so `fuel` rounds suffice for a
string shorter than `fuel`. -/
def parse_config_loop (n : Nat) (our_ipaddr : Nat) :
    Nat → parse_vars → Nat → Except him_fault parse_vars
  | 0, v, _ => .ok v
  | fuel + 1, v, tok => do
    let v ← parse_config_token n our_ipaddr v tok
    let r := strtok n v.s v.save
    match r.1 with
    | none => .ok { v with s := r.2.1, save := r.2.2 }
    | some t => parse_config_loop n our_ipaddr fuel { v with s := r.2.1, save := r.2.2 } t

/-- The header that `parse_config_data` builds in the control block before it
reads the string. -/
def parse_config_header (h : Nat → Nat) (our_ipaddr : Nat) : Nat → Nat :=
  let h := Function.update h 1 1
  let h := htons_at h 2 40
  let h := Function.update h 4 (16 * IPVERSION + 5)
  let h := htons_at h 6 40
  let h := htons_at h 8 1
  let h := Function.update h 12 58
  let h := Function.update h 13 IPPROTO_TCP
  let h := host32_at h 20 our_ipaddr
  let h := htonl_at h 28 1
  let h := set_th_off h 5
  let h := Function.update h 37 TH_ACK
  htons_at h 38 (6 * 4096)

/-- Embedding of `parse_config_data (cb_ptr, config_string, cs_len)`: the
control block, the string memory and the return value, which is always the
initial value 1 of `success`.  A string without a token hands NULL to the
first `strcmp`. -/
def parse_config_data (env : Env) (net : HimNet) (cb : io_cb) (config_string : Nat → Nat)
    (cs_len : Nat) : Except him_fault (io_cb × (Nat → Nat) × Int) :=
  let our_ipaddr := net.gethostbyname.getD 0
  let cb := { cb with mts_header := parse_config_header cb.mts_header our_ipaddr }
  let s : Nat → Nat := fun i =>
    if i < cs_len then tolower (env.guest_to_host (config_string i))
    else if i = cs_len then 0 else config_string i
  let r := strtok (cs_len + 1) s 0
  match r.1 with
  | none => .error him_fault.NULL_TOKEN
  | some tok => do
    let v ← parse_config_loop (cs_len + 1) our_ipaddr (cs_len + 1)
      { cb := cb, s := r.2.1, save := r.2.2, ip_addr := 0 } tok
    .ok (v.cb, v.s, 1)

/-- The reply `Failed` that `config_subchan` builds over the configuration
data, in EBCDIC. -/
def config_failed (config_data : Nat → Nat) : Nat → Nat :=
  let r := Function.update config_data 0 (config_data 0 ||| 0x10)
  let r := Function.update r 1 1
  let r := htons_at r 2 6
  fun i => if 4 ≤ i ∧ i < 10 then [0xc6, 0x81, 0x89, 0x93, 0x85, 0x84].getD (i - 4) 0 else r i

/-- The reply `Ok` that `config_subchan` builds over the configuration
data, a `struct config_reply`. -/
def config_ok (env : Env) (cb : io_cb) (config_data : Nat → Nat) : Nat → Nat :=
  let r : Nat → Nat := fun i => if i < env.sizeof_config_reply then 0 else config_data i
  let r := Function.update r 0 0x10
  let r := Function.update r 1 1
  let r := htons_at r 2 (env.sizeof_config_reply - 4)
  let r := Function.update (Function.update r 4 0xd6) 5 0x92
  let r := Function.update r 6 AF_LOCAL
  let r := Function.update r 7 cb.protocol
  let r := Function.update (Function.update r 8 (cb.mts_header 26)) 9 (cb.mts_header 27)
  fun i => if 10 ≤ i ∧ i < 14 then cb.mts_header (i + 10) else r i

/-- The two branches of `config_subchan` behind the call of
`parse_config_data`, whose return value is `success`. -/
def config_reply (env : Env) (net : HimNet) (cb : io_cb) (config_data : Nat → Nat)
    (success : Int) : io_cb × (Nat → Nat) :=
  if success = 0 then (({ sock := -1 } : io_cb), config_failed config_data)
  else
    let cb :=
      if !cb.server && (!cb.passive || th_dport cb.mts_header = 0) then
        let r := get_socket net cb.protocol (th_dport cb.mts_header) (if cb.passive then QLEN else 0)
        { cb with sock := r.1, sin := r.2, mts_header := htons_at cb.mts_header 26 r.2.sin_port }
      else cb
    ({ cb with state := him_state.INITIALIZED }, config_ok env cb config_data)

/-- Embedding of `config_subchan (cb_ptr, config_data)`: the control block
and the channel buffer, in which the reply replaces the configuration
data. -/
def config_subchan (env : Env) (net : HimNet) (cb : io_cb) (config_data : Nat → Nat) :
    Except him_fault (io_cb × (Nat → Nat)) :=
  let cd_len := ntohs_at config_data 2
  if cb.state ≠ him_state.SHUTDOWN then
    .ok (({ sock := -1 } : io_cb), config_failed config_data)
  else do
    let p ← parse_config_data env net cb (fun i => config_data (i + 4)) cd_len
    .ok (config_reply env net p.1 (fun i => if i < 4 then config_data i else p.2.1 (i - 4)) p.2.2)

/-! ## Host Interface Machine: channel commands -/

/-- The statement `if (writelen > 0) { ... }` in the TCP branch of the WRITE
command: behind the `write` to the socket, an ACK is queued when the data
sent reach the end of the window. -/
def him_write_ack (cb : io_cb) (writelen : Int) : Except him_fault io_cb :=
  if writelen > 0 ∧ cb.state = him_state.CONNECTED then
    let window : Int := th_win cb.mts_header
    let ack_seq : Int :=
      if th_ack cb.mts_header < 2147483648 then th_ack cb.mts_header
      else (th_ack cb.mts_header : Int) - 4294967296
    if window = 0 then .error him_fault.ZERO_WINDOW
    else if window - Int.tmod ack_seq window < writelen + 4096 then
      read_q_put cb him_event.ACK
    else .ok cb
  else .ok cb

/-- The body of `if (buff_ptr->sh.tcp_header.th_flags & TH_FIN)` in the TCP
branch of the WRITE command. -/
def him_write_fin (cb : io_cb) : Except him_fault io_cb :=
  if cb.state = him_state.CONNECTED then do
    let cb ← read_q_put cb him_event.FIN
    read_q_put { cb with state := him_state.CLOSING } him_event.FINISHED
  else read_q_put cb him_event.FINISHED

/-- The first packet on a TCP subchannel in state INITIALIZED: the control
block after the destination is taken from the packet and `connect` is
called, before the MSS event is queued. -/
def him_write_connect (cb : io_cb) (iobuf : Nat → Nat) : io_cb :=
  let h : Nat → Nat := fun i => if 16 ≤ i ∧ i < 20 then iobuf (i + 4) else cb.mts_header i
  let h := Function.update (Function.update h 24 (iobuf 26)) 25 (iobuf 27)
  { cb with
    mts_header := h
    sin := { cb.sin with sin_addr := ip_dst iobuf, sin_port := th_dport iobuf }
    state := him_state.CONNECTED }

/-- The value of `writelen` in the TCP branch of the WRITE command:
`ntohs (buffer_length) - offset + 4` with
`offset = ((ip_hl + th_off) * 4) + 4`. -/
def him_writelen (iobuf : Nat → Nat) : Int :=
  buffer_length iobuf - (((ip_hl iobuf + th_off iobuf) * 4 + 4 : Nat) : Int) + 4

/-- The last branch of the WRITE command of `him_execute_ccw`, for a TCP
packet: the control block and the unit status. -/
def him_write_tcp (cb : io_cb) (iobuf : Nat → Nat) (unitstat : Nat) :
    Except him_fault (io_cb × Nat) :=
  if cb.state = him_state.INITIALIZED then do
    let cb ← read_q_put (him_write_connect cb iobuf) him_event.MSS
    .ok (cb, unitstat ||| CSW_ATTN)
  else if buffer_length iobuf > 4 then do
    let cb ← him_write_ack
      { cb with
        mts_header :=
          htonl_at cb.mts_header 32 (to_U32 (th_ack cb.mts_header + him_writelen iobuf)) }
      (him_writelen iobuf)
    if th_flags iobuf &&& TH_FIN ≠ 0 then do
      let cb ← him_write_fin cb
      .ok (cb, unitstat)
    else .ok (cb, unitstat)
  else .ok (cb, unitstat)

/-- The WRITE command (opcode 0x01) of `him_execute_ccw`. -/
def him_write (env : Env) (net : HimNet) (dev : HIM_DEVBLK) (iobuf : Nat → Nat) (more : Nat) :
    Except him_fault him_ccw :=
  let cb := dev.dev_data
  let unitstat := CSW_CE ||| CSW_DE
  if finished_flag iobuf then do
    let cb ← read_q_put cb him_event.FINISHED
    .ok ⟨{ dev with dev_data := cb }, iobuf, more, unitstat, 0⟩
  else if cb.state = him_state.CONNECTED ∧ rnr_flag iobuf then
    .ok ⟨{ dev with dev_data := { cb with watch_sock := false, rnr := true } }, iobuf, more,
      unitstat ||| CSW_UX, 0⟩
  else if cb.rnr ∧ ¬ rnr_flag iobuf then
    .ok ⟨{ dev with dev_data := { start_sock_thread cb with rnr := false } }, iobuf, more,
      unitstat, 0⟩
  else if init_flag iobuf then do
    let c ← config_subchan env net cb iobuf
    let cb ← read_q_put c.1 him_event.CONFIG
    .ok ⟨{ dev with buf := memcpy dev.buf c.2 (buffer_length c.2 + 4), dev_data := cb }, c.2, more,
      unitstat ||| CSW_ATTN, 0⟩
  else if cb.protocol = IPPROTO_UDP then
    if buffer_length iobuf > 4 then
      .ok ⟨{ dev with dev_data :=
              { cb with sin := { cb.sin with sin_port := th_dport iobuf, sin_addr := ip_dst iobuf } } },
        iobuf, more, unitstat, 0⟩
    else .ok ⟨dev, iobuf, more, unitstat, 0⟩
  else do
    let t ← him_write_tcp cb iobuf unitstat
    .ok ⟨{ dev with dev_data := t.1 }, iobuf, more, t.2, 0⟩

/-- The branch of the READ command of `him_execute_ccw` that serves the
first entry of the queue, up to the removal of that entry: the device
block, the channel buffer and `readlen`. -/
def him_read_event (dev : HIM_DEVBLK) (iobuf : Nat → Nat) : HIM_DEVBLK × (Nat → Nat) × Nat :=
  let cb := dev.dev_data
  match cb.read_q.headD him_event.EMPTY with
  | him_event.CONFIG =>
    let readlen := buffer_length dev.buf + 4
    (dev, memcpy iobuf dev.buf readlen, readlen)
  | him_event.MSS =>
    let r := return_mss cb iobuf
    ({ dev with dev_data := r.1 }, r.2.1, r.2.2)
  | him_event.ACK =>
    let cb := { cb with mts_header := next_frame cb.mts_header }
    ({ dev with dev_data := cb }, memcpy iobuf cb.mts_header 44, 44)
  | him_event.FIN =>
    let cb := { cb with mts_header := next_frame cb.mts_header }
    let iobuf := memcpy iobuf cb.mts_header 44
    let iobuf := Function.update iobuf 37 (iobuf 37 ||| TH_FIN)
    let cb := if cb.state = him_state.CONNECTED then { cb with state := him_state.CLOSING } else cb
    ({ dev with dev_data := cb }, iobuf, 44)
  | him_event.FINISHED =>
    let h := Function.update cb.mts_header 1 ((cb.mts_header 1 + 1) % 256)
    let h := Function.update h 0 (h 0 ||| 0x20)
    let h := Function.update (Function.update h 2 0) 3 0
    ({ dev with dev_data := ({ sock := -1 } : io_cb) }, memcpy iobuf h 4, 4)
  | him_event.EMPTY => (dev, iobuf, 0)

/-- The branches of the READ command of `him_execute_ccw` that are taken
with an empty queue: the control block, the channel buffer, the unit status
and the residual. -/
def him_read_socket (net : HimNet) (cb : io_cb) (count : Nat) (iobuf : Nat → Nat) (unitstat : Nat) :
    io_cb × (Nat → Nat) × Nat × Nat :=
  if cb.state = him_state.CLOSING then (cb, iobuf, unitstat ||| CSW_UX, count)
  else if ¬ net.poll then (cb, iobuf, unitstat ||| CSW_UX, count)
  else if cb.protocol = IPPROTO_UDP then
    let cb := { cb with mts_header := next_frame cb.mts_header }
    let iobuf := memcpy iobuf cb.mts_header 32
    let readlen := net.recvfrom
    let iobuf := recv_at iobuf 32 net.recvfrom_buf readlen
    let cb := { cb with sin := net.recvfrom_sin cb.sin }
    let iobuf := htons_at (htons_at iobuf 6 (to_U16 (readlen + 28))) 2 (to_U16 (readlen + 28))
    let iobuf := htonl_at iobuf 16 cb.sin.sin_addr
    let iobuf := htons_at iobuf 24 cb.sin.sin_port
    (cb, iobuf, unitstat, to_U16 (count - (readlen + 32)))
  else if cb.passive ∧ cb.state = him_state.INITIALIZED then
    let cb := { cb with sock := net.accept, state := him_state.CONNECTED, sin := net.peername cb.sin }
    let cb := { cb with
                mts_header := htons_at (htonl_at cb.mts_header 16 cb.sin.sin_addr) 24 cb.sin.sin_port }
    let r := return_mss cb iobuf
    (r.1, r.2.1, unitstat, to_U16 (count - r.2.2))
  else if cb.state = him_state.CONNECTED then
    let cb := { cb with mts_header := next_frame cb.mts_header }
    let iobuf := memcpy iobuf cb.mts_header 44
    let iobuf := Function.update iobuf 37 (iobuf 37 ||| TH_PUSH)
    let readlen := net.read
    let iobuf := recv_at iobuf 44 net.read_buf readlen
    if readlen > 0 then
      let cb := { cb with
                  mts_header := htonl_at cb.mts_header 28 (to_U32 (th_seq cb.mts_header + readlen)) }
      let iobuf := htons_at (htons_at iobuf 6 (to_U16 (readlen + 40))) 2 (to_U16 (readlen + 40))
      (cb, iobuf, unitstat, to_U16 (count - (readlen + 44)))
    else if readlen = 0 then
      ({ cb with state := him_state.CLOSING }, Function.update iobuf 37 (iobuf 37 ||| TH_FIN),
        unitstat, to_U16 (count - 44))
    else
      (cb, Function.update iobuf 37 (iobuf 37 ||| TH_RST), unitstat ||| CSW_UC, to_U16 (count - 44))
  else (cb, iobuf, unitstat ||| CSW_UX, count)

/-- The statement `cb_ptr->max_q = i > cb_ptr->max_q ? i : cb_ptr->max_q;` of
the READ command. -/
def him_read_max_q (dev : HIM_DEVBLK) (i : Nat) : HIM_DEVBLK :=
  { dev with dev_data :=
      { dev.dev_data with max_q := if (i : Int) > dev.dev_data.max_q then i
                                   else dev.dev_data.max_q } }

/-- The switch on the first entry of the queue in the READ command, with the
two statements behind it: the entry is removed and `readlen` is taken from
the residual. -/
def him_read_head (dev : HIM_DEVBLK) (count : Nat) (iobuf : Nat → Nat) (more unitstat : Nat) :
    him_ccw :=
  let r := him_read_event dev iobuf
  ⟨{ r.1 with dev_data := { r.1.dev_data with read_q := read_q_shift r.1.dev_data.read_q } },
    r.2.1, more, unitstat, to_U16 (count - r.2.2)⟩

/-- The branch `if (cb_ptr->read_q[0] != EMPTY)` of the READ command: the
size of the queue is recorded in `max_q`, then the first entry is served. -/
def him_read_queue (dev : HIM_DEVBLK) (count : Nat) (iobuf : Nat → Nat) (more unitstat : Nat) :
    Except him_fault him_ccw := do
  let i ← read_q_scan dev.dev_data.read_q
  .ok (him_read_head (him_read_max_q dev i) count iobuf more unitstat)

/-- The statement `if (cb_ptr->state != SHUTDOWN && !cb_ptr->watch_sock)
start_sock_thread (dev);` that ends the READ command. -/
def him_read_watch (r : him_ccw) : him_ccw :=
  if r.dev.dev_data.state ≠ him_state.SHUTDOWN ∧ ¬ r.dev.dev_data.watch_sock then
    { r with dev := { r.dev with dev_data := start_sock_thread r.dev.dev_data } }
  else r

/-- The READ command (opcodes 0x02, 0x06 and 0x0B) of `him_execute_ccw`. -/
def him_read (net : HimNet) (dev : HIM_DEVBLK) (count : Nat) (iobuf : Nat → Nat) (more : Nat) :
    Except him_fault him_ccw :=
  let unitstat := CSW_CE ||| CSW_DE
  if dev.dev_data.read_q.headD him_event.EMPTY ≠ him_event.EMPTY then do
    let r ← him_read_queue dev count iobuf more unitstat
    .ok (him_read_watch r)
  else
    let r := him_read_socket net dev.dev_data count iobuf unitstat
    .ok (him_read_watch ⟨{ dev with dev_data := r.1 }, r.2.1, more, r.2.2.1, r.2.2.2⟩)

/-- Embedding of `him_execute_ccw (dev, code, flags, chained, count, prevcode,
ccwseq, iobuf, more, unitstat, residual)`.  The parameters `flags`,
`chained`, `prevcode` and `ccwseq` are not referenced by the handler; `more`
and `residual` are the values behind these pointers at entry, and every
branch assigns `*unitstat`.  The result is the fault when the call leaves
the behaviour C defines. -/
def him_execute_ccw (env : Env) (net : HimNet) (dev : HIM_DEVBLK) (code count : Nat)
    (iobuf : Nat → Nat) (more residual : Nat) : Except him_fault him_ccw :=
  if code = 0x01 then him_write env net dev iobuf more
  else if code = 0x02 ∨ code = 0x06 ∨ code = 0x0B then him_read net dev count iobuf more
  else if code = 0x1B then .ok ⟨dev, iobuf, more, CSW_CE ||| CSW_DE, 0⟩
  else if code = 0x03 ∨ code = 0x4B then .ok ⟨dev, iobuf, more, CSW_CE ||| CSW_DE, 0⟩
  else if code = 0x2B then
    .ok ⟨{ dev with dev_data := { dev.dev_data with unused_0 := false } }, iobuf, more,
      CSW_CE ||| CSW_DE, 0⟩
  else if code = 0x04 then
    let num := if count < dev.numsense then count else dev.numsense
    .ok ⟨{ dev with sense := fun _ => 0 }, memcpy iobuf dev.sense num,
      if count < dev.numsense then 1 else more, CSW_CE ||| CSW_DE, count - num⟩
  else if code = 0xE4 then
    let num := if count < dev.numdevid then count else dev.numdevid
    .ok ⟨dev, memcpy iobuf dev.devid num,
      if count < dev.numdevid then 1 else more, CSW_CE ||| CSW_DE, count - num⟩
  else
    .ok ⟨{ dev with sense := Function.update dev.sense 0 SENSE_CR }, iobuf, more,
      CSW_CE ||| CSW_DE ||| CSW_UC, residual⟩

/-- One channel command as the channel hands it to the handler, with what
the sockets library answers while it runs. -/
structure him_call where
  net : HimNet := {}
  code : Nat
  count : Nat := 0
  iobuf : Nat → Nat := fun _ => 0
  more : Nat := 0
  residual : Nat := 0

/-- The device block after a sequence of channel commands, each executed by
`him_execute_ccw`; the first fault ends the run. -/
def him_run (env : Env) : HIM_DEVBLK → List him_call → Except him_fault HIM_DEVBLK
  | dev, [] => .ok dev
  | dev, c :: cs => do
    let r ← him_execute_ccw env c.net dev c.code c.count c.iobuf c.more c.residual
    him_run env r.dev cs

/-! ## Frame conditions -/

/-- The display state, the autoloader, the display feature, the device number
and the file name of two device blocks agree. -/
def SameDisplay (a b : DEVBLK) : Prop :=
  a.tapedisptype = b.tapedisptype ∧ a.tapedispflags = b.tapedispflags ∧
    a.tapemsg1 = b.tapemsg1 ∧ a.tapemsg2 = b.tapemsg2 ∧ a.als = b.als ∧
    a.displayfeat = b.displayfeat ∧ a.devnum = b.devnum ∧ a.filename = b.filename

/-- The `open` entry of the media handler leaves the display state, the
autoloader, the display feature, the device number and the file name of the
device block as they are. -/
def OpenKeepsDisplay (h : Host) : Prop := ∀ d, SameDisplay (h.tmh_open d) d

/-- The result of a call has the property `P` whenever the call returns;
nothing is said of a call that leaves the behaviour C defines. -/
def WhenOk {α : Type} (x : Except him_fault α) (P : α → Prop) : Prop := ∀ a, x = .ok a → P a

/-- A control block in state SHUTDOWN holds no descriptor: `sock` is -1. -/
def ShutdownFree (cb : io_cb) : Prop := cb.state = him_state.SHUTDOWN → cb.sock = -1

/-! ## Concrete inputs used by the closed theorems -/

/-- A media handler whose tape is loaded and which reports that the
end-of-tape marker has been passed. -/
def hostEot : Host :=
  { tapeloaded := fun _ => true, passedeot := fun _ => true, sts_bot := fun _ => false }

/-- A media handler whose tape is loaded and which reports that the
end-of-tape marker has not been passed. -/
def hostNoEot : Host :=
  { tapeloaded := fun _ => true, passedeot := fun _ => false, sts_bot := fun _ => false }

/-- A 3480 drive on an AWS file. -/
def dev3480 : DEVBLK := { devtype := 0x3480, filename := "tape.aws" }

/-- A 3590 drive on a SCSI tape that uses 22-bit block-ids. -/
def scsi3590on22 : DEVBLK :=
  { devtype := 0x3590, tapedevt := TAPEDEVT.SCSITAPE, stape_blkid_32 := false }

/-- A 3590 drive on a SCSI tape that uses 32-bit block-ids. -/
def scsi3590on32 : DEVBLK :=
  { devtype := 0x3590, tapedevt := TAPEDEVT.SCSITAPE, stape_blkid_32 := true }

/-- A 3480 drive on a SCSI tape that uses 32-bit block-ids. -/
def scsi3480on32 : DEVBLK :=
  { devtype := 0x3480, tapedevt := TAPEDEVT.SCSITAPE, stape_blkid_32 := true }

/-- A 3480 drive on a SCSI tape that uses 22-bit block-ids. -/
def scsi3480on22 : DEVBLK :=
  { devtype := 0x3480, tapedevt := TAPEDEVT.SCSITAPE, stape_blkid_32 := false }

/-- A 9347 streaming drive without a tape. -/
def dev9347 : DEVBLK := { devtype := 0x9347 }

/-- A 3420 drive on an AWS file, all sense bytes clear. -/
def dev3420loaded : DEVBLK := { devtype := 0x3420, filename := "tape.aws" }

/-- The surroundings with the identity as code page translation and a regular
expression library that matches nothing. -/
def envDefault : Env := {}

/-- A media handler whose drive holds no tape. -/
def hostUnloaded : Host :=
  { tapeloaded := fun _ => false, passedeot := fun _ => false, sts_bot := fun _ => false }

/-- A 3480 drive with a display on an open AWS file, no autoloader. -/
def devDisplay : DEVBLK :=
  { devtype := 0x3480, filename := "tape.aws", fd := 3, displayfeat := true }

/-- A first message of eight characters. -/
def displayMsg1 : List Nat := lit "KVOL001S"

/-- A second message of eight characters. -/
def displayMsg2 : List Nat := lit "MVOL002S"

/-- A loaded 3480 drive with a display in the state UMOUNTMOUNT, a request
pending, message 1 "KEEP001" and message 2 "SCRTCH  ". -/
def devKeep : DEVBLK :=
  { devtype := 0x3480, filename := "tape.aws", fd := 3, displayfeat := true,
    tapedisptype := TAPEDISPTYP.UMOUNTMOUNT, tapedispflags := TAPEDISPFLG_REQAUTOMNT,
    tapemsg1 := lit "KEEP001" ++ [0, 0], tapemsg2 := lit "SCRTCH  " ++ [0] }

/-- An unloaded 3480 drive with a display in the state UMOUNTMOUNT, a request
pending, message 1 "KEEP001" and message 2 "SCRTCH  ". -/
def devScratch : DEVBLK :=
  { devtype := 0x3480, displayfeat := true,
    tapedisptype := TAPEDISPTYP.UMOUNTMOUNT, tapedispflags := TAPEDISPFLG_REQAUTOMNT,
    tapemsg1 := lit "KEEP001" ++ [0, 0], tapemsg2 := lit "SCRTCH  " ++ [0] }

/-- The autoloader slot A, without arguments of its own. -/
def slotA : TAPEAUTOLOADENTRY := { filename := "A", argv := [] }

/-- The autoloader slot B, without arguments of its own. -/
def slotB : TAPEAUTOLOADENTRY := { filename := "B", argv := [] }

/-- The autoloader slot C, without arguments of its own. -/
def slotC : TAPEAUTOLOADENTRY := { filename := "C", argv := [] }

/-- A 3480 drive whose autoloader holds the slots A, B, C and the global
argument `rw`, slot 0 current. -/
def devLoader : DEVBLK :=
  { devtype := 0x3480, als := some [slotA, slotB, slotC], alss := 3,
    al_argv := some ["rw"], al_argc := 1, alsix := 0 }

/-- The same drive with slot 2 (C) mounted. -/
def devLoaderLast : DEVBLK :=
  { devtype := 0x3480, filename := "C", als := some [slotA, slotB, slotC], alss := 3,
    al_argv := some ["rw"], al_argc := 1, alsix := 2 }

/-- A media handler for tape files whose `open` entry gives a drive with a
file name the descriptor 3 and leaves a drive without a tape as it is. -/
def hostOpens : Host :=
  { tapeloaded := is_tapeloaded_filename, passedeot := fun _ => false,
    sts_bot := fun _ => false,
    tmh_open := fun d => if d.filename = TAPE_UNLOADED then d else { d with fd := 3 } }

/-- Surroundings in which the description file `tapes.txt` holds a comment
line, a line of global arguments, a blank line and three slot lines. -/
def envLoader : Env :=
  { autoload_file := fun n =>
      if n = "tapes.txt" then some ["# tapes\n", "* rw\n", "\n", "A\n", "B  ro\tnoring \n", "C\n"]
      else none }

/-- A channel buffer that begins with the bytes `l` and is zero behind them. -/
def frame (l : List Nat) : Nat → Nat := fun i => l.getD i 0

/-- The HIM device after `him_init_handler`. -/
def devHim : HIM_DEVBLK := (him_init_handler {}).1

/-- A WRITE whose header carries only `finished_flag`. -/
def finishedWrite : him_call := { code := 0x01, count := 4, iobuf := frame [0x20, 1] }

/-- The configuration string of an active TCP subchannel. -/
def configText : String :=
  "type=internet protocol=tcp active local_socket=(0,0.0.0.0) foreign_socket=(23,10.0.0.1)"

/-- The init WRITE that sends `configText` (the code page of `envDefault`
leaves the bytes as they are). -/
def configWrite : him_call :=
  { code := 0x01, count := 4 + configText.length,
    iobuf := frame ([0x10, 1, 0, configText.length] ++ lit configText) }

/-- A stored header as `parse_config_data` and the first packet leave it:
version 4, header length 5, TTL 58, protocol TCP, from 10.0.0.1 port 23 to
127.0.0.1, sequence number 1, data offset 5, flags ACK, window 24576. -/
def headerTcp : Nat → Nat :=
  frame ([0, 1, 0, 40] ++ [0x45, 0, 0, 40] ++ [0, 1, 0, 0] ++ [58, 6, 0, 0] ++ [10, 0, 0, 1] ++
    [127, 0, 0, 1] ++ [0, 23, 0, 0] ++ [0, 0, 0, 1] ++ [0, 0, 0, 0] ++ [0x50, 0x10, 0x60, 0])

/-- A connected TCP subchannel with an empty queue. -/
def devConnected : HIM_DEVBLK :=
  { (him_init_handler {}).1 with
    dev_data := { sock := 3, protocol := IPPROTO_TCP, state := him_state.CONNECTED,
                  watch_sock := true, mts_header := headerTcp } }

/-- A header-only TCP packet with the flags FIN and ACK. -/
def packetFin : Nat → Nat :=
  frame ([0, 2, 0, 40] ++ [0x45, 0, 0, 40] ++ [0, 7, 0, 0] ++ [58, 6, 0, 0] ++ [127, 0, 0, 1] ++
    [10, 0, 0, 1] ++ [0x12, 0x34, 0, 23] ++ [0, 0, 0, 9] ++ [0, 0, 0, 1] ++ [0x50, 0x11, 0x60, 0])

/-- A connected TCP subchannel whose queue holds the events `l`. -/
def devQueue (l : List him_event) : HIM_DEVBLK :=
  { devConnected with
    dev_data := { devConnected.dev_data with
                  read_q := l ++ List.replicate (16 - l.length) him_event.EMPTY } }

/-- Surroundings whose parameter parser knows `method=9` (entry `method` with
the number 9) and `ro` and takes every other parameter for unrecognised. -/
def envParms : Env :=
  { parser := fun s =>
      if s = "method=9" then (TDPARM_METHOD, 9)
      else if s = "ro" then (TDPARM_RO, 0) else (TDPARM_NONE, 0) }

/-- A configuration string with an unknown protocol and an unknown token. -/
def invalidText : String := "type=internet protocol=xyz foo"

/-- The init WRITE that sends `invalidText`. -/
def invalidWrite : him_call :=
  { code := 0x01, count := 4 + invalidText.length,
    iobuf := frame ([0x10, 1, 0, invalidText.length] ++ lit invalidText) }

/-- A connected TCP subchannel on which the guest has sent 2^31 + 16382
bytes: the acknowledgement number of the stored header is 0x80003FFE. -/
def devAckHigh : HIM_DEVBLK :=
  { devConnected with
    dev_data := { devConnected.dev_data with mts_header := htonl_at headerTcp 32 0x80003FFE } }

/-- A TCP packet with the flags PUSH and ACK and one byte of data. -/
def packetData : Nat → Nat :=
  frame ([0, 3, 0, 41] ++ [0x45, 0, 0, 41] ++ [0, 8, 0, 0] ++ [58, 6, 0, 0] ++ [127, 0, 0, 1] ++
    [10, 0, 0, 1] ++ [0x12, 0x34, 0, 23] ++ [0, 0, 0, 9] ++ [0, 0, 0, 1] ++ [0x50, 0x18, 0x60, 0] ++
    [0x41])

/-- The device whose control block has been reset, as a READ of FINISHED and
a refused init WRITE leave it. -/
def devReset : HIM_DEVBLK := { devHim with dev_data := ({ sock := -1 } : io_cb) }

/-- A READ of up to 100 bytes. -/
def readCall : him_call := { code := 0x02, count := 100 }

/-- The configuration string of a server subchannel. -/
def serverText : String := "type=internet protocol=tcp server"

/-- The init WRITE that sends `serverText`. -/
def serverWrite : him_call :=
  { code := 0x01, count := 4 + serverText.length,
    iobuf := frame ([0x10, 1, 0, serverText.length] ++ lit serverText) }

/-! ## Lemmas on the device-type search -/

/-- The device types of `supportedDevtypes` are column A of the eleven records
that precede the end marker. -/
theorem supportedDevtypes_eq_columnA :
    supportedDevtypes = (List.range 11).map (fun k => TapeDevtypeList.getD (5 * k) 0) := by
  decide

/-- The search finds the record of a listed device type and finds nothing for
any other device type. -/
theorem findDevtype_cases (devtype : Nat) :
    (devtype ∈ supportedDevtypes ∧ ∃ k, k < 11 ∧
        findDevtype devtype devtypeRecords 0 = some (5 * k) ∧
        TapeDevtypeList.getD (5 * k) 0 = devtype) ∨
      (devtype ∉ supportedDevtypes ∧ findDevtype devtype devtypeRecords 0 = none) := by
  by_cases h : devtype ∈ supportedDevtypes
  · left
    refine ⟨h, ?_⟩
    simp only [supportedDevtypes, List.mem_cons, List.mem_singleton, List.not_mem_nil,
      or_false] at h
    rcases h with h | h | h | h | h | h | h | h | h | h | h <;> subst h
    · exact ⟨0, by decide⟩
    · exact ⟨1, by decide⟩
    · exact ⟨2, by decide⟩
    · exact ⟨3, by decide⟩
    · exact ⟨4, by decide⟩
    · exact ⟨5, by decide⟩
    · exact ⟨6, by decide⟩
    · exact ⟨7, by decide⟩
    · exact ⟨8, by decide⟩
    · exact ⟨9, by decide⟩
    · exact ⟨10, by decide⟩
  · right
    refine ⟨h, ?_⟩
    simp only [supportedDevtypes, List.mem_cons, List.mem_singleton, List.not_mem_nil,
      or_false, not_or] at h
    obtain ⟨h0, h1, h2, h3, h4, h5, h6, h7, h8, h9, h10⟩ := h
    simp [findDevtype, devtypeRecords, TapeDevtypeList, TAPEDEVTYPELIST_ENTRYSIZE,
      Ne.symm h0, Ne.symm h1, Ne.symm h2, Ne.symm h3, Ne.symm h4, Ne.symm h5, Ne.symm h6,
      Ne.symm h7, Ne.symm h8, Ne.symm h9, Ne.symm h10]

/-- A search that has found a record finds the same record with more fuel. -/
theorem findDevtype_mono (devtype : Nat) (fuel i j k : Nat)
    (hf : findDevtype devtype fuel i = some j) :
    findDevtype devtype (fuel + k) i = some j := by
  induction fuel generalizing i with
  | zero => simp [findDevtype] at hf
  | succ n ih =>
    have e : n + 1 + k = (n + k) + 1 := by omega
    rw [e]
    unfold findDevtype at hf ⊢
    split_ifs at hf ⊢ with h1 h2
    · exact hf
    · exact ih _ hf

/-- The fuel `devtypeRecords` is enough: the loop always leaves at a matching
record or at the end marker, so more fuel changes nothing. -/
theorem findDevtype_fuel (devtype k : Nat) :
    findDevtype devtype (devtypeRecords + k) 0 = findDevtype devtype devtypeRecords 0 := by
  rcases findDevtype_cases devtype with ⟨_, i, _, hi, _⟩ | ⟨hn, h2⟩
  · rw [hi]; exact findDevtype_mono _ _ _ _ _ hi
  · rw [h2]
    simp only [supportedDevtypes, List.mem_cons, List.mem_singleton, List.not_mem_nil,
      or_false, not_or] at hn
    obtain ⟨h0, h1, h2, h3, h4, h5, h6, h7, h8, h9, h10⟩ := hn
    have e : devtypeRecords + k = k + 12 := by
      simp [devtypeRecords, TapeDevtypeList, TAPEDEVTYPELIST_ENTRYSIZE]; omega
    rw [e]
    simp [findDevtype, TapeDevtypeList, TAPEDEVTYPELIST_ENTRYSIZE,
      Ne.symm h0, Ne.symm h1, Ne.symm h2, Ne.symm h3, Ne.symm h4, Ne.symm h5, Ne.symm h6,
      Ne.symm h7, Ne.symm h8, Ne.symm h9, Ne.symm h10]

/-! ## Command validity -/

set_option maxRecDepth 100000 in
/-- Every entry of every validity table is at most 5. -/
theorem table_entries_le_five : ∀ t ∈ TapeCommandTable, ∀ x ∈ t, x ≤ 5 := by decide

/-- Reading a table whose entries are at most 5 gives at most 5 at any index. -/
theorem getD_le_five (t : List Nat) (h : ∀ x ∈ t, x ≤ 5) (c : Nat) : t.getD c 0 ≤ 5 := by
  rw [List.getD_eq_getElem?_getD]
  cases hc : t[c]? with
  | none => simp
  | some v =>
    have := List.getElem?_mem hc
    simpa using h v this

/-- The residual unit status of the device type of record `k` is read from
columns C and D of that record. -/
theorem rustat_of_record (k code : Nat) (hk : k < 11) :
    (TapeCommandIsValid code (TapeDevtypeList.getD (5 * k) 0)).2
      = ((if TapeDevtypeList.getD (5 * k + 2) 0 = 1 then CSW_UC else 0)
          ||| (if TapeDevtypeList.getD (5 * k + 3) 0 = 1 then CSW_CUE else 0)) := by
  interval_cases k <;> rfl

/-- Claim C1: for every CCW opcode 0..255 and every device type of the
device-type list, the return code of TapeCommandIsValid is one of 0, 1, 2, 3,
4, 5. -/
theorem TapeCommandIsValid_rc_range (c devtype : Nat) (_hc : c < 256)
    (_hd : devtype ∈ supportedDevtypes) :
    (TapeCommandIsValid c devtype).1 ∈ [0, 1, 2, 3, 4, 5] := by
  have hle : (TapeCommandIsValid c devtype).1 ≤ 5 := by
    unfold TapeCommandIsValid
    cases findDevtype devtype devtypeRecords 0 with
    | none => simp
    | some i =>
      simp only
      apply getD_le_five
      intro x hx
      by_cases ht : TapeDevtypeList.getD (i + 1) 0 < TapeCommandTable.length
      · have hm : TapeCommandTable.getD (TapeDevtypeList.getD (i + 1) 0) []
            ∈ TapeCommandTable := by
          rw [List.getD_eq_getElem?_getD, List.getElem?_eq_getElem ht]
          exact List.getElem_mem ht
        exact table_entries_le_five _ hm x hx
      · rw [List.getD_eq_getElem?_getD, List.getElem?_eq_none (by omega)] at hx
        simp at hx
  generalize (TapeCommandIsValid c devtype).1 = r at hle
  interval_cases r <;> simp

/-- Witness of C1 at the rewind opcode of a 3420. -/
theorem TapeCommandIsValid_rc_range_witness :
    0x07 < 256 ∧ 0x3420 ∈ supportedDevtypes ∧
      (TapeCommandIsValid 0x07 0x3420).1 ∈ [0, 1, 2, 3, 4, 5] :=
  ⟨by decide, by decide, TapeCommandIsValid_rc_range 0x07 0x3420 (by decide) (by decide)⟩

/-- Claim C2: for device type 0x3420 TapeCommandIsValid returns 5 for opcode
0x07 (rewind), 0 for opcode 0x00, and a value among 1 and 3 for opcode 0x03
(no-op); the value for the no-op is 1. -/
theorem TapeCommandIsValid_3420_opcodes :
    (TapeCommandIsValid 0x07 0x3420).1 = 5 ∧
    (TapeCommandIsValid 0x00 0x3420).1 = 0 ∧
    (TapeCommandIsValid 0x03 0x3420).1 ∈ [1, 3] ∧
    (TapeCommandIsValid 0x03 0x3420).1 = 1 := by
  decide

/-- Claim C3: the listed device types are column A of the eleven records; for
the device type of each record TapeCommandIsValid stores as residual unit
status UC if column C of the record is 1, or-ed with CUE if column D is 1, and
0 for a column that is not 1; for a device type that is not listed it returns
0 and stores 0, whatever the opcode. -/
theorem TapeCommandIsValid_rustat (code : Nat) :
    supportedDevtypes = (List.range 11).map (fun k => TapeDevtypeList.getD (5 * k) 0) ∧
    (∀ k, k < 11 →
      (TapeCommandIsValid code (TapeDevtypeList.getD (5 * k) 0)).2
        = ((if TapeDevtypeList.getD (5 * k + 2) 0 = 1 then CSW_UC else 0)
            ||| (if TapeDevtypeList.getD (5 * k + 3) 0 = 1 then CSW_CUE else 0))) ∧
    (∀ devtype, devtype ∉ supportedDevtypes → TapeCommandIsValid code devtype = (0, 0)) := by
  refine ⟨supportedDevtypes_eq_columnA, fun k hk => rustat_of_record k code hk, ?_⟩
  intro devtype h
  rcases findDevtype_cases devtype with ⟨h1, _⟩ | ⟨_, h2⟩
  · exact absurd h1 h
  · simp [TapeCommandIsValid, h2]

/-- Witness of C3: a 3420 (record 2) gets UC and CUE, a 3480 (record 5) gets
nothing, and the unlisted device type 0x3380 is invalid with residual 0. -/
theorem TapeCommandIsValid_rustat_witness :
    (TapeCommandIsValid 0x0F 0x3420).2 = CSW_UC ||| CSW_CUE ∧
    (TapeCommandIsValid 0x0F 0x3480).2 = 0 ∧
    TapeCommandIsValid 0x0F 0x3380 = (0, 0) :=
  ⟨(TapeCommandIsValid_rustat 0x0F).2.1 2 (by decide),
   (TapeCommandIsValid_rustat 0x0F).2.1 5 (by decide),
   (TapeCommandIsValid_rustat 0x0F).2.2 0x3380 (by decide)⟩

/-! ## Block-id translation -/

set_option maxRecDepth 100000 in
/-- Byte arithmetic of `(x << 2) & 0xFC`. -/
theorem byte_shl2_mask : ∀ x, x < 256 → (x <<< 2) &&& 0xFC = (x % 64) * 4 := by decide

set_option maxRecDepth 100000 in
/-- Byte arithmetic of `(x >> 6) & 0x03`. -/
theorem byte_shr6_mask : ∀ x, x < 256 → (x >>> 6) &&& 0x03 = x / 64 := by decide

set_option maxRecDepth 100000 in
/-- Byte arithmetic of `x & 0x3F`. -/
theorem byte_mask3F : ∀ x, x < 256 → x &&& 0x3F = x % 64 := by decide

set_option maxRecDepth 100000 in
/-- Byte arithmetic of `(x >> 2) & 0x3F`. -/
theorem byte_shr2_mask : ∀ x, x < 256 → (x >>> 2) &&& 0x3F = x / 4 := by decide

set_option maxRecDepth 100000 in
/-- Byte arithmetic of `(x << 6) & 0xC0`. -/
theorem byte_shl6_mask : ∀ x, x < 256 → (x <<< 6) &&& 0xC0 = (x % 4) * 64 := by decide

set_option maxRecDepth 100000 in
/-- Or-ing six high bits with two low bits adds them. -/
theorem or_hi6_lo2 : ∀ a, a < 64 → ∀ b, b < 4 → (a * 4) ||| b = a * 4 + b := by decide

set_option maxRecDepth 100000 in
/-- Or-ing two high bits with six low bits adds them. -/
theorem or_hi2_lo6 : ∀ a, a < 4 → ∀ b, b < 64 → (a * 64) ||| b = a * 64 + b := by decide

/-- The bytes of `blockid_32_to_22` in arithmetic form. -/
theorem blockid_32_to_22_arith (b0 b1 b2 b3 : Nat) (h0 : b0 < 256) (h1 : b1 < 256) :
    blockid_32_to_22 [b0, b1, b2, b3] = [(b0 % 64) * 4 + b1 / 64, b1 % 64, b2, b3] := by
  simp only [blockid_32_to_22, List.getD_cons_zero, List.getD_cons_succ]
  rw [byte_shl2_mask b0 h0, byte_shr6_mask b1 h1, byte_mask3F b1 h1,
    or_hi6_lo2 (b0 % 64) (Nat.mod_lt _ (by norm_num)) (b1 / 64) (by omega)]

/-- The bytes of `blockid_22_to_32` in arithmetic form. -/
theorem blockid_22_to_32_arith (b0 b1 b2 b3 : Nat) (h0 : b0 < 256) (h1 : b1 < 256) :
    blockid_22_to_32 [b0, b1, b2, b3] = [b0 / 4, (b0 % 4) * 64 + b1 % 64, b2, b3] := by
  simp only [blockid_22_to_32, List.getD_cons_zero, List.getD_cons_succ]
  rw [byte_shr2_mask b0 h0, byte_shl6_mask b0 h0, byte_mask3F b1 h1,
    or_hi2_lo6 (b0 % 4) (Nat.mod_lt _ (by norm_num)) (b1 % 64) (Nat.mod_lt _ (by norm_num))]

/-- Claim C4: for every four-byte big-endian block-id b of value at most
2^30 - 1, converting b to the 22-bit format and back to the 32-bit format
gives b again. -/
theorem blockid_32_22_32_roundtrip (b0 b1 b2 b3 : Nat)
    (h0 : b0 < 256) (h1 : b1 < 256) (_h2 : b2 < 256) (_h3 : b3 < 256)
    (hv : be32 [b0, b1, b2, b3] ≤ 2 ^ 30 - 1) :
    blockid_22_to_32 (blockid_32_to_22 [b0, b1, b2, b3]) = [b0, b1, b2, b3] := by
  simp only [be32, List.getD_cons_zero, List.getD_cons_succ] at hv
  have hb0 : b0 < 64 := by omega
  rw [blockid_32_to_22_arith b0 b1 b2 b3 h0 h1,
    blockid_22_to_32_arith _ _ b2 b3 (by omega) (by omega)]
  have e0 : (b0 % 64 * 4 + b1 / 64) / 4 = b0 := by omega
  have e1 : (b0 % 64 * 4 + b1 / 64) % 4 * 64 + b1 % 64 % 64 = b1 := by omega
  rw [e0, e1]

/-- Witness of C4 at the largest 30-bit block-id, 0x3FFFFFFF. -/
theorem blockid_32_22_32_roundtrip_witness :
    be32 [0x3F, 0xFF, 0xFF, 0xFF] ≤ 2 ^ 30 - 1 ∧
      blockid_22_to_32 (blockid_32_to_22 [0x3F, 0xFF, 0xFF, 0xFF]) = [0x3F, 0xFF, 0xFF, 0xFF] :=
  ⟨by decide, blockid_32_22_32_roundtrip 0x3F 0xFF 0xFF 0xFF (by decide) (by decide)
    (by decide) (by decide) (by decide)⟩

/-- Counterexample to C5 as stated: the 22-bit block-id 01 40 00 00, whose
format mode is 01, comes back from the 32-bit format as 01 00 00 00. -/
theorem blockid_22_32_22_loses_format_mode :
    blockid_32_to_22 (blockid_22_to_32 [0x01, 0x40, 0x00, 0x00]) = [0x01, 0x00, 0x00, 0x00] ∧
    blockid_32_to_22 (blockid_22_to_32 [0x01, 0x40, 0x00, 0x00]) ≠ [0x01, 0x40, 0x00, 0x00] := by
  decide

/-- Claim C5, amended: for every four-byte block-id x in the 22-bit layout
whose format-mode bits (bits 8-9, the two high bits of byte 1) are zero,
converting x to the 32-bit format and back to the 22-bit format gives x
again. -/
theorem blockid_22_32_22_roundtrip_format0 (b0 b1 b2 b3 : Nat)
    (h0 : b0 < 256) (h1 : b1 < 64) (_h2 : b2 < 256) (_h3 : b3 < 256) :
    blockid_32_to_22 (blockid_22_to_32 [b0, b1, b2, b3]) = [b0, b1, b2, b3] := by
  rw [blockid_22_to_32_arith b0 b1 b2 b3 h0 (by omega),
    blockid_32_to_22_arith _ _ b2 b3 (by omega) (by omega)]
  have e0 : b0 / 4 % 64 * 4 + (b0 % 4 * 64 + b1 % 64) / 64 = b0 := by omega
  have e1 : (b0 % 4 * 64 + b1 % 64) % 64 = b1 := by omega
  rw [e0, e1]

/-- Witness of the amended C5 at wrap 1, segment 127, format mode 00 and the
largest block number. -/
theorem blockid_22_32_22_roundtrip_format0_witness :
    blockid_32_to_22 (blockid_22_to_32 [0xFF, 0x3F, 0xFF, 0xFF]) = [0xFF, 0x3F, 0xFF, 0xFF] :=
  blockid_22_32_22_roundtrip_format0 0xFF 0x3F 0xFF 0xFF (by decide) (by decide) (by decide)
    (by decide)

/-- Claim C6: read as big-endian 32-bit integers, blockid_22_to_32 maps x to
((x >> 24) << 22) | (x & 0x3FFFFF) and blockid_32_to_22 maps y to
(((y >> 22) & 0xFF) << 24) | (y & 0x3FFFFF); the 22-bit block-id 01 00 00 00
converts to the 32-bit block-id 00 40 00 00, which converts back to it. -/
theorem blockid_conversions_be32 :
    (∀ b0 b1 b2 b3 : Nat, b0 < 256 → b1 < 256 → b2 < 256 → b3 < 256 →
      be32 (blockid_22_to_32 [b0, b1, b2, b3])
        = ((be32 [b0, b1, b2, b3] >>> 24) <<< 22) ||| (be32 [b0, b1, b2, b3] &&& 0x3FFFFF)) ∧
    (∀ b0 b1 b2 b3 : Nat, b0 < 256 → b1 < 256 → b2 < 256 → b3 < 256 →
      be32 (blockid_32_to_22 [b0, b1, b2, b3])
        = (((be32 [b0, b1, b2, b3] >>> 22) &&& 0xFF) <<< 24)
            ||| (be32 [b0, b1, b2, b3] &&& 0x3FFFFF)) ∧
    blockid_22_to_32 [0x01, 0x00, 0x00, 0x00] = [0x00, 0x40, 0x00, 0x00] ∧
    blockid_32_to_22 [0x00, 0x40, 0x00, 0x00] = [0x01, 0x00, 0x00, 0x00] := by
  refine ⟨?_, ?_, by decide, by decide⟩
  · intro b0 b1 b2 b3 h0 h1 _ _
    rw [blockid_22_to_32_arith b0 b1 b2 b3 h0 h1]
    simp only [be32, List.getD_cons_zero, List.getD_cons_succ]
    generalize hX : ((b0 * 256 + b1) * 256 + b2) * 256 + b3 = X
    have hm : X &&& 0x3FFFFF = X % 2 ^ 22 := Nat.and_pow_two_sub_one_eq_mod X 22
    rw [hm, Nat.shiftRight_eq_div_pow, Nat.shiftLeft_eq, Nat.mul_comm _ (2 ^ 22),
      ← Nat.mul_add_lt_is_or (Nat.mod_lt _ (by norm_num))]
    omega
  · intro b0 b1 b2 b3 h0 h1 _ _
    rw [blockid_32_to_22_arith b0 b1 b2 b3 h0 h1]
    simp only [be32, List.getD_cons_zero, List.getD_cons_succ]
    generalize hX : ((b0 * 256 + b1) * 256 + b2) * 256 + b3 = X
    have hm : X &&& 0x3FFFFF = X % 2 ^ 22 := Nat.and_pow_two_sub_one_eq_mod X 22
    have hm8 : (X >>> 22) &&& 0xFF = (X >>> 22) % 2 ^ 8 := Nat.and_pow_two_sub_one_eq_mod _ 8
    have hlt : X % 2 ^ 22 < 2 ^ 24 :=
      lt_of_lt_of_le (Nat.mod_lt _ (by norm_num)) (by norm_num)
    rw [hm, hm8, Nat.shiftRight_eq_div_pow, Nat.shiftLeft_eq, Nat.mul_comm _ (2 ^ 24),
      ← Nat.mul_add_lt_is_or hlt]
    omega

/-- Witness of C6 at the 22-bit block-id FF 7F 12 34 and at the 32-bit
block-id 3F C0 12 34. -/
theorem blockid_conversions_be32_witness :
    be32 (blockid_22_to_32 [0xFF, 0x7F, 0x12, 0x34])
      = ((be32 [0xFF, 0x7F, 0x12, 0x34] >>> 24) <<< 22)
          ||| (be32 [0xFF, 0x7F, 0x12, 0x34] &&& 0x3FFFFF) ∧
    be32 (blockid_32_to_22 [0x3F, 0xC0, 0x12, 0x34])
      = (((be32 [0x3F, 0xC0, 0x12, 0x34] >>> 22) &&& 0xFF) <<< 24)
          ||| (be32 [0x3F, 0xC0, 0x12, 0x34] &&& 0x3FFFFF) :=
  ⟨blockid_conversions_be32.1 0xFF 0x7F 0x12 0x34 (by decide) (by decide) (by decide)
      (by decide),
   blockid_conversions_be32.2.1 0x3F 0xC0 0x12 0x34 (by decide) (by decide) (by decide)
      (by decide)⟩

/-- Claim C7: on a SCSI backing (in a build with SCSI tape support)
blockid_emulated_to_actual copies the block-id when the guest and backing
formats agree, applies blockid_32_to_22 for a 3590 guest on a 22-bit backing
and blockid_22_to_32 for another guest on a 32-bit backing, and
blockid_actual_to_emulated applies the opposite conversion in each of the four
cases; on a backing that is not SCSI both copy the block-id. -/
theorem blockid_translation_cases (dev : DEVBLK) (b0 b1 b2 b3 : Nat) (out : List Nat) :
    (dev.tapedevt = TAPEDEVT.SCSITAPE → dev.devtype = 0x3590 → dev.stape_blkid_32 = true →
      blockid_emulated_to_actual true dev [b0, b1, b2, b3] out = [b0, b1, b2, b3] ∧
      blockid_actual_to_emulated true dev [b0, b1, b2, b3] out = [b0, b1, b2, b3]) ∧
    (dev.tapedevt = TAPEDEVT.SCSITAPE → dev.devtype ≠ 0x3590 → dev.stape_blkid_32 = false →
      blockid_emulated_to_actual true dev [b0, b1, b2, b3] out = [b0, b1, b2, b3] ∧
      blockid_actual_to_emulated true dev [b0, b1, b2, b3] out = [b0, b1, b2, b3]) ∧
    (dev.tapedevt = TAPEDEVT.SCSITAPE → dev.devtype = 0x3590 → dev.stape_blkid_32 = false →
      blockid_emulated_to_actual true dev [b0, b1, b2, b3] out
        = blockid_32_to_22 [b0, b1, b2, b3] ∧
      blockid_actual_to_emulated true dev [b0, b1, b2, b3] out
        = blockid_22_to_32 [b0, b1, b2, b3]) ∧
    (dev.tapedevt = TAPEDEVT.SCSITAPE → dev.devtype ≠ 0x3590 → dev.stape_blkid_32 = true →
      blockid_emulated_to_actual true dev [b0, b1, b2, b3] out
        = blockid_22_to_32 [b0, b1, b2, b3] ∧
      blockid_actual_to_emulated true dev [b0, b1, b2, b3] out
        = blockid_32_to_22 [b0, b1, b2, b3]) ∧
    (dev.tapedevt ≠ TAPEDEVT.SCSITAPE → ∀ scsi : Bool,
      blockid_emulated_to_actual scsi dev [b0, b1, b2, b3] out = [b0, b1, b2, b3] ∧
      blockid_actual_to_emulated scsi dev [b0, b1, b2, b3] out = [b0, b1, b2, b3]) := by
  refine ⟨?_, ?_, ?_, ?_, ?_⟩
  · intro h1 h2 h3
    simp [blockid_emulated_to_actual, blockid_actual_to_emulated, h1, h2, h3, copy4]
  · intro h1 h2 h3
    simp [blockid_emulated_to_actual, blockid_actual_to_emulated, h1, h2, h3, copy4]
  · intro h1 h2 h3
    simp [blockid_emulated_to_actual, blockid_actual_to_emulated, h1, h2, h3]
  · intro h1 h2 h3
    simp [blockid_emulated_to_actual, blockid_actual_to_emulated, h1, h2, h3]
  · intro h1 scsi
    simp [blockid_emulated_to_actual, blockid_actual_to_emulated, h1, copy4]

/-- Witness of C7: the five cases at the block-id 01 00 00 2A, on the four
SCSI drives and on an AWS file. -/
theorem blockid_translation_cases_witness :
    (blockid_emulated_to_actual true scsi3590on32 [1, 0, 0, 42] [] = [1, 0, 0, 42] ∧
      blockid_actual_to_emulated true scsi3590on32 [1, 0, 0, 42] [] = [1, 0, 0, 42]) ∧
    (blockid_emulated_to_actual true scsi3480on22 [1, 0, 0, 42] [] = [1, 0, 0, 42] ∧
      blockid_actual_to_emulated true scsi3480on22 [1, 0, 0, 42] [] = [1, 0, 0, 42]) ∧
    (blockid_emulated_to_actual true scsi3590on22 [1, 0, 0, 42] []
        = blockid_32_to_22 [1, 0, 0, 42] ∧
      blockid_actual_to_emulated true scsi3590on22 [1, 0, 0, 42] []
        = blockid_22_to_32 [1, 0, 0, 42]) ∧
    (blockid_emulated_to_actual true scsi3480on32 [1, 0, 0, 42] []
        = blockid_22_to_32 [1, 0, 0, 42] ∧
      blockid_actual_to_emulated true scsi3480on32 [1, 0, 0, 42] []
        = blockid_32_to_22 [1, 0, 0, 42]) ∧
    (blockid_emulated_to_actual false dev3480 [1, 0, 0, 42] [] = [1, 0, 0, 42] ∧
      blockid_actual_to_emulated false dev3480 [1, 0, 0, 42] [] = [1, 0, 0, 42]) :=
  ⟨(blockid_translation_cases scsi3590on32 1 0 0 42 []).1 rfl rfl rfl,
   (blockid_translation_cases scsi3480on22 1 0 0 42 []).2.1 rfl (by decide) rfl,
   (blockid_translation_cases scsi3590on22 1 0 0 42 []).2.2.1 rfl rfl rfl,
   (blockid_translation_cases scsi3480on32 1 0 0 42 []).2.2.2.1 rfl (by decide) rfl,
   (blockid_translation_cases dev3480 1 0 0 42 []).2.2.2.2 (by decide) false⟩

/-! ## Sense building -/

/-- For a listed device type the search finds a record whose column E selects
an entry of the routing table. -/
theorem findDevtype_supported (devtype : Nat) (hd : devtype ∈ supportedDevtypes) :
    ∃ i f, findDevtype devtype devtypeRecords 0 = some i ∧
      TapeSenseTable.get? (TapeDevtypeList.getD (i + 4) 0) = some f ∧ f ∈ TapeSenseTable := by
  simp only [supportedDevtypes, List.mem_cons, List.mem_singleton, List.not_mem_nil, or_false] at hd
  rcases hd with h | h | h | h | h | h | h | h | h | h | h <;> subst h
  · exact ⟨0, build_sense_3410, by decide, rfl, by simp [TapeSenseTable]⟩
  · exact ⟨5, build_sense_3410, by decide, rfl, by simp [TapeSenseTable]⟩
  · exact ⟨10, build_sense_3420, by decide, rfl, by simp [TapeSenseTable]⟩
  · exact ⟨15, build_sense_3420, by decide, rfl, by simp [TapeSenseTable]⟩
  · exact ⟨20, build_sense_3420, by decide, rfl, by simp [TapeSenseTable]⟩
  · exact ⟨25, build_sense_3480_etal, by decide, rfl, by simp [TapeSenseTable]⟩
  · exact ⟨30, build_sense_3490, by decide, rfl, by simp [TapeSenseTable]⟩
  · exact ⟨35, build_sense_3590, by decide, rfl, by simp [TapeSenseTable]⟩
  · exact ⟨40, build_sense_Streaming, by decide, rfl, by simp [TapeSenseTable]⟩
  · exact ⟨45, build_sense_Streaming, by decide, rfl, by simp [TapeSenseTable]⟩
  · exact ⟨50, build_sense_Streaming, by decide, rfl, by simp [TapeSenseTable]⟩

/-- The routing table holds four distinct functions. -/
theorem mem_TapeSenseTable (f : TapeSenseFunc) (hf : f ∈ TapeSenseTable) :
    f = build_sense_3410 ∨ f = build_sense_3420 ∨ f = build_sense_3480_etal ∨
      f = build_sense_Streaming := by
  simp only [TapeSenseTable, List.mem_cons, List.mem_singleton, List.not_mem_nil, or_false] at hf
  have e1 : build_sense_3490 = build_sense_3480_etal := rfl
  have e2 : build_sense_3590 = build_sense_3480_etal := rfl
  rw [e1, e2] at hf
  tauto

/-- Every family sense builder answers StatusOnly with CE|DE. -/
theorem family_statusonly (f : TapeSenseFunc) (hf : f ∈ TapeSenseTable) (h : Host)
    (dev : DEVBLK) (us c : Nat) :
    (f h ERCode.STATUSONLY dev us c).2 = CSW_CE ||| CSW_DE := by
  rcases mem_TapeSenseTable f hf with e | e | e | e <;> subst e <;> rfl

/-- Every family sense builder answers ReadTM with CE|DE|UX. -/
theorem family_readtm (f : TapeSenseFunc) (hf : f ∈ TapeSenseTable) (h : Host)
    (dev : DEVBLK) (us c : Nat) :
    (f h ERCode.READTM dev us c).2 = CSW_CE ||| CSW_DE ||| CSW_UX := by
  rcases mem_TapeSenseTable f hf with e | e | e | e <;> subst e <;> rfl

/-- A family sense builder changes only the sense bytes and the sense length
of the device block. -/
theorem family_frame (f : TapeSenseFunc) (hf : f ∈ TapeSenseTable) (h : Host) (e : ERCode)
    (dev : DEVBLK) (us c : Nat) :
    ∃ s n, (f h e dev us c).1 = { dev with sense := s, numsense := n } := by
  rcases mem_TapeSenseTable f hf with e | e | e | e <;> subst e <;> exact ⟨_, _, rfl⟩

/-- The unit status of an unloaded 3480-class drive never holds UX. -/
theorem unloaded_3480_noUX (c : Nat) : unloaded_unitstat_3480 c &&& CSW_UX = 0 := by
  unfold unloaded_unitstat_3480; split_ifs <;> decide

/-- The unit status of an unloaded 3420-class or streaming drive never holds
UX. -/
theorem unloaded_3420_noUX (dev : DEVBLK) (c : Nat) : unloaded_unitstat_3420 dev c &&& CSW_UX = 0 := by
  unfold unloaded_unitstat_3420; split_ifs <;> decide

/-- For an error kind other than ReadTM, and among the twenty macros, no family
sense builder sets UX. -/
theorem family_noUX (f : TapeSenseFunc) (hf : f ∈ TapeSenseTable) (h : Host) (e : ERCode)
    (dev : DEVBLK) (us c : Nat) (h1 : e ≠ ERCode.READTM) (h2 : e ≠ ERCode.OTHER) :
    (f h e dev us c).2 &&& CSW_UX = 0 := by
  rcases mem_TapeSenseTable f hf with e' | e' | e' | e' <;> subst e' <;> cases e <;>
    first
    | exact absurd rfl h1
    | exact absurd rfl h2
    | exact unloaded_3480_noUX c
    | exact unloaded_3420_noUX dev c
    | (simp only [build_sense_3410, build_sense_3420, build_sense_3410_3420, build_sense_3480_etal,
        build_sense_Streaming]; decide)

/-- The unit status that `build_senseX` returns for a listed device type, in
terms of the family sense builder that the routing table selects. -/
theorem build_senseX_supported (h : Host) (e : ERCode) (dev : DEVBLK) (us c : Nat)
    (hd : dev.devtype ∈ supportedDevtypes) :
    ∃ f ∈ TapeSenseTable, (build_senseX h e dev us c).2 =
      if h.passedeot (f h e dev us c).1 = true ∧ e = ERCode.STATUSONLY ∧
          (c = 0x01 ∨ c = 0x17 ∨ c = 0x1F)
      then (f h e dev us c).2 ||| CSW_UX else (f h e dev us c).2 := by
  obtain ⟨i, f, hfind, hget, hmem⟩ := findDevtype_supported dev.devtype hd
  refine ⟨f, hmem, ?_⟩
  have key : ∀ r : DEVBLK × Nat,
      (if r.2 &&& CSW_UC ≠ 0 then (({ r.1 with sns_pending := 1 } : DEVBLK), r.2) else r).2
        = r.2 := by
    intro r; split_ifs <;> rfl
  unfold build_senseX
  simp only [hfind, hget]
  rw [key]
  by_cases hp : h.passedeot (f h e dev us c).1 = true
  · by_cases hc : e = ERCode.STATUSONLY ∧ (c = 0x01 ∨ c = 0x17 ∨ c = 0x1F)
    · rw [if_pos hp, if_pos hc, if_pos ⟨hp, hc⟩]
    · rw [if_pos hp, if_neg hc, if_neg (fun hh => hc hh.2)]
  · rw [if_neg hp, if_neg (fun hh => hp hh.1)]

/-- Claim C8: for every error kind, device, media handler, previous unit status
and opcode, if the unit status that build_senseX returns contains UC then the
device block it leaves has sns_pending = 1. -/
theorem build_senseX_sns_pending (h : Host) (e : ERCode) (dev : DEVBLK) (us c : Nat)
    (hUC : (build_senseX h e dev us c).2 &&& CSW_UC ≠ 0) :
    (build_senseX h e dev us c).1.sns_pending = 1 := by
  have key : ∀ r : DEVBLK × Nat,
      (if r.2 &&& CSW_UC ≠ 0 then (({ r.1 with sns_pending := 1 } : DEVBLK), r.2) else r).2
          &&& CSW_UC ≠ 0 →
      (if r.2 &&& CSW_UC ≠ 0 then (({ r.1 with sns_pending := 1 } : DEVBLK), r.2)
        else r).1.sns_pending = 1 := by
    intro r
    split_ifs with h1
    · intro _; rfl
    · intro h2; exact absurd h2 h1
  exact key _ hUC

/-- Witness of C8: a failed write on a 3480 whose sns_pending was 0. -/
theorem build_senseX_sns_pending_witness :
    dev3480.sns_pending = 0 ∧
    (build_senseX hostEot ERCode.WRITEFAIL dev3480 0 0x01).2 &&& CSW_UC ≠ 0 ∧
    (build_senseX hostEot ERCode.WRITEFAIL dev3480 0 0x01).1.sns_pending = 1 :=
  ⟨rfl, by decide, build_senseX_sns_pending hostEot ERCode.WRITEFAIL dev3480 0 0x01 (by decide)⟩

/-- Claim C9: for every listed device type and error kind StatusOnly, when the
handler reports passed-EOT for the device (whatever its sense bytes) and the
opcode is 0x01, 0x17 or 0x1F, build_senseX returns the unit status CE|DE|UX;
for any other opcode, or when the handler reports not passed-EOT, it returns
CE|DE, in which UX is not set. -/
theorem build_senseX_statusonly_UX (h : Host) (dev : DEVBLK) (us c : Nat)
    (hd : dev.devtype ∈ supportedDevtypes) :
    ((∀ s n, h.passedeot { dev with sense := s, numsense := n } = true) →
      (c = 0x01 ∨ c = 0x17 ∨ c = 0x1F) →
      (build_senseX h ERCode.STATUSONLY dev us c).2 = CSW_CE ||| CSW_DE ||| CSW_UX) ∧
    ((c ≠ 0x01 ∧ c ≠ 0x17 ∧ c ≠ 0x1F) →
      (build_senseX h ERCode.STATUSONLY dev us c).2 = CSW_CE ||| CSW_DE ∧
      (build_senseX h ERCode.STATUSONLY dev us c).2 &&& CSW_UX = 0) ∧
    ((∀ s n, h.passedeot { dev with sense := s, numsense := n } = false) →
      (build_senseX h ERCode.STATUSONLY dev us c).2 = CSW_CE ||| CSW_DE ∧
      (build_senseX h ERCode.STATUSONLY dev us c).2 &&& CSW_UX = 0) := by
  obtain ⟨f, hmem, hx⟩ := build_senseX_supported h ERCode.STATUSONLY dev us c hd
  obtain ⟨s, n, hfr⟩ := family_frame f hmem h ERCode.STATUSONLY dev us c
  have hst := family_statusonly f hmem h dev us c
  rw [hst, hfr] at hx
  refine ⟨?_, ?_, ?_⟩
  · intro hp hc
    rw [hx, if_pos ⟨hp s n, rfl, hc⟩]
  · rintro ⟨c1, c2, c3⟩
    have : (build_senseX h ERCode.STATUSONLY dev us c).2 = CSW_CE ||| CSW_DE := by
      rw [hx, if_neg]
      rintro ⟨-, -, hc | hc | hc⟩
      · exact c1 hc
      · exact c2 hc
      · exact c3 hc
    rw [this]; exact ⟨rfl, by decide⟩
  · intro hp
    have : (build_senseX h ERCode.STATUSONLY dev us c).2 = CSW_CE ||| CSW_DE := by
      rw [hx, if_neg]
      rintro ⟨hq, -, -⟩
      rw [hp s n] at hq
      exact Bool.noConfusion hq
    rw [this]; exact ⟨rfl, by decide⟩

/-- Witness of C9 on a 3480: a write past EOT, a read past EOT, and a write
before EOT. -/
theorem build_senseX_statusonly_UX_witness :
    (build_senseX hostEot ERCode.STATUSONLY dev3480 0 0x01).2
      = CSW_CE ||| CSW_DE ||| CSW_UX ∧
    (build_senseX hostEot ERCode.STATUSONLY dev3480 0 0x02).2 &&& CSW_UX = 0 ∧
    (build_senseX hostNoEot ERCode.STATUSONLY dev3480 0 0x01).2 &&& CSW_UX = 0 :=
  ⟨(build_senseX_statusonly_UX hostEot dev3480 0 0x01 (by decide)).1 (fun _ _ => rfl)
      (Or.inl rfl),
   ((build_senseX_statusonly_UX hostEot dev3480 0 0x02 (by decide)).2.1
      ⟨by decide, by decide, by decide⟩).2,
   ((build_senseX_statusonly_UX hostNoEot dev3480 0 0x01 (by decide)).2.2
      (fun _ _ => rfl)).2⟩

/-- Counterexample to C10 as stated: on a 3480 whose handler reports
passed-EOT, a write (opcode 0x01) that fails with error kind WriteFail returns
the unit status CE|DE|UC, which does not include UX. -/
theorem build_senseX_writefail_past_eot_no_UX :
    (∀ d, hostEot.passedeot d = true) ∧
    dev3480.devtype ∈ supportedDevtypes ∧
    (build_senseX hostEot ERCode.WRITEFAIL dev3480 0 0x01).2
      = CSW_CE ||| CSW_DE ||| CSW_UC ∧
    (build_senseX hostEot ERCode.WRITEFAIL dev3480 0 0x01).2 &&& CSW_UX = 0 := by
  refine ⟨fun _ => rfl, by decide, by decide, by decide⟩

/-- Claim C10, amended: for every listed device type and every data-write
opcode (0x01, 0x17, 0x1F), when the handler reports passed-EOT for the device
the unit status returned by build_senseX includes UX if the error kind is
StatusOnly or ReadTM, and does not include UX for any other of the twenty
error kinds. -/
theorem build_senseX_eot_write_UX (h : Host) (e : ERCode) (dev : DEVBLK) (us c : Nat)
    (hd : dev.devtype ∈ supportedDevtypes)
    (hp : ∀ s n, h.passedeot { dev with sense := s, numsense := n } = true)
    (hc : c = 0x01 ∨ c = 0x17 ∨ c = 0x1F) :
    ((e = ERCode.STATUSONLY ∨ e = ERCode.READTM) →
      (build_senseX h e dev us c).2 &&& CSW_UX = CSW_UX) ∧
    (e ≠ ERCode.STATUSONLY → e ≠ ERCode.READTM → e ≠ ERCode.OTHER →
      (build_senseX h e dev us c).2 &&& CSW_UX = 0) := by
  obtain ⟨f, hmem, hx⟩ := build_senseX_supported h e dev us c hd
  obtain ⟨s, n, hfr⟩ := family_frame f hmem h e dev us c
  refine ⟨?_, ?_⟩
  · rintro (he | he)
    · subst he
      rw [hx, family_statusonly f hmem, hfr, if_pos ⟨hp s n, rfl, hc⟩]
      decide
    · subst he
      rw [hx, family_readtm f hmem, if_neg (by simp)]
      decide
  · intro h1 h2 h3
    rw [hx, if_neg (by simp [h1])]
    exact family_noUX f hmem h e dev us c h2 h3

/-- Witness of the amended C10 on a 3480 past EOT: an erase gap that completes
with StatusOnly includes UX, a write tapemark that meets WriteProtect does
not. -/
theorem build_senseX_eot_write_UX_witness :
    (build_senseX hostEot ERCode.STATUSONLY dev3480 0 0x17).2 &&& CSW_UX = CSW_UX ∧
    (build_senseX hostEot ERCode.WRITEPROTECT dev3480 0 0x1F).2 &&& CSW_UX = 0 :=
  ⟨(build_senseX_eot_write_UX hostEot ERCode.STATUSONLY dev3480 0 0x17 (by decide)
      (fun _ _ => rfl) (Or.inr (Or.inl rfl))).1 (Or.inl rfl),
   (build_senseX_eot_write_UX hostEot ERCode.WRITEPROTECT dev3480 0 0x1F (by decide)
      (fun _ _ => rfl) (Or.inr (Or.inr rfl))).2 (by decide) (by decide) (by decide)⟩

/-! ## Bit masks -/


theorem and_or_absorb (x m : Nat) : (x &&& m) ||| m = m := by
  apply Nat.eq_of_testBit_eq; intro i
  simp [Nat.testBit_or, Nat.testBit_and]

theorem and_or_of_disjoint (x j m : Nat) (h : j &&& m = 0) : (x ||| j) &&& m = x &&& m := by
  rw [Nat.and_distrib_right, h, Nat.or_zero]

theorem and_or_of_sub (x j m : Nat) (h : j &&& m = m) : (x ||| j) &&& m = m := by
  rw [Nat.and_distrib_right, h, and_or_absorb]

theorem and_and_of_keep (x n m : Nat) (h : n &&& m = m) : (x &&& n) &&& m = x &&& m := by
  rw [Nat.and_assoc, h]

theorem and_and_of_clear (x n m : Nat) (h : n &&& m = 0) : (x &&& n) &&& m = 0 := by
  rw [Nat.and_assoc, h, Nat.and_zero]


/-! ## Sense building: post-fixup, read tapemark and write protection -/


set_option maxHeartbeats 4000000 in
theorem tua_3410_3420 (h : Host) (e : ERCode) (dev : DEVBLK) (us c : Nat) :
    (build_sense_3410_3420 h e dev us c).1.sense 1 &&& SENSE1_TAPE_TUA
        = dev.sense 1 &&& SENSE1_TAPE_TUA ∨
      (build_sense_3410_3420 h e dev us c).1.sense 1 &&& SENSE1_TAPE_TUA = 0 := by
  cases e <;> simp only [build_sense_3410_3420] <;> split_ifs <;>
    (simp (disch := decide) [Function.update, SENSE1_TAPE_TUA, SENSE1_TAPE_TUB, SENSE1_TAPE_FP,
      SENSE1_TAPE_LOADPT, and_or_of_sub, and_or_of_disjoint, and_and_of_keep, and_and_of_clear]
      <;> first | done | decide | (right; decide))

theorem unloaded_IR_FP (f : TapeSenseFunc) (hf : f ∈ TapeSenseTable) (h : Host) (e : ERCode)
    (dev : DEVBLK) (us c : Nat)
    (hu : dev.filename = TAPE_UNLOADED ∨ ∀ s, h.tapeloaded { dev with sense := s } = false) :
    (f h e dev us c).1.sense 0 &&& SENSE_IR = SENSE_IR ∧
    (f h e dev us c).1.sense 1 &&& SENSE1_TAPE_FP = SENSE1_TAPE_FP := by
  have hu2 : ∀ s, (dev.filename = TAPE_UNLOADED ∨
      h.tapeloaded { dev with sense := s } = false) := by
    intro s; rcases hu with hu | hu
    · exact Or.inl hu
    · exact Or.inr (hu s)
  rcases mem_TapeSenseTable f hf with e' | e' | e' | e' <;> subst e'
  · simp only [build_sense_3410, build_sense_3410_3420, if_pos (hu2 _)]
    constructor <;> split_ifs <;>
      simp (disch := decide) [Function.update, SENSE_IR, SENSE1_TAPE_FP, and_or_of_sub,
        and_or_of_disjoint, and_and_of_keep, and_and_of_clear]
  · simp only [build_sense_3420, build_sense_3410_3420, if_pos (hu2 _)]
    constructor <;> split_ifs <;>
      simp (disch := decide) [Function.update, SENSE_IR, SENSE1_TAPE_FP, and_or_of_sub,
        and_or_of_disjoint, and_and_of_keep, and_and_of_clear]
  · simp only [build_sense_3480_etal, if_pos (hu2 _)]
    constructor <;>
      simp (disch := decide) [Function.update, SENSE_IR, SENSE1_TAPE_FP, SENSE1_TAPE_TUA,
        and_or_of_sub, and_or_of_disjoint, and_and_of_keep, and_and_of_clear]
  · simp only [build_sense_Streaming, if_pos (hu2 _)]
    constructor <;> split_ifs <;>
      simp (disch := decide) [Function.update, SENSE_IR, SENSE1_TAPE_FP, SENSE1_TAPE_TUA,
        SENSE1_TAPE_TUB, notb, and_or_of_sub, and_or_of_disjoint, and_and_of_keep,
        and_and_of_clear]

theorem tua_3480 (h : Host) (e : ERCode) (dev : DEVBLK) (us c : Nat) :
    (build_sense_3480_etal h e dev us c).1.sense 1 &&& SENSE1_TAPE_TUA = SENSE1_TAPE_TUA := by
  simp only [build_sense_3480_etal, Function.update_same]
  exact and_or_of_sub _ _ _ (by decide)

theorem tua_streaming (h : Host) (e : ERCode) (dev : DEVBLK) (us c : Nat) :
    ((dev.filename ≠ TAPE_UNLOADED ∧ ∀ s, h.tapeloaded { dev with sense := s } = true) →
      (build_sense_Streaming h e dev us c).1.sense 1 &&& SENSE1_TAPE_TUA = SENSE1_TAPE_TUA) ∧
    ((dev.filename = TAPE_UNLOADED ∨ ∀ s, h.tapeloaded { dev with sense := s } = false) →
      (build_sense_Streaming h e dev us c).1.sense 1 &&& SENSE1_TAPE_TUA = 0) := by
  constructor
  · rintro ⟨h1, h2⟩
    have hl : ∀ s, ¬ (dev.filename = TAPE_UNLOADED ∨
        h.tapeloaded { dev with sense := s } = false) := by
      intro s hh; rcases hh with hh | hh
      · exact h1 hh
      · rw [h2 s] at hh; exact Bool.noConfusion hh
    simp only [build_sense_Streaming, if_neg (hl _)]
    split_ifs <;>
      simp (disch := decide) [Function.update, SENSE1_TAPE_FP, SENSE1_TAPE_TUA,
        SENSE1_TAPE_TUB, notb, and_or_of_sub, and_or_of_disjoint, and_and_of_keep,
        and_and_of_clear]
  · intro hu
    have hu2 : ∀ s, (dev.filename = TAPE_UNLOADED ∨
        h.tapeloaded { dev with sense := s } = false) := by
      intro s; rcases hu with hu | hu
      · exact Or.inl hu
      · exact Or.inr (hu s)
    simp only [build_sense_Streaming, if_pos (hu2 _)]
    split_ifs <;>
      simp (disch := decide) [Function.update, SENSE1_TAPE_FP, SENSE1_TAPE_TUA,
        SENSE1_TAPE_TUB, notb, and_or_of_sub, and_or_of_disjoint, and_and_of_keep,
        and_and_of_clear]


theorem tua_3410 (h : Host) (e : ERCode) (dev : DEVBLK) (us c : Nat) :
    (build_sense_3410 h e dev us c).1.sense 1 =
      (build_sense_3410_3420 h e dev us c).1.sense 1 := by
  simp [build_sense_3410, Function.update]

theorem tua_3420 (h : Host) (e : ERCode) (dev : DEVBLK) (us c : Nat) :
    (build_sense_3420 h e dev us c).1.sense 1 =
      (build_sense_3410_3420 h e dev us c).1.sense 1 := by
  simp [build_sense_3420, Function.update]

/-- Claim C11, counterexample: the streaming builder returns with the
tape-unit-available bit of sense byte 1 clear for a 9347 drive without a tape,
and so does the 3420 builder for a drive with a tape loaded whose sense byte 1
was clear. -/
theorem sense_TUA_not_always_set :
    (build_sense_Streaming hostNoEot ERCode.STATUSONLY dev9347 0 0x03).1.sense 1
        &&& SENSE1_TAPE_TUA = 0 ∧
      (build_sense_3420 hostNoEot ERCode.STATUSONLY dev3420loaded 0 0x03).1.sense 1
        &&& SENSE1_TAPE_TUA = 0 := by
  decide

/-- Claim C11 (as the source has it): for every sense builder of the routing
table, every error kind and every opcode, a tape that is not loaded (file name
UNLOADED, or the handler reporting not loaded) leaves intervention-required
set in sense byte 0 and file-protected set in sense byte 1.  The
tape-unit-available bit of sense byte 1 is set on return by the
3480/3490/3590 builder in all cases and by the streaming builder when the tape
is loaded; the streaming builder clears it when the tape is not loaded, and
the 3410 and 3420/3422/3430 builders never set it: on return it is as on entry
or clear. -/
theorem sense_postfixup (h : Host) (e : ERCode) (dev : DEVBLK) (us c : Nat) :
    (∀ f ∈ TapeSenseTable,
      (dev.filename = TAPE_UNLOADED ∨ ∀ s, h.tapeloaded { dev with sense := s } = false) →
      (f h e dev us c).1.sense 0 &&& SENSE_IR = SENSE_IR ∧
        (f h e dev us c).1.sense 1 &&& SENSE1_TAPE_FP = SENSE1_TAPE_FP) ∧
    (∀ f ∈ [build_sense_3480_etal, build_sense_3490, build_sense_3590],
      (f h e dev us c).1.sense 1 &&& SENSE1_TAPE_TUA = SENSE1_TAPE_TUA) ∧
    ((dev.filename ≠ TAPE_UNLOADED ∧ ∀ s, h.tapeloaded { dev with sense := s } = true) →
      (build_sense_Streaming h e dev us c).1.sense 1 &&& SENSE1_TAPE_TUA = SENSE1_TAPE_TUA) ∧
    ((dev.filename = TAPE_UNLOADED ∨ ∀ s, h.tapeloaded { dev with sense := s } = false) →
      (build_sense_Streaming h e dev us c).1.sense 1 &&& SENSE1_TAPE_TUA = 0) ∧
    (∀ f ∈ [build_sense_3410, build_sense_3420],
      (f h e dev us c).1.sense 1 &&& SENSE1_TAPE_TUA = dev.sense 1 &&& SENSE1_TAPE_TUA ∨
        (f h e dev us c).1.sense 1 &&& SENSE1_TAPE_TUA = 0) := by
  refine ⟨fun f hf hu => unloaded_IR_FP f hf h e dev us c hu, ?_,
    (tua_streaming h e dev us c).1, (tua_streaming h e dev us c).2, ?_⟩
  · intro f hf
    simp only [List.mem_cons, List.mem_singleton, List.not_mem_nil, or_false] at hf
    rcases hf with r | r | r <;> subst r <;> exact tua_3480 h e dev us c
  · intro f hf
    simp only [List.mem_cons, List.mem_singleton, List.not_mem_nil, or_false] at hf
    rcases hf with r | r <;> subst r
    · rw [tua_3410]; exact tua_3410_3420 h e dev us c
    · rw [tua_3420]; exact tua_3410_3420 h e dev us c

theorem sense_postfixup_witness :
    (build_sense_Streaming hostNoEot ERCode.STATUSONLY dev9347 0 0x03).1.sense 0
        &&& SENSE_IR = SENSE_IR ∧
      (build_sense_Streaming hostNoEot ERCode.STATUSONLY dev9347 0 0x03).1.sense 1
        &&& SENSE1_TAPE_FP = SENSE1_TAPE_FP :=
  (sense_postfixup hostNoEot ERCode.STATUSONLY dev9347 0 0x03).1 build_sense_Streaming
    (by simp [TapeSenseTable]) (Or.inl rfl)

theorem build_senseX_supported_full (h : Host) (e : ERCode) (dev : DEVBLK) (us c : Nat)
    (hd : dev.devtype ∈ supportedDevtypes) :
    ∃ f ∈ TapeSenseTable, build_senseX h e dev us c =
      (let b := f h e dev us c
       let u := if h.passedeot b.1 = true ∧ e = ERCode.STATUSONLY ∧
          (c = 0x01 ∨ c = 0x17 ∨ c = 0x1F) then b.2 ||| CSW_UX else b.2
       if u &&& CSW_UC ≠ 0 then ({ b.1 with sns_pending := 1 }, u) else (b.1, u)) := by
  obtain ⟨i, f, hfind, hget, hmem⟩ := findDevtype_supported dev.devtype hd
  refine ⟨f, hmem, ?_⟩
  unfold build_senseX
  simp only [hfind, hget]
  by_cases hp : h.passedeot (f h e dev us c).1 = true
  · by_cases hc : e = ERCode.STATUSONLY ∧ (c = 0x01 ∨ c = 0x17 ∨ c = 0x1F)
    · simp only [if_pos hp, if_pos hc, if_pos (And.intro hp hc)]
    · have hn : ¬ (h.passedeot (f h e dev us c).1 = true ∧ e = ERCode.STATUSONLY ∧
          (c = 0x01 ∨ c = 0x17 ∨ c = 0x1F)) := fun hh => hc hh.2
      simp only [if_pos hp, if_neg hc, if_neg hn]
  · have hn : ¬ (h.passedeot (f h e dev us c).1 = true ∧ e = ERCode.STATUSONLY ∧
        (c = 0x01 ∨ c = 0x17 ∨ c = 0x1F)) := fun hh => hp hh.1
    simp only [if_neg hp, if_neg hn]

/-- Claim C12: for every supported device type and every opcode, `build_senseX`
with the error kind READTM returns the unit status CE|DE|UX exactly, which
holds no UC, and leaves `sns_pending` as it was. -/
theorem build_senseX_readtm (h : Host) (dev : DEVBLK) (us c : Nat) (hd : dev.devtype ∈ supportedDevtypes) :
    (build_senseX h ERCode.READTM dev us c).2 = CSW_CE ||| CSW_DE ||| CSW_UX ∧
    (build_senseX h ERCode.READTM dev us c).2 &&& CSW_UC = 0 ∧
    (build_senseX h ERCode.READTM dev us c).1.sns_pending = dev.sns_pending := by
  obtain ⟨f, hmem, hx⟩ := build_senseX_supported_full h ERCode.READTM dev us c hd
  obtain ⟨s, n, hfr⟩ := family_frame f hmem h ERCode.READTM dev us c
  have hu := family_readtm f hmem h dev us c
  have e1 : ¬ (ERCode.READTM = ERCode.STATUSONLY) := by decide
  have e2 : ¬ ((CSW_CE ||| CSW_DE ||| CSW_UX) &&& CSW_UC ≠ 0) := by decide
  have e3 : (CSW_CE ||| CSW_DE ||| CSW_UX) &&& CSW_UC = 0 := by decide
  have hb : build_senseX h ERCode.READTM dev us c
      = ((f h ERCode.READTM dev us c).1, CSW_CE ||| CSW_DE ||| CSW_UX) := by
    rw [hx]
    simp only [hu, e1, false_and, and_false, if_false, if_neg e2]
  rw [hb, hfr]
  exact ⟨rfl, e3, rfl⟩

theorem build_senseX_readtm_witness :
    (build_senseX hostEot ERCode.READTM dev3480 0 0x02).2 = CSW_CE ||| CSW_DE ||| CSW_UX ∧
      (build_senseX hostEot ERCode.READTM dev3480 0 0x02).2 &&& CSW_UC = 0 ∧
      (build_senseX hostEot ERCode.READTM dev3480 0 0x02).1.sns_pending = dev3480.sns_pending :=
  build_senseX_readtm hostEot dev3480 0 0x02 (by decide)

theorem family_writeprotect (f : TapeSenseFunc) (hf : f ∈ TapeSenseTable) (h : Host)
    (dev : DEVBLK) (us c : Nat) :
    (f h ERCode.WRITEPROTECT dev us c).2 = CSW_CE ||| CSW_DE ||| CSW_UC ∧
    (f h ERCode.WRITEPROTECT dev us c).1.sense 0 &&& SENSE_CR = SENSE_CR := by
  rcases mem_TapeSenseTable f hf with e | e | e | e <;> subst e
  · refine ⟨rfl, ?_⟩
    simp only [build_sense_3410, build_sense_3410_3420]
    split_ifs <;>
      first
      | omega
      | (simp (disch := decide) [Function.update, SENSE_CR, SENSE_IR, notb, and_or_of_sub,
          and_or_of_disjoint, and_and_of_keep, and_and_of_clear] <;> try decide)
  · refine ⟨rfl, ?_⟩
    simp only [build_sense_3420, build_sense_3410_3420]
    split_ifs <;>
      first
      | omega
      | (simp (disch := decide) [Function.update, SENSE_CR, SENSE_IR, notb, and_or_of_sub,
          and_or_of_disjoint, and_and_of_keep, and_and_of_clear] <;> try decide)
  · refine ⟨rfl, ?_⟩
    simp only [build_sense_3480_etal]
    split_ifs <;>
      first
      | omega
      | (simp (disch := decide) [Function.update, SENSE_CR, SENSE_IR, notb, and_or_of_sub,
          and_or_of_disjoint, and_and_of_keep, and_and_of_clear] <;> try decide)
  · refine ⟨rfl, ?_⟩
    simp only [build_sense_Streaming]
    split_ifs <;>
      first
      | omega
      | (simp (disch := decide) [Function.update, SENSE_CR, SENSE_IR, notb, and_or_of_sub,
          and_or_of_disjoint, and_and_of_keep, and_and_of_clear] <;> try decide)

theorem write_protect_sense (h : Host) (dev : DEVBLK) (us c : Nat)
    (hd : dev.devtype ∈ supportedDevtypes) :
    (build_senseX h ERCode.WRITEPROTECT dev us c).2 = CSW_CE ||| CSW_DE ||| CSW_UC ∧
    (build_senseX h ERCode.WRITEPROTECT dev us c).1.sense 0 &&& SENSE_CR = SENSE_CR ∧
    (build_senseX h ERCode.WRITEPROTECT dev us c).1.sns_pending = 1 := by
  obtain ⟨f, hmem, hx⟩ := build_senseX_supported_full h ERCode.WRITEPROTECT dev us c hd
  obtain ⟨hu, hs⟩ := family_writeprotect f hmem h dev us c
  have e1 : ¬ (ERCode.WRITEPROTECT = ERCode.STATUSONLY) := by decide
  have e2 : (CSW_CE ||| CSW_DE ||| CSW_UC) &&& CSW_UC ≠ 0 := by decide
  have hb : build_senseX h ERCode.WRITEPROTECT dev us c
      = ({ (f h ERCode.WRITEPROTECT dev us c).1 with sns_pending := 1 },
          CSW_CE ||| CSW_DE ||| CSW_UC) := by
    rw [hx]
    simp only [hu, e1, false_and, and_false, if_false, if_pos e2]
  rw [hb]
  exact ⟨rfl, hs, rfl⟩

/-- Claim C13: the write, write-tapemark, sync, DSE and ERG entries of the OMA
handler return -1 for every input, and for every supported device type they
leave a unit status that holds UC, command reject set in sense byte 0 and
`sns_pending` at 1. -/
theorem tmh_oma_write_protected (h : Host) (dev : DEVBLK) (bfr : List Nat) (blklen us c : Nat) :
    ((tmh_oma.write h dev bfr blklen us c).2.2 = -1 ∧
      (tmh_oma.wtm h dev us c).2.2 = -1 ∧ (tmh_oma.sync h dev us c).2.2 = -1 ∧
      (tmh_oma.dse h dev us c).2.2 = -1 ∧ (tmh_oma.erg h dev us c).2.2 = -1) ∧
    (dev.devtype ∈ supportedDevtypes →
      ∀ r ∈ [tmh_oma.write h dev bfr blklen us c, tmh_oma.wtm h dev us c,
              tmh_oma.sync h dev us c, tmh_oma.dse h dev us c, tmh_oma.erg h dev us c],
        r.2.1 &&& CSW_UC = CSW_UC ∧ r.1.sense 0 &&& SENSE_CR = SENSE_CR ∧
        r.1.sns_pending = 1) := by
  refine ⟨⟨rfl, rfl, rfl, rfl, rfl⟩, ?_⟩
  intro hd r hr
  obtain ⟨hu, hs, hp⟩ := write_protect_sense h dev us c hd
  have hr2 : r = write_READONLY h dev us c := by
    simp only [List.mem_cons, List.mem_singleton, List.not_mem_nil, or_false] at hr
    rcases hr with e | e | e | e | e <;> rw [e] <;> rfl
  subst hr2
  simp only [write_READONLY]
  refine ⟨?_, hs, hp⟩
  rw [hu]; decide


theorem tmh_oma_write_protected_witness :
    (tmh_oma.wtm hostNoEot dev3480 0 0x1F).2.1 &&& CSW_UC = CSW_UC ∧
      (tmh_oma.wtm hostNoEot dev3480 0 0x1F).1.sense 0 &&& SENSE_CR = SENSE_CR ∧
      (tmh_oma.wtm hostNoEot dev3480 0 0x1F).1.sns_pending = 1 :=
  (tmh_oma_write_protected hostNoEot dev3480 [] 0 0 0x1F).2 (by decide) _
    (List.mem_cons_of_mem _ (List.mem_cons_self _ _))

/-! ## Display and mount requests -/

theorem SameDisplay_refl (a : DEVBLK) : SameDisplay a a :=
  ⟨rfl, rfl, rfl, rfl, rfl, rfl, rfl, rfl⟩

theorem SameDisplay_trans (a b c : DEVBLK) (h1 : SameDisplay a b) (h2 : SameDisplay b c) :
    SameDisplay a c := by
  obtain ⟨a1, a2, a3, a4, a5, a6, a7, a8⟩ := h1
  obtain ⟨b1, b2, b3, b4, b5, b6, b7, b8⟩ := h2
  exact ⟨a1.trans b1, a2.trans b2, a3.trans b3, a4.trans b4, a5.trans b5, a6.trans b6,
    a7.trans b7, a8.trans b8⟩

theorem UpdateDisplay_frame (env : Env) (h : Host) (dev : DEVBLK) :
    ∃ s p, (UpdateDisplay env h dev).1 = { dev with tapesysmsg := s, prev_tapemsg := p } := by
  unfold UpdateDisplay
  split_ifs
  · simp only
    split
    · split_ifs
      · exact ⟨_, dev.prev_tapemsg, rfl⟩
      · exact ⟨_, _, rfl⟩
    · exact ⟨_, _, rfl⟩
  · exact ⟨dev.tapesysmsg, dev.prev_tapemsg, rfl⟩

theorem UpdateDisplay_same (env : Env) (h : Host) (dev : DEVBLK) :
    SameDisplay (UpdateDisplay env h dev).1 dev := by
  obtain ⟨s, p, e⟩ := UpdateDisplay_frame env h dev
  rw [e]
  exact ⟨rfl, rfl, rfl, rfl, rfl, rfl, rfl, rfl⟩

/-- The device block that `ReqAutoMount` leaves is the one after the `open`
call, with the request flag reset where no autoloader is in use. -/
theorem ReqAutoMount_dev (h : Host) (d : DEVBLK) :
    ∃ d0, (d0 = d ∨ d0 = h.tmh_open d) ∧
      (((ReqAutoMount h d).1 = d0 ∧
          (d0.als.isSome = true ∨ d0.tapedispflags &&& TAPEDISPFLG_REQAUTOMNT = 0)) ∨
        ((ReqAutoMount h d).1 =
            { d0 with tapedispflags := d0.tapedispflags &&& notb TAPEDISPFLG_REQAUTOMNT } ∧
          d0.als.isSome = false ∧ d0.tapedispflags &&& TAPEDISPFLG_REQAUTOMNT ≠ 0)) := by
  refine ⟨if d.fd < 0 then h.tmh_open d else d, ?_, ?_⟩
  · split_ifs
    · exact Or.inr rfl
    · exact Or.inl rfl
  · unfold ReqAutoMount
    generalize (if d.fd < 0 then h.tmh_open d else d) = d0
    by_cases ha : d0.als.isSome = true
    · left
      rw [if_pos ha]
      exact ⟨rfl, Or.inl ha⟩
    · rw [if_neg ha]
      by_cases hr : d0.tapedispflags &&& TAPEDISPFLG_REQAUTOMNT = 0
      · left
        rw [if_pos hr]
        exact ⟨rfl, Or.inr hr⟩
      · right
        rw [if_neg hr]
        refine ⟨?_, by simpa using ha, hr⟩
        simp only
        split_ifs <;> rfl

theorem ReqAutoMount_same (h : Host) (hk : OpenKeepsDisplay h) (d : DEVBLK) :
    (ReqAutoMount h d).1.tapedisptype = d.tapedisptype ∧
      (ReqAutoMount h d).1.tapemsg1 = d.tapemsg1 ∧
      (ReqAutoMount h d).1.tapemsg2 = d.tapemsg2 ∧
      (ReqAutoMount h d).1.als = d.als ∧
      (ReqAutoMount h d).1.displayfeat = d.displayfeat ∧
      (ReqAutoMount h d).1.filename = d.filename ∧
      ((ReqAutoMount h d).1.tapedispflags = d.tapedispflags ∧
          (d.als.isSome = true ∨ d.tapedispflags &&& TAPEDISPFLG_REQAUTOMNT = 0) ∨
        (ReqAutoMount h d).1.tapedispflags = d.tapedispflags &&& notb TAPEDISPFLG_REQAUTOMNT ∧
          d.als.isSome = false ∧ d.tapedispflags &&& TAPEDISPFLG_REQAUTOMNT ≠ 0) := by
  obtain ⟨d0, h0, h1⟩ := ReqAutoMount_dev h d
  have hs : SameDisplay d0 d := by
    rcases h0 with h0 | h0
    · rw [h0]; exact SameDisplay_refl d
    · rw [h0]; exact hk d
  obtain ⟨s1, s2, s3, s4, s5, s6, _, s8⟩ := hs
  rcases h1 with ⟨e, c⟩ | ⟨e, c1, c2⟩
  · rw [e]
    refine ⟨s1, s3, s4, s5, s6, s8, Or.inl ⟨s2, ?_⟩⟩
    rw [← s5, ← s2]; exact c
  · rw [e]
    refine ⟨s1, s3, s4, s5, s6, s8, Or.inr ⟨?_, ?_, ?_⟩⟩
    · show d0.tapedispflags &&& notb TAPEDISPFLG_REQAUTOMNT = _
      rw [s2]
    · rw [← s5]; exact c1
    · rw [← s2]; exact c2

/-- The request flag is the only display flag that `ReqAutoMount` changes. -/
theorem ReqAutoMount_flag_keep (h : Host) (hk : OpenKeepsDisplay h) (d : DEVBLK) (m : Nat)
    (hm : notb TAPEDISPFLG_REQAUTOMNT &&& m = m) :
    (ReqAutoMount h d).1.tapedispflags &&& m = d.tapedispflags &&& m := by
  rcases (ReqAutoMount_same h hk d).2.2.2.2.2.2 with ⟨e, _⟩ | ⟨e, _⟩
  · rw [e]
  · rw [e, Nat.and_assoc, hm]

/-- The request flag after `ReqAutoMount`: as before where an autoloader is
in use, reset otherwise. -/
theorem ReqAutoMount_flag_req (h : Host) (hk : OpenKeepsDisplay h) (d : DEVBLK) :
    (ReqAutoMount h d).1.tapedispflags &&& TAPEDISPFLG_REQAUTOMNT =
      if d.als.isSome then d.tapedispflags &&& TAPEDISPFLG_REQAUTOMNT else 0 := by
  rcases (ReqAutoMount_same h hk d).2.2.2.2.2.2 with ⟨e, c⟩ | ⟨e, c1, _⟩
  · rw [e]
    rcases c with c | c
    · rw [if_pos c]
    · rw [c]; split_ifs <;> rfl
  · rw [e, if_neg (by simp [c1]), Nat.and_assoc]
    have : notb TAPEDISPFLG_REQAUTOMNT &&& TAPEDISPFLG_REQAUTOMNT = 0 := by decide
    rw [this, Nat.and_zero]


theorem load_display_copy_payload (env : Env) (a b : Nat) (p : List Nat) (count off : Nat) :
    ∀ fuel i, load_display_copy env (a :: p) count off fuel i =
      load_display_copy env (b :: p) count off fuel i := by
  intro fuel
  induction fuel with
  | zero => intro i; rfl
  | succ n ih =>
    intro i
    have e : ∀ c : Nat, (c :: p).getD (1 + off + i) 0 = p.getD (off + i) 0 := by
      intro c
      rw [show 1 + off + i = (off + i) + 1 by omega]
      rfl
    simp only [load_display_copy, e, ih]

theorem load_display_switch_fs (h : Host) (dev : DEVBLK) (f g : Nat) (m1 m2 : List Nat)
    (e : f &&& FCB_FS = g &&& FCB_FS) :
    load_display_switch h dev f m1 m2 = load_display_switch h dev g m1 m2 := by
  unfold load_display_switch
  rw [e]

theorem load_display_switch_state (h : Host) (dev : DEVBLK) (fcb : Nat) (m1 m2 : List Nat)
    (sw : DEVBLK × List LogRec) (e : load_display_switch h dev fcb m1 m2 = some sw) :
    (sw.1.tapedispflags = 0 ∨ sw.1.tapedispflags = TAPEDISPFLG_REQAUTOMNT ∨
      sw.1.tapedispflags = TAPEDISPFLG_MESSAGE2 ||| TAPEDISPFLG_REQAUTOMNT) ∧
    sw.1.als = dev.als ∧ sw.1.displayfeat = dev.displayfeat ∧ sw.1.fd = dev.fd := by
  unfold load_display_switch at e
  simp only at e
  split_ifs at e <;> (cases e; simp)

theorem load_display_run (env : Env) (h : Host) (dev : DEVBLK) (buf : List Nat) (count : Nat)
    (hc : count ≠ 0) (sw : DEVBLK × List LogRec)
    (e : load_display_switch h dev (buf.getD 0 0 % 256)
      (cstr (load_display_copy env buf count 0 8 0))
      (cstr (load_display_copy env buf count 8 8 0)) = some sw) :
    load_display env h dev buf count =
      (let d2 : DEVBLK :=
        { sw.1 with
          tapedispflags := load_display_flags (buf.getD 0 0 % 256) sw.1.tapedispflags }
      ((ReqAutoMount h (UpdateDisplay env h d2).1).1,
        sw.2 ++ (UpdateDisplay env h d2).2 ++ (ReqAutoMount h (UpdateDisplay env h d2).1).2)) := by
  unfold load_display
  rw [if_neg hc]
  simp only [e]

theorem load_display_skip (env : Env) (h : Host) (dev : DEVBLK) (buf : List Nat) (count : Nat)
    (e : count = 0 ∨ load_display_switch h dev (buf.getD 0 0 % 256)
      (cstr (load_display_copy env buf count 0 8 0))
      (cstr (load_display_copy env buf count 8 8 0)) = none) :
    load_display env h dev buf count = (dev, []) := by
  unfold load_display
  rcases e with e | e
  · rw [if_pos e]
  · split_ifs
    · rfl
    · simp only [e]

set_option maxRecDepth 100000 in
theorem load_display_flags_AM :
    ∀ fcb, fcb < 256 → fcb &&& FCB_AM ≠ 0 → ∀ x ∈ [0, 8, 40],
      load_display_flags fcb x = load_display_flags (fcb &&& notb (FCB_BM ||| FCB_M2)) x := by
  decide

set_option maxRecDepth 100000 in
theorem load_display_flags_exclusive :
    ∀ fcb, fcb < 256 → ∀ x ∈ [0, 8, 40],
      ¬ (load_display_flags fcb x &&& TAPEDISPFLG_ALTERNATE ≠ 0 ∧
          load_display_flags fcb x &&& TAPEDISPFLG_BLINKING ≠ 0) := by
  decide

set_option maxRecDepth 100000 in
theorem load_display_flags_AL_mount :
    ∀ fcb, fcb < 256 → fcb &&& FCB_AL ≠ 0 → fcb &&& FCB_FS = FCB_FS_MOUNT → ∀ x ∈ [0, 8, 40],
      load_display_flags fcb x &&& TAPEDISPFLG_AUTOLOADER = TAPEDISPFLG_AUTOLOADER ∧
        load_display_flags fcb x &&& TAPEDISPFLG_ALTERNATE = 0 ∧
        load_display_flags fcb x &&& TAPEDISPFLG_BLINKING = 0 ∧
        load_display_flags fcb x &&& TAPEDISPFLG_MESSAGE2 = 0 := by
  decide

set_option maxRecDepth 100000 in
theorem load_display_flags_AL_umountmount :
    ∀ fcb, fcb < 256 → fcb &&& FCB_AL ≠ 0 → fcb &&& FCB_FS = FCB_FS_UMOUNTMOUNT →
      ∀ x ∈ [0, 8, 40],
      load_display_flags fcb x &&& TAPEDISPFLG_AUTOLOADER = TAPEDISPFLG_AUTOLOADER ∧
        load_display_flags fcb x &&& TAPEDISPFLG_ALTERNATE = 0 ∧
        load_display_flags fcb x &&& TAPEDISPFLG_BLINKING = 0 ∧
        load_display_flags fcb x &&& TAPEDISPFLG_MESSAGE2 = TAPEDISPFLG_MESSAGE2 := by
  decide

theorem switch_flags_mem (x : Nat)
    (hx : x = 0 ∨ x = TAPEDISPFLG_REQAUTOMNT ∨
      x = TAPEDISPFLG_MESSAGE2 ||| TAPEDISPFLG_REQAUTOMNT) : x ∈ [0, 8, 40] := by
  rcases hx with e | e | e <;> (rw [e]; decide)

/-- The display flags that `load_display` leaves, apart from the request
flag, are those computed from the format control byte, where it does not
return early. -/
theorem load_display_flags_final (env : Env) (h : Host) (hk : OpenKeepsDisplay h)
    (dev : DEVBLK) (buf : List Nat) (count : Nat) (hc : count ≠ 0)
    (sw : DEVBLK × List LogRec)
    (e : load_display_switch h dev (buf.getD 0 0 % 256)
      (cstr (load_display_copy env buf count 0 8 0))
      (cstr (load_display_copy env buf count 8 8 0)) = some sw)
    (m : Nat) (hm : notb TAPEDISPFLG_REQAUTOMNT &&& m = m) :
    (load_display env h dev buf count).1.tapedispflags &&& m =
      load_display_flags (buf.getD 0 0 % 256) sw.1.tapedispflags &&& m := by
  rw [load_display_run env h dev buf count hc sw e]
  simp only
  rw [ReqAutoMount_flag_keep h hk _ m hm, (UpdateDisplay_same env h _).2.1]

/-- Claim C14: with a count of 0, or with a format control byte whose three
high bits are 011 (NOP), `load_display` returns the device block as it was, so
the display type, the display flags and both message slots are unchanged, and
it logs nothing. -/
theorem load_display_nop_unchanged (env : Env) (h : Host) (dev : DEVBLK) (buf : List Nat)
    (count : Nat)
    (hn : count = 0 ∨ (buf.getD 0 0 % 256) &&& FCB_FS = FCB_FS_NOP) :
    load_display env h dev buf count = (dev, []) ∧
      (load_display env h dev buf count).1.tapedisptype = dev.tapedisptype ∧
      (load_display env h dev buf count).1.tapedispflags = dev.tapedispflags ∧
      (load_display env h dev buf count).1.tapemsg1 = dev.tapemsg1 ∧
      (load_display env h dev buf count).1.tapemsg2 = dev.tapemsg2 ∧
      (load_display env h dev buf count).2 = [] := by
  have e : load_display env h dev buf count = (dev, []) := by
    apply load_display_skip
    rcases hn with hn | hn
    · exact Or.inl hn
    · right
      unfold load_display_switch
      simp only [hn]
      simp [FCB_FS_NOP, FCB_FS_READYGO, FCB_FS_UNMOUNT, FCB_FS_MOUNT, FCB_FS_RESET_DISPLAY,
        FCB_FS_UMOUNTMOUNT]
  rw [e]
  exact ⟨rfl, rfl, rfl, rfl, rfl, rfl⟩

theorem load_display_nop_unchanged_witness :
    load_display envDefault hostNoEot devDisplay [0x60, 0xC1, 0xC2] 3 = (devDisplay, []) :=
  (load_display_nop_unchanged envDefault hostNoEot devDisplay [0x60, 0xC1, 0xC2] 3
    (Or.inr (by decide))).1

/-- Claim C15: for a format control byte with the AM bit set, `load_display`
returns the same device block (display type, flags and messages among its
fields) and the same messages as for that byte with BM and M2 cleared; and
whenever `load_display` does not return early, the flags it leaves never hold
BLINKING together with ALTERNATE. -/
theorem load_display_AM_ignores_BM_M2 (env : Env) (h : Host) (dev : DEVBLK) (fcb : Nat)
    (payload : List Nat) (count : Nat) (hf : fcb < 256) (ham : fcb &&& FCB_AM ≠ 0) :
    load_display env h dev (fcb :: payload) count =
        load_display env h dev ((fcb &&& notb (FCB_BM ||| FCB_M2)) :: payload) count ∧
      (OpenKeepsDisplay h → ∀ (d : DEVBLK) (buf : List Nat) (n : Nat),
        load_display env h d buf n = (d, []) ∨
          ¬ ((load_display env h d buf n).1.tapedispflags &&& TAPEDISPFLG_ALTERNATE ≠ 0 ∧
            (load_display env h d buf n).1.tapedispflags &&& TAPEDISPFLG_BLINKING ≠ 0)) := by
  constructor
  · have hf2 : fcb &&& notb (FCB_BM ||| FCB_M2) < 256 :=
      Nat.lt_of_le_of_lt Nat.and_le_right (by decide)
    have hfs : (fcb &&& notb (FCB_BM ||| FCB_M2)) &&& FCB_FS = fcb &&& FCB_FS :=
      and_and_of_keep _ _ _ (by decide)
    by_cases hc : count = 0
    · rw [load_display_skip env h dev _ count (Or.inl hc),
        load_display_skip env h dev _ count (Or.inl hc)]
    · have g1 : (fcb :: payload).getD 0 0 % 256 = fcb := Nat.mod_eq_of_lt hf
      have g2 : ((fcb &&& notb (FCB_BM ||| FCB_M2)) :: payload).getD 0 0 % 256 =
          fcb &&& notb (FCB_BM ||| FCB_M2) := Nat.mod_eq_of_lt hf2
      have hcp : ∀ off, load_display_copy env ((fcb &&& notb (FCB_BM ||| FCB_M2)) :: payload)
          count off 8 0 = load_display_copy env (fcb :: payload) count off 8 0 :=
        fun off => load_display_copy_payload env _ _ payload count off 8 0
      cases hs : load_display_switch h dev fcb
          (cstr (load_display_copy env (fcb :: payload) count 0 8 0))
          (cstr (load_display_copy env (fcb :: payload) count 8 8 0)) with
      | none =>
        rw [load_display_skip env h dev (fcb :: payload) count (Or.inr (by rw [g1]; exact hs)),
          load_display_skip env h dev _ count
            (Or.inr (by rw [g2, hcp, hcp, load_display_switch_fs h dev _ fcb _ _ hfs]; exact hs))]
      | some sw =>
        rw [load_display_run env h dev (fcb :: payload) count hc sw (by rw [g1]; exact hs),
          load_display_run env h dev _ count hc sw
            (by rw [g2, hcp, hcp, load_display_switch_fs h dev _ fcb _ _ hfs]; exact hs),
          g1, g2]
        have hx := switch_flags_mem _ (load_display_switch_state h dev fcb _ _ sw hs).1
        rw [load_display_flags_AM fcb hf ham _ hx]
  · intro hk d buf n
    by_cases hc : n = 0
    · exact Or.inl (load_display_skip env h d buf n (Or.inl hc))
    · cases hs : load_display_switch h d (buf.getD 0 0 % 256)
          (cstr (load_display_copy env buf n 0 8 0))
          (cstr (load_display_copy env buf n 8 8 0)) with
      | none => exact Or.inl (load_display_skip env h d buf n (Or.inr hs))
      | some sw =>
        right
        rw [load_display_flags_final env h hk d buf n hc sw hs _ (by decide),
          load_display_flags_final env h hk d buf n hc sw hs _ (by decide)]
        exact load_display_flags_exclusive _ (Nat.mod_lt _ (by decide)) _
          (switch_flags_mem _ (load_display_switch_state h d _ _ _ sw hs).1)

theorem load_display_AM_ignores_BM_M2_witness :
    load_display envDefault hostNoEot devDisplay (0x1C :: [0xC1, 0xC2]) 3 =
      load_display envDefault hostNoEot devDisplay
        ((0x1C &&& notb (FCB_BM ||| FCB_M2)) :: [0xC1, 0xC2]) 3 :=
  (load_display_AM_ignores_BM_M2 envDefault hostNoEot devDisplay 0x1C [0xC1, 0xC2] 3
    (by decide) (by decide)).1

/-- Claim C16: when `load_display` runs with the AL bit set in the format
control byte, then for the function MOUNT the flags it leaves hold AUTOLOADER
and none of ALTERNATE, BLINKING and MESSAGE2, and for the function
UMOUNTMOUNT they hold AUTOLOADER and MESSAGE2 and neither ALTERNATE nor
BLINKING, whatever the AM, BM and M2 bits of the byte. -/
theorem load_display_AL_mount_flags (env : Env) (h : Host) (hk : OpenKeepsDisplay h)
    (dev : DEVBLK) (buf : List Nat) (count : Nat) (hc : count ≠ 0)
    (hal : (buf.getD 0 0 % 256) &&& FCB_AL ≠ 0) :
    ((buf.getD 0 0 % 256) &&& FCB_FS = FCB_FS_MOUNT →
      (load_display env h dev buf count).1.tapedispflags &&& TAPEDISPFLG_AUTOLOADER
          = TAPEDISPFLG_AUTOLOADER ∧
        (load_display env h dev buf count).1.tapedispflags &&& TAPEDISPFLG_ALTERNATE = 0 ∧
        (load_display env h dev buf count).1.tapedispflags &&& TAPEDISPFLG_BLINKING = 0 ∧
        (load_display env h dev buf count).1.tapedispflags &&& TAPEDISPFLG_MESSAGE2 = 0) ∧
    ((buf.getD 0 0 % 256) &&& FCB_FS = FCB_FS_UMOUNTMOUNT →
      (load_display env h dev buf count).1.tapedispflags &&& TAPEDISPFLG_AUTOLOADER
          = TAPEDISPFLG_AUTOLOADER ∧
        (load_display env h dev buf count).1.tapedispflags &&& TAPEDISPFLG_ALTERNATE = 0 ∧
        (load_display env h dev buf count).1.tapedispflags &&& TAPEDISPFLG_BLINKING = 0 ∧
        (load_display env h dev buf count).1.tapedispflags &&& TAPEDISPFLG_MESSAGE2
          = TAPEDISPFLG_MESSAGE2) := by
  have hlt : buf.getD 0 0 % 256 < 256 := Nat.mod_lt _ (by decide)
  have hsome : ∀ c : (buf.getD 0 0 % 256) &&& FCB_FS = FCB_FS_MOUNT ∨
      (buf.getD 0 0 % 256) &&& FCB_FS = FCB_FS_UMOUNTMOUNT,
      ∃ sw, load_display_switch h dev (buf.getD 0 0 % 256)
        (cstr (load_display_copy env buf count 0 8 0))
        (cstr (load_display_copy env buf count 8 8 0)) = some sw := by
    intro c
    unfold load_display_switch
    rcases c with c | c <;> simp only [c] <;>
      simp [FCB_FS_NOP, FCB_FS_READYGO, FCB_FS_UNMOUNT, FCB_FS_MOUNT, FCB_FS_RESET_DISPLAY,
        FCB_FS_UMOUNTMOUNT] <;> split_ifs <;> exact ⟨_, _, rfl⟩
  constructor
  · intro c
    obtain ⟨sw, hs⟩ := hsome (Or.inl c)
    rw [load_display_flags_final env h hk dev buf count hc sw hs _ (by decide),
      load_display_flags_final env h hk dev buf count hc sw hs _ (by decide),
      load_display_flags_final env h hk dev buf count hc sw hs _ (by decide),
      load_display_flags_final env h hk dev buf count hc sw hs _ (by decide)]
    exact load_display_flags_AL_mount _ hlt hal c _
      (switch_flags_mem _ (load_display_switch_state h dev _ _ _ sw hs).1)
  · intro c
    obtain ⟨sw, hs⟩ := hsome (Or.inr c)
    rw [load_display_flags_final env h hk dev buf count hc sw hs _ (by decide),
      load_display_flags_final env h hk dev buf count hc sw hs _ (by decide),
      load_display_flags_final env h hk dev buf count hc sw hs _ (by decide),
      load_display_flags_final env h hk dev buf count hc sw hs _ (by decide)]
    exact load_display_flags_AL_umountmount _ hlt hal c _
      (switch_flags_mem _ (load_display_switch_state h dev _ _ _ sw hs).1)

theorem load_display_AL_mount_flags_witness :
    (load_display envDefault hostUnloaded devDisplay [0x59, 0xC1] 2).1.tapedispflags
          &&& TAPEDISPFLG_AUTOLOADER = TAPEDISPFLG_AUTOLOADER ∧
      (load_display envDefault hostUnloaded devDisplay [0x59, 0xC1] 2).1.tapedispflags
          &&& TAPEDISPFLG_ALTERNATE = 0 ∧
      (load_display envDefault hostUnloaded devDisplay [0x59, 0xC1] 2).1.tapedispflags
          &&& TAPEDISPFLG_BLINKING = 0 ∧
      (load_display envDefault hostUnloaded devDisplay [0x59, 0xC1] 2).1.tapedispflags
          &&& TAPEDISPFLG_MESSAGE2 = 0 :=
  (load_display_AL_mount_flags envDefault hostUnloaded (fun d => SameDisplay_refl d)
    devDisplay [0x59, 0xC1] 2 (by decide) (by decide)).1 (by decide)

theorem cstr_nonzero (l : List Nat) : ∀ x ∈ cstr l, x ≠ 0 := by
  intro x hx
  have := List.mem_takeWhile_imp hx
  simpa using this

theorem cstr_of_nonzero (l t : List Nat) (hl : ∀ x ∈ l, x ≠ 0) : cstr (l ++ 0 :: t) = l := by
  induction l with
  | nil => simp [cstr]
  | cons a l ih =>
    have ha : a ≠ 0 := hl a (List.mem_cons_self _ _)
    have := ih (fun x hx => hl x (List.mem_cons_of_mem _ hx))
    simp only [cstr] at this ⊢
    rw [List.cons_append, List.takeWhile_cons, if_pos (by simpa using ha), this]

theorem cstr_strlcpy (dst s : List Nat) (n : Nat) :
    cstr (strlcpy dst (cstr s) (n + 1)) = (cstr s).take n := by
  unfold strlcpy
  rw [if_neg (Nat.succ_ne_zero n)]
  exact cstr_of_nonzero _ _ (fun x hx => cstr_nonzero s x (List.mem_of_mem_take hx))

theorem load_display_copy_full (env : Env) (fcb : Nat) (m1 m2 rest : List Nat) (count : Nat)
    (hl1 : m1.length = 8) (hl2 : m2.length = 8) (hz1 : ∀ x ∈ m1, x ≠ 0)
    (hz2 : ∀ x ∈ m2, x ≠ 0) (hc : 16 < count) :
    load_display_copy env (fcb :: (m1 ++ m2 ++ rest)) count 0 8 0 = m1.map env.guest_to_host ∧
    load_display_copy env (fcb :: (m1 ++ m2 ++ rest)) count 8 8 0 = m2.map env.guest_to_host := by
  obtain ⟨a0, a1, a2, a3, a4, a5, a6, a7, rfl⟩ :
      ∃ a0 a1 a2 a3 a4 a5 a6 a7, m1 = [a0, a1, a2, a3, a4, a5, a6, a7] := by
    rcases m1 with _ | ⟨a0, _ | ⟨a1, _ | ⟨a2, _ | ⟨a3, _ | ⟨a4, _ | ⟨a5, _ | ⟨a6, _ | ⟨a7, _ | ⟨a8, t⟩⟩⟩⟩⟩⟩⟩⟩⟩ <;>
      simp at hl1
    exact ⟨_, _, _, _, _, _, _, _, rfl⟩
  obtain ⟨b0, b1, b2, b3, b4, b5, b6, b7, rfl⟩ :
      ∃ a0 a1 a2 a3 a4 a5 a6 a7, m2 = [a0, a1, a2, a3, a4, a5, a6, a7] := by
    rcases m2 with _ | ⟨a0, _ | ⟨a1, _ | ⟨a2, _ | ⟨a3, _ | ⟨a4, _ | ⟨a5, _ | ⟨a6, _ | ⟨a7, _ | ⟨a8, t⟩⟩⟩⟩⟩⟩⟩⟩⟩ <;>
      simp at hl2
    exact ⟨_, _, _, _, _, _, _, _, rfl⟩
  simp only [List.mem_cons, List.mem_singleton, forall_eq_or_imp, forall_eq, List.not_mem_nil,
    IsEmpty.forall_iff, implies_true, and_true] at hz1 hz2
  obtain ⟨p0, p1, p2, p3, p4, p5, p6, p7⟩ := hz1
  obtain ⟨q0, q1, q2, q3, q4, q5, q6, q7⟩ := hz2
  have c1 : 1 < count := by omega
  have c2 : 2 < count := by omega
  have c3 : 3 < count := by omega
  have c4 : 4 < count := by omega
  have c5 : 5 < count := by omega
  have c6 : 6 < count := by omega
  have c7 : 7 < count := by omega
  have c8 : 8 < count := by omega
  have c9 : 9 < count := by omega
  have c10 : 10 < count := by omega
  have c11 : 11 < count := by omega
  have c12 : 12 < count := by omega
  have c13 : 13 < count := by omega
  have c14 : 14 < count := by omega
  have c15 : 15 < count := by omega
  constructor <;>
    simp [load_display_copy, List.getD, p0, p1, p2, p3, p4, p5, p6, p7, q0, q1, q2, q3, q4, q5,
      q6, q7, c1, c2, c3, c4, c5, c6, c7, c8, c9, c10, c11, c12, c13, c14, c15, hc]

theorem load_display_switch_umountmount (h : Host) (dev : DEVBLK) (fcb : Nat) (m1 m2 : List Nat)
    (hfs : fcb &&& FCB_FS = FCB_FS_UMOUNTMOUNT) :
    ∃ sw, load_display_switch h dev fcb m1 m2 = some sw ∧
      sw.1.tapemsg1 = strlcpy dev.tapemsg1 m1 sizeof_tapemsg ∧
      sw.1.tapemsg2 = strlcpy dev.tapemsg2 m2 sizeof_tapemsg ∧
      (h.tapeloaded dev = true → sw.1.tapedisptype = TAPEDISPTYP.UMOUNTMOUNT ∧
        sw.1.tapedispflags = TAPEDISPFLG_REQAUTOMNT) ∧
      (h.tapeloaded dev = false → sw.1.tapedisptype = TAPEDISPTYP.MOUNT ∧
        sw.1.tapedispflags = TAPEDISPFLG_MESSAGE2 ||| TAPEDISPFLG_REQAUTOMNT) := by
  unfold load_display_switch
  simp only [hfs]
  simp only [FCB_FS_UMOUNTMOUNT, FCB_FS_READYGO, FCB_FS_UNMOUNT, FCB_FS_MOUNT,
    FCB_FS_RESET_DISPLAY]
  cases hl : h.tapeloaded dev <;> simp

/-- The display type and the message slots that `load_display` leaves are
those of the switch, and the request flag is reset unless an autoloader is in
use. -/
theorem load_display_fields_final (env : Env) (h : Host) (hk : OpenKeepsDisplay h)
    (dev : DEVBLK) (buf : List Nat) (count : Nat) (hc : count ≠ 0)
    (sw : DEVBLK × List LogRec)
    (e : load_display_switch h dev (buf.getD 0 0 % 256)
      (cstr (load_display_copy env buf count 0 8 0))
      (cstr (load_display_copy env buf count 8 8 0)) = some sw) :
    (load_display env h dev buf count).1.tapedisptype = sw.1.tapedisptype ∧
      (load_display env h dev buf count).1.tapemsg1 = sw.1.tapemsg1 ∧
      (load_display env h dev buf count).1.tapemsg2 = sw.1.tapemsg2 ∧
      (load_display env h dev buf count).1.tapedispflags &&& TAPEDISPFLG_REQAUTOMNT =
        (if dev.als.isSome then
          load_display_flags (buf.getD 0 0 % 256) sw.1.tapedispflags &&& TAPEDISPFLG_REQAUTOMNT
        else 0) := by
  rw [load_display_run env h dev buf count hc sw e]
  simp only
  obtain ⟨u1, u2, u3, u4, u5, _, _, _⟩ := UpdateDisplay_same env h
    { sw.1 with
      tapedispflags := load_display_flags (buf.getD 0 0 % 256) sw.1.tapedispflags }
  obtain ⟨r1, r2, r3, _⟩ := ReqAutoMount_same h hk (UpdateDisplay env h
    { sw.1 with
      tapedispflags := load_display_flags (buf.getD 0 0 % 256) sw.1.tapedispflags }).1
  refine ⟨r1.trans u1, r2.trans u3, r3.trans u4, ?_⟩
  rw [ReqAutoMount_flag_req h hk, u5, u2]
  show (if sw.1.als.isSome = true then _ else _) = _
  rw [(load_display_switch_state h dev _ _ _ sw e).2.1]

theorem cstr_take_of_length_le (l : List Nat) (n : Nat) (hl : l.length ≤ n) :
    (cstr l).take n = cstr l := by
  apply List.take_of_length_le
  exact le_trans (List.takeWhile_sublist _).length_le hl

/-- Claim C17 (as the source has it): for a count above 16 and two messages of
eight non-zero bytes, `load_display` with the format control byte 0xE0 stores
the translated messages, as C strings, in both slots.  With a tape loaded the
display type becomes UMOUNTMOUNT, and the request flag REQAUTOMNT, which the
switch raises, is reset again by the call of `ReqAutoMount` that ends the
function unless an autoloader is in use.  With no tape loaded the display
type becomes MOUNT with MESSAGE2 set. -/
theorem load_display_umountmount (env : Env) (h : Host) (hk : OpenKeepsDisplay h)
    (dev : DEVBLK) (m1 m2 rest : List Nat) (count : Nat)
    (hl1 : m1.length = 8) (hl2 : m2.length = 8) (hz1 : ∀ x ∈ m1, x ≠ 0)
    (hz2 : ∀ x ∈ m2, x ≠ 0) (hc : 16 < count) :
    cstr (load_display env h dev (0xE0 :: (m1 ++ m2 ++ rest)) count).1.tapemsg1
        = cstr (m1.map env.guest_to_host) ∧
      cstr (load_display env h dev (0xE0 :: (m1 ++ m2 ++ rest)) count).1.tapemsg2
        = cstr (m2.map env.guest_to_host) ∧
      (h.tapeloaded dev = true →
        (load_display env h dev (0xE0 :: (m1 ++ m2 ++ rest)) count).1.tapedisptype
            = TAPEDISPTYP.UMOUNTMOUNT ∧
          (load_display env h dev (0xE0 :: (m1 ++ m2 ++ rest)) count).1.tapedispflags
              &&& TAPEDISPFLG_REQAUTOMNT
            = (if dev.als.isSome then TAPEDISPFLG_REQAUTOMNT else 0)) ∧
      (h.tapeloaded dev = false →
        (load_display env h dev (0xE0 :: (m1 ++ m2 ++ rest)) count).1.tapedisptype
            = TAPEDISPTYP.MOUNT ∧
          (load_display env h dev (0xE0 :: (m1 ++ m2 ++ rest)) count).1.tapedispflags
              &&& TAPEDISPFLG_MESSAGE2
            = TAPEDISPFLG_MESSAGE2) := by
  have hfcb : (0xE0 :: (m1 ++ m2 ++ rest)).getD 0 0 % 256 = 0xE0 := rfl
  obtain ⟨hm1, hm2⟩ := load_display_copy_full env 0xE0 m1 m2 rest count hl1 hl2 hz1 hz2 hc
  obtain ⟨sw, hs, s1, s2, s3, s4⟩ := load_display_switch_umountmount h dev
    ((0xE0 :: (m1 ++ m2 ++ rest)).getD 0 0 % 256)
    (cstr (load_display_copy env (0xE0 :: (m1 ++ m2 ++ rest)) count 0 8 0))
    (cstr (load_display_copy env (0xE0 :: (m1 ++ m2 ++ rest)) count 8 8 0))
    (by rw [hfcb]; decide)
  have hc0 : count ≠ 0 := by omega
  obtain ⟨f1, f2, f3, f4⟩ := load_display_fields_final env h hk dev _ count hc0 sw hs
  refine ⟨?_, ?_, ?_, ?_⟩
  · rw [f2, s1, hm1]
    show cstr (strlcpy _ _ (8 + 1)) = _
    rw [cstr_strlcpy]
    exact cstr_take_of_length_le _ 8 (by simp [hl1])
  · rw [f3, s2, hm2]
    show cstr (strlcpy _ _ (8 + 1)) = _
    rw [cstr_strlcpy]
    exact cstr_take_of_length_le _ 8 (by simp [hl2])
  · intro hl
    obtain ⟨t1, t2⟩ := s3 hl
    refine ⟨f1.trans t1, ?_⟩
    rw [f4, t2, hfcb]
    split_ifs
    · decide
    · rfl
  · intro hl
    obtain ⟨t1, t2⟩ := s4 hl
    refine ⟨f1.trans t1, ?_⟩
    rw [load_display_flags_final env h hk dev _ count hc0 sw hs _ (by decide), t2, hfcb]
    decide

theorem load_display_umountmount_witness :
    cstr (load_display envDefault hostNoEot devDisplay
        (0xE0 :: (displayMsg1 ++ displayMsg2 ++ [])) 17).1.tapemsg1
      = cstr (displayMsg1.map envDefault.guest_to_host) :=
  (load_display_umountmount envDefault hostNoEot (fun d => SameDisplay_refl d) devDisplay
    displayMsg1 displayMsg2 [] 17 (by decide) (by decide) (by decide) (by decide)
    (by decide)).1

/-- Claim C17, counterexample: a display drive with a tape loaded and no
autoloader receives the format control byte 0xE0 with two eight-character
messages.  The display type becomes UMOUNTMOUNT, yet on return the flag
REQAUTOMNT is not set: `ReqAutoMount` has reset it. -/
theorem umountmount_request_flag_is_reset :
    hostNoEot.tapeloaded devDisplay = true ∧
      (load_display envDefault hostNoEot devDisplay
        (0xE0 :: (displayMsg1 ++ displayMsg2 ++ [])) 17).1.tapedisptype
          = TAPEDISPTYP.UMOUNTMOUNT ∧
      (load_display envDefault hostNoEot devDisplay
        (0xE0 :: (displayMsg1 ++ displayMsg2 ++ [])) 17).1.tapedispflags
          &&& TAPEDISPFLG_REQAUTOMNT = 0 := by
  decide

/-- Claim C18: the messages of `ReqAutoMount` for the selected message slot
`m` take the volume serial from `m[1..6]`, print the label type SL exactly
when `m[7]` is 'S' and UL otherwise, print ASCII exactly when `m[7]` is 'A',
take the scratch wording exactly when `m[0]` is 'S', and on an unmount request
print "and keep" for a first byte 'K' and "and retain" for 'R'.  For message 1
"KEEP001" on a loaded drive in the state UMOUNTMOUNT without autoloader the
function logs the request to unmount and keep the UL volume "EEP001"; for
message 2 "SCRTCH  " on an unloaded drive in that state it logs the request
to mount a scratch tape. -/
theorem ReqAutoMount_classifies (h : Host) (dev : DEVBLK) (m : List Nat)
    (asc lbl keep : String) (volser : List Nat)
    (hasc : asc = if m.getD 7 0 = CH_A then "ASCII " else "")
    (hlbl : lbl = if m.getD 7 0 = CH_S then "SL" else "UL")
    (hkeep : keep = if m.getD 0 0 = CH_R then "and retain "
      else if m.getD 0 0 = CH_K then "and keep " else "")
    (hvol : volser = cstr ((m.drop 1).take 6))
    (hman : h.scsi = true ∨ dev.tapedispflags &&& TAPEDISPFLG_AUTOLOADER = 0) :
    ReqAutoMount_messages h dev m true false =
        [if m.getD 0 0 = CH_S then
          ⟨"\n%s\nAUTOMOUNT: Unmount %sof %s%s scratch tape requested on %4.4X = %s\n%s\n\n",
            [LogArg.text eyecatcher, LogArg.text keep, LogArg.text asc, LogArg.text lbl,
              LogArg.hex4 dev.devnum, LogArg.text dev.filename, LogArg.text eyecatcher]⟩
        else
          ⟨"\n%s\nAUTOMOUNT: Unmount %sof %s%s tape volume \"%s\" requested on %4.4X = %s\n%s\n\n",
            [LogArg.text eyecatcher, LogArg.text keep, LogArg.text asc, LogArg.text lbl,
              LogArg.bytes volser, LogArg.hex4 dev.devnum, LogArg.text dev.filename,
              LogArg.text eyecatcher]⟩] ∧
      ReqAutoMount_messages h dev m false true =
        [if m.getD 0 0 = CH_S then
          ⟨"\n%s\nAUTOMOUNT: Mount for %s%s scratch tape requested on %4.4X = %s\n%s\n\n",
            [LogArg.text eyecatcher, LogArg.text asc, LogArg.text lbl,
              LogArg.hex4 dev.devnum, LogArg.text dev.filename, LogArg.text eyecatcher]⟩
        else
          ⟨"\n%s\nAUTOMOUNT: Mount for %s%s tape volume \"%s\" requested on %4.4X = %s\n%s\n\n",
            [LogArg.text eyecatcher, LogArg.text asc, LogArg.text lbl, LogArg.bytes volser,
              LogArg.hex4 dev.devnum, LogArg.text dev.filename, LogArg.text eyecatcher]⟩] ∧
      (ReqAutoMount hostNoEot devKeep).2 =
        [⟨"\n%s\nAUTOMOUNT: Unmount %sof %s%s tape volume \"%s\" requested on %4.4X = %s\n%s\n\n",
          [LogArg.text eyecatcher, LogArg.text "and keep ", LogArg.text "", LogArg.text "UL",
            LogArg.bytes (lit "EEP001"), LogArg.hex4 0, LogArg.text "tape.aws",
            LogArg.text eyecatcher]⟩] ∧
      (ReqAutoMount hostUnloaded devScratch).2 =
        [⟨"\n%s\nAUTOMOUNT: Mount for %s%s scratch tape requested on %4.4X = %s\n%s\n\n",
          [LogArg.text eyecatcher, LogArg.text "", LogArg.text "UL", LogArg.hex4 0,
            LogArg.text TAPE_UNLOADED, LogArg.text eyecatcher]⟩] := by
  have hauto : (if h.scsi = true then false
      else decide (dev.tapedispflags &&& TAPEDISPFLG_AUTOLOADER ≠ 0)) = false := by
    rcases hman with hs | hs
    · rw [if_pos hs]
    · split_ifs
      · rfl
      · simp [hs]
  refine ⟨?_, ?_, ?_, ?_⟩
  · subst hasc hlbl hkeep hvol
    unfold ReqAutoMount_messages
    simp only [hauto, Bool.false_eq_true, if_false, if_true, decide_eq_true_eq,
      List.append_nil, List.nil_append]
    split_ifs <;> rfl
  · subst hasc hlbl hkeep hvol
    unfold ReqAutoMount_messages
    simp only [hauto, Bool.false_eq_true, if_false, if_true, decide_eq_true_eq,
      List.append_nil, List.nil_append]
    split_ifs <;> rfl
  · rfl
  · rfl

theorem ReqAutoMount_classifies_witness :
    ReqAutoMount_messages hostNoEot devKeep devKeep.tapemsg1 true false =
      [if devKeep.tapemsg1.getD 0 0 = CH_S then
        ⟨"\n%s\nAUTOMOUNT: Unmount %sof %s%s scratch tape requested on %4.4X = %s\n%s\n\n",
          [LogArg.text eyecatcher, LogArg.text "and keep ", LogArg.text "", LogArg.text "UL",
            LogArg.hex4 devKeep.devnum, LogArg.text devKeep.filename, LogArg.text eyecatcher]⟩
      else
        ⟨"\n%s\nAUTOMOUNT: Unmount %sof %s%s tape volume \"%s\" requested on %4.4X = %s\n%s\n\n",
          [LogArg.text eyecatcher, LogArg.text "and keep ", LogArg.text "", LogArg.text "UL",
            LogArg.bytes (lit "EEP001"), LogArg.hex4 devKeep.devnum,
            LogArg.text devKeep.filename, LogArg.text eyecatcher]⟩] :=
  (ReqAutoMount_classifies hostNoEot devKeep devKeep.tapemsg1 "" "UL" "and keep "
    (lit "EEP001") (by decide) (by decide) (by decide) (by decide) (Or.inl rfl)).1

theorem GetDisplayMsg_stable (env : Env) (h : Host) (dev : DEVBLK) (n : Nat)
    (hst : ∀ d p, h.tapeloaded { d with prev_tapemsg := p } = h.tapeloaded d)
    (s : List Nat) (p : Option (List Nat)) :
    GetDisplayMsg env h { dev with tapesysmsg := s, prev_tapemsg := p } n =
      (if dev.displayfeat ∧ env.is_sysmsg dev.tapedisptype then GetDisplayMsg env h dev n
        else (s, (GetDisplayMsg env h dev n).2)) := by
  have key : ∀ s0, h.tapeloaded { dev with tapesysmsg := s0, prev_tapemsg := p } =
      h.tapeloaded { dev with tapesysmsg := s0 } := fun s0 => hst { dev with tapesysmsg := s0 } p
  unfold GetDisplayMsg
  simp only [key]
  cases hd : dev.displayfeat <;> cases hs : env.is_sysmsg dev.tapedisptype <;> simp

theorem UpdateDisplay_result (env : Env) (h : Host) (dev : DEVBLK)
    (hd : dev.displayfeat = true) :
    (UpdateDisplay env h dev).1 =
        { dev with
          tapesysmsg := (GetDisplayMsg env h dev 256).1
          prev_tapemsg := some (GetDisplayMsg env h dev 256).2 } ∧
      (((UpdateDisplay env h dev).2 = [] ∧
          dev.prev_tapemsg = some (GetDisplayMsg env h dev 256).2) ∨
        ((UpdateDisplay env h dev).2 =
            [⟨"HHCTA100I %4.4X: Now Displays: %s\n",
              [LogArg.hex4 dev.devnum, LogArg.bytes (GetDisplayMsg env h dev 256).2]⟩] ∧
          dev.prev_tapemsg ≠ some (GetDisplayMsg env h dev 256).2)) := by
  unfold UpdateDisplay
  rw [if_pos hd]
  simp only
  cases hp : dev.prev_tapemsg with
  | none => exact ⟨rfl, Or.inr ⟨rfl, by simp⟩⟩
  | some prev =>
    simp only
    by_cases hq : (GetDisplayMsg env h dev 256).2 = prev
    · rw [if_pos hq]
      refine ⟨?_, Or.inl ⟨rfl, by rw [hq]⟩⟩
      rw [hq]
    · rw [if_neg hq]
      refine ⟨rfl, Or.inr ⟨rfl, ?_⟩⟩
      intro hh
      exact hq (Option.some.inj hh).symm

/-- Claim C20: on a drive with a display, `UpdateDisplay` logs at most the one
message "Now Displays", and only if the string rendered by `GetDisplayMsg`
differs from the cached previous string; afterwards the cache holds the
rendered string.  A second call right after, the handler reporting the same
load state, logs nothing, so the two calls together log at most one message.
On a drive without a display nothing is logged and the device block is
unchanged. -/
theorem UpdateDisplay_notifies_on_change (env : Env) (h : Host) (dev : DEVBLK)
    (hst : ∀ d p, h.tapeloaded { d with prev_tapemsg := p } = h.tapeloaded d) :
    (dev.displayfeat = true →
      ((UpdateDisplay env h dev).2 ≠ [] →
        dev.prev_tapemsg ≠ some (GetDisplayMsg env h dev 256).2 ∧
        (UpdateDisplay env h dev).2 =
          [⟨"HHCTA100I %4.4X: Now Displays: %s\n",
            [LogArg.hex4 dev.devnum, LogArg.bytes (GetDisplayMsg env h dev 256).2]⟩]) ∧
      (dev.prev_tapemsg = some (GetDisplayMsg env h dev 256).2 →
        (UpdateDisplay env h dev).2 = []) ∧
      (UpdateDisplay env h dev).1.prev_tapemsg = some (GetDisplayMsg env h dev 256).2 ∧
      (UpdateDisplay env h (UpdateDisplay env h dev).1).2 = [] ∧
      (UpdateDisplay env h dev).2.length +
        (UpdateDisplay env h (UpdateDisplay env h dev).1).2.length ≤ 1) ∧
    (dev.displayfeat = false → UpdateDisplay env h dev = (dev, [])) := by
  constructor
  · intro hd
    obtain ⟨e1, e2⟩ := UpdateDisplay_result env h dev hd
    have hsecond : (UpdateDisplay env h (UpdateDisplay env h dev).1).2 = [] := by
      have hd2 : (UpdateDisplay env h dev).1.displayfeat = true := by rw [e1]; exact hd
      obtain ⟨_, f2⟩ := UpdateDisplay_result env h (UpdateDisplay env h dev).1 hd2
      rcases f2 with ⟨f, _⟩ | ⟨_, f⟩
      · exact f
      · exfalso
        apply f
        have hr : (GetDisplayMsg env h (UpdateDisplay env h dev).1 256).2 =
            (GetDisplayMsg env h dev 256).2 := by
          rw [e1, GetDisplayMsg_stable env h dev 256 hst]
          split_ifs <;> rfl
        rw [hr, e1]
    refine ⟨?_, ?_, ?_, hsecond, ?_⟩
    · intro hne
      rcases e2 with ⟨e, _⟩ | ⟨e, hp⟩
      · exact absurd e hne
      · exact ⟨hp, e⟩
    · intro hp
      rcases e2 with ⟨e, _⟩ | ⟨_, hq⟩
      · exact e
      · exact absurd hp hq
    · rw [e1]
    · rw [hsecond]
      rcases e2 with ⟨e, _⟩ | ⟨e, _⟩ <;> rw [e] <;> simp
  · intro hd
    unfold UpdateDisplay
    rw [if_neg (by simp [hd])]

theorem UpdateDisplay_notifies_on_change_witness :
    (UpdateDisplay envDefault hostNoEot (UpdateDisplay envDefault hostNoEot devKeep).1).2 = [] :=
  ((UpdateDisplay_notifies_on_change envDefault hostNoEot devKeep (fun _ _ => rfl)).1 rfl).2.2.2.1

/-! ## Mounting a tape -/

theorem ite_pred {α : Type} (P : α → Prop) (c : Prop) [Decidable c] (a b : α)
    (ha : P a) (hb : P b) : P (if c then a else b) := by
  split_ifs <;> assumption

theorem mount_parm_same (env : Env) (scsi : Bool) (sd : String)
    (st : DEVBLK × List LogRec × Int) (arg : String) :
    SameDisplay (mount_parm env scsi sd st arg).1 st.1 := by
  unfold mount_parm
  simp only
  repeat' first
    | exact ⟨rfl, rfl, rfl, rfl, rfl, rfl, rfl, rfl⟩
    | apply ite_pred (fun r : DEVBLK × List LogRec × Int => SameDisplay r.1 st.1)

theorem mount_parms_same (env : Env) (scsi : Bool) (sd : String) (args : List String) :
    ∀ st : DEVBLK × List LogRec × Int,
      SameDisplay (args.foldl (mount_parm env scsi sd) st).1 st.1 := by
  induction args with
  | nil => intro st; exact SameDisplay_refl _
  | cons a t ih =>
    intro st
    rw [List.foldl_cons]
    exact SameDisplay_trans _ _ _ (ih _) (mount_parm_same env scsi sd st a)

theorem mount_display_cases (d : DEVBLK) :
    (mount_display d).filename = d.filename ∧ (mount_display d).tapemsg2 = d.tapemsg2 ∧
      (mount_display d).als = d.als ∧ (mount_display d).tapedevt = d.tapedevt ∧
      (d.displayfeat = true → d.filename = TAPE_UNLOADED →
        d.tapedisptype = TAPEDISPTYP.UMOUNTMOUNT →
        (mount_display d).tapedisptype = TAPEDISPTYP.MOUNT ∧
          (mount_display d).tapedispflags = d.tapedispflags ||| TAPEDISPFLG_REQAUTOMNT ∧
          (mount_display d).tapemsg1 = strlcpy d.tapemsg1 (cstr d.tapemsg2) sizeof_tapemsg) ∧
      (d.displayfeat = true → d.filename = TAPE_UNLOADED →
        d.tapedisptype = TAPEDISPTYP.UNMOUNT →
        (mount_display d).tapedisptype = TAPEDISPTYP.IDLE) ∧
      (d.displayfeat = true → d.filename ≠ TAPE_UNLOADED →
        (mount_display d).tapedisptype = TAPEDISPTYP.IDLE) := by
  unfold mount_display
  refine ⟨?_, ?_, ?_, ?_, ?_, ?_, ?_⟩
  · split_ifs <;> rfl
  · split_ifs <;> rfl
  · split_ifs <;> rfl
  · split_ifs <;> rfl
  · intro h1 h2 h3
    rw [if_pos h1, if_pos h2, if_pos h3]
    exact ⟨rfl, rfl, rfl⟩
  · intro h1 h2 h3
    rw [if_pos h1, if_pos h2, if_neg (by rw [h3]; decide), if_pos h3]
  · intro h1 h2
    rw [if_pos h1, if_neg h2]

theorem mount_finish_cases (env : Env) (tmh : TAPEDEVT → Host)
    (st : DEVBLK × List LogRec × Int) :
    (mount_finish env tmh st).2.2 = -1 ∨
      (mount_finish env tmh st).1 =
        (ReqAutoMount (tmh (mount_display st.1).tapedevt)
          (UpdateDisplay env (tmh (mount_display st.1).tapedevt) (mount_display st.1)).1).1 := by
  unfold mount_finish
  by_cases hrc : st.2.2 ≠ 0
  · left
    rw [if_pos hrc]
  · right
    rw [if_neg hrc]

/-- Where `mountnewtape` returns 0 it has adjusted the display of a device
block that agrees with the one passed in on the display state, and then
called `UpdateDisplay` and `ReqAutoMount`. -/
theorem mountnewtape_cases (env : Env) (tmh : TAPEDEVT → Host) (scsi : Bool) (dev : DEVBLK)
    (argv : List String) :
    (mountnewtape env tmh scsi dev argv).2.2 = -1 ∨
      ∃ d0 : DEVBLK, d0.tapedisptype = dev.tapedisptype ∧
        d0.tapedispflags = dev.tapedispflags ∧ d0.tapemsg1 = dev.tapemsg1 ∧
        d0.tapemsg2 = dev.tapemsg2 ∧ d0.als = dev.als ∧ d0.displayfeat = dev.displayfeat ∧
        (mountnewtape env tmh scsi dev argv).1 =
          (ReqAutoMount (tmh (mount_display d0).tapedevt)
            (UpdateDisplay env (tmh (mount_display d0).tapedevt) (mount_display d0)).1).1 := by
  have hf : SameDisplay { mount_filename env { dev with omadesc := false } argv with
      filename := dev.filename } dev := by
    unfold mount_filename
    split
    · exact SameDisplay_refl dev
    · split_ifs <;> exact SameDisplay_refl dev
  have hi : ∀ d : DEVBLK, SameDisplay (mount_init env scsi d) d := by
    intro d
    unfold mount_init
    simp only
    split_ifs <;> exact SameDisplay_refl d
  cases hmf : mount_format env (mount_filename env { dev with omadesc := false } argv)
      (fmttab scsi) 0 with
  | none =>
    left
    simp only [mountnewtape, hmf]
  | some r =>
    obtain ⟨e, oerr⟩ := r
    cases oerr with
    | some err =>
      left
      simp only [mountnewtape, hmf]
    | none =>
      simp only [mountnewtape, hmf]
      refine Or.imp id (fun hr => ⟨_, ?_, ?_, ?_, ?_, ?_, ?_, hr⟩) (mount_finish_cases env tmh _)
      · exact ((mount_parms_same _ _ _ _ _).1.trans (hi _).1).trans hf.1
      · exact ((mount_parms_same _ _ _ _ _).2.1.trans (hi _).2.1).trans hf.2.1
      · exact ((mount_parms_same _ _ _ _ _).2.2.1.trans (hi _).2.2.1).trans hf.2.2.1
      · exact ((mount_parms_same _ _ _ _ _).2.2.2.1.trans (hi _).2.2.2.1).trans hf.2.2.2.1
      · exact ((mount_parms_same _ _ _ _ _).2.2.2.2.1.trans (hi _).2.2.2.2.1).trans hf.2.2.2.2.1
      · exact ((mount_parms_same _ _ _ _ _).2.2.2.2.2.1.trans (hi _).2.2.2.2.2.1).trans
          hf.2.2.2.2.2.1

/-- Claim C19: let `mountnewtape` return 0 on a drive with a display.  If the
file name it leaves is UNLOADED and the display type was UMOUNTMOUNT, the
display type becomes MOUNT, message slot 1 receives the C string of message
slot 2, and `ReqAutoMount` is called on a device block in which the flag
REQAUTOMNT has been raised (it resets the flag unless an autoloader is in
use).  If the file name is UNLOADED and the display type was UNMOUNT, the
display type becomes IDLE.  If the file name is not UNLOADED, the display
type becomes IDLE. -/
theorem mountnewtape_display (env : Env) (tmh : TAPEDEVT → Host) (scsi : Bool) (dev : DEVBLK)
    (argv : List String) (hk : ∀ k, OpenKeepsDisplay (tmh k))
    (hdf : dev.displayfeat = true)
    (hrc : (mountnewtape env tmh scsi dev argv).2.2 = 0) :
    ((mountnewtape env tmh scsi dev argv).1.filename = TAPE_UNLOADED ∧
        dev.tapedisptype = TAPEDISPTYP.UMOUNTMOUNT →
      (mountnewtape env tmh scsi dev argv).1.tapedisptype = TAPEDISPTYP.MOUNT ∧
        (mountnewtape env tmh scsi dev argv).1.tapemsg1
          = strlcpy dev.tapemsg1 (cstr dev.tapemsg2) sizeof_tapemsg ∧
        cstr (mountnewtape env tmh scsi dev argv).1.tapemsg1 = (cstr dev.tapemsg2).take 8 ∧
        (mountnewtape env tmh scsi dev argv).1.tapemsg2 = dev.tapemsg2 ∧
        (∃ d : DEVBLK, d.tapedispflags = dev.tapedispflags ||| TAPEDISPFLG_REQAUTOMNT ∧
          (mountnewtape env tmh scsi dev argv).1 =
            (ReqAutoMount (tmh d.tapedevt) (UpdateDisplay env (tmh d.tapedevt) d).1).1) ∧
        (mountnewtape env tmh scsi dev argv).1.tapedispflags &&& TAPEDISPFLG_REQAUTOMNT
          = (if dev.als.isSome then TAPEDISPFLG_REQAUTOMNT else 0)) ∧
    ((mountnewtape env tmh scsi dev argv).1.filename = TAPE_UNLOADED ∧
        dev.tapedisptype = TAPEDISPTYP.UNMOUNT →
      (mountnewtape env tmh scsi dev argv).1.tapedisptype = TAPEDISPTYP.IDLE) ∧
    ((mountnewtape env tmh scsi dev argv).1.filename ≠ TAPE_UNLOADED →
      (mountnewtape env tmh scsi dev argv).1.tapedisptype = TAPEDISPTYP.IDLE) := by
  rcases mountnewtape_cases env tmh scsi dev argv with hbad | ⟨d0, t1, t2, t3, t4, t5, t6, hr⟩
  · rw [hrc] at hbad
    exact absurd hbad (by decide)
  obtain ⟨m1, m2, m3, m4, m5, m6, m7⟩ := mount_display_cases d0
  obtain ⟨u1, u2, u3, u4, u5, _, _, u8⟩ :=
    UpdateDisplay_same env (tmh (mount_display d0).tapedevt) (mount_display d0)
  obtain ⟨r1, r2, r3, r4, _, r6, _⟩ := ReqAutoMount_same (tmh (mount_display d0).tapedevt)
    (hk _) (UpdateDisplay env (tmh (mount_display d0).tapedevt) (mount_display d0)).1
  have hfn : (mountnewtape env tmh scsi dev argv).1.filename = d0.filename := by
    rw [hr, r6, u8, m1]
  have hty : (mountnewtape env tmh scsi dev argv).1.tapedisptype
      = (mount_display d0).tapedisptype := by
    rw [hr, r1, u1]
  have hd0 : d0.displayfeat = true := t6.trans hdf
  refine ⟨?_, ?_, ?_⟩
  · rintro ⟨hf, ht⟩
    obtain ⟨n1, n2, n3⟩ := m5 hd0 (hfn ▸ hf) (t1.trans ht)
    have hmsg1 : (mountnewtape env tmh scsi dev argv).1.tapemsg1
        = strlcpy dev.tapemsg1 (cstr dev.tapemsg2) sizeof_tapemsg := by
      rw [hr, r2, u3, n3, t3, t4]
    refine ⟨hty.trans n1, hmsg1, ?_, ?_, ⟨mount_display d0, ?_, hr⟩, ?_⟩
    · rw [hmsg1]
      exact cstr_strlcpy dev.tapemsg1 dev.tapemsg2 8
    · rw [hr, r3, u4, m2, t4]
    · rw [n2, t2]
    · rw [hr, ReqAutoMount_flag_req _ (hk _), u5, u2, m3, t5, n2]
      split_ifs
      · exact and_or_of_sub _ _ _ (by decide)
      · rfl
  · rintro ⟨hf, ht⟩
    exact hty.trans (m6 hd0 (hfn ▸ hf) (t1.trans ht))
  · intro hf
    exact hty.trans (m7 hd0 (hfn ▸ hf))

theorem mountnewtape_display_witness :
    (mountnewtape envDefault (fun _ => hostUnloaded) true devScratch []).1.tapedisptype
      = TAPEDISPTYP.MOUNT :=
  ((mountnewtape_display envDefault (fun _ => hostUnloaded) true devScratch []
    (fun _ d => SameDisplay_refl d) rfl (by decide)).1 ⟨by decide, rfl⟩).1

/-! ## Autoloader -/

/-- Claim C21, the code at the input of the claim: with the slots A, B, C and
slot 2 (C) mounted, `autoload_mount_next` returns -1 but leaves the loader
open, the slot index advanced to 3; only the call after that closes the
loader (slot list and global arguments released, `als` NULL, `alss` 0). -/
theorem autoload_mount_next_after_last_slot :
    (autoload_mount_next envDefault (fun _ => hostUnloaded) true devLoaderLast).2.2 = -1 ∧
      (autoload_mount_next envDefault (fun _ => hostUnloaded) true devLoaderLast).1.als
        = some [slotA, slotB, slotC] ∧
      (autoload_mount_next envDefault (fun _ => hostUnloaded) true devLoaderLast).1.alss = 3 ∧
      (autoload_mount_next envDefault (fun _ => hostUnloaded) true devLoaderLast).1.al_argv
        = some ["rw"] ∧
      (autoload_mount_next envDefault (fun _ => hostUnloaded) true devLoaderLast).1.alsix = 3 ∧
      (autoload_mount_next envDefault (fun _ => hostUnloaded) true
        (autoload_mount_next envDefault (fun _ => hostUnloaded) true devLoaderLast).1).2.2
          = -1 ∧
      (autoload_mount_next envDefault (fun _ => hostUnloaded) true
        (autoload_mount_next envDefault (fun _ => hostUnloaded) true devLoaderLast).1).1.als
          = none ∧
      (autoload_mount_next envDefault (fun _ => hostUnloaded) true
        (autoload_mount_next envDefault (fun _ => hostUnloaded) true devLoaderLast).1).1.alss
          = 0 ∧
      (autoload_mount_next envDefault (fun _ => hostUnloaded) true
        (autoload_mount_next envDefault (fun _ => hostUnloaded) true devLoaderLast).1).1.al_argv
          = none := by
  decide

theorem autoload_mount_pars_append (args : List String) :
    ∀ pars : List String, pars.length + args.length ≤ 256 →
      autoload_mount_pars pars args = pars ++ args := by
  induction args with
  | nil => intro pars _; simp [autoload_mount_pars]
  | cons a rest ih =>
    intro pars h
    simp only [List.length_cons] at h
    have h1 : ¬ pars.length > 255 := by omega
    rw [autoload_mount_pars, if_neg h1, ih (pars ++ [a]) (by simp; omega)]
    simp

/-- Claim C22: for a slot index below the slot count, with at most 256
entries in all, `autoload_mount_tape` calls `mountnewtape` with the file name
of the slot, then the global arguments, then the arguments of the slot;
`autoload_mount_first` does so for slot 0 and `autoload_mount_next` for the
slot behind the current one.  With the global argument rw and the slots A, B,
C the argument vectors are [A, rw] and then [B, rw]. -/
theorem autoload_mount_tape_args (env : Env) (tmh : TAPEDEVT → Host) (scsi : Bool)
    (dev : DEVBLK) (alix : Nat) (e : TAPEAUTOLOADENTRY) (globals : List String)
    (hi : alix < dev.alss)
    (he : (dev.als.getD []).getD alix { filename := "", argv := [] } = e)
    (hg : (dev.al_argv.getD []).take dev.al_argc = globals)
    (hn : 1 + globals.length + e.argv.length ≤ 256) :
    autoload_mount_tape env tmh scsi dev alix =
        mountnewtape env tmh scsi dev ([e.filename] ++ globals ++ e.argv) ∧
      (alix = 0 → autoload_mount_first env tmh scsi dev =
        mountnewtape env tmh scsi { dev with alsix := 0 } ([e.filename] ++ globals ++ e.argv)) ∧
      (alix = dev.alsix + 1 → autoload_mount_next env tmh scsi dev =
        mountnewtape env tmh scsi { dev with alsix := dev.alsix + 1 }
          ([e.filename] ++ globals ++ e.argv)) ∧
      (∀ d : DEVBLK, d.als = some [slotA, slotB, slotC] → d.alss = 3 →
        d.al_argv = some ["rw"] → d.al_argc = 1 →
        autoload_mount_first env tmh scsi d =
            mountnewtape env tmh scsi { d with alsix := 0 } ["A", "rw"] ∧
          (d.alsix = 0 → autoload_mount_next env tmh scsi d =
            mountnewtape env tmh scsi { d with alsix := 1 } ["B", "rw"])) := by
  have key : ∀ (d : DEVBLK) (i : Nat) (t : TAPEAUTOLOADENTRY) (g : List String),
      i < d.alss → (d.als.getD []).getD i { filename := "", argv := [] } = t →
      (d.al_argv.getD []).take d.al_argc = g → 1 + g.length + t.argv.length ≤ 256 →
      autoload_mount_tape env tmh scsi d i =
        mountnewtape env tmh scsi d ([t.filename] ++ g ++ t.argv) := by
    intro d i t g h1 h2 h3 h4
    unfold autoload_mount_tape
    rw [if_neg (by omega)]
    simp only [h2, h3]
    rw [autoload_mount_pars_append g [t.filename] (by simp; omega),
      autoload_mount_pars_append t.argv _ (by simp; omega)]
  refine ⟨key dev alix e globals hi he hg hn, ?_, ?_, ?_⟩
  · intro h0
    subst h0
    exact key { dev with alsix := 0 } 0 e globals hi he hg hn
  · intro h1
    unfold autoload_mount_next
    rw [if_neg (by omega), ← h1]
    exact key { dev with alsix := alix } alix e globals hi he hg hn
  · intro d h1 h2 h3 h4
    constructor
    · exact key { d with alsix := 0 } 0 slotA ["rw"] (by show 0 < d.alss; omega)
        (by show (d.als.getD []).getD 0 _ = _; rw [h1]; rfl)
        (by show (d.al_argv.getD []).take d.al_argc = _; rw [h3, h4]; rfl) (by decide)
    · intro h5
      unfold autoload_mount_next
      rw [if_neg (by omega), h5]
      exact key { d with alsix := 0 + 1 } (0 + 1) slotB ["rw"] (by show 1 < d.alss; omega)
        (by show (d.als.getD []).getD 1 _ = _; rw [h1]; rfl)
        (by show (d.al_argv.getD []).take d.al_argc = _; rw [h3, h4]; rfl) (by decide)

theorem autoload_mount_tape_args_witness :
    autoload_mount_tape envDefault (fun _ => hostUnloaded) true devLoader 1 =
      mountnewtape envDefault (fun _ => hostUnloaded) true devLoader (["B"] ++ ["rw"] ++ []) :=
  (autoload_mount_tape_args envDefault (fun _ => hostUnloaded) true devLoader 1 slotB ["rw"]
    (by decide) rfl rfl (by decide)).1

theorem splitOnP_takeWhile (p : Char → Bool) (s : List Char) :
    s.splitOnP p = s.takeWhile (fun c => !p c) ::
      (match s.dropWhile (fun c => !p c) with
        | [] => []
        | _ :: r => r.splitOnP p) := by
  induction s with
  | nil => simp [List.splitOnP_nil]
  | cons c s ih =>
    rw [List.splitOnP_cons]
    by_cases hc : p c = true
    · simp [hc]
    · simp only [hc, if_false, Bool.false_eq_true]
      rw [ih]
      simp [List.modifyHead, hc]

/-- The non-empty pieces of a character list cut at the delimiters. -/
theorem words_dropWhile (s : List Char) :
    (s.splitOnP (fun c => isdelim c)).filter (fun t => t ≠ []) =
      ((s.dropWhile isdelim).splitOnP (fun c => isdelim c)).filter (fun t => t ≠ []) := by
  induction s with
  | nil => rfl
  | cons c s ih =>
    by_cases hc : isdelim c = true
    · rw [List.splitOnP_cons, if_pos hc, List.dropWhile_cons_of_pos hc, ← ih]
      simp
    · rw [List.dropWhile_cons_of_neg hc]

theorem strtok_r_words (s : List Char) :
    (strtok_r s = none → (s.splitOnP (fun c => isdelim c)).filter (fun t => t ≠ []) = []) ∧
    (∀ tok rest, strtok_r s = some (tok, rest) →
      (s.splitOnP (fun c => isdelim c)).filter (fun t => t ≠ []) =
        tok :: (rest.splitOnP (fun c => isdelim c)).filter (fun t => t ≠ []) ∧
      rest.length < s.length ∧ tok ≠ []) := by
  unfold strtok_r
  simp only
  rw [words_dropWhile s]
  cases hs : s.dropWhile isdelim with
  | nil => simp [List.splitOnP_nil]
  | cons c s1 =>
    have hc : isdelim c = false := by
      have := List.head_dropWhile_not isdelim s (by rw [hs]; simp)
      simpa [hs] using this
    have hlen : (c :: s1).length ≤ s.length := by
      rw [← hs]; exact (List.dropWhile_sublist _).length_le
    refine ⟨by simp, ?_⟩
    intro tok rest h
    simp only [reduceCtorEq, if_false, Option.some.injEq, Prod.mk.injEq] at h
    obtain ⟨h1, h2⟩ := h
    subst h1 h2
    rw [splitOnP_takeWhile]
    have htok : List.takeWhile (fun c => !isdelim c) (c :: s1) ≠ [] := by
      simp [List.takeWhile, hc]
    refine ⟨?_, ?_, htok⟩
    · rw [List.filter_cons_of_pos (by simpa using htok)]
      congr 1
      cases hd : List.dropWhile (fun c => !isdelim c) (c :: s1) with
      | nil => simp [List.splitOnP_nil]
      | cons d r => simp
    · have : (List.dropWhile (fun c => !isdelim c) (c :: s1)).length ≤ (c :: s1).length :=
        (List.dropWhile_sublist _).length_le
      simp only [List.length_drop]
      simp only [List.length_cons] at this hlen ⊢
      omega

theorem autoload_entry_args_words :
    ∀ (fuel : Nat) (s : List Char), s.length < fuel →
      autoload_entry_args fuel s =
        ((s.splitOnP (fun c => isdelim c)).filter (fun t => t ≠ [])).map String.mk := by
  intro fuel
  induction fuel with
  | zero => intro s h; omega
  | succ n ih =>
    intro s h
    rw [autoload_entry_args]
    cases ht : strtok_r s with
    | none => rw [(strtok_r_words s).1 ht]; rfl
    | some r =>
      obtain ⟨tok, rest⟩ := r
      obtain ⟨h1, h2, _⟩ := (strtok_r_words s).2 tok rest ht
      simp only
      rw [h1, List.map_cons, ih rest (by omega)]

theorem LoaderHolds_close (d : DEVBLK) : LoaderHolds (autoload_close d) [] [] := by
  unfold autoload_close LoaderHolds
  simp only
  split_ifs <;> simp_all

theorem LoaderHolds_global (d : DEVBLK) (G : List String) (S : List TAPEAUTOLOADENTRY)
    (p : String) (h : LoaderHolds d G S) :
    LoaderHolds (autoload_global_parms d p).1 (G ++ [p]) S := by
  obtain ⟨h1, h2, h3, h4⟩ := h
  unfold autoload_global_parms LoaderHolds
  by_cases hG : G = []
  · subst hG
    simp only [if_true] at h1
    refine ⟨?_, ?_, ?_, ?_⟩
    · simp [h1]
    · simp [h1]
    · simp [h1, h3]
    · simpa [h1] using h4
  · simp only [if_neg hG] at h1
    refine ⟨?_, ?_, ?_, ?_⟩
    · simp [h1, h2]
    · simp [h1, h2]
    · simp [h1, h3]
    · simpa [h1] using h4

theorem LoaderHolds_entry (d : DEVBLK) (G : List String) (S : List TAPEAUTOLOADENTRY)
    (fn : String) (rest : List Char) (h : LoaderHolds d G S) :
    LoaderHolds (autoload_tape_entry d fn rest).1 G
      (S ++ [TAPEAUTOLOADENTRY.mk fn
        (((rest.splitOnP (fun c => isdelim c)).filter (fun t => t ≠ [])).map String.mk)]) := by
  obtain ⟨h1, h2, h3, h4⟩ := h
  unfold autoload_tape_entry LoaderHolds
  rw [autoload_entry_args_words _ rest (Nat.lt_succ_self _)]
  by_cases hS : S = []
  · subst hS
    simp only [if_true] at h3
    refine ⟨?_, ?_, ?_, ?_⟩
    · simpa [h3] using h1
    · simpa [h3] using h2
    · simp [h3]
    · simp [h3]
  · simp only [if_neg hS] at h3
    refine ⟨?_, ?_, ?_, ?_⟩
    · simpa [h3] using h1
    · simpa [h3] using h2
    · simp [h3, h4 hS]
    · simp [h3, h4 hS]

theorem LoaderHolds_globals_loop (S : List TAPEAUTOLOADENTRY) :
    ∀ (fuel : Nat) (st : DEVBLK × List LogRec) (s : List Char) (G : List String),
      s.length < fuel → LoaderHolds st.1 G S →
      LoaderHolds (autoload_init_globals fuel st s).1
        (G ++ ((s.splitOnP (fun c => isdelim c)).filter (fun t => t ≠ [])).map String.mk) S := by
  intro fuel
  induction fuel with
  | zero => intro st s G h; omega
  | succ n ih =>
    intro st s G h hl
    rw [autoload_init_globals]
    cases ht : strtok_r s with
    | none =>
      rw [(strtok_r_words s).1 ht]
      simpa using hl
    | some r =>
      obtain ⟨tok, rest⟩ := r
      obtain ⟨h1, h2, _⟩ := (strtok_r_words s).2 tok rest ht
      simp only
      rw [h1, List.map_cons]
      have := ih ((autoload_global_parms st.1 (String.mk tok)).1,
        st.2 ++ (autoload_global_parms st.1 (String.mk tok)).2) rest (G ++ [String.mk tok])
        (by omega) (LoaderHolds_global st.1 G S _ hl)
      simpa using this

theorem LoaderHolds_record (st : DEVBLK × List LogRec) (rec : String) (G : List String)
    (S : List TAPEAUTOLOADENTRY) (h : LoaderHolds st.1 G S) :
    LoaderHolds (autoload_init_record st rec).1
      (G ++ spec_autoload_global (spec_autoload_tokens rec))
      (S ++ (spec_autoload_slot (spec_autoload_tokens rec)).toList) := by
  unfold autoload_init_record spec_autoload_tokens
  simp only
  generalize (rec.toList.reverse.dropWhile isspace).reverse = r
  by_cases hr : r.length = 0
  · have : r = [] := List.length_eq_zero.mp hr
    subst this
    simpa [spec_autoload_global, spec_autoload_slot] using h
  rw [if_neg hr]
  cases ht : strtok_r r with
  | none =>
    rw [(strtok_r_words r).1 ht]
    simpa [spec_autoload_global, spec_autoload_slot] using h
  | some p =>
    obtain ⟨verb, rest⟩ := p
    obtain ⟨h1, _, h3⟩ := (strtok_r_words r).2 verb rest ht
    rw [h1, List.map_cons]
    simp only
    have hv : verb.head? ≠ none := by
      intro hn
      cases verb <;> simp_all
    rw [if_neg hv]
    have hstar : String.mk verb = "*" ↔ verb = ['*'] := by
      constructor
      · intro e
        have := congrArg String.toList e
        simpa using this
      · intro e; rw [e]
    by_cases hh : verb.head? = some '#'
    · rw [if_pos hh]
      have hns : ¬ String.mk verb = "*" := by
        rw [hstar]; intro e; rw [e] at hh; simp at hh
      simpa [spec_autoload_global, spec_autoload_slot, hh, hns] using h
    · rw [if_neg hh]
      by_cases hs : String.mk verb = "*"
      · rw [if_pos hs]
        have := LoaderHolds_globals_loop S (rest.length + 1) st rest G (Nat.lt_succ_self _) h
        simpa [spec_autoload_global, spec_autoload_slot, hh, hs] using this
      · rw [if_neg hs]
        have := LoaderHolds_entry st.1 G S (String.mk verb) rest h
        simpa [spec_autoload_global, spec_autoload_slot, hh, hs] using this

theorem LoaderHolds_records :
    ∀ (recs : List String) (st : DEVBLK × List LogRec) (G : List String)
      (S : List TAPEAUTOLOADENTRY), LoaderHolds st.1 G S →
      LoaderHolds (recs.foldl autoload_init_record st).1
        (G ++ (recs.map (fun r => spec_autoload_global (spec_autoload_tokens r))).flatten)
        (S ++ recs.filterMap (fun r => spec_autoload_slot (spec_autoload_tokens r))) := by
  intro recs
  induction recs with
  | nil => intro st G S h; simpa using h
  | cons r rest ih =>
    intro st G S h
    rw [List.foldl_cons]
    have := ih _ _ _ (LoaderHolds_record st r G S h)
    cases hs : spec_autoload_slot (spec_autoload_tokens r) <;>
      simpa [hs, List.filterMap_cons] using this

theorem LoaderHolds_parms :
    ∀ (parms : List String) (st : DEVBLK × List LogRec) (G : List String)
      (S : List TAPEAUTOLOADENTRY), LoaderHolds st.1 G S →
      LoaderHolds (parms.foldl (fun st p => ((autoload_global_parms st.1 p).1,
        st.2 ++ (autoload_global_parms st.1 p).2)) st).1 (G ++ parms) S := by
  intro parms
  induction parms with
  | nil => intro st G S h; simpa using h
  | cons p rest ih =>
    intro st G S h
    rw [List.foldl_cons]
    have := ih ((autoload_global_parms st.1 p).1, st.2 ++ (autoload_global_parms st.1 p).2)
      (G ++ [p]) S (LoaderHolds_global st.1 G S p h)
    rw [List.append_assoc] at this
    exact this

/-- Claim C23: `autoload_init` leaves no slots and no global arguments where
there is no argument, where the first argument does not begin with `@`, or
where the description file cannot be opened.  Otherwise the global arguments
are the further arguments followed by the remaining tokens of the lines whose
first token is `*`, and the slots are, in file order, one for each line that
is neither blank, nor begins with `#`, nor has `*` as first token, with the
first token as file name and the remaining tokens as its arguments. -/
theorem autoload_init_refines (env : Env) (dev : DEVBLK) (av : List String) :
    ((av = [] ∨ (∃ a parms, av = a :: parms ∧
        (a.toList.head? ≠ some '@' ∨
          env.autoload_file (String.mk (a.toList.drop 1)) = none))) →
      LoaderHolds (autoload_init env dev av).1 [] []) ∧
    (∀ a parms recs, av = a :: parms → a.toList.head? = some '@' →
      env.autoload_file (String.mk (a.toList.drop 1)) = some recs →
      LoaderHolds (autoload_init env dev av).1
        (parms ++ (recs.map (fun r => spec_autoload_global (spec_autoload_tokens r))).flatten)
        (recs.filterMap (fun r => spec_autoload_slot (spec_autoload_tokens r)))) := by
  constructor
  · rintro (h | ⟨a, parms, h, h2⟩)
    · subst h
      exact LoaderHolds_close dev
    · subst h
      unfold autoload_init
      simp only
      rcases h2 with h2 | h2
      · rw [if_pos h2]
        exact LoaderHolds_close dev
      · by_cases h3 : a.toList.head? ≠ some '@'
        · rw [if_pos h3]
          exact LoaderHolds_close dev
        · rw [if_neg h3]
          simp only [h2]
          exact LoaderHolds_close dev
  · intro a parms recs h h2 h3
    subst h
    unfold autoload_init
    simp only
    rw [if_neg (by simpa using h2)]
    simp only [h3]
    have := LoaderHolds_records recs _ _ _
      (LoaderHolds_parms parms (autoload_close dev,
        [⟨"TAPE: Autoloader file request fn=%s\n",
          [LogArg.text (String.mk (a.toList.drop 1))]⟩]) [] [] (LoaderHolds_close dev))
    simpa using this

theorem autoload_init_refines_witness :
    LoaderHolds (autoload_init envLoader dev3480 ["@tapes.txt", "deonirq=1"]).1
      ["deonirq=1", "rw"] [slotA, { filename := "B", argv := ["ro", "noring"] }, slotC] :=
  (autoload_init_refines envLoader dev3480 ["@tapes.txt", "deonirq=1"]).2
    "@tapes.txt" ["deonirq=1"] ["# tapes\n", "* rw\n", "\n", "A\n", "B  ro\tnoring \n", "C\n"]
    rfl (by decide) (by decide)

/-! ## File descriptor and file name after a mount -/

theorem mount_parm_fd (env : Env) (scsi : Bool) (sd : String)
    (st : DEVBLK × List LogRec × Int) (arg : String) :
    (mount_parm env scsi sd st arg).1.fd = st.1.fd ∧
      (mount_parm env scsi sd st arg).1.filename = st.1.filename := by
  unfold mount_parm
  simp only
  repeat' first
    | exact ⟨rfl, rfl⟩
    | apply ite_pred (fun r : DEVBLK × List LogRec × Int =>
        r.1.fd = st.1.fd ∧ r.1.filename = st.1.filename)

theorem mount_parms_fd (env : Env) (scsi : Bool) (sd : String) (args : List String) :
    ∀ st : DEVBLK × List LogRec × Int,
      (args.foldl (mount_parm env scsi sd) st).1.fd = st.1.fd ∧
        (args.foldl (mount_parm env scsi sd) st).1.filename = st.1.filename := by
  induction args with
  | nil => intro st; exact ⟨rfl, rfl⟩
  | cons a t ih =>
    intro st
    rw [List.foldl_cons]
    exact ⟨(ih _).1.trans (mount_parm_fd env scsi sd st a).1,
      (ih _).2.trans (mount_parm_fd env scsi sd st a).2⟩

theorem mount_init_fd (env : Env) (scsi : Bool) (d : DEVBLK) :
    (mount_init env scsi d).fd = -1 ∧ (mount_init env scsi d).filename = d.filename := by
  unfold mount_init
  simp only
  split_ifs <;> exact ⟨rfl, rfl⟩

theorem mount_display_fd (d : DEVBLK) : (mount_display d).fd = d.fd := by
  unfold mount_display
  split_ifs <;> rfl

theorem ReqAutoMount_fd (h : Host) (d : DEVBLK) (hfd : d.fd < 0) :
    (ReqAutoMount h d).1.fd = (h.tmh_open d).fd := by
  unfold ReqAutoMount
  rw [if_pos hfd]
  simp only
  split_ifs <;> rfl

/-- Past the format determination `mountnewtape` ends in `mount_finish` on a
device block with `fd` at -1 and the file name taken from the arguments. -/
theorem mountnewtape_past_format (env : Env) (tmh : TAPEDEVT → Host) (scsi : Bool)
    (dev : DEVBLK) (argv : List String) (e : tape_format_entry)
    (hmf : mount_format env (mount_filename env { dev with omadesc := false } argv)
      (fmttab scsi) 0 = some (e, none)) :
    ∃ st : DEVBLK × List LogRec × Int, st.1.fd = -1 ∧
      st.1.filename = (mount_filename env { dev with omadesc := false } argv).filename ∧
      mountnewtape env tmh scsi dev argv = mount_finish env tmh st := by
  simp only [mountnewtape, hmf]
  refine ⟨_, ?_, ?_, rfl⟩
  · exact (mount_parms_fd _ _ _ _ _).1.trans (mount_init_fd _ _ _).1
  · exact (mount_parms_fd _ _ _ _ _).2.trans (mount_init_fd _ _ _).2

theorem mount_filename_unloaded (env : Env) (dev : DEVBLK) (argv : List String)
    (h : argv = [] ∨ ∃ a rest, argv = a :: rest ∧ a.utf8ByteSize > env.sizeof_filename - 1) :
    (mount_filename env dev argv).filename = TAPE_UNLOADED := by
  unfold mount_filename
  rcases h with h | ⟨a, rest, h, h2⟩
  · subst h; rfl
  · subst h
    simp only
    rw [if_pos h2]

theorem mount_finish_fd (env : Env) (tmh : TAPEDEVT → Host) (st : DEVBLK × List LogRec × Int)
    (hfd : st.1.fd = -1) :
    ((mount_finish env tmh st).2.2 ≠ 0 →
      (mount_finish env tmh st).1.fd = -1 ∧
        (mount_finish env tmh st).1.filename = st.1.filename) ∧
    ((mount_finish env tmh st).2.2 = 0 →
      ∃ d : DEVBLK, d.fd = -1 ∧ d.filename = st.1.filename ∧
        (mount_finish env tmh st).1.fd = ((tmh d.tapedevt).tmh_open d).fd ∧
        ((∀ k, OpenKeepsDisplay (tmh k)) →
          (mount_finish env tmh st).1.filename = st.1.filename)) := by
  unfold mount_finish
  by_cases hrc : st.2.2 ≠ 0
  · rw [if_pos hrc]
    exact ⟨fun _ => ⟨hfd, rfl⟩, fun h => absurd h (by simp)⟩
  · rw [if_neg hrc]
    refine ⟨fun h => absurd rfl h, fun _ => ?_⟩
    obtain ⟨u1, u2, u3, u4, u5, u6, u7, u8⟩ :=
      UpdateDisplay_same env (tmh (mount_display st.1).tapedevt) (mount_display st.1)
    obtain ⟨s, p, hu⟩ :=
      UpdateDisplay_frame env (tmh (mount_display st.1).tapedevt) (mount_display st.1)
    have hdfd : (UpdateDisplay env (tmh (mount_display st.1).tapedevt)
        (mount_display st.1)).1.fd = -1 := by
      rw [hu]
      show (mount_display st.1).fd = -1
      rw [mount_display_fd, hfd]
    have hdt : (UpdateDisplay env (tmh (mount_display st.1).tapedevt)
        (mount_display st.1)).1.tapedevt = (mount_display st.1).tapedevt := by
      rw [hu]
    have hdn : (UpdateDisplay env (tmh (mount_display st.1).tapedevt)
        (mount_display st.1)).1.filename = st.1.filename :=
      u8.trans (mount_display_cases st.1).1
    refine ⟨_, hdfd, hdn, ?_, ?_⟩
    · simp only
      rw [ReqAutoMount_fd _ _ (by rw [hdfd]; decide), hdt]
    · intro hk
      simp only
      rw [(ReqAutoMount_same _ (hk _) _).2.2.2.2.2.1, hdn]

/-- Claim C24, counterexample: a tape file is mounted through a handler whose
`open` entry opens it; `mountnewtape` returns 0 and `fd` is not negative
afterwards, `ReqAutoMount` having opened the drive. -/
theorem mountnewtape_leaves_drive_open :
    (mountnewtape envDefault (fun _ => hostOpens) false dev3480 ["tape.aws"]).2.2 = 0 ∧
      ¬ ((mountnewtape envDefault (fun _ => hostOpens) false dev3480 ["tape.aws"]).1.fd < 0) := by
  decide

/-- Claim C24 (as the source has it): past the format determination
`mountnewtape` sets `fd` to -1 and `fd` is still -1 when it returns -1; when
it returns 0, `ReqAutoMount` has called the `open` entry of the handler on a
device block with `fd` at -1, and `fd` is what that entry leaves.  The AWS,
HET and OMA handlers report a tape loaded through `is_tapeloaded_filename`,
which holds exactly when the file name is not UNLOADED.  So a file name
UNLOADED after the call means that the handler reports no tape, and `fd`
below 0 where `open` leaves the file name alone and leaves `fd` negative on a
drive without a tape.  With no argument or an over-long first argument the
file name becomes UNLOADED. -/
theorem mountnewtape_fd_filename (env : Env) (tmh : TAPEDEVT → Host) (scsi : Bool)
    (dev : DEVBLK) (argv : List String) :
    (∀ e, mount_format env (mount_filename env { dev with omadesc := false } argv)
        (fmttab scsi) 0 = some (e, none) →
      ((mountnewtape env tmh scsi dev argv).2.2 ≠ 0 →
        (mountnewtape env tmh scsi dev argv).1.fd = -1) ∧
      ((mountnewtape env tmh scsi dev argv).2.2 = 0 →
        ∃ d : DEVBLK, d.fd = -1 ∧
          (mountnewtape env tmh scsi dev argv).1.fd = ((tmh d.tapedevt).tmh_open d).fd) ∧
      ((∀ k, OpenKeepsDisplay (tmh k)) →
        (∀ k d, d.filename = TAPE_UNLOADED → d.fd < 0 → ((tmh k).tmh_open d).fd < 0) →
        (mountnewtape env tmh scsi dev argv).1.filename = TAPE_UNLOADED →
        (mountnewtape env tmh scsi dev argv).1.fd < 0 ∧
          is_tapeloaded_filename (mountnewtape env tmh scsi dev argv).1 = false)) ∧
    (∀ d : DEVBLK, is_tapeloaded_filename d = true ↔ d.filename ≠ TAPE_UNLOADED) ∧
    (∀ k ∈ [TAPEDEVT.AWSTAPE, TAPEDEVT.HET, TAPEDEVT.OMATAPE],
      tmh_tapeloaded k = some is_tapeloaded_filename) ∧
    ((∀ k, OpenKeepsDisplay (tmh k)) →
      (argv = [] ∨ ∃ a rest, argv = a :: rest ∧ a.utf8ByteSize > env.sizeof_filename - 1) →
      (mountnewtape env tmh scsi dev argv).1.filename = TAPE_UNLOADED) := by
  have hload : ∀ d : DEVBLK, is_tapeloaded_filename d = true ↔ d.filename ≠ TAPE_UNLOADED := by
    intro d
    simp [is_tapeloaded_filename]
  refine ⟨?_, hload, ?_, ?_⟩
  · intro e hmf
    obtain ⟨st, hfd, hfn, hm⟩ := mountnewtape_past_format env tmh scsi dev argv e hmf
    obtain ⟨f1, f2⟩ := mount_finish_fd env tmh st hfd
    rw [hm]
    refine ⟨fun h => (f1 h).1, ?_, ?_⟩
    · intro h
      obtain ⟨d, d1, _, d3, _⟩ := f2 h
      exact ⟨d, d1, d3⟩
    · intro hk hopen hfile
      have hnot : is_tapeloaded_filename (mount_finish env tmh st).1 = false := by
        cases hb : is_tapeloaded_filename (mount_finish env tmh st).1 with
        | false => rfl
        | true => exact absurd hfile ((hload _).1 hb)
      refine ⟨?_, hnot⟩
      by_cases hrc : (mount_finish env tmh st).2.2 = 0
      · obtain ⟨d, d1, d2, d3, d4⟩ := f2 hrc
        rw [d3]
        apply hopen
        · rw [d2, ← d4 hk]; exact hfile
        · rw [d1]; decide
      · rw [(f1 hrc).1]; decide
  · intro k hk
    simp only [List.mem_cons, List.mem_singleton, List.not_mem_nil, or_false] at hk
    rcases hk with r | r | r <;> subst r <;> rfl
  · intro hk hargv
    have hu := mount_filename_unloaded env { dev with omadesc := false } argv hargv
    cases hmf : mount_format env (mount_filename env { dev with omadesc := false } argv)
        (fmttab scsi) 0 with
    | none =>
      simp only [mountnewtape, hmf]
      exact hu
    | some r =>
      obtain ⟨e, oerr⟩ := r
      cases oerr with
      | some err =>
        simp only [mountnewtape, hmf]
        exact hu
      | none =>
        obtain ⟨st, hfd, hfn, hm⟩ := mountnewtape_past_format env tmh scsi dev argv e hmf
        obtain ⟨f1, f2⟩ := mount_finish_fd env tmh st hfd
        rw [hm]
        by_cases hrc : (mount_finish env tmh st).2.2 = 0
        · obtain ⟨d, _, _, _, d4⟩ := f2 hrc
          rw [d4 hk, hfn, hu]
        · rw [(f1 hrc).2, hfn, hu]

theorem mountnewtape_fd_filename_witness :
    (mountnewtape envDefault (fun _ => hostOpens) false dev3480 []).1.filename
      = TAPE_UNLOADED :=
  (mountnewtape_fd_filename envDefault (fun _ => hostOpens) false dev3480 []).2.2.2
    (fun _ d => by
      unfold hostOpens
      simp only
      split_ifs
      · exact SameDisplay_refl d
      · exact ⟨rfl, rfl, rfl, rfl, rfl, rfl, rfl, rfl⟩)
    (Or.inl rfl)

/-! ## Host Interface Machine: the queue keeps its 16 entries -/

theorem whenOk_ok {α : Type} (a : α) (P : α → Prop) (h : P a) :
    WhenOk (Except.ok a : Except him_fault α) P := by
  intro b hb
  simp only [Except.ok.injEq] at hb
  rw [← hb]; exact h

theorem whenOk_error {α : Type} (f : him_fault) (P : α → Prop) :
    WhenOk (Except.error f : Except him_fault α) P := by
  intro b hb
  simp at hb

theorem whenOk_bind {α β : Type} (x : Except him_fault α) (g : α → Except him_fault β)
    (Q : α → Prop) (P : β → Prop) (hx : WhenOk x Q) (hg : ∀ a, Q a → WhenOk (g a) P) :
    WhenOk (x >>= g) P := by
  cases x with
  | error f => exact whenOk_error f P
  | ok a => exact hg a (hx a rfl)

theorem whenOk_mono {α : Type} (x : Except him_fault α) (Q P : α → Prop) (hx : WhenOk x Q)
    (h : ∀ a, Q a → P a) : WhenOk x P := fun a ha => h a (hx a ha)

theorem except_ok_bind {α β : Type} (a : α) (g : α → Except him_fault β) :
    ((Except.ok a : Except him_fault α) >>= g) = g a := rfl

theorem except_error_bind {α β : Type} (f : him_fault) (g : α → Except him_fault β) :
    ((Except.error f : Except him_fault α) >>= g) = Except.error f := rfl

theorem read_q_put_eq (cb : io_cb) (e : him_event) :
    read_q_put cb e =
      if cb.read_q.indexOf him_event.EMPTY < cb.read_q.length then
        .ok { cb with read_q := cb.read_q.set (cb.read_q.indexOf him_event.EMPTY) e }
      else .error him_fault.QUEUE_BOUNDS := by
  unfold read_q_put read_q_scan
  split_ifs <;> rfl

theorem read_q_put_of_mem (cb : io_cb) (e : him_event) (h : him_event.EMPTY ∈ cb.read_q) :
    read_q_put cb e
      = .ok { cb with read_q := cb.read_q.set (cb.read_q.indexOf him_event.EMPTY) e } := by
  rw [read_q_put_eq, if_pos (List.indexOf_lt_length.2 h)]

theorem read_q_put_of_not_mem (cb : io_cb) (e : him_event) (h : him_event.EMPTY ∉ cb.read_q) :
    read_q_put cb e = .error him_fault.QUEUE_BOUNDS := by
  rw [read_q_put_eq, if_neg (fun hi => h (List.indexOf_lt_length.1 hi))]

theorem read_q_put_length (cb : io_cb) (e : him_event) :
    WhenOk (read_q_put cb e) (fun c => c.read_q.length = cb.read_q.length) := by
  rw [read_q_put_eq]
  split_ifs
  · refine whenOk_ok _ _ ?_; simp
  · exact whenOk_error _ _

theorem read_q_shift_length (q : List him_event) (h : q.length = 16) :
    (read_q_shift q).length = 16 := by
  unfold read_q_shift
  simp [h]

theorem parse_config_token_queue (fuel ip : Nat) (v : parse_vars) (tok : Nat) :
    WhenOk (parse_config_token fuel ip v tok) (fun w => w.cb.read_q = v.cb.read_q) := by
  unfold parse_config_token
  split
  all_goals first
    | (exact whenOk_ok _ _ rfl)
    | (split
       all_goals first
         | (exact whenOk_ok _ _ rfl)
         | exact whenOk_error _ _)

theorem parse_config_loop_queue (n ip : Nat) :
    ∀ (fuel : Nat) (v : parse_vars) (t : Nat),
      WhenOk (parse_config_loop n ip fuel v t) (fun w => w.cb.read_q = v.cb.read_q) := by
  intro fuel
  induction fuel with
  | zero =>
    intro v t
    exact whenOk_ok _ _ rfl
  | succ k ih =>
    intro v t
    simp only [parse_config_loop]
    refine whenOk_bind _ _ _ _ (parse_config_token_queue n ip v t) ?_
    intro w hw
    split
    · exact whenOk_ok _ _ hw
    · refine whenOk_mono _ _ _ (ih _ _) ?_
      intro a ha
      rw [ha]; exact hw

theorem parse_config_data_queue (env : Env) (net : HimNet) (cb : io_cb) (s : Nat → Nat)
    (n : Nat) : WhenOk (parse_config_data env net cb s n) (fun r => r.1.read_q = cb.read_q) := by
  unfold parse_config_data
  simp only
  split
  · exact whenOk_error _ _
  · refine whenOk_bind _ _ _ _ (parse_config_loop_queue _ _ _ _ _) ?_
    intro w hw
    refine whenOk_ok _ _ ?_
    exact hw

theorem config_reply_queue (env : Env) (net : HimNet) (cb : io_cb) (b : Nat → Nat) (su : Int)
    (hq : cb.read_q.length = 16) : (config_reply env net cb b su).1.read_q.length = 16 := by
  unfold config_reply
  simp only
  split_ifs
  all_goals first | rfl | exact hq

theorem config_subchan_queue (env : Env) (net : HimNet) (cb : io_cb) (b : Nat → Nat)
    (hq : cb.read_q.length = 16) :
    WhenOk (config_subchan env net cb b) (fun r => r.1.read_q.length = 16) := by
  unfold config_subchan
  simp only
  split_ifs
  · exact whenOk_ok _ _ rfl
  · refine whenOk_bind _ _ _ _ (parse_config_data_queue env net cb _ _) ?_
    intro p hp
    refine whenOk_ok _ _ ?_
    apply config_reply_queue
    rw [hp]; exact hq

theorem him_write_ack_queue (cb : io_cb) (w : Int) (hq : cb.read_q.length = 16) :
    WhenOk (him_write_ack cb w) (fun c => c.read_q.length = 16) := by
  unfold him_write_ack
  simp only
  split_ifs
  all_goals first
    | (exact whenOk_ok _ _ hq)
    | exact whenOk_error _ _
    | (refine whenOk_mono _ _ _ (read_q_put_length _ _) ?_; intro a ha; rw [ha]; exact hq)

theorem him_write_fin_queue (cb : io_cb) (hq : cb.read_q.length = 16) :
    WhenOk (him_write_fin cb) (fun c => c.read_q.length = 16) := by
  unfold him_write_fin
  split_ifs
  · refine whenOk_bind _ _ _ _ (read_q_put_length _ _) ?_
    intro a ha
    refine whenOk_mono _ _ _ (read_q_put_length _ _) ?_
    intro c hc
    rw [hc]; simp only; rw [ha]; exact hq
  · refine whenOk_mono _ _ _ (read_q_put_length _ _) ?_; intro a ha; rw [ha]; exact hq

theorem him_write_tcp_queue (cb : io_cb) (b : Nat → Nat) (u : Nat)
    (hq : cb.read_q.length = 16) :
    WhenOk (him_write_tcp cb b u) (fun r => r.1.read_q.length = 16) := by
  unfold him_write_tcp
  split_ifs
  · refine whenOk_bind _ _ _ _ (read_q_put_length _ _) ?_
    intro a ha
    refine whenOk_ok _ _ ?_
    simp only; rw [ha]; exact hq
  · refine whenOk_bind _ _ _ _ (him_write_ack_queue _ _ hq) ?_
    intro a ha
    refine whenOk_bind _ _ _ _ (him_write_fin_queue _ ha) ?_
    intro c hc
    refine whenOk_ok _ _ ?_
    exact hc
  · refine whenOk_bind _ _ _ _ (him_write_ack_queue _ _ hq) ?_
    intro a ha
    refine whenOk_ok _ _ ?_
    exact ha
  · exact whenOk_ok _ _ hq

theorem him_write_queue (env : Env) (net : HimNet) (dev : HIM_DEVBLK) (b : Nat → Nat)
    (more : Nat) (hq : dev.dev_data.read_q.length = 16) :
    WhenOk (him_write env net dev b more) (fun r => r.dev.dev_data.read_q.length = 16) := by
  unfold him_write
  simp only
  split_ifs
  · refine whenOk_bind _ _ _ _ (read_q_put_length _ _) ?_
    intro a ha
    refine whenOk_ok _ _ ?_
    simp only; rw [ha]; exact hq
  · exact whenOk_ok _ _ hq
  · exact whenOk_ok _ _ hq
  · refine whenOk_bind _ _ _ _ (config_subchan_queue env net _ _ hq) ?_
    intro c hc
    refine whenOk_bind _ _ _ _ (read_q_put_length _ _) ?_
    intro a ha
    refine whenOk_ok _ _ ?_
    simp only; rw [ha]; exact hc
  · exact whenOk_ok _ _ hq
  · exact whenOk_ok _ _ hq
  · refine whenOk_bind _ _ _ _ (him_write_tcp_queue _ _ _ hq) ?_
    intro t ht
    refine whenOk_ok _ _ ?_
    exact ht

theorem him_read_event_queue (dev : HIM_DEVBLK) (b : Nat → Nat)
    (hq : dev.dev_data.read_q.length = 16) :
    (him_read_event dev b).1.dev_data.read_q.length = 16 := by
  unfold him_read_event
  simp only
  split
  · exact hq
  · exact hq
  · exact hq
  · simp only; split_ifs <;> exact hq
  · rfl
  · exact hq

theorem him_read_socket_queue (net : HimNet) (cb : io_cb) (count : Nat) (b : Nat → Nat) (u : Nat) :
    (him_read_socket net cb count b u).1.read_q = cb.read_q := by
  unfold him_read_socket
  simp only
  split_ifs <;> rfl

theorem him_read_watch_queue (r : him_ccw) :
    (him_read_watch r).dev.dev_data.read_q = r.dev.dev_data.read_q := by
  unfold him_read_watch
  split_ifs <;> rfl

theorem him_read_head_queue (dev : HIM_DEVBLK) (count : Nat) (b : Nat → Nat) (more u : Nat)
    (hq : dev.dev_data.read_q.length = 16) :
    (him_read_head dev count b more u).dev.dev_data.read_q.length = 16 := by
  unfold him_read_head
  simp only
  apply read_q_shift_length
  exact him_read_event_queue _ _ hq

theorem him_read_queue_length (dev : HIM_DEVBLK) (count : Nat) (b : Nat → Nat) (more u : Nat)
    (hq : dev.dev_data.read_q.length = 16) :
    WhenOk (him_read_queue dev count b more u) (fun r => r.dev.dev_data.read_q.length = 16) := by
  unfold him_read_queue
  refine whenOk_bind _ _ (fun _ => True) _ (fun _ _ => trivial) ?_
  intro i _
  refine whenOk_ok _ _ ?_
  exact him_read_head_queue _ _ _ _ _ hq

theorem him_read_length (net : HimNet) (dev : HIM_DEVBLK) (count : Nat) (b : Nat → Nat)
    (more : Nat) (hq : dev.dev_data.read_q.length = 16) :
    WhenOk (him_read net dev count b more) (fun r => r.dev.dev_data.read_q.length = 16) := by
  unfold him_read
  simp only
  split_ifs
  · refine whenOk_bind _ _ _ _ (him_read_queue_length _ _ _ _ _ hq) ?_
    intro r hr
    refine whenOk_ok _ _ ?_
    rw [him_read_watch_queue]; exact hr
  · refine whenOk_ok _ _ ?_
    rw [him_read_watch_queue]
    simp only
    rw [him_read_socket_queue]; exact hq

theorem him_execute_ccw_queue (env : Env) (net : HimNet) (dev : HIM_DEVBLK) (code count : Nat)
    (b : Nat → Nat) (more residual : Nat) (hq : dev.dev_data.read_q.length = 16) :
    WhenOk (him_execute_ccw env net dev code count b more residual)
      (fun r => r.dev.dev_data.read_q.length = 16) := by
  unfold him_execute_ccw
  split_ifs
  · exact him_write_queue env net dev b more hq
  · exact him_read_length net dev count b more hq
  all_goals (exact whenOk_ok _ _ hq)

theorem him_run_queue (env : Env) :
    ∀ (cs : List him_call) (dev : HIM_DEVBLK), dev.dev_data.read_q.length = 16 →
      WhenOk (him_run env dev cs) (fun d => d.dev_data.read_q.length = 16) := by
  intro cs
  induction cs with
  | nil =>
    intro dev hq
    exact whenOk_ok _ _ hq
  | cons c cs ih =>
    intro dev hq
    simp only [him_run]
    refine whenOk_bind _ _ _ _ (him_execute_ccw_queue env _ _ _ _ _ _ _ hq) ?_
    intro r hr
    exact ih _ hr

/-! ## Host Interface Machine: the FIN packet and the queued events -/

theorem him_execute_ccw_write (env : Env) (net : HimNet) (dev : HIM_DEVBLK) (count : Nat)
    (b : Nat → Nat) (more residual : Nat) :
    him_execute_ccw env net dev 0x01 count b more residual = him_write env net dev b more := by
  unfold him_execute_ccw
  rw [if_pos rfl]

theorem him_execute_ccw_read (env : Env) (net : HimNet) (dev : HIM_DEVBLK) (code count : Nat)
    (b : Nat → Nat) (more residual : Nat) (hc : code = 0x02 ∨ code = 0x06 ∨ code = 0x0B) :
    him_execute_ccw env net dev code count b more residual = him_read net dev count b more := by
  unfold him_execute_ccw
  rw [if_neg (by omega), if_pos hc]

theorem him_write_ack_zero (cb : io_cb) : him_write_ack cb 0 = .ok cb := by
  unfold him_write_ack
  rw [if_neg (by simp)]

theorem him_write_fin_empty (cb : io_cb) (hs : cb.state = him_state.CONNECTED)
    (hq : cb.read_q = List.replicate 16 him_event.EMPTY) :
    him_write_fin cb
      = .ok { cb with
              state := him_state.CLOSING
              read_q := him_event.FIN :: him_event.FINISHED :: List.replicate 14 him_event.EMPTY } := by
  unfold him_write_fin
  rw [if_pos hs, read_q_put_eq, hq, if_pos (by decide), except_ok_bind, read_q_put_eq]
  simp only
  rw [if_pos (by decide)]
  rfl

/-- Claim C28: in state CONNECTED with protocol TCP, an empty queue, `rnr`
clear and none of the header flags finished, init and rnr, a WRITE of a TCP
packet that consists of the headers only (buffer length 40, IP header length
5, data offset 5) and has TH_FIN set returns with the queue holding FIN and
then FINISHED, the state CLOSING, unit status CE|DE and residual 0. -/
theorem him_write_fin_closes (env : Env) (net : HimNet) (dev : HIM_DEVBLK) (count : Nat)
    (iobuf : Nat → Nat) (more residual : Nat)
    (hs : dev.dev_data.state = him_state.CONNECTED)
    (hp : dev.dev_data.protocol = IPPROTO_TCP)
    (hq : dev.dev_data.read_q = List.replicate 16 him_event.EMPTY)
    (hr : dev.dev_data.rnr = false)
    (hf : finished_flag iobuf = false) (hi : init_flag iobuf = false)
    (hn : rnr_flag iobuf = false)
    (hl : buffer_length iobuf = 40) (hhl : ip_hl iobuf = 5) (hoff : th_off iobuf = 5)
    (hfin : th_flags iobuf &&& TH_FIN ≠ 0) :
    ∃ r, him_execute_ccw env net dev 0x01 count iobuf more residual = .ok r ∧
      r.dev.dev_data.read_q
        = him_event.FIN :: him_event.FINISHED :: List.replicate 14 him_event.EMPTY ∧
      read_q_events r.dev.dev_data.read_q = [him_event.FIN, him_event.FINISHED] ∧
      r.dev.dev_data.state = him_state.CLOSING ∧
      r.unitstat = CSW_CE ||| CSW_DE ∧ r.residual = 0 := by
  have hw : him_writelen iobuf = 0 := by
    unfold him_writelen
    rw [hl, hhl, hoff]
    rfl
  have htcp : him_write_tcp dev.dev_data iobuf (CSW_CE ||| CSW_DE)
      = .ok ({ dev.dev_data with
               mts_header := htonl_at dev.dev_data.mts_header 32
                 (to_U32 (th_ack dev.dev_data.mts_header + 0))
               state := him_state.CLOSING
               read_q := him_event.FIN :: him_event.FINISHED :: List.replicate 14 him_event.EMPTY },
             CSW_CE ||| CSW_DE) := by
    have hfe := him_write_fin_empty
      { dev.dev_data with
        mts_header := htonl_at dev.dev_data.mts_header 32
          (to_U32 (th_ack dev.dev_data.mts_header + 0)) } hs hq
    unfold him_write_tcp
    rw [if_neg (by rw [hs]; decide), if_pos (by rw [hl]; decide), hw, him_write_ack_zero,
      except_ok_bind, if_pos hfin, hfe, except_ok_bind]
  rw [him_execute_ccw_write]
  unfold him_write
  simp only
  rw [if_neg (by rw [hf]; decide), if_neg (by rw [hn]; simp), if_neg (by rw [hr]; simp),
    if_neg (by rw [hi]; decide), if_neg (by rw [hp]; decide), htcp, except_ok_bind]
  exact ⟨_, rfl, rfl, rfl, rfl, rfl, rfl⟩

theorem him_write_fin_closes_witness :
    ∃ r, him_execute_ccw envDefault {} devConnected 0x01 44 packetFin 0 0 = .ok r ∧
      r.dev.dev_data.read_q
        = him_event.FIN :: him_event.FINISHED :: List.replicate 14 him_event.EMPTY ∧
      read_q_events r.dev.dev_data.read_q = [him_event.FIN, him_event.FINISHED] ∧
      r.dev.dev_data.state = him_state.CLOSING ∧
      r.unitstat = CSW_CE ||| CSW_DE ∧ r.residual = 0 :=
  him_write_fin_closes envDefault {} devConnected 44 packetFin 0 0 rfl rfl rfl rfl
    (by decide) (by decide) (by decide) (by decide) (by decide) (by decide) (by decide)

theorem him_read_queued (net : HimNet) (dev : HIM_DEVBLK) (count : Nat) (b : Nat → Nat)
    (more : Nat) (h0 : dev.dev_data.read_q.headD him_event.EMPTY ≠ him_event.EMPTY)
    (hm : him_event.EMPTY ∈ dev.dev_data.read_q) :
    him_read net dev count b more
      = .ok (him_read_watch (him_read_head
          (him_read_max_q dev (dev.dev_data.read_q.indexOf him_event.EMPTY))
          count b more (CSW_CE ||| CSW_DE))) := by
  unfold him_read
  simp only
  rw [if_pos h0]
  unfold him_read_queue read_q_scan
  rw [if_pos (List.indexOf_lt_length.2 hm)]
  rfl

theorem takeWhile_append_of_mem {α : Type} (p : α → Bool) (t l : List α)
    (h : ∃ x ∈ t, p x = false) : (t ++ l).takeWhile p = t.takeWhile p := by
  induction t with
  | nil => simp at h
  | cons a t ih =>
    rw [List.cons_append, List.takeWhile_cons, List.takeWhile_cons]
    cases hp : p a with
    | false => rfl
    | true =>
      simp only [if_true]
      congr 1
      apply ih
      obtain ⟨x, hx, hpx⟩ := h
      rcases List.mem_cons.1 hx with r | r
      · rw [r, hp] at hpx; cases hpx
      · exact ⟨x, r, hpx⟩

theorem read_q_events_shift (q : List him_event) (hl : q.length = 16)
    (h0 : q.headD him_event.EMPTY ≠ him_event.EMPTY) (hm : him_event.EMPTY ∈ q) :
    read_q_events (read_q_shift q) = (read_q_events q).tail := by
  cases q with
  | nil => simp at hl
  | cons a t =>
    simp only [List.headD_cons] at h0
    have ht : t.length = 15 := by simpa using hl
    have hmt : him_event.EMPTY ∈ t := by
      rcases List.mem_cons.1 hm with r | r
      · exact absurd r.symm h0
      · exact r
    unfold read_q_events read_q_shift
    rw [List.drop_succ_cons, List.drop_zero, List.take_of_length_le (le_of_eq ht),
      takeWhile_append_of_mem _ _ _ ⟨_, hmt, by simp⟩, List.takeWhile_cons]
    simp [h0]

theorem ntohs_at_htons_at (b : Nat → Nat) (i v : Nat) :
    ntohs_at (htons_at b i v) i = v % 65536 := by
  unfold ntohs_at htons_at
  rw [Function.update_same, Function.update_noteq (by omega), Function.update_same]
  omega

theorem htons_at_of_ne (b : Nat → Nat) (i v j : Nat) (h1 : j ≠ i) (h2 : j ≠ i + 1) :
    htons_at b i v j = b j := by
  unfold htons_at
  rw [Function.update_noteq h2, Function.update_noteq h1]

theorem next_frame_of_ne (h : Nat → Nat) (j : Nat) (h1 : j ≠ 1) (h8 : j ≠ 8) (h9 : j ≠ 9) :
    next_frame h j = h j := by
  unfold next_frame
  rw [htons_at_of_ne _ _ _ _ h8 h9, Function.update_noteq h1]

theorem next_frame_number (h : Nat → Nat) :
    buffer_number (next_frame h) = (buffer_number h + 1) % 256 := by
  unfold buffer_number next_frame
  rw [htons_at_of_ne _ _ _ _ (by decide) (by decide), Function.update_same]

theorem next_frame_id (h : Nat → Nat) : ip_id (next_frame h) = (ip_id h + 1) % 65536 := by
  unfold ip_id next_frame
  rw [ntohs_at_htons_at]

theorem him_read_watch_residual (r : him_ccw) : (him_read_watch r).residual = r.residual := by
  unfold him_read_watch
  split_ifs <;> rfl

theorem him_read_watch_iobuf (r : him_ccw) : (him_read_watch r).iobuf = r.iobuf := by
  unfold him_read_watch
  split_ifs <;> rfl

theorem him_read_watch_unitstat (r : him_ccw) : (him_read_watch r).unitstat = r.unitstat := by
  unfold him_read_watch
  split_ifs <;> rfl

theorem him_read_watch_header (r : him_ccw) :
    (him_read_watch r).dev.dev_data.mts_header = r.dev.dev_data.mts_header := by
  unfold him_read_watch
  split_ifs <;> rfl

theorem him_read_watch_shutdown (r : him_ccw) (h : r.dev.dev_data.state = him_state.SHUTDOWN) :
    him_read_watch r = r := by
  unfold him_read_watch
  rw [if_neg (by rw [h]; simp)]

theorem or_and_self_ne_zero (x m : Nat) (hm : m ≠ 0) : (x ||| m) &&& m ≠ 0 := by
  rw [and_or_of_sub x m m (Nat.and_self m)]
  exact hm

/-- Claim C29: on a queue of 16 entries of which one is EMPTY, a READ whose
queue head is FIN returns the 44 bytes of the stored header (after its
buffer number and IP id were advanced) with TH_FIN set in the returned
frame, residual `count - 44` in 16 bits, and the queue becomes its tail.  A READ whose queue head is FINISHED returns a 4-byte
header with `finished_flag` set and buffer length 0, residual `count - 4`,
and leaves the control block zero except for `sock = -1`: state SHUTDOWN and
an empty queue. -/
theorem him_read_fin_finished (env : Env) (net : HimNet) (dev : HIM_DEVBLK) (code count : Nat)
    (iobuf : Nat → Nat) (more residual : Nat)
    (hc : code = 0x02 ∨ code = 0x06 ∨ code = 0x0B)
    (hl : dev.dev_data.read_q.length = 16)
    (hm : him_event.EMPTY ∈ dev.dev_data.read_q) :
    (dev.dev_data.read_q.headD him_event.EMPTY = him_event.FIN →
      ∃ r, him_execute_ccw env net dev code count iobuf more residual = .ok r ∧
        r.residual = to_U16 (count - 44) ∧
        (∀ i, 44 ≤ i → r.iobuf i = iobuf i) ∧
        (∀ i, i < 44 → i ≠ 37 → r.iobuf i = next_frame dev.dev_data.mts_header i) ∧
        th_flags r.iobuf = th_flags dev.dev_data.mts_header ||| TH_FIN ∧
        th_flags r.iobuf &&& TH_FIN ≠ 0 ∧
        r.dev.dev_data.mts_header = next_frame dev.dev_data.mts_header ∧
        r.dev.dev_data.read_q = read_q_shift dev.dev_data.read_q ∧
        read_q_events r.dev.dev_data.read_q = (read_q_events dev.dev_data.read_q).tail) ∧
    (dev.dev_data.read_q.headD him_event.EMPTY = him_event.FINISHED →
      ∃ r, him_execute_ccw env net dev code count iobuf more residual = .ok r ∧
        r.residual = to_U16 (count - 4) ∧
        (∀ i, 4 ≤ i → r.iobuf i = iobuf i) ∧
        finished_flag r.iobuf = true ∧ buffer_length r.iobuf = 0 ∧
        buffer_number r.iobuf = (buffer_number dev.dev_data.mts_header + 1) % 256 ∧
        r.dev.dev_data = ({ sock := -1 } : io_cb) ∧
        r.dev.dev_data.state = him_state.SHUTDOWN ∧ r.dev.dev_data.sock = -1 ∧
        read_q_events r.dev.dev_data.read_q = []) := by
  constructor
  · intro hh
    have h0 : dev.dev_data.read_q.headD him_event.EMPTY ≠ him_event.EMPTY := by
      rw [hh]; decide
    have hev : him_read_event
        (him_read_max_q dev (dev.dev_data.read_q.indexOf him_event.EMPTY)) iobuf
        = (let cb : io_cb :=
             { (him_read_max_q dev (dev.dev_data.read_q.indexOf him_event.EMPTY)).dev_data with
               mts_header := next_frame dev.dev_data.mts_header }
           ({ him_read_max_q dev (dev.dev_data.read_q.indexOf him_event.EMPTY) with
              dev_data := if cb.state = him_state.CONNECTED
                          then { cb with state := him_state.CLOSING } else cb },
            Function.update (memcpy iobuf (next_frame dev.dev_data.mts_header) 44) 37
              (memcpy iobuf (next_frame dev.dev_data.mts_header) 44 37 ||| TH_FIN), 44)) := by
      unfold him_read_event
      simp only [him_read_max_q, hh]
    rw [him_execute_ccw_read _ _ _ _ _ _ _ _ hc, him_read_queued _ _ _ _ _ h0 hm]
    refine ⟨_, rfl, ?_, ?_, ?_, ?_, ?_, ?_, ?_, ?_⟩
    · rw [him_read_watch_residual]
      simp only [him_read_head, hev]
      rfl
    · intro i hi
      rw [him_read_watch_iobuf]
      simp only [him_read_head, hev]
      rw [Function.update_noteq (by omega)]
      unfold memcpy
      rw [if_neg (by omega)]
    · intro i hi h37
      rw [him_read_watch_iobuf]
      simp only [him_read_head, hev]
      rw [Function.update_noteq h37]
      unfold memcpy
      rw [if_pos hi]
    · rw [him_read_watch_iobuf]
      simp only [him_read_head, hev]
      unfold th_flags
      rw [Function.update_same]
      unfold memcpy
      rw [if_pos (by decide), next_frame_of_ne _ _ (by decide) (by decide) (by decide)]
    · rw [him_read_watch_iobuf]
      simp only [him_read_head, hev]
      unfold th_flags
      rw [Function.update_same]
      exact or_and_self_ne_zero _ _ (by decide)
    · rw [him_read_watch_header]
      simp only [him_read_head, hev]
      split_ifs <;> rfl
    · rw [him_read_watch_queue]
      simp only [him_read_head, hev]
      split_ifs <;> rfl
    · rw [him_read_watch_queue]
      simp only [him_read_head, hev]
      have e : ∀ c : io_cb, c.read_q = dev.dev_data.read_q →
          read_q_events (read_q_shift c.read_q) = (read_q_events dev.dev_data.read_q).tail := by
        intro c hc2
        rw [hc2]
        exact read_q_events_shift _ hl h0 hm
      apply e
      split_ifs <;> rfl
  · intro hh
    have h0 : dev.dev_data.read_q.headD him_event.EMPTY ≠ him_event.EMPTY := by
      rw [hh]; decide
    have hev : him_read_event
        (him_read_max_q dev (dev.dev_data.read_q.indexOf him_event.EMPTY)) iobuf
        = ({ him_read_max_q dev (dev.dev_data.read_q.indexOf him_event.EMPTY) with
             dev_data := ({ sock := -1 } : io_cb) },
           memcpy iobuf
             (Function.update (Function.update (Function.update (Function.update
               dev.dev_data.mts_header 1 ((dev.dev_data.mts_header 1 + 1) % 256))
               0 (dev.dev_data.mts_header 0 ||| 0x20)) 2 0) 3 0) 4, 4) := by
      unfold him_read_event
      simp only [him_read_max_q, hh]
      rw [Function.update_noteq (by decide)]
    rw [him_execute_ccw_read _ _ _ _ _ _ _ _ hc, him_read_queued _ _ _ _ _ h0 hm,
      him_read_watch_shutdown _ (by simp only [him_read_head, hev])]
    refine ⟨_, rfl, ?_, ?_, ?_, ?_, ?_, ?_, ?_, ?_, ?_⟩
    · simp only [him_read_head, hev]
      rfl
    · intro i hi
      simp only [him_read_head, hev]
      unfold memcpy
      rw [if_neg (by omega)]
    · simp only [him_read_head, hev]
      unfold finished_flag memcpy
      rw [if_pos (by decide)]
      simp only [Function.update_same, ne_eq, OfNat.ofNat_ne_zero, not_false_eq_true,
        Function.update_noteq, OfNat.zero_ne_ofNat, decide_eq_true_eq]
      exact or_and_self_ne_zero _ _ (by decide)
    · simp only [him_read_head, hev]
      unfold buffer_length ntohs_at memcpy
      rw [if_pos (by decide), if_pos (by decide), Function.update_same,
        Function.update_noteq (by decide), Function.update_same]
    · simp only [him_read_head, hev]
      unfold buffer_number memcpy
      rw [if_pos (by decide), Function.update_noteq (by decide),
        Function.update_noteq (by decide), Function.update_noteq (by decide),
        Function.update_same]
    · simp only [him_read_head, hev]
      rfl
    · simp only [him_read_head, hev]
    · simp only [him_read_head, hev]
    · simp only [him_read_head, hev]
      rfl

theorem him_read_fin_finished_witness :
    (∃ r, him_execute_ccw envDefault {} (devQueue [him_event.FIN, him_event.FINISHED])
          0x02 100 (frame []) 0 0 = .ok r ∧
        r.residual = 56 ∧ th_flags r.iobuf = TH_ACK ||| TH_FIN ∧
        read_q_events r.dev.dev_data.read_q = [him_event.FINISHED]) ∧
    (∃ r, him_execute_ccw envDefault {} (devQueue [him_event.FINISHED])
          0x02 100 (frame []) 0 0 = .ok r ∧
        r.residual = 96 ∧ finished_flag r.iobuf = true ∧ buffer_length r.iobuf = 0 ∧
        r.dev.dev_data.state = him_state.SHUTDOWN ∧ r.dev.dev_data.sock = -1 ∧
        read_q_events r.dev.dev_data.read_q = []) := by
  obtain ⟨r, hr, h1, _, _, h4, _, _, _, h8⟩ :=
    (him_read_fin_finished envDefault {} (devQueue [him_event.FIN, him_event.FINISHED])
      0x02 100 (frame []) 0 0 (Or.inl rfl) (by decide) (by decide)).1 rfl
  obtain ⟨s, hs, g1, _, g3, g4, _, _, g7, g8, g9⟩ :=
    (him_read_fin_finished envDefault {} (devQueue [him_event.FINISHED])
      0x02 100 (frame []) 0 0 (Or.inl rfl) (by decide) (by decide)).2 rfl
  exact ⟨⟨r, hr, h1.trans (by decide), h4.trans (by decide), h8.trans (by decide)⟩,
    ⟨s, hs, g1.trans (by decide), g3, g4, g7, g8, g9⟩⟩

theorem set_th_off_of_ne (b : Nat → Nat) (v j : Nat) (h : j ≠ 36) : set_th_off b v j = b j := by
  unfold set_th_off
  rw [Function.update_noteq h]

theorem return_mss_frame (cb : io_cb) (b : Nat → Nat) :
    (return_mss cb b).1 = { cb with mts_header := next_frame cb.mts_header } ∧
    (return_mss cb b).2.2 = 48 ∧
    (∀ i, 48 ≤ i → (return_mss cb b).2.1 i = b i) ∧
    th_flags (return_mss cb b).2.1 = th_flags cb.mts_header ||| TH_SYN ∧
    th_off (return_mss cb b).2.1 = 6 ∧
    ip_ttl (return_mss cb b).2.1 = MAXTTL ∧
    tcp_optcode (return_mss cb b).2.1 = TCPOPT_MAXSEG ∧
    tcp_optlen (return_mss cb b).2.1 = 4 ∧
    tcp_optval (return_mss cb b).2.1 = 1460 ∧
    buffer_length (return_mss cb b).2.1 = 44 ∧
    ip_len (return_mss cb b).2.1 = 44 ∧
    (∀ i, i < 44 → i ≠ 2 → i ≠ 3 → i ≠ 6 → i ≠ 7 → i ≠ 12 → i ≠ 36 → i ≠ 37 →
      (return_mss cb b).2.1 i = next_frame cb.mts_header i) := by
  refine ⟨rfl, rfl, ?_, ?_, ?_, ?_, ?_, ?_, ?_, ?_, ?_, ?_⟩
  · intro i hi
    simp only [return_mss]
    rw [htons_at_of_ne _ _ _ _ (by omega) (by omega), Function.update_noteq (by omega),
      Function.update_noteq (by omega), Function.update_noteq (by omega),
      set_th_off_of_ne _ _ _ (by omega), Function.update_noteq (by omega),
      htons_at_of_ne _ _ _ _ (by omega) (by omega), htons_at_of_ne _ _ _ _ (by omega) (by omega)]
    unfold memcpy
    rw [if_neg (by omega)]
  · simp only [return_mss, th_flags]
    rw [htons_at_of_ne _ _ _ _ (by decide) (by decide), Function.update_noteq (by decide),
      Function.update_noteq (by decide), Function.update_same,
      set_th_off_of_ne _ _ _ (by decide), Function.update_noteq (by decide),
      htons_at_of_ne _ _ _ _ (by decide) (by decide),
      htons_at_of_ne _ _ _ _ (by decide) (by decide)]
    unfold memcpy
    rw [if_pos (by decide), next_frame_of_ne _ _ (by decide) (by decide) (by decide)]
  · simp only [return_mss, th_off]
    rw [htons_at_of_ne _ _ _ _ (by decide) (by decide), Function.update_noteq (by decide),
      Function.update_noteq (by decide), Function.update_noteq (by decide)]
    unfold set_th_off
    rw [Function.update_same]
    omega
  · simp only [return_mss, ip_ttl]
    rw [htons_at_of_ne _ _ _ _ (by decide) (by decide), Function.update_noteq (by decide),
      Function.update_noteq (by decide), Function.update_noteq (by decide),
      set_th_off_of_ne _ _ _ (by decide), Function.update_same]
  · simp only [return_mss, tcp_optcode]
    rw [htons_at_of_ne _ _ _ _ (by decide) (by decide), Function.update_noteq (by decide),
      Function.update_same]
  · simp only [return_mss, tcp_optlen]
    rw [htons_at_of_ne _ _ _ _ (by decide) (by decide), Function.update_same]
  · simp only [return_mss, tcp_optval]
    rw [ntohs_at_htons_at]
  · simp [return_mss, buffer_length, ntohs_at, htons_at, set_th_off, Function.update_apply]
  · simp [return_mss, ip_len, ntohs_at, htons_at, set_th_off, Function.update_apply]
  · intro i hi h2 h3 h6 h7 h12 h36 h37
    simp only [return_mss]
    rw [htons_at_of_ne _ _ _ _ (by omega) (by omega), Function.update_noteq (by omega),
      Function.update_noteq (by omega), Function.update_noteq h37,
      set_th_off_of_ne _ _ _ h36, Function.update_noteq h12,
      htons_at_of_ne _ _ _ _ h2 h3, htons_at_of_ne _ _ _ _ h6 h7]
    unfold memcpy
    rw [if_pos (by omega)]

/-- Claim C30: a READ whose queue head is MSS, on a queue with an EMPTY
entry, returns the 48-byte frame of `return_mss`: with a stored header whose flags are ACK, data offset 5 and TTL
58, the frame has the flags SYN|ACK, data offset 6, TTL MAXTTL = 255, the
option MAXSEG of length 4 with value 1460, and buffer length and IP length
44; in the stored header only the buffer number and the IP id change, each
by one, so its flags, data offset and TTL stay ACK, 5 and 58. -/
theorem him_read_mss (env : Env) (net : HimNet) (dev : HIM_DEVBLK) (code count : Nat)
    (iobuf : Nat → Nat) (more residual : Nat)
    (hc : code = 0x02 ∨ code = 0x06 ∨ code = 0x0B)
    (hh : dev.dev_data.read_q.headD him_event.EMPTY = him_event.MSS)
    (hm : him_event.EMPTY ∈ dev.dev_data.read_q)
    (hfl : th_flags dev.dev_data.mts_header = TH_ACK)
    (hoff : th_off dev.dev_data.mts_header = 5)
    (httl : ip_ttl dev.dev_data.mts_header = 58) :
    ∃ r, him_execute_ccw env net dev code count iobuf more residual = .ok r ∧
      r.residual = to_U16 (count - 48) ∧
      (∀ i, 48 ≤ i → r.iobuf i = iobuf i) ∧
      th_flags r.iobuf = TH_SYN ||| TH_ACK ∧
      th_off r.iobuf = 6 ∧
      ip_ttl r.iobuf = MAXTTL ∧ MAXTTL = 255 ∧
      tcp_optcode r.iobuf = TCPOPT_MAXSEG ∧
      tcp_optlen r.iobuf = 4 ∧
      tcp_optval r.iobuf = 1460 ∧
      buffer_length r.iobuf = 44 ∧
      ip_len r.iobuf = 44 ∧
      (∀ i, i ≠ 1 → i ≠ 8 → i ≠ 9 →
        r.dev.dev_data.mts_header i = dev.dev_data.mts_header i) ∧
      buffer_number r.dev.dev_data.mts_header
        = (buffer_number dev.dev_data.mts_header + 1) % 256 ∧
      ip_id r.dev.dev_data.mts_header = (ip_id dev.dev_data.mts_header + 1) % 65536 ∧
      th_flags r.dev.dev_data.mts_header = TH_ACK ∧
      th_off r.dev.dev_data.mts_header = 5 ∧
      ip_ttl r.dev.dev_data.mts_header = 58 := by
  have h0 : dev.dev_data.read_q.headD him_event.EMPTY ≠ him_event.EMPTY := by
    rw [hh]; decide
  have hev : him_read_event
      (him_read_max_q dev (dev.dev_data.read_q.indexOf him_event.EMPTY)) iobuf
      = ({ him_read_max_q dev (dev.dev_data.read_q.indexOf him_event.EMPTY) with
           dev_data := (return_mss
             (him_read_max_q dev (dev.dev_data.read_q.indexOf him_event.EMPTY)).dev_data
             iobuf).1 },
         (return_mss
           (him_read_max_q dev (dev.dev_data.read_q.indexOf him_event.EMPTY)).dev_data
           iobuf).2.1,
         (return_mss
           (him_read_max_q dev (dev.dev_data.read_q.indexOf him_event.EMPTY)).dev_data
           iobuf).2.2) := by
    unfold him_read_event
    simp only [him_read_max_q, hh]
  obtain ⟨f1, f2, f3, f4, f5, f6, f7, f8, f9, f10, f11, _⟩ := return_mss_frame
    (him_read_max_q dev (dev.dev_data.read_q.indexOf him_event.EMPTY)).dev_data iobuf
  have hhd : (him_read_watch (him_read_head
      (him_read_max_q dev (dev.dev_data.read_q.indexOf him_event.EMPTY))
      count iobuf more (CSW_CE ||| CSW_DE))).dev.dev_data.mts_header
      = next_frame dev.dev_data.mts_header := by
    rw [him_read_watch_header]
    simp only [him_read_head, hev, f1]
    rfl
  rw [him_execute_ccw_read _ _ _ _ _ _ _ _ hc, him_read_queued _ _ _ _ _ h0 hm]
  refine ⟨_, rfl, ?_, ?_, ?_, ?_, ?_, rfl, ?_, ?_, ?_, ?_, ?_, ?_, ?_, ?_, ?_, ?_, ?_⟩
  · rw [him_read_watch_residual]
    simp only [him_read_head, hev, f2]
    rfl
  · rw [him_read_watch_iobuf]
    simp only [him_read_head, hev]
    exact f3
  · rw [him_read_watch_iobuf]
    simp only [him_read_head, hev]
    rw [f4]
    have e : th_flags (him_read_max_q dev
        (dev.dev_data.read_q.indexOf him_event.EMPTY)).dev_data.mts_header = TH_ACK := hfl
    rw [e]
    decide
  · rw [him_read_watch_iobuf]
    simp only [him_read_head, hev]
    exact f5
  · rw [him_read_watch_iobuf]
    simp only [him_read_head, hev]
    exact f6
  · rw [him_read_watch_iobuf]
    simp only [him_read_head, hev]
    exact f7
  · rw [him_read_watch_iobuf]
    simp only [him_read_head, hev]
    exact f8
  · rw [him_read_watch_iobuf]
    simp only [him_read_head, hev]
    exact f9
  · rw [him_read_watch_iobuf]
    simp only [him_read_head, hev]
    exact f10
  · rw [him_read_watch_iobuf]
    simp only [him_read_head, hev]
    exact f11
  · intro i h1 h8 h9
    rw [hhd, next_frame_of_ne _ _ h1 h8 h9]
  · rw [hhd, next_frame_number]
  · rw [hhd, next_frame_id]
  · rw [hhd]
    unfold th_flags
    rw [next_frame_of_ne _ _ (by decide) (by decide) (by decide)]
    exact hfl
  · rw [hhd]
    unfold th_off
    rw [next_frame_of_ne _ _ (by decide) (by decide) (by decide)]
    exact hoff
  · rw [hhd]
    unfold ip_ttl
    rw [next_frame_of_ne _ _ (by decide) (by decide) (by decide)]
    exact httl

theorem him_read_mss_witness :
    ∃ r, him_execute_ccw envDefault {} (devQueue [him_event.MSS]) 0x02 100 (frame []) 0 0
        = .ok r ∧
      r.residual = 52 ∧ th_flags r.iobuf = TH_SYN ||| TH_ACK ∧ th_off r.iobuf = 6 ∧
      ip_ttl r.iobuf = 255 ∧ tcp_optval r.iobuf = 1460 ∧ buffer_length r.iobuf = 44 ∧
      th_flags r.dev.dev_data.mts_header = TH_ACK ∧ ip_ttl r.dev.dev_data.mts_header = 58 := by
  obtain ⟨r, hr, h1, _, h3, h4, h5, _, _, _, h9, h10, _, _, _, _, h15, _, h17⟩ :=
    him_read_mss envDefault {} (devQueue [him_event.MSS]) 0x02 100 (frame []) 0 0
      (Or.inl rfl) (by decide) (by decide) (by decide) (by decide) (by decide)
  exact ⟨r, hr, h1.trans (by decide), h3, h4, h5, h9, h10, h15, h17⟩

/-! ## Host Interface Machine: the bound of the queue -/

theorem count_set_indexOf (e x : him_event) (hx : x ≠ him_event.EMPTY) :
    ∀ q : List him_event, him_event.EMPTY ∈ q →
      (q.set (q.indexOf him_event.EMPTY) e).count x = q.count x + (if e = x then 1 else 0) := by
  intro q
  induction q with
  | nil => intro h; simp at h
  | cons a t ih =>
    intro h
    by_cases ha : a = him_event.EMPTY
    · subst ha
      rw [List.indexOf_cons_self, List.set_cons_zero, List.count_cons, List.count_cons]
      have : (him_event.EMPTY == x) = false := by
        simp only [beq_eq_false_iff_ne, ne_eq]; exact fun h => hx h.symm
      rw [this]
      simp
    · have hmt : him_event.EMPTY ∈ t := by
        rcases List.mem_cons.1 h with r | r
        · exact absurd r.symm ha
        · exact r
      rw [List.indexOf_cons_ne _ ha, List.set_cons_succ, List.count_cons, List.count_cons, ih hmt]
      omega

/-- Claim C26, counterexample: after the init WRITE that configures the
subchannel, a WRITE whose header carries `finished_flag` leaves CONFIG in the
queue, in front of the FINISHED it adds. -/
theorem him_finished_write_keeps_config :
    finished_flag finishedWrite.iobuf = true ∧
    (him_run envDefault devHim [configWrite, finishedWrite]).toOption.map
        (fun d => d.dev_data.read_q)
      = some (him_event.CONFIG :: him_event.FINISHED :: List.replicate 14 him_event.EMPTY) := by
  decide

/-- Claim C26 (as the source has it): for every control block whose queue has an EMPTY
entry, a WRITE whose header carries `finished_flag` returns and stores
FINISHED in the first EMPTY entry of the queue and changes no other entry, so
the queue holds one FINISHED more than before and the CONFIG entries it
held. -/
theorem him_finished_write_appends (env : Env) (net : HimNet) (dev : HIM_DEVBLK) (count : Nat)
    (iobuf : Nat → Nat) (more residual : Nat)
    (hf : finished_flag iobuf = true)
    (hm : him_event.EMPTY ∈ dev.dev_data.read_q) :
    ∃ r, him_execute_ccw env net dev 0x01 count iobuf more residual = .ok r ∧
      r.dev.dev_data.read_q
        = dev.dev_data.read_q.set (dev.dev_data.read_q.indexOf him_event.EMPTY)
            him_event.FINISHED ∧
      r.dev.dev_data.read_q.count him_event.FINISHED
        = dev.dev_data.read_q.count him_event.FINISHED + 1 ∧
      r.dev.dev_data.read_q.count him_event.CONFIG
        = dev.dev_data.read_q.count him_event.CONFIG := by
  rw [him_execute_ccw_write]
  unfold him_write
  simp only
  rw [if_pos hf, read_q_put_of_mem _ _ hm, except_ok_bind]
  refine ⟨_, rfl, rfl, ?_, ?_⟩
  · exact (count_set_indexOf _ _ (by decide) _ hm).trans (by simp)
  · exact (count_set_indexOf _ _ (by decide) _ hm).trans (by simp)

theorem him_finished_write_appends_witness :
    ∃ r, him_execute_ccw envDefault {} (devQueue [him_event.CONFIG]) 0x01 4 (frame [0x20, 1]) 0 0
        = .ok r ∧
      r.dev.dev_data.read_q
        = him_event.CONFIG :: him_event.FINISHED :: List.replicate 14 him_event.EMPTY ∧
      r.dev.dev_data.read_q.count him_event.FINISHED = 1 ∧
      r.dev.dev_data.read_q.count him_event.CONFIG = 1 := by
  obtain ⟨r, hr, h1, h2, h3⟩ :=
    him_finished_write_appends envDefault {} (devQueue [him_event.CONFIG]) 4 (frame [0x20, 1]) 0 0
      (by decide) (by decide)
  exact ⟨r, hr, h1.trans (by decide), h2.trans (by decide), h3.trans (by decide)⟩

/-- Claim C25, counterexample: sixteen WRITEs with `finished_flag` from the
initialized device fill the queue, and the enqueue of the seventeenth finds
no EMPTY entry in the array, so its scan and its store leave the array. -/
theorem him_seventeenth_enqueue_leaves_queue :
    (him_run envDefault devHim (List.replicate 16 finishedWrite)).toOption.map
        (fun d => d.dev_data.read_q) = some (List.replicate 16 him_event.FINISHED) ∧
    him_run envDefault devHim (List.replicate 17 finishedWrite)
      = .error him_fault.QUEUE_BOUNDS :=
  ⟨by decide, rfl⟩

/-- Claim C25 (as the source has it): in every state that a sequence of CCWs through
`him_execute_ccw` reaches from the zeroed control block with every call
returning, `read_q` still has its 16 entries, so at most 16 events are
queued; an enqueue in such a state stores inside the array when one of the
entries is EMPTY, at the first of them, and leaves the array when none is. -/
theorem him_run_queue_bounded (env : Env) (dev d : HIM_DEVBLK) (cs : List him_call)
    (hz : dev.dev_data = ({} : io_cb))
    (h : him_run env dev cs = .ok d) :
    d.dev_data.read_q.length = 16 ∧
    (d.dev_data.read_q.filter (fun e => e ≠ him_event.EMPTY)).length ≤ 16 ∧
    (read_q_events d.dev_data.read_q).length ≤ 16 ∧
    ∀ e, (him_event.EMPTY ∈ d.dev_data.read_q →
            d.dev_data.read_q.indexOf him_event.EMPTY < 16 ∧
            read_q_put d.dev_data e
              = .ok { d.dev_data with
                      read_q := d.dev_data.read_q.set
                        (d.dev_data.read_q.indexOf him_event.EMPTY) e }) ∧
         (him_event.EMPTY ∉ d.dev_data.read_q →
            read_q_put d.dev_data e = .error him_fault.QUEUE_BOUNDS) := by
  have hl : d.dev_data.read_q.length = 16 :=
    him_run_queue env cs dev (by rw [hz]; rfl) d h
  refine ⟨hl, ?_, ?_, ?_⟩
  · rw [← hl]; exact List.length_filter_le _ _
  · rw [← hl]; exact (List.takeWhile_sublist _).length_le
  · intro e
    refine ⟨fun hm => ⟨?_, read_q_put_of_mem _ _ hm⟩, fun hm => read_q_put_of_not_mem _ _ hm⟩
    rw [← hl]; exact List.indexOf_lt_length.2 hm

theorem him_run_queue_bounded_witness :
    ∃ d, him_run envDefault devHim [configWrite, finishedWrite] = .ok d ∧
      d.dev_data.read_q.length = 16 ∧ (read_q_events d.dev_data.read_q).length ≤ 16 := by
  have h : ∃ d, him_run envDefault devHim [configWrite, finishedWrite] = .ok d := ⟨_, rfl⟩
  obtain ⟨d, hd⟩ := h
  have hb := him_run_queue_bounded envDefault devHim d [configWrite, finishedWrite] rfl hd
  exact ⟨d, hd, hb.1, hb.2.2.1⟩

/-! ## Host Interface Machine: the residual of a READ -/

theorem to_U16_sub (count n : Nat) (hc : count < 65536) (hn : n < 65536) :
    (to_U16 ((count : Int) - (n : Int)) ≤ count ↔ n ≤ count) ∧
      (n ≤ count → to_U16 ((count : Int) - (n : Int)) = count - n) := by
  unfold to_U16
  omega

theorem to_U16_self (count : Nat) (hc : count < 65536) :
    count = to_U16 ((count : Int) - ((0 : Nat) : Int)) := by
  unfold to_U16
  omega

theorem htonl_at_of_ne (b : Nat → Nat) (i v j : Nat) (h : j < i ∨ i + 3 < j) :
    htonl_at b i v j = b j := by
  unfold htonl_at
  rw [Function.update_noteq (by omega), Function.update_noteq (by omega),
    Function.update_noteq (by omega), Function.update_noteq (by omega)]

theorem recv_at_of_ge (dst data : Nat → Nat) (off : Nat) (len : Int) (i : Nat)
    (h : (off : Int) + len ≤ i) : recv_at dst off data len i = dst i := by
  unfold recv_at
  rw [if_neg (by omega)]

theorem him_read_socket_frame (net : HimNet) (cb : io_cb) (count : Nat) (b : Nat → Nat) (u : Nat)
    (hcount : count < 65536)
    (hudp : cb.protocol = IPPROTO_UDP → 0 ≤ net.recvfrom)
    (hr1 : net.recvfrom ≤ 1460) (hr2 : net.read ≤ 1460) :
    ∃ n : Nat, n < 65536 ∧
      (him_read_socket net cb count b u).2.2.2 = to_U16 ((count : Int) - (n : Int)) ∧
      ∀ i, n ≤ i → (him_read_socket net cb count b u).2.1 i = b i := by
  unfold him_read_socket
  simp only
  split_ifs with h1 h2 h3 h4 h5 h6 h7
  · exact ⟨0, by decide, to_U16_self count hcount, fun i _ => rfl⟩
  · have h0 := hudp h3
    refine ⟨(net.recvfrom + 32).toNat, by omega, ?_, ?_⟩
    · rw [Int.toNat_of_nonneg (by omega)]
    · intro i hi
      simp only
      have hi2 : (32 : Int) + net.recvfrom ≤ i := by omega
      have hi3 : 32 ≤ i := by omega
      rw [htons_at_of_ne _ _ _ _ (by omega) (by omega), htonl_at_of_ne _ _ _ _ (by omega),
        htons_at_of_ne _ _ _ _ (by omega) (by omega),
        htons_at_of_ne _ _ _ _ (by omega) (by omega), recv_at_of_ge _ _ _ _ _ hi2]
      unfold memcpy
      rw [if_neg (by omega)]
  · refine ⟨48, by decide, rfl, ?_⟩
    intro i hi
    exact (return_mss_frame _ _).2.2.1 i hi
  · refine ⟨(net.read + 44).toNat, by omega, ?_, ?_⟩
    · rw [Int.toNat_of_nonneg (by omega)]
    · intro i hi
      simp only
      have hi2 : (44 : Int) + net.read ≤ i := by omega
      have hi3 : 44 ≤ i := by omega
      rw [htons_at_of_ne _ _ _ _ (by omega) (by omega),
        htons_at_of_ne _ _ _ _ (by omega) (by omega), recv_at_of_ge _ _ _ _ _ hi2,
        Function.update_noteq (by omega)]
      unfold memcpy
      rw [if_neg (by omega)]
  · refine ⟨44, by decide, rfl, ?_⟩
    intro i hi
    simp only
    have hi2 : (44 : Int) + net.read ≤ i := by omega
    rw [Function.update_noteq (by omega), recv_at_of_ge _ _ _ _ _ hi2,
      Function.update_noteq (by omega)]
    unfold memcpy
    rw [if_neg (by omega)]
  · refine ⟨44, by decide, rfl, ?_⟩
    intro i hi
    simp only
    have hi2 : (44 : Int) + net.read ≤ i := by omega
    rw [Function.update_noteq (by omega), recv_at_of_ge _ _ _ _ _ hi2,
      Function.update_noteq (by omega)]
    unfold memcpy
    rw [if_neg (by omega)]
  · exact ⟨0, by decide, to_U16_self count hcount, fun i _ => rfl⟩
  · exact ⟨0, by decide, to_U16_self count hcount, fun i _ => rfl⟩

theorem him_read_event_frame (dev : HIM_DEVBLK) (b : Nat → Nat)
    (hbuf : buffer_length dev.buf + 4 < 65536) :
    (him_read_event dev b).2.2 < 65536 ∧
      ∀ i, (him_read_event dev b).2.2 ≤ i → (him_read_event dev b).2.1 i = b i := by
  unfold him_read_event
  simp only
  split
  · refine ⟨hbuf, ?_⟩
    intro i hi
    simp only at hi ⊢
    unfold memcpy
    rw [if_neg (by omega)]
  · refine ⟨(by show 48 < 65536; decide), ?_⟩
    intro i hi
    exact (return_mss_frame _ _).2.2.1 i hi
  · refine ⟨(by show 44 < 65536; decide), ?_⟩
    intro i hi
    simp only at hi ⊢
    unfold memcpy
    rw [if_neg (by omega)]
  · refine ⟨(by show 44 < 65536; decide), ?_⟩
    intro i hi
    simp only at hi ⊢
    rw [Function.update_noteq (by omega)]
    unfold memcpy
    rw [if_neg (by omega)]
  · refine ⟨(by show 4 < 65536; decide), ?_⟩
    intro i hi
    simp only at hi ⊢
    unfold memcpy
    rw [if_neg (by omega)]
  · exact ⟨(by show 0 < 65536; decide), fun i _ => rfl⟩

/-- Claim C27, counterexample: after the init WRITE a READ with count 10
serves the queued reply of 24 bytes, and the residual it returns is
10 - 24 in 16 bits, 65522, which is more than the count. -/
theorem him_read_residual_exceeds_count :
    ((him_run envDefault devHim [configWrite]).toOption.bind (fun d =>
        (him_execute_ccw envDefault {} d 0x02 10 (frame []) 0 0).toOption.map
          (fun r => r.residual))) = some 65522 ∧ ¬ 65522 ≤ 10 := by
  decide

/-- Claim C27 (as the source has it): for every READ CCW (opcodes 0x02, 0x06, 0x0B) with a
16-bit count that finds an EMPTY entry in the queue, a stored reply that fits
16 bits and lengths from `read` and `recvfrom` that are at most the 1460
bytes asked for (and, on a UDP subchannel, no error from `recvfrom`), the
call returns, places n bytes at the front of the I/O buffer and leaves the
buffer behind them as it was, with n below 65536 and the residual equal to
count - n in 16-bit arithmetic; the residual is at most the count, and n is
count - residual, exactly when n is at most the count. -/
theorem him_read_residual (env : Env) (net : HimNet) (dev : HIM_DEVBLK) (code count : Nat)
    (iobuf : Nat → Nat) (more residual : Nat)
    (hc : code = 0x02 ∨ code = 0x06 ∨ code = 0x0B)
    (hcount : count < 65536)
    (hm : him_event.EMPTY ∈ dev.dev_data.read_q)
    (hbuf : buffer_length dev.buf + 4 < 65536)
    (hudp : dev.dev_data.protocol = IPPROTO_UDP → 0 ≤ net.recvfrom)
    (hr1 : net.recvfrom ≤ 1460) (hr2 : net.read ≤ 1460) :
    ∃ (r : him_ccw) (n : Nat), him_execute_ccw env net dev code count iobuf more residual = .ok r ∧
      n < 65536 ∧
      r.residual = to_U16 ((count : Int) - (n : Int)) ∧
      (∀ i, n ≤ i → r.iobuf i = iobuf i) ∧
      (r.residual ≤ count ↔ n ≤ count) ∧
      (n ≤ count → r.residual = count - n ∧ n = count - r.residual) := by
  have key : ∃ (r : him_ccw) (n : Nat),
      him_execute_ccw env net dev code count iobuf more residual = .ok r ∧
      n < 65536 ∧ r.residual = to_U16 ((count : Int) - (n : Int)) ∧
      (∀ i, n ≤ i → r.iobuf i = iobuf i) := by
    rw [him_execute_ccw_read _ _ _ _ _ _ _ _ hc]
    by_cases h0 : dev.dev_data.read_q.headD him_event.EMPTY ≠ him_event.EMPTY
    · rw [him_read_queued _ _ _ _ _ h0 hm]
      obtain ⟨f1, f2⟩ := him_read_event_frame
        (him_read_max_q dev (dev.dev_data.read_q.indexOf him_event.EMPTY)) iobuf hbuf
      refine ⟨_, _, rfl, f1, ?_, ?_⟩
      · rw [him_read_watch_residual]
        rfl
      · intro i hi
        rw [him_read_watch_iobuf]
        exact f2 i hi
    · obtain ⟨n, g1, g2, g3⟩ := him_read_socket_frame net dev.dev_data count iobuf
        (CSW_CE ||| CSW_DE) hcount hudp hr1 hr2
      unfold him_read
      simp only
      rw [if_neg h0]
      refine ⟨_, n, rfl, g1, ?_, ?_⟩
      · rw [him_read_watch_residual]
        exact g2
      · intro i hi
        rw [him_read_watch_iobuf]
        exact g3 i hi
  obtain ⟨r, n, h1, h2, h3, h4⟩ := key
  obtain ⟨t1, t2⟩ := to_U16_sub count n hcount h2
  refine ⟨r, n, h1, h2, h3, h4, ?_, ?_⟩
  · rw [h3]; exact t1
  · intro hn
    rw [h3, t2 hn]
    exact ⟨rfl, by omega⟩

theorem him_read_residual_witness :
    ∃ (r : him_ccw) (n : Nat),
      him_execute_ccw envDefault {} (devQueue [him_event.ACK]) 0x02 100 (frame []) 0 0 = .ok r ∧
      n < 65536 ∧ r.residual = to_U16 ((100 : Int) - (n : Int)) ∧
      (∀ i, n ≤ i → r.iobuf i = 0) ∧ (r.residual ≤ 100 ↔ n ≤ 100) := by
  obtain ⟨r, n, h1, h2, h3, h4, h5, _⟩ :=
    him_read_residual envDefault {} (devQueue [him_event.ACK]) 0x02 100 (frame []) 0 0
      (Or.inl rfl) (by decide) (by decide) (by decide) (by decide) (by decide) (by decide)
  exact ⟨r, n, h1, h2, h3, fun i hi => (h4 i hi).trans rfl, h5⟩

/-! ## Block-id round trip, immediate commands, unlisted device types -/

set_option maxRecDepth 100000 in
/-- The two high bits of a byte are zero exactly when the byte is below 64. -/
theorem byte_maskC0 : ∀ x, x < 256 → (x &&& 0xC0 = 0 ↔ x % 64 = x) := by decide

/-- Claim C36: for every block-id x in the 22-bit layout,
`blockid_32_to_22 (blockid_22_to_32 x)` is x with the two format-mode bits
(the two high bits of byte 1) cleared, `blockid_22_to_32 x` read as a
big-endian integer is at most 2^30 - 1, and the round trip gives x again
exactly when the format-mode bits of x are zero. -/
theorem blockid_22_32_22_clears_format_mode (b0 b1 b2 b3 : Nat)
    (h0 : b0 < 256) (h1 : b1 < 256) (h2 : b2 < 256) (h3 : b3 < 256) :
    blockid_32_to_22 (blockid_22_to_32 [b0, b1, b2, b3]) = [b0, b1 &&& 0x3F, b2, b3] ∧
    be32 (blockid_22_to_32 [b0, b1, b2, b3]) ≤ 2 ^ 30 - 1 ∧
    (blockid_32_to_22 (blockid_22_to_32 [b0, b1, b2, b3]) = [b0, b1, b2, b3] ↔
      b1 &&& 0xC0 = 0) := by
  have hm : b1 &&& 0x3F = b1 % 64 := byte_mask3F b1 h1
  have hc := byte_maskC0
  have hr : blockid_32_to_22 (blockid_22_to_32 [b0, b1, b2, b3]) = [b0, b1 % 64, b2, b3] := by
    rw [blockid_22_to_32_arith b0 b1 b2 b3 h0 h1,
      blockid_32_to_22_arith _ _ b2 b3 (by omega) (by omega)]
    have e0 : b0 / 4 % 64 * 4 + (b0 % 4 * 64 + b1 % 64) / 64 = b0 := by omega
    have e1 : (b0 % 4 * 64 + b1 % 64) % 64 = b1 % 64 := by omega
    rw [e0, e1]
  refine ⟨by rw [hr, hm], ?_, ?_⟩
  · rw [blockid_22_to_32_arith b0 b1 b2 b3 h0 h1]
    simp only [be32, List.getD_cons_zero, List.getD_cons_succ]
    omega
  · rw [hr, hc b1 h1]
    constructor
    · intro h
      simpa using h
    · intro h
      rw [h]

theorem blockid_22_32_22_clears_format_mode_witness :
    blockid_32_to_22 (blockid_22_to_32 [0x01, 0xC5, 0x00, 0x07]) = [0x01, 0x05, 0x00, 0x07] ∧
    be32 (blockid_22_to_32 [0x01, 0xC5, 0x00, 0x07]) ≤ 2 ^ 30 - 1 := by
  have h := blockid_22_32_22_clears_format_mode 0x01 0xC5 0x00 0x07
    (by decide) (by decide) (by decide) (by decide)
  exact ⟨h.1.trans (by decide), h.2.1⟩

set_option maxRecDepth 100000 in
/-- The table TapeImmedCommands has an entry for each of the 256 opcodes. -/
theorem TapeImmedCommands_length : TapeImmedCommands.length = 256 := by decide

set_option maxRecDepth 100000 in
/-- Every entry of TapeImmedCommands is 0 or 1. -/
theorem TapeImmedCommands_entries :
    ∀ c, c < 256 → TapeImmedCommands.getD c 0 = 0 ∨ TapeImmedCommands.getD c 0 = 1 := by
  decide

set_option maxRecDepth 100000 in
/-- The opcodes that TapeImmedCommands marks end in the bits 11. -/
theorem TapeImmedCommands_marked :
    ∀ c, c < 256 → TapeImmedCommands.getD c 0 = 1 → c % 4 = 3 ∧ c &&& 0x03 = 0x03 := by
  decide

set_option maxRecDepth 100000 in
/-- No opcode that ends in the bits 01 or 10 is marked in TapeImmedCommands. -/
theorem TapeImmedCommands_data :
    ∀ c, c < 256 → (c % 4 = 1 ∨ c % 4 = 2) → TapeImmedCommands.getD c 0 = 0 := by
  decide

/-- Claim C37: every entry of TapeImmedCommands is 0 or 1; every opcode that
the table marks immediate has its two low-order bits equal to 11; and no
opcode whose low-order bits are 01 (write) or 10 (read) is immediate,
whatever the validity table of a device makes of it. -/
theorem TapeImmedCommands_low_bits :
    TapeImmedCommands.length = 256 ∧
    (∀ c, c < 256 → TapeImmedCommands.getD c 0 = 0 ∨ TapeImmedCommands.getD c 0 = 1) ∧
    (∀ c, c < 256 → TapeImmedCommands.getD c 0 = 1 → c % 4 = 3 ∧ c &&& 0x03 = 0x03) ∧
    (∀ t ∈ TapeCommandTable, ∀ c, c < 256 → (c % 4 = 1 ∨ c % 4 = 2) → t.getD c 0 ≠ 0 →
      TapeImmedCommands.getD c 0 = 0) := by
  refine ⟨TapeImmedCommands_length, TapeImmedCommands_entries, TapeImmedCommands_marked, ?_⟩
  intro t _ c hc hl _
  exact TapeImmedCommands_data c hc hl

/-- Claim C38: for a device type that is not in TapeDevtypeList,
`build_senseX` for every error kind, opcode and unit status on entry returns
the unit status CE|DE|UC and the device block it was given with sense byte 0
set to equipment check and `sns_pending` set to 1: no family sense function
has a part in the result. -/
theorem build_senseX_unlisted (h : Host) (e : ERCode) (dev : DEVBLK) (us c : Nat)
    (hd : dev.devtype ∉ supportedDevtypes) :
    build_senseX h e dev us c
      = ({ dev with sense := Function.update dev.sense 0 SENSE_EC, sns_pending := 1 },
         CSW_CE ||| CSW_DE ||| CSW_UC) ∧
    (build_senseX h e dev us c).2 = CSW_CE ||| CSW_DE ||| CSW_UC ∧
    (build_senseX h e dev us c).1.sense 0 = SENSE_EC ∧
    (build_senseX h e dev us c).1.sns_pending = 1 := by
  have hnone : findDevtype dev.devtype devtypeRecords 0 = none := by
    rcases findDevtype_cases dev.devtype with ⟨hin, _⟩ | ⟨_, hn⟩
    · exact absurd hin hd
    · exact hn
  have key : build_senseX h e dev us c
      = ({ dev with sense := Function.update dev.sense 0 SENSE_EC, sns_pending := 1 },
         CSW_CE ||| CSW_DE ||| CSW_UC) := by
    unfold build_senseX
    simp only [hnone]
    rw [if_pos (by decide)]
  rw [key]
  exact ⟨rfl, rfl, by simp, rfl⟩

theorem build_senseX_unlisted_witness :
    (build_senseX hostEot ERCode.STATUSONLY { devtype := 0x3400 } 0 0x01).2
      = CSW_CE ||| CSW_DE ||| CSW_UC ∧
    (build_senseX hostEot ERCode.STATUSONLY { devtype := 0x3400 } 0 0x01).1.sns_pending = 1 := by
  have h := build_senseX_unlisted hostEot ERCode.STATUSONLY { devtype := 0x3400 } 0 0x01
    (by decide)
  exact ⟨h.2.1, h.2.2.2⟩

theorem TapeImmedCommands_low_bits_witness :
    TapeImmedCommands.getD 0x07 0 = 1 ∧ 0x07 % 4 = 3 ∧ TapeImmedCommands.getD 0x01 0 = 0 :=
  ⟨by decide, (TapeImmedCommands_low_bits.2.2.1 0x07 (by decide) (by decide)).1,
    TapeImmedCommands_low_bits.2.2.2 TapeCommands3410
      (by unfold TapeCommandTable; exact List.mem_cons_self _ _) 0x01 (by decide)
      (Or.inl (by decide)) (by decide)⟩

/-! ## A mount that fails on a parameter -/

theorem ite_fst {α β : Type} (c : Prop) [Decidable c] (a b a2 b2 : α × β)
    (ha : a.1 = a2.1) (hb : b.1 = b2.1) :
    (if c then a else b).1 = (if c then a2 else b2).1 := by
  split_ifs <;> assumption

theorem ite_when {α : Type} (P : α → Prop) (c : Prop) [Decidable c] (a b : α)
    (ha : c → P a) (hb : ¬ c → P b) : P (if c then a else b) := by
  split_ifs with h
  · exact ha h
  · exact hb h

theorem mount_parm_position (env : Env) (scsi : Bool) (sd : String)
    (st : DEVBLK × List LogRec × Int) (arg : String) :
    (mount_parm env scsi sd st arg).1.tapedevt = st.1.tapedevt ∧
      (mount_parm env scsi sd st arg).1.curfilen = st.1.curfilen ∧
      (mount_parm env scsi sd st arg).1.nxtblkpos = st.1.nxtblkpos := by
  unfold mount_parm
  simp only
  repeat' first
    | exact ⟨rfl, rfl, rfl⟩
    | apply ite_pred (fun r : DEVBLK × List LogRec × Int =>
        r.1.tapedevt = st.1.tapedevt ∧ r.1.curfilen = st.1.curfilen ∧
          r.1.nxtblkpos = st.1.nxtblkpos)

theorem mount_parms_position (env : Env) (scsi : Bool) (sd : String) (args : List String) :
    ∀ st : DEVBLK × List LogRec × Int,
      (args.foldl (mount_parm env scsi sd) st).1.tapedevt = st.1.tapedevt ∧
        (args.foldl (mount_parm env scsi sd) st).1.curfilen = st.1.curfilen ∧
        (args.foldl (mount_parm env scsi sd) st).1.nxtblkpos = st.1.nxtblkpos := by
  induction args with
  | nil => intro st; exact ⟨rfl, rfl, rfl⟩
  | cons a t ih =>
    intro st
    rw [List.foldl_cons]
    obtain ⟨h1, h2, h3⟩ := ih (mount_parm env scsi sd st a)
    obtain ⟨g1, g2, g3⟩ := mount_parm_position env scsi sd st a
    exact ⟨h1.trans g1, h2.trans g2, h3.trans g3⟩

theorem mount_init_position (env : Env) (scsi : Bool) (d : DEVBLK) :
    (mount_init env scsi d).tapedevt = d.tapedevt ∧ (mount_init env scsi d).curfilen = 1 ∧
      (mount_init env scsi d).nxtblkpos = 0 ∧
      (mount_init env scsi d).method = env.HETDFLT_METHOD ∧
      (mount_init env scsi d).level = env.HETDFLT_LEVEL ∧
      (mount_init env scsi d).chksize = env.HETDFLT_CHKSIZE := by
  unfold mount_init
  simp only
  split_ifs <;> exact ⟨rfl, rfl, rfl, rfl, rfl, rfl⟩

/-- The device block that a parameter leaves does not depend on the messages
logged before it or on `rc`. -/
theorem mount_parm_any_rc (env : Env) (scsi : Bool) (sd : String)
    (d : DEVBLK) (l1 l2 : List LogRec) (rc1 rc2 : Int) (arg : String) :
    (mount_parm env scsi sd (d, l1, rc1) arg).1 = (mount_parm env scsi sd (d, l2, rc2) arg).1 := by
  unfold mount_parm
  simp only
  repeat' first
    | rfl
    | apply ite_fst

/-- Once `rc` is -1 it stays -1. -/
theorem mount_parm_rc (env : Env) (scsi : Bool) (sd : String)
    (st : DEVBLK × List LogRec × Int) (arg : String) (h : st.2.2 = -1) :
    (mount_parm env scsi sd st arg).2.2 = -1 := by
  unfold mount_parm
  simp only
  repeat' first
    | exact h
    | rfl
    | apply ite_pred (fun r : DEVBLK × List LogRec × Int => r.2.2 = -1)

theorem mount_parms_rc (env : Env) (scsi : Bool) (sd : String) (args : List String) :
    ∀ st : DEVBLK × List LogRec × Int, st.2.2 = -1 →
      (args.foldl (mount_parm env scsi sd) st).2.2 = -1 := by
  induction args with
  | nil => intro st h; exact h
  | cons a t ih =>
    intro st h
    rw [List.foldl_cons]
    exact ih _ (mount_parm_rc env scsi sd st a h)

/-- Every parameter logs the line HHCTA066I once. -/
theorem mount_parm_line (env : Env) (scsi : Bool) (sd : String)
    (st : DEVBLK × List LogRec × Int) (arg : String) :
    (mount_parm env scsi sd st arg).2.1.countP
        (fun l => l.fmt = "HHCTA066I %s device %4.4X parameter: '%s'\n") =
      st.2.1.countP (fun l => l.fmt = "HHCTA066I %s device %4.4X parameter: '%s'\n") + 1 := by
  unfold mount_parm
  simp only
  repeat' first
    | (simp [List.countP_append, List.countP_cons]; done)
    | apply ite_pred (fun r : DEVBLK × List LogRec × Int =>
        r.2.1.countP (fun l => l.fmt = "HHCTA066I %s device %4.4X parameter: '%s'\n") =
          st.2.1.countP (fun l => l.fmt = "HHCTA066I %s device %4.4X parameter: '%s'\n") + 1)

theorem mount_parms_line (env : Env) (scsi : Bool) (sd : String) (args : List String) :
    ∀ st : DEVBLK × List LogRec × Int,
      (args.foldl (mount_parm env scsi sd) st).2.1.countP
          (fun l => l.fmt = "HHCTA066I %s device %4.4X parameter: '%s'\n") =
        st.2.1.countP (fun l => l.fmt = "HHCTA066I %s device %4.4X parameter: '%s'\n")
          + args.length := by
  induction args with
  | nil => intro st; rfl
  | cons a t ih =>
    intro st
    rw [List.foldl_cons, ih, mount_parm_line, List.length_cons]
    omega

/-- A parameter that is unrecognised, or on a drive other than a SCSI tape a
method, level or chunk size outside its range, leaves the device block as it
is and sets `rc` to -1. -/
theorem mount_parm_refused (env : Env) (scsi : Bool) (sd : String)
    (st : DEVBLK × List LogRec × Int) (arg : String)
    (h : (env.parser arg).1 = TDPARM_NONE ∨
      (st.1.tapedevt ≠ TAPEDEVT.SCSITAPE ∧
        (((env.parser arg).1 = TDPARM_METHOD ∧
            ((env.parser arg).2 < env.HETMIN_METHOD ∨ (env.parser arg).2 > env.HETMAX_METHOD)) ∨
          ((env.parser arg).1 = TDPARM_LEVEL ∧
            ((env.parser arg).2 < env.HETMIN_LEVEL ∨ (env.parser arg).2 > env.HETMAX_LEVEL)) ∨
          ((env.parser arg).1 = TDPARM_CHKSIZE ∧
            ((env.parser arg).2 < env.HETMIN_CHUNKSIZE ∨
              (env.parser arg).2 > env.HETMAX_CHUNKSIZE))))) :
    (mount_parm env scsi sd st arg).1 = st.1 ∧ (mount_parm env scsi sd st arg).2.2 = -1 := by
  unfold mount_parm
  simp only
  rcases h with h | ⟨hs, ⟨hc, hr⟩ | ⟨hc, hr⟩ | ⟨hc, hr⟩⟩
  · rw [if_pos h]
    exact ⟨rfl, rfl⟩
  · rw [hc]
    simp only [TDPARM_NONE, TDPARM_AWSTAPE, TDPARM_IDRC, TDPARM_COMPRESS, TDPARM_METHOD]
    norm_num
    rw [if_pos ⟨hs, hr⟩]
    exact ⟨rfl, rfl⟩
  · rw [hc]
    simp only [TDPARM_NONE, TDPARM_AWSTAPE, TDPARM_IDRC, TDPARM_COMPRESS, TDPARM_METHOD,
      TDPARM_LEVEL]
    norm_num
    rw [if_pos ⟨hs, hr⟩]
    exact ⟨rfl, rfl⟩
  · rw [hc]
    simp only [TDPARM_NONE, TDPARM_AWSTAPE, TDPARM_IDRC, TDPARM_COMPRESS, TDPARM_METHOD,
      TDPARM_LEVEL, TDPARM_CHKSIZE]
    norm_num
    rw [if_pos ⟨hs, hr⟩]
    exact ⟨rfl, rfl⟩

/-- A parameter other than an accepted `method=` leaves the method as it is;
likewise the level; the chunk size is also set by `awstape`. -/
theorem mount_parm_tuning (env : Env) (scsi : Bool) (sd : String)
    (st : DEVBLK × List LogRec × Int) (arg : String) :
    (((env.parser arg).1 = TDPARM_METHOD →
        ((env.parser arg).2 < env.HETMIN_METHOD ∨ (env.parser arg).2 > env.HETMAX_METHOD)) →
      (mount_parm env scsi sd st arg).1.method = st.1.method) ∧
    (((env.parser arg).1 = TDPARM_LEVEL →
        ((env.parser arg).2 < env.HETMIN_LEVEL ∨ (env.parser arg).2 > env.HETMAX_LEVEL)) →
      (mount_parm env scsi sd st arg).1.level = st.1.level) ∧
    ((env.parser arg).1 ≠ TDPARM_AWSTAPE →
      ((env.parser arg).1 = TDPARM_CHKSIZE →
        ((env.parser arg).2 < env.HETMIN_CHUNKSIZE ∨
          (env.parser arg).2 > env.HETMAX_CHUNKSIZE)) →
      (mount_parm env scsi sd st arg).1.chksize = st.1.chksize) := by
  refine ⟨?_, ?_, ?_⟩
  · intro H
    by_cases hc : (env.parser arg).1 = TDPARM_METHOD
    · have hr := H hc
      unfold mount_parm
      simp only
      rw [hc]
      simp only [TDPARM_NONE, TDPARM_AWSTAPE, TDPARM_IDRC, TDPARM_COMPRESS, TDPARM_METHOD]
      norm_num
      by_cases hs : st.1.tapedevt = TAPEDEVT.SCSITAPE
      · rw [if_neg (fun h => h.1 hs), if_pos hs]
      · rw [if_pos ⟨hs, hr⟩]
    · unfold mount_parm
      simp only
      repeat' first
        | rfl
        | contradiction
        | (apply ite_when (fun r : DEVBLK × List LogRec × Int => r.1.method = st.1.method) <;>
            intro _)
  · intro H
    by_cases hc : (env.parser arg).1 = TDPARM_LEVEL
    · have hr := H hc
      unfold mount_parm
      simp only
      rw [hc]
      simp only [TDPARM_NONE, TDPARM_AWSTAPE, TDPARM_IDRC, TDPARM_COMPRESS, TDPARM_METHOD,
        TDPARM_LEVEL]
      norm_num
      by_cases hs : st.1.tapedevt = TAPEDEVT.SCSITAPE
      · rw [if_neg (fun h => h.1 hs), if_pos hs]
      · rw [if_pos ⟨hs, hr⟩]
    · unfold mount_parm
      simp only
      repeat' first
        | rfl
        | contradiction
        | (apply ite_when (fun r : DEVBLK × List LogRec × Int => r.1.level = st.1.level) <;>
            intro _)
  · intro H1 H
    by_cases hc : (env.parser arg).1 = TDPARM_CHKSIZE
    · have hr := H hc
      unfold mount_parm
      simp only
      rw [hc]
      simp only [TDPARM_NONE, TDPARM_AWSTAPE, TDPARM_IDRC, TDPARM_COMPRESS, TDPARM_METHOD,
        TDPARM_LEVEL, TDPARM_CHKSIZE]
      norm_num
      by_cases hs : st.1.tapedevt = TAPEDEVT.SCSITAPE
      · rw [if_neg (fun h => h.1 hs), if_pos hs]
      · rw [if_pos ⟨hs, hr⟩]
    · unfold mount_parm
      simp only
      repeat' first
        | rfl
        | contradiction
        | (apply ite_when (fun r : DEVBLK × List LogRec × Int => r.1.chksize = st.1.chksize) <;>
            intro _)

theorem mount_parms_tuning (env : Env) (scsi : Bool) (sd : String) (args : List String) :
    ∀ st : DEVBLK × List LogRec × Int,
      ((∀ arg ∈ args, (env.parser arg).1 = TDPARM_METHOD →
          ((env.parser arg).2 < env.HETMIN_METHOD ∨ (env.parser arg).2 > env.HETMAX_METHOD)) →
        (args.foldl (mount_parm env scsi sd) st).1.method = st.1.method) ∧
      ((∀ arg ∈ args, (env.parser arg).1 = TDPARM_LEVEL →
          ((env.parser arg).2 < env.HETMIN_LEVEL ∨ (env.parser arg).2 > env.HETMAX_LEVEL)) →
        (args.foldl (mount_parm env scsi sd) st).1.level = st.1.level) ∧
      ((∀ arg ∈ args, (env.parser arg).1 ≠ TDPARM_AWSTAPE ∧
          ((env.parser arg).1 = TDPARM_CHKSIZE →
            ((env.parser arg).2 < env.HETMIN_CHUNKSIZE ∨
              (env.parser arg).2 > env.HETMAX_CHUNKSIZE))) →
        (args.foldl (mount_parm env scsi sd) st).1.chksize = st.1.chksize) := by
  induction args with
  | nil => intro st; exact ⟨fun _ => rfl, fun _ => rfl, fun _ => rfl⟩
  | cons a t ih =>
    intro st
    rw [List.foldl_cons]
    obtain ⟨i1, i2, i3⟩ := ih (mount_parm env scsi sd st a)
    obtain ⟨g1, g2, g3⟩ := mount_parm_tuning env scsi sd st a
    refine ⟨fun H => ?_, fun H => ?_, fun H => ?_⟩
    · exact (i1 (fun x hx => H x (List.mem_cons_of_mem _ hx))).trans
        (g1 (H a (List.mem_cons_self _ _)))
    · exact (i2 (fun x hx => H x (List.mem_cons_of_mem _ hx))).trans
        (g2 (H a (List.mem_cons_self _ _)))
    · exact (i3 (fun x hx => H x (List.mem_cons_of_mem _ hx))).trans
        (g3 (H a (List.mem_cons_self _ _)).1 (H a (List.mem_cons_self _ _)).2)

theorem mount_parms_any_rc (env : Env) (scsi : Bool) (sd : String) (args : List String) :
    ∀ st1 st2 : DEVBLK × List LogRec × Int, st1.1 = st2.1 →
      (args.foldl (mount_parm env scsi sd) st1).1 =
        (args.foldl (mount_parm env scsi sd) st2).1 := by
  induction args with
  | nil => intro st1 st2 h; exact h
  | cons a t ih =>
    intro st1 st2 h
    rw [List.foldl_cons, List.foldl_cons]
    apply ih
    obtain ⟨d1, l1, rc1⟩ := st1
    obtain ⟨d2, l2, rc2⟩ := st2
    simp only at h
    subst h
    exact mount_parm_any_rc env scsi sd d1 l1 l2 rc1 rc2 a

/-- Past the format determination a call of `mountnewtape` that returns -1
leaves what the parameter loop leaves. -/
theorem mountnewtape_refused (env : Env) (tmh : TAPEDEVT → Host) (scsi : Bool)
    (dev : DEVBLK) (argv : List String) (e : tape_format_entry)
    (hmf : mount_format env (mount_filename env { dev with omadesc := false } argv)
      (fmttab scsi) 0 = some (e, none))
    (hrc : (mountnewtape env tmh scsi dev argv).2.2 = -1) :
    ∃ l : List LogRec,
      l.countP (fun l => l.fmt = "HHCTA066I %s device %4.4X parameter: '%s'\n") = 0 ∧
      (mountnewtape env tmh scsi dev argv).1 =
        ((argv.drop 1).foldl (mount_parm env scsi e.short_descr)
          (mount_init env scsi
            { mount_filename env { dev with omadesc := false } argv with
              tapedevt := e.fmtcode }, l, 0)).1 ∧
      (mountnewtape env tmh scsi dev argv).2.1 =
        ((argv.drop 1).foldl (mount_parm env scsi e.short_descr)
          (mount_init env scsi
            { mount_filename env { dev with omadesc := false } argv with
              tapedevt := e.fmtcode }, l, 0)).2.1 := by
  have hmn : ∃ l0 : List LogRec,
      l0.countP (fun l => l.fmt = "HHCTA066I %s device %4.4X parameter: '%s'\n") = 0 ∧
      mountnewtape env tmh scsi dev argv = mount_finish env tmh
        ((argv.drop 1).foldl (mount_parm env scsi e.short_descr)
          (mount_init env scsi
            { mount_filename env { dev with omadesc := false } argv with
              tapedevt := e.fmtcode }, l0, 0)) := by
    simp only [mountnewtape, hmf]
    refine ⟨_, ?_, rfl⟩
    split_ifs <;> simp
  obtain ⟨l0, hl0, hmn⟩ := hmn
  rw [hmn] at hrc ⊢
  refine ⟨l0, hl0, ?_, ?_⟩
  · unfold mount_finish at hrc ⊢
    split_ifs at hrc ⊢ with h
    rfl
  · unfold mount_finish at hrc ⊢
    split_ifs at hrc ⊢ with h
    rfl

/-- Claim C39: when `mountnewtape` has determined the format and returns -1,
which then is the doing of a refused parameter, the call is not atomic.  The
device block it leaves is the one that the parameter loop leaves after all
the parameters `argv[1..]`, started from the freshly initialised block: the
file name is the new one, the media kind that of the matching format entry,
`fd` is -1, `curfilen` 1 and `nxtblkpos` 0.  Every parameter is processed: the
line HHCTA066I is logged once for each of them, what a parameter does to the
device block does not depend on `rc`, and `rc` once at -1 stays there.  An
unrecognised parameter, and on a drive other than a SCSI tape a method, level
or chunk size outside its range, leaves the device block as it is; so where
no parameter is an accepted `method=` the method is the default afterwards,
and likewise the level and, `awstape` apart, the chunk size. -/
theorem mountnewtape_not_atomic (env : Env) (tmh : TAPEDEVT → Host) (scsi : Bool)
    (dev : DEVBLK) (argv : List String) (e : tape_format_entry)
    (hmf : mount_format env (mount_filename env { dev with omadesc := false } argv)
      (fmttab scsi) 0 = some (e, none))
    (hrc : (mountnewtape env tmh scsi dev argv).2.2 = -1) :
    (∀ l : List LogRec, (mountnewtape env tmh scsi dev argv).1 =
      ((argv.drop 1).foldl (mount_parm env scsi e.short_descr)
        (mount_init env scsi
          { mount_filename env { dev with omadesc := false } argv with tapedevt := e.fmtcode },
          l, 0)).1) ∧
    (mountnewtape env tmh scsi dev argv).1.filename =
      (mount_filename env { dev with omadesc := false } argv).filename ∧
    (mountnewtape env tmh scsi dev argv).1.tapedevt = e.fmtcode ∧
    (mountnewtape env tmh scsi dev argv).1.fd = -1 ∧
    (mountnewtape env tmh scsi dev argv).1.curfilen = 1 ∧
    (mountnewtape env tmh scsi dev argv).1.nxtblkpos = 0 ∧
    (mountnewtape env tmh scsi dev argv).2.1.countP
        (fun l => l.fmt = "HHCTA066I %s device %4.4X parameter: '%s'\n") = argv.length - 1 ∧
    (∀ (d : DEVBLK) (l1 l2 : List LogRec) (rc1 rc2 : Int) (arg : String),
      (mount_parm env scsi e.short_descr (d, l1, rc1) arg).1 =
        (mount_parm env scsi e.short_descr (d, l2, rc2) arg).1) ∧
    (∀ (st : DEVBLK × List LogRec × Int) (arg : String), st.2.2 = -1 →
      (mount_parm env scsi e.short_descr st arg).2.2 = -1) ∧
    (∀ (st : DEVBLK × List LogRec × Int) (arg : String),
      ((env.parser arg).1 = TDPARM_NONE ∨
        (st.1.tapedevt ≠ TAPEDEVT.SCSITAPE ∧
          (((env.parser arg).1 = TDPARM_METHOD ∧
              ((env.parser arg).2 < env.HETMIN_METHOD ∨
                (env.parser arg).2 > env.HETMAX_METHOD)) ∨
            ((env.parser arg).1 = TDPARM_LEVEL ∧
              ((env.parser arg).2 < env.HETMIN_LEVEL ∨
                (env.parser arg).2 > env.HETMAX_LEVEL)) ∨
            ((env.parser arg).1 = TDPARM_CHKSIZE ∧
              ((env.parser arg).2 < env.HETMIN_CHUNKSIZE ∨
                (env.parser arg).2 > env.HETMAX_CHUNKSIZE))))) →
      (mount_parm env scsi e.short_descr st arg).1 = st.1 ∧
        (mount_parm env scsi e.short_descr st arg).2.2 = -1) ∧
    ((∀ arg ∈ argv.drop 1, (env.parser arg).1 = TDPARM_METHOD →
        ((env.parser arg).2 < env.HETMIN_METHOD ∨ (env.parser arg).2 > env.HETMAX_METHOD)) →
      (mountnewtape env tmh scsi dev argv).1.method = env.HETDFLT_METHOD) ∧
    ((∀ arg ∈ argv.drop 1, (env.parser arg).1 = TDPARM_LEVEL →
        ((env.parser arg).2 < env.HETMIN_LEVEL ∨ (env.parser arg).2 > env.HETMAX_LEVEL)) →
      (mountnewtape env tmh scsi dev argv).1.level = env.HETDFLT_LEVEL) ∧
    ((∀ arg ∈ argv.drop 1, (env.parser arg).1 ≠ TDPARM_AWSTAPE ∧
        ((env.parser arg).1 = TDPARM_CHKSIZE →
          ((env.parser arg).2 < env.HETMIN_CHUNKSIZE ∨
            (env.parser arg).2 > env.HETMAX_CHUNKSIZE))) →
      (mountnewtape env tmh scsi dev argv).1.chksize = env.HETDFLT_CHKSIZE) := by
  obtain ⟨l0, hl0, hd, hl⟩ := mountnewtape_refused env tmh scsi dev argv e hmf hrc
  obtain ⟨p1, p2, p3⟩ := mount_parms_position env scsi e.short_descr (argv.drop 1)
    (mount_init env scsi
      { mount_filename env { dev with omadesc := false } argv with tapedevt := e.fmtcode },
      l0, 0)
  obtain ⟨f1, f2⟩ := mount_parms_fd env scsi e.short_descr (argv.drop 1)
    (mount_init env scsi
      { mount_filename env { dev with omadesc := false } argv with tapedevt := e.fmtcode },
      l0, 0)
  obtain ⟨t1, t2, t3⟩ := mount_parms_tuning env scsi e.short_descr (argv.drop 1)
    (mount_init env scsi
      { mount_filename env { dev with omadesc := false } argv with tapedevt := e.fmtcode },
      l0, 0)
  obtain ⟨i1, i2, i3, i4, i5, i6⟩ := mount_init_position env scsi
    { mount_filename env { dev with omadesc := false } argv with tapedevt := e.fmtcode }
  obtain ⟨j1, j2⟩ := mount_init_fd env scsi
    { mount_filename env { dev with omadesc := false } argv with tapedevt := e.fmtcode }
  refine ⟨?_, ?_, ?_, ?_, ?_, ?_, ?_, ?_, ?_, ?_, ?_, ?_, ?_⟩
  · intro l
    rw [hd]
    exact mount_parms_any_rc env scsi e.short_descr _ _ _ rfl
  · rw [hd, f2, j2]
  · rw [hd, p1, i1]
  · rw [hd, f1, j1]
  · rw [hd, p2, i2]
  · rw [hd, p3, i3]
  · rw [hl, mount_parms_line, hl0, List.length_drop]
    simp
  · exact mount_parm_any_rc env scsi e.short_descr
  · exact mount_parm_rc env scsi e.short_descr
  · exact mount_parm_refused env scsi e.short_descr
  · intro H
    rw [hd, t1 H, i4]
  · intro H
    rw [hd, t2 H, i5]
  · intro H
    rw [hd, t3 H, i6]

theorem mountnewtape_not_atomic_witness :
    (mountnewtape envParms (fun _ => hostOpens) false dev3480
        ["tape.aws", "method=9", "ro"]).2.2 = -1 ∧
      (mountnewtape envParms (fun _ => hostOpens) false dev3480
        ["tape.aws", "method=9", "ro"]).1.filename = "tape.aws" ∧
      (mountnewtape envParms (fun _ => hostOpens) false dev3480
        ["tape.aws", "method=9", "ro"]).1.fd = -1 ∧
      (mountnewtape envParms (fun _ => hostOpens) false dev3480
        ["tape.aws", "method=9", "ro"]).1.logical_readonly = true ∧
      (mountnewtape envParms (fun _ => hostOpens) false dev3480
        ["tape.aws", "method=9", "ro"]).1.method = envParms.HETDFLT_METHOD := by
  have h := mountnewtape_not_atomic envParms (fun _ => hostOpens) false dev3480
    ["tape.aws", "method=9", "ro"]
    ⟨none, TAPEDEVT.AWSTAPE, "AWS Format tape file", "AWS tape"⟩ rfl (by decide)
  refine ⟨by decide, h.2.1.trans (by decide), h.2.2.2.1, by decide, ?_⟩
  exact h.2.2.2.2.2.2.2.2.2.2.1 (by decide)

/-! ## Host Interface Machine: rejected and control commands -/

/-- Claim C35: for every opcode outside 0x01, 0x02, 0x06, 0x0B, 0x1B, 0x03,
0x4B, 0x2B, 0x04 and 0xE4, `him_execute_ccw` returns with sense byte 0 set to
command reject and unit status exactly CE|DE|UC, and leaves the control block
(and with it the state, the queue and the stored header), the buffer, `more`
and the residual as they are; for the control opcodes 0x1B, 0x03 and 0x4B it
returns CE|DE with residual 0 and leaves the whole device block unchanged. -/
theorem him_execute_ccw_other_opcodes (env : Env) (net : HimNet) (dev : HIM_DEVBLK)
    (code count : Nat) (iobuf : Nat → Nat) (more residual : Nat) :
    (code ∉ [0x01, 0x02, 0x06, 0x0B, 0x1B, 0x03, 0x4B, 0x2B, 0x04, 0xE4] →
      him_execute_ccw env net dev code count iobuf more residual
        = .ok ⟨{ dev with sense := Function.update dev.sense 0 SENSE_CR }, iobuf, more,
            CSW_CE ||| CSW_DE ||| CSW_UC, residual⟩ ∧
      ∃ r, him_execute_ccw env net dev code count iobuf more residual = .ok r ∧
        r.dev.sense 0 = SENSE_CR ∧ r.unitstat = CSW_CE ||| CSW_DE ||| CSW_UC ∧
        r.dev.dev_data = dev.dev_data) ∧
    (code ∈ [0x1B, 0x03, 0x4B] →
      him_execute_ccw env net dev code count iobuf more residual
        = .ok ⟨dev, iobuf, more, CSW_CE ||| CSW_DE, 0⟩) := by
  constructor
  · intro h
    simp only [List.mem_cons, List.mem_singleton, List.not_mem_nil, or_false, not_or] at h
    obtain ⟨h1, h2, h3, h4, h5, h6, h7, h8, h9, h10⟩ := h
    have e : him_execute_ccw env net dev code count iobuf more residual
        = .ok ⟨{ dev with sense := Function.update dev.sense 0 SENSE_CR }, iobuf, more,
            CSW_CE ||| CSW_DE ||| CSW_UC, residual⟩ := by
      unfold him_execute_ccw
      rw [if_neg h1, if_neg (by tauto), if_neg h5, if_neg (by tauto), if_neg h8, if_neg h9,
        if_neg h10]
    exact ⟨e, _, e, by simp only [Function.update_same], rfl, rfl⟩
  · intro h
    simp only [List.mem_cons, List.mem_singleton, List.not_mem_nil, or_false] at h
    unfold him_execute_ccw
    rcases h with h | h | h <;> subst h <;> rfl

theorem him_execute_ccw_other_opcodes_witness :
    (∃ r, him_execute_ccw envDefault {} devConnected 0x07 8 (frame []) 0 8 = .ok r ∧
      r.dev.sense 0 = SENSE_CR ∧ r.unitstat = CSW_CE ||| CSW_DE ||| CSW_UC ∧
      r.dev.dev_data = devConnected.dev_data) ∧
    him_execute_ccw envDefault {} devConnected 0x03 8 (frame []) 0 8
      = .ok ⟨devConnected, frame [], 0, CSW_CE ||| CSW_DE, 0⟩ :=
  ⟨((him_execute_ccw_other_opcodes envDefault {} devConnected 0x07 8 (frame []) 0 8).1
      (by decide)).2,
    (him_execute_ccw_other_opcodes envDefault {} devConnected 0x03 8 (frame []) 0 8).2
      (by decide)⟩

/-! ## Host Interface Machine: the queue is first in, first out -/

theorem queue_indexOf (l : List him_event) (n : Nat) (hl : him_event.EMPTY ∉ l) (hn : 0 < n) :
    (l ++ List.replicate n him_event.EMPTY).indexOf him_event.EMPTY = l.length := by
  induction l with
  | nil =>
    cases n with
    | zero => omega
    | succ k => simp [List.replicate_succ]
  | cons a t ih =>
    have ha : a ≠ him_event.EMPTY := fun h => hl (h ▸ List.mem_cons_self _ _)
    have ht : him_event.EMPTY ∉ t := fun h => hl (List.mem_cons_of_mem _ h)
    rw [List.cons_append, List.indexOf_cons_ne _ ha, ih ht, List.length_cons]

theorem queue_mem (l : List him_event) (n : Nat) (hn : 0 < n) :
    him_event.EMPTY ∈ l ++ List.replicate n him_event.EMPTY := by
  apply List.mem_append_right
  cases n with
  | zero => omega
  | succ k => simp [List.replicate_succ]

theorem queue_set (l : List him_event) (n : Nat) (e : him_event) :
    (l ++ List.replicate (n + 1) him_event.EMPTY).set l.length e
      = (l ++ [e]) ++ List.replicate n him_event.EMPTY := by
  induction l with
  | nil => simp [List.replicate_succ]
  | cons a t ih =>
    simp only [List.cons_append, List.length_cons, List.set_cons_succ]
    rw [ih]

/-- An enqueue on a queue that holds the events `l` in front of EMPTY entries
stores the event behind them. -/
theorem read_q_put_queue (cb : io_cb) (l : List him_event) (e : him_event)
    (hl : him_event.EMPTY ∉ l) (hn : l.length ≤ 15)
    (hq : cb.read_q = l ++ List.replicate (16 - l.length) him_event.EMPTY) :
    read_q_put cb e
      = .ok { cb with
              read_q := (l ++ [e]) ++ List.replicate (16 - (l.length + 1)) him_event.EMPTY } := by
  rw [read_q_put_of_mem _ _ (by rw [hq]; exact queue_mem _ _ (by omega)), hq,
    queue_indexOf _ _ hl (by omega)]
  have h16 : 16 - l.length = (16 - (l.length + 1)) + 1 := by omega
  rw [h16, queue_set]

theorem read_q_events_queue (l : List him_event) (n : Nat) (hl : him_event.EMPTY ∉ l) :
    read_q_events (l ++ List.replicate n him_event.EMPTY) = l := by
  unfold read_q_events
  induction l with
  | nil =>
    cases n with
    | zero => rfl
    | succ k => simp [List.replicate_succ]
  | cons a t ih =>
    have ha : a ≠ him_event.EMPTY := fun h => hl (h ▸ List.mem_cons_self _ _)
    have ht : him_event.EMPTY ∉ t := fun h => hl (List.mem_cons_of_mem _ h)
    rw [List.cons_append, List.takeWhile_cons]
    simp only [ha, ne_eq, not_false_eq_true, decide_True, if_true]
    rw [ih ht]

theorem read_q_shift_queue (a : him_event) (t : List him_event) (ht : t.length ≤ 14) :
    read_q_shift ((a :: t) ++ List.replicate (16 - (a :: t).length) him_event.EMPTY)
      = t ++ List.replicate (16 - t.length) him_event.EMPTY := by
  unfold read_q_shift
  have h1 : 16 - (a :: t).length = (14 - t.length) + 1 := by
    rw [List.length_cons]; omega
  have h2 : 16 - t.length = (14 - t.length) + 1 + 1 := by omega
  rw [h1, h2, List.cons_append, List.drop_succ_cons, List.drop_zero]
  have h3 : (t ++ List.replicate (14 - t.length + 1) him_event.EMPTY).length = 15 := by
    rw [List.length_append, List.length_replicate]; omega
  rw [List.take_of_length_le (le_of_eq h3)]
  have h4 : List.drop 15 (a :: (t ++ List.replicate (14 - t.length + 1) him_event.EMPTY))
      = [him_event.EMPTY] := by
    rw [List.drop_succ_cons, List.replicate_succ', ← List.append_assoc]
    have h5 : (t ++ List.replicate (14 - t.length) him_event.EMPTY).length = 14 := by
      rw [List.length_append, List.length_replicate]; omega
    rw [List.drop_append_of_le_length (le_of_eq h5.symm), List.drop_of_length_le (le_of_eq h5)]
    rfl
  rw [h4, List.append_assoc]
  congr 1
  rw [List.replicate_succ' (14 - t.length + 1)]

theorem him_read_event_same_queue (dev : HIM_DEVBLK) (b : Nat → Nat)
    (h : dev.dev_data.read_q.headD him_event.EMPTY ≠ him_event.FINISHED) :
    (him_read_event dev b).1.dev_data.read_q = dev.dev_data.read_q := by
  unfold him_read_event
  simp only
  split
  · rfl
  · rfl
  · rfl
  · split_ifs <;> rfl
  · rename_i hh
    exact absurd hh h
  · rfl

/-- What a READ returns for the first entry of the queue depends neither on
`max_q` nor on the entries behind the first. -/
theorem him_read_event_head (dev : HIM_DEVBLK) (b : Nat → Nat) (i : Nat) (a : him_event)
    (t q : List him_event) (hq : dev.dev_data.read_q = a :: t) :
    (him_read_event (him_read_max_q dev i) b).2
      = (him_read_event { dev with dev_data := { dev.dev_data with read_q := a :: q } } b).2 := by
  unfold him_read_event him_read_max_q
  simp only [hq, List.headD_cons]
  cases a <;> rfl

/-- Claim C33: the event queue is first in, first out.  On a queue that holds
the events `l`, at most 15 of them, in front of EMPTY entries, an enqueue
stores the event behind all of them.  A READ on such a queue with at least
one event, whose first event is not FINISHED, returns what the first event
alone asks for and leaves the queue that holds the other events of `l` in
their order. -/
theorem him_queue_fifo (env : Env) (net : HimNet) (dev : HIM_DEVBLK) (code count : Nat)
    (iobuf : Nat → Nat) (more residual : Nat) (l : List him_event)
    (hl : him_event.EMPTY ∉ l) (hn : l.length ≤ 15)
    (hq : dev.dev_data.read_q = l ++ List.replicate (16 - l.length) him_event.EMPTY) :
    read_q_events dev.dev_data.read_q = l ∧
    (∀ e : him_event,
      read_q_put dev.dev_data e
        = .ok { dev.dev_data with
                read_q := (l ++ [e]) ++
                  List.replicate (16 - (l.length + 1)) him_event.EMPTY }) ∧
    (∀ e : him_event, e ≠ him_event.EMPTY →
      read_q_events ((l ++ [e]) ++ List.replicate (16 - (l.length + 1)) him_event.EMPTY)
        = l ++ [e]) ∧
    ((code = 0x02 ∨ code = 0x06 ∨ code = 0x0B) → 1 ≤ l.length →
      l.head? ≠ some him_event.FINISHED →
      ∃ r, him_execute_ccw env net dev code count iobuf more residual = .ok r ∧
        r.dev.dev_data.read_q
          = l.tail ++ List.replicate (16 - l.tail.length) him_event.EMPTY ∧
        read_q_events r.dev.dev_data.read_q = l.tail ∧
        r.iobuf = (him_read_event
          { dev with dev_data := { dev.dev_data with
              read_q := l.take 1 ++ List.replicate 15 him_event.EMPTY } } iobuf).2.1 ∧
        r.residual = to_U16 (count - (him_read_event
          { dev with dev_data := { dev.dev_data with
              read_q := l.take 1 ++ List.replicate 15 him_event.EMPTY } } iobuf).2.2)) := by
  refine ⟨?_, ?_, ?_, ?_⟩
  · rw [hq]
    exact read_q_events_queue _ _ hl
  · intro e
    exact read_q_put_queue _ _ _ hl hn hq
  · intro e he
    apply read_q_events_queue
    intro hm
    rcases List.mem_append.1 hm with r | r
    · exact hl r
    · exact he (List.mem_singleton.1 r).symm
  · intro hc h1 hf
    cases l with
    | nil => simp at h1
    | cons a t =>
      have ha : a ≠ him_event.EMPTY := fun h => hl (h ▸ List.mem_cons_self _ _)
      have ht : him_event.EMPTY ∉ t := fun h => hl (List.mem_cons_of_mem _ h)
      have htl : t.length ≤ 14 := by
        rw [List.length_cons] at hn; omega
      have haf : a ≠ him_event.FINISHED := by
        intro h
        apply hf
        rw [h]
        rfl
      have hq2 : dev.dev_data.read_q
          = a :: (t ++ List.replicate (16 - (a :: t).length) him_event.EMPTY) := by
        rw [hq]; rfl
      have h0 : dev.dev_data.read_q.headD him_event.EMPTY ≠ him_event.EMPTY := by
        rw [hq2]; exact ha
      have hm : him_event.EMPTY ∈ dev.dev_data.read_q := by
        rw [hq]
        exact queue_mem _ _ (by omega)
      have hsq : (him_read_event
          (him_read_max_q dev (dev.dev_data.read_q.indexOf him_event.EMPTY))
          iobuf).1.dev_data.read_q = dev.dev_data.read_q := by
        rw [him_read_event_same_queue]
        · rfl
        · show dev.dev_data.read_q.headD him_event.EMPTY ≠ him_event.FINISHED
          rw [hq2]; exact haf
      have hhd := him_read_event_head dev iobuf (dev.dev_data.read_q.indexOf him_event.EMPTY)
        a _ (List.replicate 15 him_event.EMPTY) hq2
      rw [him_execute_ccw_read _ _ _ _ _ _ _ _ hc, him_read_queued _ _ _ _ _ h0 hm]
      refine ⟨_, rfl, ?_, ?_, ?_, ?_⟩
      · rw [him_read_watch_queue]
        simp only [him_read_head]
        rw [hsq, hq, List.tail_cons]
        exact read_q_shift_queue a t htl
      · rw [him_read_watch_queue]
        simp only [him_read_head]
        rw [hsq, hq, List.tail_cons, read_q_shift_queue a t htl]
        exact read_q_events_queue _ _ ht
      · rw [him_read_watch_iobuf]
        simp only [him_read_head]
        rw [hhd]
        rfl
      · rw [him_read_watch_residual]
        simp only [him_read_head]
        rw [hhd]
        rfl

theorem him_queue_fifo_witness :
    read_q_put (devQueue [him_event.MSS, him_event.ACK]).dev_data him_event.FIN
      = .ok { (devQueue [him_event.MSS, him_event.ACK]).dev_data with
              read_q := [him_event.MSS, him_event.ACK, him_event.FIN] ++
                List.replicate 13 him_event.EMPTY } ∧
    ∃ r, him_execute_ccw envDefault {} (devQueue [him_event.MSS, him_event.ACK]) 0x02 100
          (frame []) 0 0 = .ok r ∧
      r.dev.dev_data.read_q = [him_event.ACK] ++ List.replicate 15 him_event.EMPTY := by
  have h := him_queue_fifo envDefault {} (devQueue [him_event.MSS, him_event.ACK]) 0x02 100
    (frame []) 0 0 [him_event.MSS, him_event.ACK] (by decide) (by decide) rfl
  refine ⟨h.2.1 him_event.FIN, ?_⟩
  obtain ⟨r, hr, h1, _⟩ := h.2.2.2 (Or.inl rfl) (by decide) (by decide)
  exact ⟨r, hr, h1⟩

/-! ## Host Interface Machine: the finished flag comes first -/

/-- A READ whose first queue entry is FINISHED leaves the zeroed control
block with `sock` at -1. -/
theorem him_read_finished_block (net : HimNet) (dev : HIM_DEVBLK) (count : Nat)
    (iobuf : Nat → Nat) (more : Nat)
    (hh : dev.dev_data.read_q.headD him_event.EMPTY = him_event.FINISHED)
    (hm : him_event.EMPTY ∈ dev.dev_data.read_q) :
    ∃ r, him_read net dev count iobuf more = .ok r ∧
      r.dev.dev_data = ({ sock := -1 } : io_cb) := by
  have h0 : dev.dev_data.read_q.headD him_event.EMPTY ≠ him_event.EMPTY := by
    rw [hh]; decide
  have hev : (him_read_event
      (him_read_max_q dev (dev.dev_data.read_q.indexOf him_event.EMPTY)) iobuf).1.dev_data
      = ({ sock := -1 } : io_cb) := by
    unfold him_read_event
    simp only [him_read_max_q, hh]
  have hhd : (him_read_head (him_read_max_q dev (dev.dev_data.read_q.indexOf him_event.EMPTY))
      count iobuf more (CSW_CE ||| CSW_DE)).dev.dev_data = ({ sock := -1 } : io_cb) := by
    simp only [him_read_head, hev]
    rfl
  rw [him_read_queued _ _ _ _ _ h0 hm, him_read_watch_shutdown _ (by rw [hhd])]
  exact ⟨_, rfl, hhd⟩

/-- Claim C40, counterexample: the init WRITE and fifteen WRITEs with
`finished_flag` fill the sixteen entries of the queue; one more WRITE with
`finished_flag` finds no EMPTY entry, so that it does not store FINISHED in
the queue: its scan and its store leave the array. -/
theorem him_finished_write_on_full_queue :
    finished_flag finishedWrite.iobuf = true ∧
    (him_run envDefault devHim (configWrite :: List.replicate 15 finishedWrite)).toOption.map
        (fun d => d.dev_data.read_q)
      = some (him_event.CONFIG :: List.replicate 15 him_event.FINISHED) ∧
    him_run envDefault devHim (configWrite :: List.replicate 16 finishedWrite)
      = .error him_fault.QUEUE_BOUNDS :=
  ⟨by decide, by decide, rfl⟩

/-- Claim C40 (as the source has it): in the WRITE command `finished_flag`
is tested before every other flag of the header and before the payload.  For
every control block whose queue has an EMPTY entry, whatever its state and
whatever else the buffer holds, a WRITE with `finished_flag` stores FINISHED
in the first EMPTY entry, behind the events queued, and changes nothing else
in the device block; it returns CE|DE with residual 0.  A READ that finds
FINISHED in front of a queue with an EMPTY entry leaves the zeroed control
block with `sock` at -1, whose queue is empty whatever was queued behind
FINISHED. -/
theorem him_finished_flag_first (env : Env) (net : HimNet) (dev : HIM_DEVBLK) (code count : Nat)
    (iobuf : Nat → Nat) (more residual : Nat)
    (hm : him_event.EMPTY ∈ dev.dev_data.read_q) :
    (finished_flag iobuf = true →
      him_execute_ccw env net dev 0x01 count iobuf more residual
        = .ok ⟨{ dev with dev_data :=
                  { dev.dev_data with
                    read_q := dev.dev_data.read_q.set
                      (dev.dev_data.read_q.indexOf him_event.EMPTY) him_event.FINISHED } },
            iobuf, more, CSW_CE ||| CSW_DE, 0⟩ ∧
      ∀ l : List him_event, him_event.EMPTY ∉ l →
        dev.dev_data.read_q = l ++ List.replicate (16 - l.length) him_event.EMPTY →
        dev.dev_data.read_q.set (dev.dev_data.read_q.indexOf him_event.EMPTY)
            him_event.FINISHED
          = (l ++ [him_event.FINISHED]) ++
              List.replicate (16 - (l.length + 1)) him_event.EMPTY) ∧
    ((code = 0x02 ∨ code = 0x06 ∨ code = 0x0B) →
      dev.dev_data.read_q.headD him_event.EMPTY = him_event.FINISHED →
      ∃ r, him_execute_ccw env net dev code count iobuf more residual = .ok r ∧
        r.dev.dev_data = ({ sock := -1 } : io_cb) ∧
        r.dev.dev_data.read_q = List.replicate 16 him_event.EMPTY ∧
        read_q_events r.dev.dev_data.read_q = []) := by
  constructor
  · intro hf
    constructor
    · rw [him_execute_ccw_write]
      unfold him_write
      simp only
      rw [if_pos hf, read_q_put_of_mem _ _ hm, except_ok_bind]
    · intro l hl hq
      have hlen : l.length < 16 := by
        by_contra hc
        have h0 : 16 - l.length = 0 := by omega
        rw [hq, h0, List.replicate_zero, List.append_nil] at hm
        exact hl hm
      have h16 : 16 - l.length = (16 - (l.length + 1)) + 1 := by omega
      rw [hq, queue_indexOf _ _ hl (by omega), h16, queue_set]
  · intro hc hh
    rw [him_execute_ccw_read _ _ _ _ _ _ _ _ hc]
    obtain ⟨r, hr, hd⟩ := him_read_finished_block net dev count iobuf more hh hm
    refine ⟨r, hr, hd, ?_, ?_⟩
    · rw [hd]
    · rw [hd]
      rfl

theorem him_finished_flag_first_witness :
    (∃ r, him_execute_ccw envDefault {} (devQueue [him_event.ACK]) 0x01 44
          (frame ([0xF8, 2, 0, 40] ++ [0x45, 0, 0, 40])) 0 0 = .ok r ∧
        r.dev.dev_data.read_q
          = [him_event.ACK, him_event.FINISHED] ++ List.replicate 14 him_event.EMPTY ∧
        r.dev.dev_data.state = him_state.CONNECTED ∧ r.unitstat = CSW_CE ||| CSW_DE ∧
        r.residual = 0) ∧
    (∃ r, him_execute_ccw envDefault {} (devQueue [him_event.FINISHED, him_event.ACK]) 0x02 44
          (frame []) 0 0 = .ok r ∧
        r.dev.dev_data.read_q = List.replicate 16 him_event.EMPTY) := by
  have h1 := (him_finished_flag_first envDefault {} (devQueue [him_event.ACK]) 0x01 44
    (frame ([0xF8, 2, 0, 40] ++ [0x45, 0, 0, 40])) 0 0 (by decide)).1 (by decide)
  have h2 := (him_finished_flag_first envDefault {}
    (devQueue [him_event.FINISHED, him_event.ACK]) 0x02 44 (frame []) 0 0 (by decide)).2
    (Or.inl rfl) (by decide)
  refine ⟨⟨_, h1.1, ?_, rfl, rfl, rfl⟩, ?_⟩
  · exact h1.2 [him_event.ACK] (by decide) rfl
  · obtain ⟨r, hr, _, h3, _⟩ := h2
    exact ⟨r, hr, h3⟩

/-! ## Host Interface Machine: the reply to the configuration -/

/-- The function `parse_config_data` returns 1 whenever it returns. -/
theorem parse_config_data_success (env : Env) (net : HimNet) (cb : io_cb) (s : Nat → Nat)
    (n : Nat) : WhenOk (parse_config_data env net cb s n) (fun r => r.2.2 = 1) := by
  unfold parse_config_data
  simp only
  split
  · exact whenOk_error _ _
  · refine whenOk_bind _ _ (fun _ => True) _ (fun _ _ => trivial) ?_
    intro w _
    exact whenOk_ok _ _ rfl

theorem config_ok_bytes (env : Env) (cb : io_cb) (b : Nat → Nat) :
    config_ok env cb b 4 = 0xd6 ∧ config_ok env cb b 5 = 0x92 := by
  unfold config_ok
  constructor
  · dsimp only
    rw [if_neg (by omega), Function.update_noteq (by decide), Function.update_noteq (by decide),
      Function.update_noteq (by decide), Function.update_noteq (by decide),
      Function.update_noteq (by decide), Function.update_same]
  · dsimp only
    rw [if_neg (by omega), Function.update_noteq (by decide), Function.update_noteq (by decide),
      Function.update_noteq (by decide), Function.update_noteq (by decide),
      Function.update_same]

theorem config_reply_ok (env : Env) (net : HimNet) (cb : io_cb) (b : Nat → Nat) (su : Int)
    (h : su ≠ 0) :
    (config_reply env net cb b su).1.state = him_state.INITIALIZED ∧
      (config_reply env net cb b su).2 4 = 0xd6 ∧ (config_reply env net cb b su).2 5 = 0x92 := by
  unfold config_reply
  rw [if_neg h]
  refine ⟨rfl, ?_, ?_⟩
  · dsimp only
    exact (config_ok_bytes env _ b).1
  · dsimp only
    exact (config_ok_bytes env _ b).2

theorem config_failed_bytes (b : Nat → Nat) :
    (fun i => config_failed b (i + 4)) 0 = 0xc6 ∧ config_failed b 5 = 0x81 ∧
      config_failed b 6 = 0x89 ∧ config_failed b 7 = 0x93 ∧ config_failed b 8 = 0x85 ∧
      config_failed b 9 = 0x84 ∧ ntohs_at (config_failed b) 2 = 6 ∧
      init_flag (config_failed b) = true := by
  unfold config_failed
  simp only
  refine ⟨?_, ?_, ?_, ?_, ?_, ?_, ?_, ?_⟩
  · rw [if_pos (by omega)]; rfl
  · rw [if_pos (by omega)]; rfl
  · rw [if_pos (by omega)]; rfl
  · rw [if_pos (by omega)]; rfl
  · rw [if_pos (by omega)]; rfl
  · rw [if_pos (by omega)]; rfl
  · unfold ntohs_at
    dsimp only
    rw [if_neg (by omega), if_neg (by omega)]
    unfold htons_at
    rw [Function.update_noteq (by decide), Function.update_same, Function.update_same]
  · unfold init_flag
    dsimp only
    rw [if_neg (by omega)]
    unfold htons_at
    rw [Function.update_noteq (by decide), Function.update_noteq (by decide),
      Function.update_noteq (by decide), Function.update_same]
    simp only [ne_eq, decide_not, Bool.not_eq_true', decide_eq_false_iff_not]
    exact or_and_self_ne_zero _ _ (by decide)

/-- Claim C31 (what the source does): on a control block in state SHUTDOWN
`config_subchan`, whenever it returns, has written the reply `Ok` and left the
state INITIALIZED, whatever the configuration string holds, because
`parse_config_data` never returns 0; on a control block in any other state it
writes the reply `Failed` of length 6 with `init_flag`, and leaves the zeroed
control block with `sock` at -1, whose state is SHUTDOWN. -/
theorem config_subchan_reply (env : Env) (net : HimNet) (cb : io_cb) (config_data : Nat → Nat) :
    (cb.state = him_state.SHUTDOWN →
      ∀ r, config_subchan env net cb config_data = .ok r →
        r.1.state = him_state.INITIALIZED ∧ r.2 4 = 0xd6 ∧ r.2 5 = 0x92) ∧
    (cb.state ≠ him_state.SHUTDOWN →
      ∃ r, config_subchan env net cb config_data = .ok r ∧
        r.1 = ({ sock := -1 } : io_cb) ∧ r.1.state = him_state.SHUTDOWN ∧ r.1.sock = -1 ∧
        r.2 = config_failed config_data ∧
        [r.2 4, r.2 5, r.2 6, r.2 7, r.2 8, r.2 9] = [0xc6, 0x81, 0x89, 0x93, 0x85, 0x84] ∧
        buffer_length r.2 = 6 ∧ init_flag r.2 = true) := by
  constructor
  · intro hs
    have h : WhenOk (config_subchan env net cb config_data)
        (fun r => r.1.state = him_state.INITIALIZED ∧ r.2 4 = 0xd6 ∧ r.2 5 = 0x92) := by
      unfold config_subchan
      simp only
      rw [if_neg (by rw [hs]; simp)]
      refine whenOk_bind _ _ _ _ (parse_config_data_success env net cb _ _) ?_
      intro p hp
      refine whenOk_ok _ _ ?_
      exact config_reply_ok env net _ _ _ (by rw [hp]; decide)
    exact h
  · intro hs
    obtain ⟨f4, f5, f6, f7, f8, f9, fl, fi⟩ := config_failed_bytes config_data
    have e : config_subchan env net cb config_data
        = .ok (({ sock := -1 } : io_cb), config_failed config_data) := by
      unfold config_subchan
      simp only
      rw [if_pos hs]
    refine ⟨_, e, rfl, rfl, rfl, rfl, ?_, fl, fi⟩
    simp only at f4
    simp only [f4, f5, f6, f7, f8, f9]

theorem config_subchan_reply_witness :
    (∃ r, config_subchan envDefault {} devHim.dev_data invalidWrite.iobuf = .ok r ∧
      r.1.state = him_state.INITIALIZED ∧ r.2 4 = 0xd6 ∧ r.2 5 = 0x92) ∧
    (∃ r, config_subchan envDefault {} devConnected.dev_data invalidWrite.iobuf = .ok r ∧
      r.1.state = him_state.SHUTDOWN ∧ r.1.sock = -1 ∧ r.2 4 = 0xc6) := by
  constructor
  · have h : ∃ r, config_subchan envDefault {} devHim.dev_data invalidWrite.iobuf = .ok r :=
      ⟨_, rfl⟩
    obtain ⟨r, hr⟩ := h
    exact ⟨r, hr,
      (config_subchan_reply envDefault {} devHim.dev_data invalidWrite.iobuf).1 rfl r hr⟩
  · obtain ⟨r, hr, _, h2, h3, _, h5, _⟩ :=
      (config_subchan_reply envDefault {} devConnected.dev_data invalidWrite.iobuf).2
        (by decide)
    refine ⟨r, hr, h2, h3, ?_⟩
    have h6 := congrArg (fun l => l.headD 0) h5
    exact h6

/-! ## Host Interface Machine: the acknowledgement of data written -/

theorem ntohl_at_htonl_at (b : Nat → Nat) (i v : Nat) :
    ntohl_at (htonl_at b i v) i = v % 4294967296 := by
  unfold ntohl_at htonl_at
  rw [Function.update_noteq (by omega), Function.update_noteq (by omega),
    Function.update_noteq (by omega), Function.update_same,
    Function.update_noteq (by omega), Function.update_noteq (by omega), Function.update_same,
    Function.update_noteq (by omega), Function.update_same, Function.update_same]
  omega

theorem tmod_nonpos (a b : Int) (h : a ≤ 0) : Int.tmod a b ≤ 0 := by
  cases a with
  | ofNat m =>
    have hm : m = 0 := by
      have : (m : Int) ≤ 0 := h
      omega
    subst hm
    cases b <;> simp [Int.tmod]
  | negSucc m =>
    cases b with
    | ofNat n => exact Int.neg_nonpos_of_nonneg (Int.ofNat_nonneg _)
    | negSucc n => exact Int.neg_nonpos_of_nonneg (Int.ofNat_nonneg _)

theorem th_win_htonl_at (b : Nat → Nat) (v : Nat) : th_win (htonl_at b 32 v) = th_win b := by
  unfold th_win ntohs_at
  rw [htonl_at_of_ne _ _ _ _ (by omega), htonl_at_of_ne _ _ _ _ (by omega)]

theorem th_win_parse_config_header (h : Nat → Nat) (ip : Nat) :
    th_win (parse_config_header h ip) = 24576 := by
  unfold parse_config_header th_win
  simp only
  rw [ntohs_at_htons_at]

theorem him_write_ack_eq (cb : io_cb) (w : Int) (hw : w > 0)
    (hs : cb.state = him_state.CONNECTED) (hwin : th_win cb.mts_header ≠ 0)
    (hm : him_event.EMPTY ∈ cb.read_q) :
    him_write_ack cb w
      = .ok { cb with
              read_q :=
                if (th_win cb.mts_header : Int) -
                    Int.tmod
                      (if th_ack cb.mts_header < 2147483648 then (th_ack cb.mts_header : Int)
                       else (th_ack cb.mts_header : Int) - 4294967296)
                      (th_win cb.mts_header) < w + 4096
                then cb.read_q.set (cb.read_q.indexOf him_event.EMPTY) him_event.ACK
                else cb.read_q } := by
  unfold him_write_ack
  simp only
  rw [if_pos ⟨hw, hs⟩, if_neg (by exact_mod_cast hwin)]
  by_cases hc : (th_win cb.mts_header : Int) -
      Int.tmod
        (if th_ack cb.mts_header < 2147483648 then (th_ack cb.mts_header : Int)
         else (th_ack cb.mts_header : Int) - 4294967296)
        (th_win cb.mts_header) < w + 4096
  · rw [if_pos hc, if_pos hc, read_q_put_of_mem _ _ hm]
  · rw [if_neg hc, if_neg hc]

/-- Claim C34 (what the source does): in state CONNECTED on a TCP subchannel
that is not held by RNR, a WRITE of a packet without the flags of the HIM
header and without FIN, with buffer length above 4 and a payload of
`w = buffer_length - (ip_hl + th_off) * 4 > 0` bytes, returns CE|DE, advances
the acknowledgement number of the stored header by `w` modulo 2^32 and leaves
the window as it is.  It queues ACK exactly when
`window - (ack_seq % window) < w + 4096`, where `ack_seq` is the new
acknowledgement number read as a signed 32-bit `int` and `%` the remainder of
C, which has the sign of `ack_seq`.  Below 2^31 this is the remainder of the
unsigned number; from 2^31 on the remainder is not positive.  The window
that the configuration stores is 24576. -/
theorem him_write_ack_signed (env : Env) (net : HimNet) (dev : HIM_DEVBLK) (count : Nat)
    (iobuf : Nat → Nat) (more residual : Nat)
    (hs : dev.dev_data.state = him_state.CONNECTED)
    (hp : dev.dev_data.protocol = IPPROTO_TCP)
    (hcr : dev.dev_data.rnr = false)
    (hf : finished_flag iobuf = false) (hr : rnr_flag iobuf = false)
    (hi : init_flag iobuf = false)
    (hb : buffer_length iobuf > 4) (hw : him_writelen iobuf > 0)
    (hfin : th_flags iobuf &&& TH_FIN = 0)
    (hwin : th_win dev.dev_data.mts_header ≠ 0)
    (hm : him_event.EMPTY ∈ dev.dev_data.read_q) :
    ∃ r, him_execute_ccw env net dev 0x01 count iobuf more residual = .ok r ∧
      r.unitstat = CSW_CE ||| CSW_DE ∧ r.residual = 0 ∧
      th_ack r.dev.dev_data.mts_header
        = to_U32 (th_ack dev.dev_data.mts_header + him_writelen iobuf) ∧
      th_win r.dev.dev_data.mts_header = th_win dev.dev_data.mts_header ∧
      r.dev.dev_data.read_q
        = (if (th_win dev.dev_data.mts_header : Int) -
              Int.tmod
                (if th_ack r.dev.dev_data.mts_header < 2147483648
                 then (th_ack r.dev.dev_data.mts_header : Int)
                 else (th_ack r.dev.dev_data.mts_header : Int) - 4294967296)
                (th_win dev.dev_data.mts_header) < him_writelen iobuf + 4096
           then dev.dev_data.read_q.set (dev.dev_data.read_q.indexOf him_event.EMPTY)
             him_event.ACK
           else dev.dev_data.read_q) ∧
      (th_ack r.dev.dev_data.mts_header < 2147483648 →
        Int.tmod
            (if th_ack r.dev.dev_data.mts_header < 2147483648
             then (th_ack r.dev.dev_data.mts_header : Int)
             else (th_ack r.dev.dev_data.mts_header : Int) - 4294967296)
            (th_win dev.dev_data.mts_header)
          = ((th_ack r.dev.dev_data.mts_header % th_win dev.dev_data.mts_header : Nat) : Int)) ∧
      (2147483648 ≤ th_ack r.dev.dev_data.mts_header →
        Int.tmod
            (if th_ack r.dev.dev_data.mts_header < 2147483648
             then (th_ack r.dev.dev_data.mts_header : Int)
             else (th_ack r.dev.dev_data.mts_header : Int) - 4294967296)
            (th_win dev.dev_data.mts_header) ≤ 0) ∧
      (∀ (h : Nat → Nat) (ip : Nat), th_win (parse_config_header h ip) = 24576) := by
  have hwl := him_write_ack_eq
    { dev.dev_data with
      mts_header := htonl_at dev.dev_data.mts_header 32
        (to_U32 (th_ack dev.dev_data.mts_header + him_writelen iobuf)) }
    (him_writelen iobuf) hw hs (by rw [th_win_htonl_at]; exact hwin) hm
  have hack : th_ack (htonl_at dev.dev_data.mts_header 32
      (to_U32 (th_ack dev.dev_data.mts_header + him_writelen iobuf)))
      = to_U32 (th_ack dev.dev_data.mts_header + him_writelen iobuf) := by
    unfold th_ack
    rw [ntohl_at_htonl_at]
    unfold to_U32
    omega
  have hex : ∃ r, him_execute_ccw env net dev 0x01 count iobuf more residual = .ok r ∧
      r.unitstat = CSW_CE ||| CSW_DE ∧ r.residual = 0 ∧
      r.dev.dev_data.mts_header = htonl_at dev.dev_data.mts_header 32
        (to_U32 (th_ack dev.dev_data.mts_header + him_writelen iobuf)) ∧
      r.dev.dev_data.read_q
        = (if (th_win r.dev.dev_data.mts_header : Int) -
              Int.tmod
                (if th_ack r.dev.dev_data.mts_header < 2147483648
                 then (th_ack r.dev.dev_data.mts_header : Int)
                 else (th_ack r.dev.dev_data.mts_header : Int) - 4294967296)
                (th_win r.dev.dev_data.mts_header) < him_writelen iobuf + 4096
           then dev.dev_data.read_q.set (dev.dev_data.read_q.indexOf him_event.EMPTY)
             him_event.ACK
           else dev.dev_data.read_q) := by
    rw [him_execute_ccw_write]
    unfold him_write
    simp only
    rw [if_neg (by rw [hf]; simp), if_neg (by rw [hr]; simp), if_neg (by rw [hcr]; simp),
      if_neg (by rw [hi]; simp), if_neg (by rw [hp]; decide)]
    unfold him_write_tcp
    rw [if_neg (by rw [hs]; decide), if_pos hb, hwl, except_ok_bind,
      if_neg (by rw [hfin]; simp), except_ok_bind]
    exact ⟨_, rfl, rfl, rfl, rfl, rfl⟩
  obtain ⟨r, hr1, hr2, hr3, hr4, hr5⟩ := hex
  have hwr : th_win r.dev.dev_data.mts_header = th_win dev.dev_data.mts_header := by
    rw [hr4, th_win_htonl_at]
  refine ⟨r, hr1, hr2, hr3, by rw [hr4, hack], hwr, ?_, ?_, ?_, th_win_parse_config_header⟩
  · rw [hr5, hwr]
  · intro hlt
    rw [if_pos hlt]
    rfl
  · intro hge
    have h32 : th_ack r.dev.dev_data.mts_header < 4294967296 := by
      rw [hr4, hack]
      unfold to_U32
      omega
    rw [if_neg (by omega)]
    exact tmod_nonpos _ _ (by omega)

theorem him_write_ack_signed_witness :
    ∃ r, him_execute_ccw envDefault {} devAckHigh 0x01 45 packetData 0 0 = .ok r ∧
      him_writelen packetData = 1 ∧
      th_ack r.dev.dev_data.mts_header = 0x80003FFF ∧
      th_win r.dev.dev_data.mts_header = 24576 ∧
      r.dev.dev_data.read_q = List.replicate 16 him_event.EMPTY ∧
      24576 - 0x80003FFF % 24576 < 1 + 4096 := by
  obtain ⟨r, h1, _, _, h4, h5, h6, _⟩ :=
    him_write_ack_signed envDefault {} devAckHigh 45 packetData 0 0 rfl rfl rfl
      (by decide) (by decide) (by decide) (by decide) (by decide) (by decide) (by decide)
      (by decide)
  have ha : th_ack r.dev.dev_data.mts_header = 0x80003FFF := h4.trans (by decide)
  refine ⟨r, h1, by decide, ha, h5.trans (by decide), ?_, by decide⟩
  rw [h6, ha]
  decide

/-! ## Host Interface Machine: state SHUTDOWN and the socket -/

theorem read_q_put_free (cb : io_cb) (e : him_event) (h : ShutdownFree cb) :
    WhenOk (read_q_put cb e) ShutdownFree := by
  rw [read_q_put_eq]
  split_ifs
  · exact whenOk_ok _ _ h
  · exact whenOk_error _ _

theorem config_reply_free (env : Env) (net : HimNet) (cb : io_cb) (b : Nat → Nat) (su : Int) :
    ShutdownFree (config_reply env net cb b su).1 := by
  unfold config_reply
  split_ifs
  all_goals first
    | (intro _; rfl)
    | (intro h; simp at h)

theorem config_subchan_free (env : Env) (net : HimNet) (cb : io_cb) (b : Nat → Nat) :
    WhenOk (config_subchan env net cb b) (fun r => ShutdownFree r.1) := by
  unfold config_subchan
  simp only
  split_ifs
  · refine whenOk_ok _ _ ?_
    intro _
    rfl
  · refine whenOk_bind _ _ (fun _ => True) _ (fun _ _ => trivial) ?_
    intro p _
    refine whenOk_ok _ _ ?_
    exact config_reply_free _ _ _ _ _

theorem him_write_ack_free (cb : io_cb) (w : Int) (h : ShutdownFree cb) :
    WhenOk (him_write_ack cb w) ShutdownFree := by
  unfold him_write_ack
  simp only
  split_ifs
  all_goals first
    | (exact whenOk_ok _ _ h)
    | exact whenOk_error _ _
    | exact read_q_put_free _ _ h

theorem him_write_fin_free (cb : io_cb) (h : ShutdownFree cb) :
    WhenOk (him_write_fin cb) ShutdownFree := by
  unfold him_write_fin
  split_ifs
  · refine whenOk_bind _ _ (fun _ => True) _ (fun _ _ => trivial) ?_
    intro a _
    refine read_q_put_free _ _ ?_
    intro hs
    exact absurd hs (by simp)
  · exact read_q_put_free _ _ h

theorem him_write_tcp_free (cb : io_cb) (b : Nat → Nat) (u : Nat) (h : ShutdownFree cb) :
    WhenOk (him_write_tcp cb b u) (fun r => ShutdownFree r.1) := by
  unfold him_write_tcp
  split_ifs
  · refine whenOk_bind _ _ _ _ (read_q_put_free (him_write_connect cb b) _ ?_) ?_
    · intro hs
      exact absurd hs (by simp [him_write_connect])
    · intro a ha
      exact whenOk_ok _ _ ha
  · refine whenOk_bind _ _ _ _ (him_write_ack_free _ _ h) ?_
    intro a ha
    refine whenOk_bind _ _ _ _ (him_write_fin_free _ ha) ?_
    intro c hc
    exact whenOk_ok _ _ hc
  · refine whenOk_bind _ _ _ _ (him_write_ack_free _ _ h) ?_
    intro a ha
    exact whenOk_ok _ _ ha
  · exact whenOk_ok _ _ h

theorem him_write_free (env : Env) (net : HimNet) (dev : HIM_DEVBLK) (b : Nat → Nat)
    (more : Nat) (h : ShutdownFree dev.dev_data) :
    WhenOk (him_write env net dev b more) (fun r => ShutdownFree r.dev.dev_data) := by
  unfold him_write
  simp only
  split_ifs
  · refine whenOk_bind _ _ _ _ (read_q_put_free _ _ h) ?_
    intro a ha
    exact whenOk_ok _ _ ha
  · exact whenOk_ok _ _ h
  · exact whenOk_ok _ _ h
  · refine whenOk_bind _ _ _ _ (config_subchan_free env net _ _) ?_
    intro c hc
    refine whenOk_bind _ _ _ _ (read_q_put_free _ _ hc) ?_
    intro a ha
    exact whenOk_ok _ _ ha
  · exact whenOk_ok _ _ h
  · exact whenOk_ok _ _ h
  · refine whenOk_bind _ _ _ _ (him_write_tcp_free _ _ _ h) ?_
    intro t ht
    exact whenOk_ok _ _ ht

theorem him_read_event_free (dev : HIM_DEVBLK) (b : Nat → Nat) (h : ShutdownFree dev.dev_data) :
    ShutdownFree (him_read_event dev b).1.dev_data := by
  unfold him_read_event
  simp only
  split
  · exact h
  · exact h
  · exact h
  · simp only
    split_ifs with hc
    · intro hs
      exact absurd hs (by simp)
    · exact h
  · intro _
    rfl
  · exact h

theorem him_read_socket_free (net : HimNet) (cb : io_cb) (count : Nat) (b : Nat → Nat) (u : Nat)
    (h : ShutdownFree cb) : ShutdownFree (him_read_socket net cb count b u).1 := by
  unfold him_read_socket
  simp only
  split_ifs
  all_goals first
    | exact h
    | (intro hs; exact absurd hs (by simp [return_mss]))

theorem him_read_watch_free (r : him_ccw) (h : ShutdownFree r.dev.dev_data) :
    ShutdownFree (him_read_watch r).dev.dev_data := by
  unfold him_read_watch
  split_ifs
  · exact h
  · exact h

theorem him_read_head_free (dev : HIM_DEVBLK) (count : Nat) (b : Nat → Nat) (more u : Nat)
    (h : ShutdownFree dev.dev_data) :
    ShutdownFree (him_read_head dev count b more u).dev.dev_data := by
  unfold him_read_head
  exact him_read_event_free dev b h

theorem him_read_queue_free (dev : HIM_DEVBLK) (count : Nat) (b : Nat → Nat) (more u : Nat)
    (h : ShutdownFree dev.dev_data) :
    WhenOk (him_read_queue dev count b more u) (fun r => ShutdownFree r.dev.dev_data) := by
  unfold him_read_queue
  refine whenOk_bind _ _ (fun _ => True) _ (fun _ _ => trivial) ?_
  intro i _
  refine whenOk_ok _ _ ?_
  exact him_read_head_free _ _ _ _ _ h

theorem him_read_free (net : HimNet) (dev : HIM_DEVBLK) (count : Nat) (b : Nat → Nat)
    (more : Nat) (h : ShutdownFree dev.dev_data) :
    WhenOk (him_read net dev count b more) (fun r => ShutdownFree r.dev.dev_data) := by
  unfold him_read
  simp only
  split_ifs
  · refine whenOk_bind _ _ _ _ (him_read_queue_free _ _ _ _ _ h) ?_
    intro r hr
    refine whenOk_ok _ _ ?_
    exact him_read_watch_free _ hr
  · refine whenOk_ok _ _ ?_
    apply him_read_watch_free
    exact him_read_socket_free _ _ _ _ _ h

theorem him_execute_ccw_free (env : Env) (net : HimNet) (dev : HIM_DEVBLK) (code count : Nat)
    (b : Nat → Nat) (more residual : Nat) (h : ShutdownFree dev.dev_data) :
    WhenOk (him_execute_ccw env net dev code count b more residual)
      (fun r => ShutdownFree r.dev.dev_data) := by
  unfold him_execute_ccw
  split_ifs
  · exact him_write_free env net dev b more h
  · exact him_read_free net dev count b more h
  all_goals (exact whenOk_ok _ _ h)

theorem him_run_free (env : Env) :
    ∀ (cs : List him_call) (dev : HIM_DEVBLK), ShutdownFree dev.dev_data →
      WhenOk (him_run env dev cs) (fun d => ShutdownFree d.dev_data) := by
  intro cs
  induction cs with
  | nil =>
    intro dev h
    exact whenOk_ok _ _ h
  | cons c cs ih =>
    intro dev h
    simp only [him_run]
    refine whenOk_bind _ _ _ _ (him_execute_ccw_free env _ _ _ _ _ _ _ h) ?_
    intro r hr
    exact ih _ hr

/-- Claim C32, counterexample: from the initialized device a WRITE with
`finished_flag` and a READ reset the control block, and the init WRITE of a
server subchannel, for which no socket is opened, then leads to state
INITIALIZED with `sock` still at -1. -/
theorem him_initialized_without_socket :
    (him_run envDefault devHim [finishedWrite, readCall, serverWrite]).toOption.map
        (fun d => (d.dev_data.state, d.dev_data.sock, d.dev_data.server))
      = some (him_state.INITIALIZED, -1, true) := by
  decide

/-- Claim C32 (as the source has it): from a control block in which state
SHUTDOWN goes with `sock` at -1, as the READ of FINISHED and the refused init
WRITE leave it, every sequence of CCWs in which every call returns leads to
a control block in which state SHUTDOWN goes with `sock` at -1.  Both sites
that return the control block to SHUTDOWN leave the zeroed block with `sock`
at -1. -/
theorem him_run_shutdown_sock (env : Env) (dev d : HIM_DEVBLK) (cs : List him_call)
    (h0 : dev.dev_data.state = him_state.SHUTDOWN → dev.dev_data.sock = -1)
    (h : him_run env dev cs = .ok d) :
    (d.dev_data.state = him_state.SHUTDOWN → d.dev_data.sock = -1) ∧
    (∀ (net : HimNet) (cb : io_cb) (b : Nat → Nat), cb.state ≠ him_state.SHUTDOWN →
      config_subchan env net cb b = .ok (({ sock := -1 } : io_cb), config_failed b)) ∧
    (∀ (dev2 : HIM_DEVBLK) (b : Nat → Nat),
      dev2.dev_data.read_q.headD him_event.EMPTY = him_event.FINISHED →
      (him_read_event dev2 b).1.dev_data = ({ sock := -1 } : io_cb)) := by
  refine ⟨him_run_free env cs dev h0 d h, ?_, ?_⟩
  · intro net cb b hs
    unfold config_subchan
    simp only
    rw [if_pos hs]
  · intro dev2 b hh
    unfold him_read_event
    simp only [hh]

theorem him_run_shutdown_sock_witness :
    ∃ d, him_run envDefault devReset [configWrite, finishedWrite, readCall, readCall] = .ok d ∧
      d.dev_data.state = him_state.SHUTDOWN ∧ d.dev_data.sock = -1 := by
  have h : ∃ d, him_run envDefault devReset [configWrite, finishedWrite, readCall, readCall]
      = .ok d ∧ d.dev_data.state = him_state.SHUTDOWN := ⟨_, rfl, by decide⟩
  obtain ⟨d, hd, hs⟩ := h
  exact ⟨d, hd, hs,
    (him_run_shutdown_sock envDefault devReset d
      [configWrite, finishedWrite, readCall, readCall] (fun _ => rfl) hd).1 hs⟩

end Tapedev
